import Mathlib

/-!
# LPD433: COCO and KFS pulse decoders and the OOK sender

A shallow embedding of `OOKSender.c`, `COCOReceiver.c` and
`KeyFobSwitchReceiver.c`.

Conventions of the embedding:

* `uint32_t` values are natural numbers; every operation that can leave the
  32-bit range is wrapped explicitly (`add32`, `sub32`, `mul32`, `shl32`).
* a C array is a map from index to value (`Nat → Nat`), written with `setSlot`.
  Memory that `malloc` leaves unspecified (the duration buffers, the callback
  pointer) is a parameter of the constructor.
* the registered callback is a flag (`true` when the pointer is not `NULL`);
  a call of the callback is the optional message a feed step returns. The
  callback owns the message it is given. `COCOReceiverFeedGPIOValueChangeTime`
  and `KFSReceiverFeedGPIOValueChangeTime` are the feed functions for a
  callback that leaves the message in place and, for KFS, a receiver whose
  field `pulseRecorder` is `NULL`; the definitions ending in `With` take the
  values read from the message after the call and the value `malloc` left in
  `pulseRecorder` as parameters.
* `DebugLog` output and the optional `PulseRecorder` only observe the decoders;
  they, and the values computed for them alone (`minDuration`, `maxDuration`
  and the estimated pulse duration in `analyzeDurations`), are not part of the
  decoder state; the buffer slots they read are listed by
  `arePulsesValidCodeReads` and `analyzeDurationsReads`.
-/

namespace LPD433

/-! ## Machine arithmetic -/

/-- Addition of `uint32_t` values. -/
def add32 (a b : Nat) : Nat := (a + b) % 2 ^ 32

/-- Subtraction of `uint32_t` values (wraps below zero). -/
def sub32 (a b : Nat) : Nat := (a % 2 ^ 32 + (2 ^ 32 - b % 2 ^ 32)) % 2 ^ 32

/-- Multiplication of `uint32_t` values. -/
def mul32 (a b : Nat) : Nat := (a * b) % 2 ^ 32

/-- Left shift of a `uint32_t` value. -/
def shl32 (a s : Nat) : Nat := (a <<< s) % 2 ^ 32

/-- Store `v` in slot `i` of a C array. -/
def setSlot (a : Nat → Nat) (i v : Nat) : Nat → Nat :=
  fun j => if j = i then v else a j

/-! ## Messages -/

/-- The `struct COCOMessage` of `COCOReceiver.c`. -/
structure COCOMessage where
  timestamp : Nat
  fullMessageCode : Nat
  address : Nat
  group : Bool
  onOff : Bool
  channel : Nat
deriving DecidableEq

/-- The `struct KFSMessage` of `KeyFobSwitchReceiver.c`. -/
structure KFSMessage where
  identifier : Nat
  identifierBitSize : Nat
  timestamp : Nat
deriving DecidableEq

/-- Source function `COCOMessageCreate`: the four payload fields are cleared; `timestamp` and
`fullMessageCode` are not initialised by the source and are written by
`analyzeDurations` before anything reads them. -/
def COCOMessageCreate : COCOMessage :=
  { timestamp := 0, fullMessageCode := 0, address := 0, group := false, onOff := false,
    channel := 0 }

def COCOMessageGetAddress (message : COCOMessage) : Nat := message.address

def COCOMessageGetGroup (message : COCOMessage) : Bool := message.group

def COCOMessageGetOnOff (message : COCOMessage) : Bool := message.onOff

def COCOMessageGetChannel (message : COCOMessage) : Nat := message.channel

/-- Source function `COCOMessageSetAddress` (the argument is a `uint32_t`). -/
def COCOMessageSetAddress (message : COCOMessage) (address : Nat) : COCOMessage :=
  { message with address := address % 2 ^ 32 }

def COCOMessageSetGroup (message : COCOMessage) (group : Bool) : COCOMessage :=
  { message with group := group }

def COCOMessageSetOnOff (message : COCOMessage) (onOff : Bool) : COCOMessage :=
  { message with onOff := onOff }

/-- Source function `COCOMessageSetChannel` (the argument is a `uint16_t`). -/
def COCOMessageSetChannel (message : COCOMessage) (channel : Nat) : COCOMessage :=
  { message with channel := channel % 2 ^ 16 }

/-- Source function `KFSMessageCreate`. -/
def KFSMessageCreate : KFSMessage :=
  { identifier := 0, identifierBitSize := 0, timestamp := 0 }

def KFSMessageGetIdentifier (message : KFSMessage) : Nat := message.identifier

/-- Source function `KFSMessageSetIdentifier` (the argument is a `uint32_t`). -/
def KFSMessageSetIdentifier (message : KFSMessage) (identifier : Nat) : KFSMessage :=
  { message with identifier := identifier % 2 ^ 32 }

/-! ## OOKSender.c -/

/-- Constant `kCOCOSinglePulseLength`. -/
def kCOCOSinglePulseLength : Nat := 260

/-- Constant `kCOCOTotalNumberOfPulses`. -/
def kCOCOTotalNumberOfPulses : Nat := 132

/-- Constant `kKFSSinglePulseLength`. -/
def kKFSSinglePulseLength : Nat := 350

/-- Constant `kKFSTotalNumberOfPulses`: 24 bits, 2 pulses per bit, 2 pulses for the start sync. -/
def kKFSTotalNumberOfPulses : Nat := 50

/-- The `fullCode` that `OOKSenderSendCOCO` composes from the message fields
(`address` is read as `uint32_t`, `channel` as `uint16_t`). -/
def COCOFullCode (message : COCOMessage) : Nat :=
  let address := COCOMessageGetAddress message % 2 ^ 32
  let group := COCOMessageGetGroup message
  let onOff := COCOMessageGetOnOff message
  let channel := COCOMessageGetChannel message % 2 ^ 16
  let fullCode := address
  let fullCode := shl32 fullCode 1
  let fullCode := fullCode ||| (if group then 1 else 0)
  let fullCode := shl32 fullCode 1
  let fullCode := fullCode ||| (if onOff then 1 else 0)
  let fullCode := shl32 fullCode 4
  fullCode ||| channel

/-- One pass of the body of the `for` loop of `OOKSenderSendCOCO`. -/
def COCOSendBody (fullCode index : Nat) (durations : Nat → Nat) : Nat → Nat :=
  let shiftValue := sub32 31 (sub32 index 2 / 4) % 2 ^ 8
  let bitValue := ((fullCode >>> shiftValue) &&& 1) % 2 ^ 8
  if 0 = bitValue then
    setSlot (setSlot (setSlot (setSlot durations index (1 * kCOCOSinglePulseLength))
      (index + 1) (1 * kCOCOSinglePulseLength))
      (index + 2) (1 * kCOCOSinglePulseLength))
      (index + 3) (4 * kCOCOSinglePulseLength)
  else if 1 = bitValue then
    setSlot (setSlot (setSlot (setSlot durations index (1 * kCOCOSinglePulseLength))
      (index + 1) (4 * kCOCOSinglePulseLength))
      (index + 2) (1 * kCOCOSinglePulseLength))
      (index + 3) (1 * kCOCOSinglePulseLength)
  else durations

/-- The loop `for (index = 2; index < kCOCOTotalNumberOfPulses - 2; index += 4)`;
the first argument bounds the number of passes. -/
def COCOSendLoop (fullCode : Nat) : Nat → Nat → (Nat → Nat) → (Nat → Nat)
  | 0, _, durations => durations
  | fuel + 1, index, durations =>
    if index < kCOCOTotalNumberOfPulses - 2 then
      COCOSendLoop fullCode fuel (index + 4) (COCOSendBody fullCode index durations)
    else durations

/-- The array `durations` of `OOKSenderSendCOCO` when it is handed to
`OOKSenderTransmit`. The array starts unspecified (here: zero); the loop runs
at most `kCOCOTotalNumberOfPulses` times. -/
def OOKSenderSendCOCOArray (message : COCOMessage) : Nat → Nat :=
  let fullCode := COCOFullCode message
  let durations : Nat → Nat := fun _ => 0
  let durations := setSlot durations 0 kCOCOSinglePulseLength
  let durations := setSlot durations 1 (10 * kCOCOSinglePulseLength)
  let durations := setSlot durations (kCOCOTotalNumberOfPulses - 2) (1 * kCOCOSinglePulseLength)
  let durations := setSlot durations (kCOCOTotalNumberOfPulses - 1) (40 * kCOCOSinglePulseLength)
  COCOSendLoop fullCode kCOCOTotalNumberOfPulses 2 durations

/-- The `length` durations that `OOKSenderSendCOCO` passes to `OOKSenderTransmit`. -/
def OOKSenderSendCOCO (message : COCOMessage) : List Nat :=
  (List.range kCOCOTotalNumberOfPulses).map (OOKSenderSendCOCOArray message)

/-- One pass of the body of the `for` loop of `OOKSenderSendKFS`. -/
def KFSSendBody (identifier index : Nat) (durations : Nat → Nat) : Nat → Nat :=
  let shiftValue := sub32 23 (sub32 index 2 / 2) % 2 ^ 8
  let bitValue := ((identifier >>> shiftValue) &&& 1) % 2 ^ 8
  if 0 = bitValue then
    setSlot (setSlot durations index (1 * kKFSSinglePulseLength))
      (index + 1) (3 * kKFSSinglePulseLength)
  else if 1 = bitValue then
    setSlot (setSlot durations index (3 * kKFSSinglePulseLength))
      (index + 1) (1 * kKFSSinglePulseLength)
  else durations

/-- The loop `for (index = 2; index < kKFSTotalNumberOfPulses; index += 2)`. -/
def KFSSendLoop (identifier : Nat) : Nat → Nat → (Nat → Nat) → (Nat → Nat)
  | 0, _, durations => durations
  | fuel + 1, index, durations =>
    if index < kKFSTotalNumberOfPulses then
      KFSSendLoop identifier fuel (index + 2) (KFSSendBody identifier index durations)
    else durations

/-- The array `durations` of `OOKSenderSendKFS` when it is handed to
`OOKSenderTransmit`. -/
def OOKSenderSendKFSArray (message : KFSMessage) : Nat → Nat :=
  let identifier := KFSMessageGetIdentifier message % 2 ^ 32
  let durations : Nat → Nat := fun _ => 0
  let durations := setSlot durations 0 kKFSSinglePulseLength
  let durations := setSlot durations 1 (31 * kKFSSinglePulseLength)
  KFSSendLoop identifier kKFSTotalNumberOfPulses 2 durations

/-- The `length` durations that `OOKSenderSendKFS` passes to `OOKSenderTransmit`. -/
def OOKSenderSendKFS (message : KFSMessage) : List Nat :=
  (List.range kKFSTotalNumberOfPulses).map (OOKSenderSendKFSArray message)

/-! ## COCOReceiver.c -/

/-- Constant `COCOMessagePulseCount`: the protocol has 132 pulses, the first T of the
start-sync is not stored. -/
def COCOMessagePulseCount : Nat := 131

/-- Constant `COCOPulsesPerBit`. -/
def COCOPulsesPerBit : Nat := 4

/-- Constant `COCOPulsesLong`. -/
def COCOPulsesLong : Nat := 4

/-- Constant `COCOPulsesShort`. -/
def COCOPulsesShort : Nat := 1

/-- Constant `COCOStartSyncLowPulsesCount`. -/
def COCOStartSyncLowPulsesCount : Nat := 10

/-- Constant `COCOEndSyncLowPulsesCount`. -/
def COCOEndSyncLowPulsesCount : Nat := 40

/-- The `struct COCOReceiver`. `callback` is `true` when a handler is registered. -/
structure COCOReceiver where
  repeatCount : Nat
  refractoryPeriod : Nat
  positiveTolerance : Nat
  negativeTolerance : Nat
  singlePulseDuration : Nat
  callback : Bool
  repeats : Nat
  lastTimestamp : Nat
  durations : Nat → Nat
  durationsIndex : Nat
  channelMask : Nat
  onOffMask : Nat
  groupMask : Nat
  addressMask : Nat
  previousMessageCode : Nat
  startTime : Nat
  timestampPreviousHit : Nat
  singlePulseMaxDuration : Nat
  singlePulseMinDuration : Nat
  startSyncLowMinDuration : Nat
  startSyncLowMaxDuration : Nat
  endSyncLowMinDuration : Nat
  endSyncLowMaxDuration : Nat

/-- Source function `updateDurationsForReceiver`. -/
def updateDurationsForReceiver (receiver : COCOReceiver) : COCOReceiver :=
  { receiver with
    singlePulseMinDuration :=
      mul32 receiver.singlePulseDuration (sub32 100 receiver.negativeTolerance) / 100
    singlePulseMaxDuration :=
      mul32 receiver.singlePulseDuration (add32 100 receiver.positiveTolerance) / 100
    startSyncLowMinDuration :=
      mul32 (mul32 receiver.singlePulseDuration COCOStartSyncLowPulsesCount)
        (sub32 100 receiver.negativeTolerance) / 100
    startSyncLowMaxDuration :=
      mul32 (mul32 receiver.singlePulseDuration COCOStartSyncLowPulsesCount)
        (add32 100 receiver.positiveTolerance) / 100
    endSyncLowMinDuration :=
      mul32 (mul32 receiver.singlePulseDuration COCOEndSyncLowPulsesCount)
        (sub32 100 receiver.negativeTolerance) / 100
    endSyncLowMaxDuration :=
      mul32 (mul32 receiver.singlePulseDuration COCOEndSyncLowPulsesCount)
        (add32 100 receiver.positiveTolerance) / 100 }

/-- Source function `COCOReceiverCreate`. The contents of the `malloc`ed duration buffer and the
callback pointer are not initialised by the source; they are the two arguments. -/
def COCOReceiverCreate (durations : Nat → Nat) (callback : Bool) : COCOReceiver :=
  let newReceiver : COCOReceiver :=
    { repeatCount := 1
      refractoryPeriod := 0
      positiveTolerance := 40
      negativeTolerance := 40
      singlePulseDuration := 260
      callback := callback
      repeats := 0
      lastTimestamp := 0
      durations := durations
      durationsIndex := 0
      channelMask := 0b00001111
      onOffMask := 0b00010000
      groupMask := 0b00100000
      addressMask := 0b11111111111111111111111111000000
      previousMessageCode := 0
      startTime := 0
      timestampPreviousHit := 0
      singlePulseMaxDuration := 0
      singlePulseMinDuration := 0
      startSyncLowMinDuration := 0
      startSyncLowMaxDuration := 0
      endSyncLowMinDuration := 0
      endSyncLowMaxDuration := 0 }
  updateDurationsForReceiver newReceiver

/-- Source function `COCOReceiverSetCallback`; `true` stands for a handler, `false` for `NULL`. -/
def COCOReceiverSetCallback (receiver : COCOReceiver) (callback : Bool) : COCOReceiver :=
  { receiver with callback := callback }

/-- Source function `COCOReceiverSetRepeatCount`. -/
def COCOReceiverSetRepeatCount (receiver : COCOReceiver) (repeatCount : Nat) : COCOReceiver :=
  { receiver with repeatCount := repeatCount % 2 ^ 32 }

/-- Source function `COCOReceiverSetRefractoryPeriod`. -/
def COCOReceiverSetRefractoryPeriod (receiver : COCOReceiver) (refractoryPeriod : Nat) :
    COCOReceiver :=
  { receiver with refractoryPeriod := refractoryPeriod % 2 ^ 32 }

/-- Source function `COCOReceiverSetSinglePulseDuration`. -/
def COCOReceiverSetSinglePulseDuration (receiver : COCOReceiver) (pulseLDuration : Nat) :
    COCOReceiver :=
  updateDurationsForReceiver { receiver with singlePulseDuration := pulseLDuration % 2 ^ 32 }

/-- The local state of the loop of `analyzeDurations`. -/
structure COCOAnalysis where
  code : Nat
  codeLength : Nat
  bitValues : Nat → Nat

/-- The test of lines 232-235: the four `bitValues` encode a '0'
(unit, unit, unit, long). -/
def COCOIsZero (receiver : COCOReceiver) (bitValues : Nat → Nat) : Bool :=
  decide (bitValues 0 < receiver.singlePulseMaxDuration) &&
  decide (bitValues 0 > receiver.singlePulseMinDuration) &&
  decide (bitValues 1 < receiver.singlePulseMaxDuration) &&
  decide (bitValues 1 > receiver.singlePulseMinDuration) &&
  decide (bitValues 2 < receiver.singlePulseMaxDuration) &&
  decide (bitValues 2 > receiver.singlePulseMinDuration) &&
  decide (bitValues 3 < mul32 COCOPulsesLong receiver.singlePulseMaxDuration) &&
  decide (bitValues 3 > mul32 COCOPulsesLong receiver.singlePulseMinDuration)

/-- The test of lines 242-245: the four `bitValues` encode a '1'
(unit, long, unit, unit). -/
def COCOIsOne (receiver : COCOReceiver) (bitValues : Nat → Nat) : Bool :=
  decide (bitValues 0 < receiver.singlePulseMaxDuration) &&
  decide (bitValues 0 > receiver.singlePulseMinDuration) &&
  decide (bitValues 1 < mul32 COCOPulsesLong receiver.singlePulseMaxDuration) &&
  decide (bitValues 1 > mul32 COCOPulsesLong receiver.singlePulseMinDuration) &&
  decide (bitValues 2 < receiver.singlePulseMaxDuration) &&
  decide (bitValues 2 > receiver.singlePulseMinDuration) &&
  decide (bitValues 3 < receiver.singlePulseMaxDuration) &&
  decide (bitValues 3 > receiver.singlePulseMinDuration)

/-- The loop `for (index = 0; index <= receiver->durationsIndex; index++)` of
`analyzeDurations`, from `index` on. `none` is the `return false` of an invalid
bit encoding; `some` is the state at the end of the loop (or at `break`). The
first argument bounds the number of passes. -/
def analyzeLoop (receiver : COCOReceiver) : Nat → Nat → COCOAnalysis → Option COCOAnalysis
  | 0, _, state => some state
  | fuel + 1, index, state =>
    if index ≤ receiver.durationsIndex then
      if 0 = index then
        analyzeLoop receiver fuel (index + 1) state
      else if index = COCOMessagePulseCount - 1 ∧
          receiver.durations index > receiver.endSyncLowMinDuration ∧
          receiver.durations index < receiver.endSyncLowMaxDuration then
        some state
      else
        let bitIndex := sub32 index 1 % COCOPulsesPerBit
        let bitValues := setSlot state.bitValues bitIndex (receiver.durations index)
        if bitIndex = COCOPulsesPerBit - 1 then
          if COCOIsZero receiver bitValues then
            analyzeLoop receiver fuel (index + 1)
              { code := shl32 state.code 1
                codeLength := add32 state.codeLength 1
                bitValues := bitValues }
          else if COCOIsOne receiver bitValues then
            analyzeLoop receiver fuel (index + 1)
              { code := shl32 state.code 1 ||| 1
                codeLength := add32 state.codeLength 1
                bitValues := bitValues }
          else none
        else
          analyzeLoop receiver fuel (index + 1) { state with bitValues := bitValues }
    else some state

/-- The message that `analyzeDurations` fills in for a decoded `code`. -/
def COCOMessageOfCode (receiver : COCOReceiver) (timestamp code : Nat) : COCOMessage :=
  { timestamp := timestamp
    fullMessageCode := code
    address := (code &&& receiver.addressMask) >>> 6
    group := decide ((code &&& receiver.groupMask) = receiver.groupMask)
    onOff := decide ((code &&& receiver.onOffMask) = receiver.onOffMask)
    channel := (code &&& receiver.channelMask) % 2 ^ 16 }

/-- Source function `analyzeDurations`: `none` is `return false`, `some message` is `return true`
with `*message` filled in. The loop makes at most `durationsIndex + 1` passes. -/
def analyzeDurations (receiver : COCOReceiver) (timestamp : Nat) : Option COCOMessage :=
  if receiver.durationsIndex < COCOMessagePulseCount - 1 then none
  else
    match analyzeLoop receiver (receiver.durationsIndex + 1) 0
        { code := 0, codeLength := 0, bitValues := fun _ => 0 } with
    | none => none
    | some state => some (COCOMessageOfCode receiver timestamp state.code)

/-- The part of `COCOReceiverFeedGPIOValueChangeTime` that follows a successful
`analyzeDurations` (lines 363-404): the repeat and refractory filter. The second
component is the message handed to the callback, if it is called. The read of
`message->fullMessageCode` in line 404 follows the call: this definition is the
filter for a handler that leaves the message in place until the function has
returned; `COCOAcceptWith` is the filter for any handler. -/
def COCOAccept (receiver : COCOReceiver) (message : COCOMessage) :
    COCOReceiver × Option COCOMessage :=
  if message.fullMessageCode = receiver.previousMessageCode then
    let receiver := { receiver with repeats := add32 receiver.repeats 1 }
    if receiver.repeats ≥ receiver.repeatCount then
      if sub32 message.timestamp receiver.timestampPreviousHit >
          mul32 receiver.refractoryPeriod 1000000 then
        ({ receiver with
            timestampPreviousHit := message.timestamp
            repeats := 0
            previousMessageCode := message.fullMessageCode },
          if receiver.callback then some message else none)
      else ({ receiver with previousMessageCode := message.fullMessageCode }, none)
    else ({ receiver with previousMessageCode := message.fullMessageCode }, none)
  else ({ receiver with repeats := 0, previousMessageCode := message.fullMessageCode }, none)

/-- The first `if` of `COCOReceiverFeedGPIOValueChangeTime`: a start-sync
restarts the sequence. -/
def COCOStartSync (receiver : COCOReceiver) (timestamp duration : Nat) : COCOReceiver :=
  if duration > receiver.startSyncLowMinDuration ∧
      duration < receiver.startSyncLowMaxDuration then
    { receiver with startTime := timestamp, durationsIndex := 0 }
  else receiver

/-- The result of the call of `analyzeDurations` that
`COCOReceiverFeedGPIOValueChangeTime` makes for the edge at `timestamp`;
`none` when the edge is no end-sync (no call) or the call returns `false`. -/
def COCOEdgeAnalysis (receiver : COCOReceiver) (timestamp : Nat) : Option COCOMessage :=
  let duration := sub32 timestamp receiver.lastTimestamp
  let receiver := COCOStartSync receiver timestamp duration
  if duration > receiver.endSyncLowMinDuration ∧ duration < receiver.endSyncLowMaxDuration then
    analyzeDurations
      { receiver with durations := setSlot receiver.durations receiver.durationsIndex duration }
      receiver.startTime
  else none

/-- The second `if` of `COCOReceiverFeedGPIOValueChangeTime`: an end-sync
triggers the analysis of what was received. -/
def COCOEndSync (receiver : COCOReceiver) (duration : Nat) :
    COCOReceiver × Option COCOMessage :=
  if duration > receiver.endSyncLowMinDuration ∧ duration < receiver.endSyncLowMaxDuration then
    let receiver :=
      { receiver with durations := setSlot receiver.durations receiver.durationsIndex duration }
    match analyzeDurations receiver receiver.startTime with
    | some message => COCOAccept receiver message
    | none => ({ receiver with previousMessageCode := 0 }, none)
  else (receiver, none)

/-- The tail of `COCOReceiverFeedGPIOValueChangeTime` (lines 415-423): store
the duration, advance and wrap the index, remember the timestamp. -/
def COCOStore (receiver : COCOReceiver) (timestamp duration : Nat) : COCOReceiver :=
  let receiver :=
    { receiver with
      durations := setSlot receiver.durations receiver.durationsIndex duration
      durationsIndex := add32 receiver.durationsIndex 1 }
  let receiver :=
    if receiver.durationsIndex = COCOMessagePulseCount then
      { receiver with durationsIndex := 0 }
    else receiver
  { receiver with lastTimestamp := timestamp }

/-- Source function `COCOReceiverFeedGPIOValueChangeTime`: the new receiver state and the
message handed to the callback, if the callback is called. -/
def COCOReceiverFeedGPIOValueChangeTime (receiver : COCOReceiver) (timestamp : Nat) :
    COCOReceiver × Option COCOMessage :=
  let duration := sub32 timestamp receiver.lastTimestamp
  let receiver := COCOStartSync receiver timestamp duration
  let result := COCOEndSync receiver duration
  (COCOStore result.1 timestamp duration, result.2)

/-- Feed a sequence of edge timestamps; the list collects the callback calls in order. -/
def COCOReceiverFeedAll (receiver : COCOReceiver) : List Nat → COCOReceiver × List COCOMessage
  | [] => (receiver, [])
  | timestamp :: rest =>
    let step := COCOReceiverFeedGPIOValueChangeTime receiver timestamp
    let tail := COCOReceiverFeedAll step.1 rest
    (tail.1, step.2.toList ++ tail.2)

/-- The `uint32_t` timestamps of the edges that follow an edge at `start` when
the successive edge-to-edge durations are the given ones. -/
def edgeTimestamps (start : Nat) : List Nat → List Nat
  | [] => []
  | duration :: rest => add32 start duration :: edgeTimestamps (add32 start duration) rest


/-! ## KeyFobSwitchReceiver.c -/

/-- Constant `KFSMessageMinPulseCount` (includes sync_low). -/
def KFSMessageMinPulseCount : Nat := 5

/-- Constant `KFSMessageMaxPulseCount`. -/
def KFSMessageMaxPulseCount : Nat := 67

/-- Constant `KFSPulsesPerBit`. -/
def KFSPulsesPerBit : Nat := 2

/-- Constant `KFSPulsesLong`. -/
def KFSPulsesLong : Nat := 3

/-- Constant `KFSPulsesShort`. -/
def KFSPulsesShort : Nat := 1

/-- Constant `KFSStartSyncLowPulsesCount`. -/
def KFSStartSyncLowPulsesCount : Nat := 31

/-- The `struct KFSReceiver`. `callback` is `true` when a handler is registered.
The fields `codeBitLength` and `codePulseLength`, which the source neither
initialises nor uses, are left out. -/
structure KFSReceiver where
  callback : Bool
  repeatCount : Nat
  refractoryPeriod : Nat
  positiveTolerance : Nat
  negativeTolerance : Nat
  singlePulseDuration : Nat
  timestamp : Nat
  lastTimestamp : Nat
  durations : Nat → Nat
  durationsIndex : Nat
  repeats : Nat
  receivedCode : Nat
  receivedCodeTimestamp : Nat
  singlePulseMaxDuration : Nat
  singlePulseMinDuration : Nat
  startSyncLowMinDuration : Nat
  startSyncLowMaxDuration : Nat
  startTime : Nat
  timestampPreviousHit : Nat
  previousMessageIdentifier : Nat
  previousIdentifierBitSize : Nat

/-- Source function `KFSUpdateDurationsForReceiver`. -/
def KFSUpdateDurationsForReceiver (receiver : KFSReceiver) : KFSReceiver :=
  { receiver with
    singlePulseMinDuration :=
      mul32 receiver.singlePulseDuration (sub32 100 receiver.negativeTolerance) / 100
    singlePulseMaxDuration :=
      mul32 receiver.singlePulseDuration (add32 100 receiver.positiveTolerance) / 100
    startSyncLowMinDuration :=
      mul32 (mul32 receiver.singlePulseDuration KFSStartSyncLowPulsesCount)
        (sub32 100 receiver.negativeTolerance) / 100
    startSyncLowMaxDuration :=
      mul32 (mul32 receiver.singlePulseDuration KFSStartSyncLowPulsesCount)
        (add32 100 receiver.positiveTolerance) / 100 }

/-- Source function `KFSReceiverCreate`. The contents of the `malloc`ed duration buffer and the
callback pointer are not initialised by the source; they are the two arguments.
The source does not initialise the field `pulseRecorder` either; that field is
not part of `KFSReceiver`, it is the first argument of `arePulsesValidCodeWith`
and of the feed functions built on it. -/
def KFSReceiverCreate (durations : Nat → Nat) (callback : Bool) : KFSReceiver :=
  let newReceiver : KFSReceiver :=
    { callback := callback
      repeatCount := 2
      refractoryPeriod := 0
      positiveTolerance := 20
      negativeTolerance := 20
      singlePulseDuration := 350
      timestamp := 0
      lastTimestamp := 0
      durations := durations
      durationsIndex := 0
      repeats := 0
      receivedCode := 0
      receivedCodeTimestamp := 0
      singlePulseMaxDuration := 0
      singlePulseMinDuration := 0
      startSyncLowMinDuration := 0
      startSyncLowMaxDuration := 0
      startTime := 0
      timestampPreviousHit := 0
      previousMessageIdentifier := 0
      previousIdentifierBitSize := 0 }
  KFSUpdateDurationsForReceiver newReceiver

/-- Source function `KFSReceiverSetCallback`; `true` stands for a handler, `false` for `NULL`. -/
def KFSReceiverSetCallback (receiver : KFSReceiver) (callback : Bool) : KFSReceiver :=
  { receiver with callback := callback }

/-- Source function `KFSReceiverSetRepeatCount`. -/
def KFSReceiverSetRepeatCount (receiver : KFSReceiver) (repeatCount : Nat) : KFSReceiver :=
  { receiver with repeatCount := repeatCount % 2 ^ 32 }

/-- Source function `KFSReceiverSetRefractoryPeriod`. -/
def KFSReceiverSetRefractoryPeriod (receiver : KFSReceiver) (refractoryPeriod : Nat) :
    KFSReceiver :=
  { receiver with refractoryPeriod := refractoryPeriod % 2 ^ 32 }

/-- The first test of the loop of `arePulsesValidCode` (lines 160-161): the pair
at `i` is (short, long). -/
def KFSIsZero (receiver : KFSReceiver) (i : Nat) : Bool :=
  decide (receiver.durations i > mul32 receiver.singlePulseMinDuration KFSPulsesShort) &&
  decide (receiver.durations i < mul32 receiver.singlePulseMaxDuration KFSPulsesShort) &&
  decide (receiver.durations (i + 1) > mul32 receiver.singlePulseMinDuration KFSPulsesLong) &&
  decide (receiver.durations (i + 1) < mul32 receiver.singlePulseMaxDuration KFSPulsesLong)

/-- The second test of the loop of `arePulsesValidCode` (lines 166-167): the
pair at `i` is (long, short). -/
def KFSIsOne (receiver : KFSReceiver) (i : Nat) : Bool :=
  decide (receiver.durations i > mul32 receiver.singlePulseMinDuration KFSPulsesLong) &&
  decide (receiver.durations i < mul32 receiver.singlePulseMaxDuration KFSPulsesLong) &&
  decide (receiver.durations (i + 1) > mul32 receiver.singlePulseMinDuration KFSPulsesShort) &&
  decide (receiver.durations (i + 1) < mul32 receiver.singlePulseMaxDuration KFSPulsesShort)

/-- The loop `for (int i = 1; i < receiver->durationsIndex; i+=2)` of
`arePulsesValidCode`, from `i` on, returning `code` and `codeLength` (a
`uint8_t`) at its end. The first argument bounds the number of passes. -/
def arePulsesValidCodeLoop (receiver : KFSReceiver) : Nat → Nat → Nat → Nat → Nat × Nat
  | 0, _, code, codeLength => (code, codeLength)
  | fuel + 1, i, code, codeLength =>
    if i < receiver.durationsIndex then
      if KFSIsZero receiver i then
        let code := shl32 code 1
        let codeLength := (codeLength + 1) % 2 ^ 8
        if codeLength = 24 then (code, codeLength)
        else arePulsesValidCodeLoop receiver fuel (i + 2) code codeLength
      else if KFSIsOne receiver i then
        let code := shl32 code 1 ||| 1
        let codeLength := (codeLength + 1) % 2 ^ 8
        if codeLength = 24 then (code, codeLength)
        else arePulsesValidCodeLoop receiver fuel (i + 2) code codeLength
      else (code, codeLength)
    else (code, codeLength)

/-- Source function `arePulsesValidCode`: `none` is `return false`, `some message` is
`return true` with `*message` filled in. The loop makes at most `durationsIndex`
passes. The value is that of a call that returns; `arePulsesValidCodeWith` adds
the field `pulseRecorder`, which the call passes on when the decoding
succeeds. -/
def arePulsesValidCode (receiver : KFSReceiver) (timestamp : Nat) : Option KFSMessage :=
  let result := arePulsesValidCodeLoop receiver receiver.durationsIndex 1 0 0
  let code := result.1
  let codeLength := result.2
  if 0 ≠ code ∧ codeLength > 4 then
    some { identifier := code, identifierBitSize := codeLength, timestamp := timestamp }
  else none

/-- The part of `KFSReceiverFeedGPIOValueChangeTime` that follows a successful
`arePulsesValidCode` (lines 268-302). The second component is the message
handed to the callback, if it is called. The reads of the message in lines
301-302 follow the call: this definition is the filter for a handler that
leaves the message in place until the function has returned; `KFSAcceptWith`
is the filter for any handler. -/
def KFSAccept (receiver : KFSReceiver) (message : KFSMessage) :
    KFSReceiver × Option KFSMessage :=
  if message.identifier ≠ 0 ∧
      message.identifier = receiver.previousMessageIdentifier ∧
      message.identifierBitSize = receiver.previousIdentifierBitSize then
    let receiver := { receiver with repeats := add32 receiver.repeats 1 }
    if receiver.repeats = receiver.repeatCount then
      if sub32 message.timestamp receiver.timestampPreviousHit >
          mul32 receiver.refractoryPeriod 1000000 then
        ({ receiver with
            timestampPreviousHit := message.timestamp
            repeats := 0
            previousMessageIdentifier := message.identifier
            previousIdentifierBitSize := message.identifierBitSize },
          if receiver.callback then some message else none)
      else
        ({ receiver with
            previousMessageIdentifier := message.identifier
            previousIdentifierBitSize := message.identifierBitSize }, none)
    else
      ({ receiver with
          previousMessageIdentifier := message.identifier
          previousIdentifierBitSize := message.identifierBitSize }, none)
  else
    ({ receiver with
        repeats := 0
        previousMessageIdentifier := message.identifier
        previousIdentifierBitSize := message.identifierBitSize }, none)

/-- The result of the call of `arePulsesValidCode` that
`KFSReceiverFeedGPIOValueChangeTime` makes for the edge at `timestamp`; `none`
when no call is made or the call returns `false`. -/
def KFSEdgeAnalysis (receiver : KFSReceiver) (timestamp : Nat) : Option KFSMessage :=
  let duration := sub32 timestamp receiver.lastTimestamp
  if 0 = receiver.lastTimestamp then none
  else if duration > receiver.startSyncLowMinDuration ∧
      duration < receiver.startSyncLowMaxDuration then
    if receiver.durationsIndex ≥ KFSMessageMinPulseCount then
      arePulsesValidCode { receiver with startTime := timestamp } timestamp
    else none
  else none

/-- The start-sync branch of `KFSReceiverFeedGPIOValueChangeTime` (lines 250-311). -/
def KFSStartSync (receiver : KFSReceiver) (timestamp duration : Nat) :
    KFSReceiver × Option KFSMessage :=
  if duration > receiver.startSyncLowMinDuration ∧
      duration < receiver.startSyncLowMaxDuration then
    let receiver := { receiver with startTime := timestamp }
    let result : KFSReceiver × Option KFSMessage :=
      if receiver.durationsIndex ≥ KFSMessageMinPulseCount then
        match arePulsesValidCode receiver receiver.startTime with
        | some message => KFSAccept receiver message
        | none => (receiver, none)
      else (receiver, none)
    ({ result.1 with durationsIndex := 0 }, result.2)
  else (receiver, none)

/-- The tail of `KFSReceiverFeedGPIOValueChangeTime` (lines 313-321). -/
def KFSStore (receiver : KFSReceiver) (timestamp duration : Nat) : KFSReceiver :=
  let receiver :=
    if receiver.durationsIndex ≥ KFSMessageMaxPulseCount then
      { receiver with durationsIndex := 0 }
    else receiver
  { receiver with
    durations := setSlot receiver.durations receiver.durationsIndex duration
    durationsIndex := add32 receiver.durationsIndex 1
    lastTimestamp := timestamp }

/-- Source function `KFSReceiverFeedGPIOValueChangeTime`: the new receiver state and the message
handed to the callback, if the callback is called. -/
def KFSReceiverFeedGPIOValueChangeTime (receiver : KFSReceiver) (timestamp : Nat) :
    KFSReceiver × Option KFSMessage :=
  let duration := sub32 timestamp receiver.lastTimestamp
  if 0 = receiver.lastTimestamp then
    ({ receiver with lastTimestamp := timestamp }, none)
  else
    let result := KFSStartSync receiver timestamp duration
    (KFSStore result.1 timestamp duration, result.2)

/-- Feed a sequence of edge timestamps; the list collects the callback calls in order. -/
def KFSReceiverFeedAll (receiver : KFSReceiver) : List Nat → KFSReceiver × List KFSMessage
  | [] => (receiver, [])
  | timestamp :: rest =>
    let step := KFSReceiverFeedGPIOValueChangeTime receiver timestamp
    let tail := KFSReceiverFeedAll step.1 rest
    (tail.1, step.2.toList ++ tail.2)


/-! ## Specification vocabulary

The definitions below are not taken from the source; they only name the
quantities the theorems speak about. -/

/-- Nominal duration at index `j` (2..129) of a COCO frame carrying `code`:
four pulses per bit, most significant bit first, a '0' being
260, 260, 260, 1040 and a '1' being 260, 1040, 260, 260. -/
def COCOPulseAt (code j : Nat) : Nat :=
  if (j - 2) % 4 = 1 then (if code.testBit (31 - (j - 2) / 4) then 1040 else 260)
  else if (j - 2) % 4 = 3 then (if code.testBit (31 - (j - 2) / 4) then 260 else 1040)
  else 260

/-- Nominal duration at index `j` (2..49) of a KFS frame carrying `identifier`:
two pulses per bit, most significant bit first, a '0' being 350, 1050 and a
'1' being 1050, 350. -/
def KFSPulseAt (identifier j : Nat) : Nat :=
  if (j - 2) % 2 = 0 then (if identifier.testBit (23 - (j - 2) / 2) then 1050 else 350)
  else (if identifier.testBit (23 - (j - 2) / 2) then 350 else 1050)

/-- The bit masks are those that `COCOReceiverCreate` installs (no function of
the source changes them afterwards). -/
def COCOCreatedMasks (receiver : COCOReceiver) : Prop :=
  receiver.channelMask = 0b00001111 ∧ receiver.onOffMask = 0b00010000 ∧
  receiver.groupMask = 0b00100000 ∧
  receiver.addressMask = 0b11111111111111111111111111000000


/-- The duration lies strictly inside the COCO start-sync window. -/
def COCOInStartSync (receiver : COCOReceiver) (duration : Nat) : Bool :=
  decide (duration > receiver.startSyncLowMinDuration ∧
    duration < receiver.startSyncLowMaxDuration)

/-- The duration lies strictly inside the COCO end-sync window. -/
def COCOInEndSync (receiver : COCOReceiver) (duration : Nat) : Bool :=
  decide (duration > receiver.endSyncLowMinDuration ∧
    duration < receiver.endSyncLowMaxDuration)

/-- The bit that group `k` (slots `4k+1 .. 4k+4`) of a buffer encodes under the
receiver's windows, if it matches the '0' or the '1' pattern. -/
def COCOGroupBit (receiver : COCOReceiver) (buffer : Nat → Nat) (k : Nat) : Option Bool :=
  if COCOIsZero receiver (fun p => buffer (4 * k + 1 + p)) then some false
  else if COCOIsOne receiver (fun p => buffer (4 * k + 1 + p)) then some true
  else none

/-- Reference decoder: read `count` groups starting with group `k`, shifting
each bit into `code` from the right; `none` as soon as a group matches neither
pattern. -/
def COCODecodeFrom (receiver : COCOReceiver) (buffer : Nat → Nat) : Nat → Nat → Nat → Option Nat
  | 0, _, code => some code
  | count + 1, k, code =>
    match COCOGroupBit receiver buffer k with
    | none => none
    | some bit =>
      COCODecodeFrom receiver buffer count (k + 1)
        (if bit then shl32 code 1 ||| 1 else shl32 code 1)

/-- Reference decoder for the 32 groups of a buffer. -/
def COCODecode (receiver : COCOReceiver) (buffer : Nat → Nat) : Option Nat :=
  COCODecodeFrom receiver buffer 32 0 0

/-- Store a list of values in consecutive slots from `index` on. -/
def writeSlots (buffer : Nat → Nat) (index : Nat) : List Nat → (Nat → Nat)
  | [] => buffer
  | value :: rest => writeSlots (setSlot buffer index value) (index + 1) rest

/-- The `uint32_t` timestamp reached from `start` after the given durations. -/
def advance (start : Nat) : List Nat → Nat
  | [] => start
  | duration :: rest => advance (add32 start duration) rest

/-- Feed the COCO receiver the edges that follow its last edge at the given
successive durations. -/
def COCOFeedDurations (receiver : COCOReceiver) (durations : List Nat) :
    COCOReceiver × List COCOMessage :=
  COCOReceiverFeedAll receiver (edgeTimestamps receiver.lastTimestamp durations)

/-- A valid COCO frame for the receiver's windows: 132 `uint32_t` durations, the
first and the 131st neither start- nor end-sync, the second a start-sync, the
last an end-sync, the 128 in between forming 32 groups that each match the '0'
or the '1' pattern and that are no sync themselves. -/
def COCOValidFrame (receiver : COCOReceiver) (frame : List Nat) : Bool :=
  decide (frame.length = 132) &&
  frame.all (fun duration => decide (duration < 2 ^ 32)) &&
  !COCOInStartSync receiver (frame.getD 0 0) && !COCOInEndSync receiver (frame.getD 0 0) &&
  COCOInStartSync receiver (frame.getD 1 0) && !COCOInEndSync receiver (frame.getD 1 0) &&
  (List.range 129).all (fun j =>
    !COCOInStartSync receiver (frame.getD (j + 2) 0) &&
    !COCOInEndSync receiver (frame.getD (j + 2) 0)) &&
  COCOInEndSync receiver (frame.getD 131 0) && !COCOInStartSync receiver (frame.getD 131 0) &&
  (COCODecode receiver (fun j => frame.getD (j + 1) 0)).isSome

/-- The 32-bit code a frame carries (0 when a group is invalid). -/
def COCOFrameCode (receiver : COCOReceiver) (frame : List Nat) : Nat :=
  (COCODecode receiver (fun j => frame.getD (j + 1) 0)).getD 0

/-- The six windows are those of the default configuration (nominal 260,
tolerances 40/40). -/
def COCODefaultWindows (receiver : COCOReceiver) : Prop :=
  receiver.singlePulseMinDuration = 156 ∧ receiver.singlePulseMaxDuration = 364 ∧
  receiver.startSyncLowMinDuration = 1560 ∧ receiver.startSyncLowMaxDuration = 3640 ∧
  receiver.endSyncLowMinDuration = 6240 ∧ receiver.endSyncLowMaxDuration = 14560


/-- Timestamp of the edge that ends the start-sync of a frame fed after the
receiver's last edge (the frame origin). -/
def COCOFrameOrigin (receiver : COCOReceiver) (frame : List Nat) : Nat :=
  add32 (add32 receiver.lastTimestamp (frame.getD 0 0)) (frame.getD 1 0)

/-- Buffer, index, origin and last timestamp of the receiver once the 132
durations of a frame were fed (the repeat state is that before the frame). -/
def COCOAfterFrame (receiver : COCOReceiver) (frame : List Nat) : COCOReceiver :=
  { receiver with
    startTime := COCOFrameOrigin receiver frame
    durations :=
      writeSlots (setSlot receiver.durations receiver.durationsIndex (frame.getD 0 0)) 0
        (frame.drop 1)
    durationsIndex := 0
    lastTimestamp := advance receiver.lastTimestamp frame }

/-- The message a valid frame decodes to when fed after the receiver's last edge. -/
def COCOFrameMessage (receiver : COCOReceiver) (frame : List Nat) : COCOMessage :=
  COCOMessageOfCode receiver (COCOFrameOrigin receiver frame) (COCOFrameCode receiver frame)

/-- The durations of `count` consecutive transmissions of the same frame. -/
def repeatFrame : Nat → List Nat → List Nat
  | 0, _ => []
  | count + 1, frame => frame ++ repeatFrame count frame

/-- Buffer contents after the frame of the all-zero message: start-sync 2600 in
slot 0, 32 groups 260, 260, 260, 1040 in slots 1..128, 260 in slot 129 and the
end-sync 10400 in slot 130. -/
def COCOZeroFrameBuffer : Nat → Nat :=
  fun j => if j = 0 then 2600 else if j = 130 then 10400 else if j % 4 = 0 then 1040 else 260

/-- A default receiver that has just buffered the frame of the all-zero message. -/
def COCOZeroFrameReceiver : COCOReceiver :=
  { COCOReceiverCreate COCOZeroFrameBuffer true with durationsIndex := 130 }

/-- The duration lies strictly inside the KFS start-sync window. -/
def KFSInSync (receiver : KFSReceiver) (duration : Nat) : Bool :=
  decide (duration > receiver.startSyncLowMinDuration ∧
    duration < receiver.startSyncLowMaxDuration)

/-- Feed the KFS receiver the edges that follow its last edge at the given
successive durations. -/
def KFSFeedDurations (receiver : KFSReceiver) (durations : List Nat) :
    KFSReceiver × List KFSMessage :=
  KFSReceiverFeedAll receiver (edgeTimestamps receiver.lastTimestamp durations)

/-- The four windows are those of the default configuration (nominal 350,
tolerances 20/20). -/
def KFSDefaultWindows (receiver : KFSReceiver) : Prop :=
  receiver.singlePulseMinDuration = 280 ∧ receiver.singlePulseMaxDuration = 420 ∧
  receiver.startSyncLowMinDuration = 8680 ∧ receiver.startSyncLowMaxDuration = 13020

/-! ## Configuration getters and the remaining setters -/

/-- Source function `COCOReceiverGetRepeatCount`. -/
def COCOReceiverGetRepeatCount (receiver : COCOReceiver) : Nat := receiver.repeatCount

/-- Source function `COCOReceiverGetRefractoryPeriod`. -/
def COCOReceiverGetRefractoryPeriod (receiver : COCOReceiver) : Nat := receiver.refractoryPeriod

/-- Source function `COCOReceiverGetPositiveTolerance`. -/
def COCOReceiverGetPositiveTolerance (receiver : COCOReceiver) : Nat :=
  receiver.positiveTolerance

/-- Source function `COCOReceiverGetNegativeTolerance`. -/
def COCOReceiverGetNegativeTolerance (receiver : COCOReceiver) : Nat :=
  receiver.negativeTolerance

/-- Source function `COCOReceiverGetSinglePulseDuration`. -/
def COCOReceiverGetSinglePulseDuration (receiver : COCOReceiver) : Nat :=
  receiver.singlePulseDuration

/-- Source function `COCOReceiverSetPositiveTolerance`. The local `newValue` is
read in its own initialiser, before it was ever assigned: the value found
there is the third argument. The argument `tolerance` is only looked at by the
`assert`; `none` stands for the failed assertion. -/
def COCOReceiverSetPositiveTolerance (receiver : COCOReceiver) (tolerance newValue : Nat) :
    Option COCOReceiver :=
  if tolerance % 2 ^ 32 > 0 ∧ tolerance % 2 ^ 32 ≤ 100 then
    let newValue := if newValue % 2 ^ 32 > 100 then 100 else newValue % 2 ^ 32
    some (updateDurationsForReceiver { receiver with positiveTolerance := newValue })
  else none

/-- Source function `COCOReceiverSetNegativeTolerance`, with the same
self-initialised local `newValue` as `COCOReceiverSetPositiveTolerance`. -/
def COCOReceiverSetNegativeTolerance (receiver : COCOReceiver) (tolerance newValue : Nat) :
    Option COCOReceiver :=
  if tolerance % 2 ^ 32 > 0 ∧ tolerance % 2 ^ 32 ≤ 100 then
    let newValue := if newValue % 2 ^ 32 > 100 then 100 else newValue % 2 ^ 32
    some (updateDurationsForReceiver { receiver with negativeTolerance := newValue })
  else none

/-- Source function `KFSReceiverSetSinglePulseDuration`: the field is stored, nothing else. -/
def KFSReceiverSetSinglePulseDuration (receiver : KFSReceiver) (pulseDuration : Nat) :
    KFSReceiver :=
  { receiver with singlePulseDuration := pulseDuration % 2 ^ 32 }

/-- Source function `KFSReceiverSetPositiveTolerance`: the field is stored, nothing else. -/
def KFSReceiverSetPositiveTolerance (receiver : KFSReceiver) (tolerance : Nat) : KFSReceiver :=
  { receiver with positiveTolerance := tolerance % 2 ^ 32 }

/-- Source function `KFSReceiverSetNegativeTolerance`: the field is stored, nothing else. -/
def KFSReceiverSetNegativeTolerance (receiver : KFSReceiver) (tolerance : Nat) : KFSReceiver :=
  { receiver with negativeTolerance := tolerance % 2 ^ 32 }

/-- Source function `KFSReceiverGetRepeatCount`. -/
def KFSReceiverGetRepeatCount (receiver : KFSReceiver) : Nat := receiver.repeatCount

/-- Source function `KFSReceiverGetRefractoryPeriod`. -/
def KFSReceiverGetRefractoryPeriod (receiver : KFSReceiver) : Nat := receiver.refractoryPeriod

/-- Source function `KFSReceiverGetPositiveTolerance`. -/
def KFSReceiverGetPositiveTolerance (receiver : KFSReceiver) : Nat := receiver.positiveTolerance

/-- Source function `KFSReceiverGetNegativeTolerance`. -/
def KFSReceiverGetNegativeTolerance (receiver : KFSReceiver) : Nat := receiver.negativeTolerance

/-- Source function `KFSReceiverGetSinglePulseDuration`. -/
def KFSReceiverGetSinglePulseDuration (receiver : KFSReceiver) : Nat :=
  receiver.singlePulseDuration

/-! ## OOKSenderTransmit -/

/-- The sender object: the pin it drives (`uint8_t`). -/
structure OOKSender where
  GPIO : Nat
  deriving DecidableEq

/-- Source function `OOKSenderCreate`: the pin starts as the nonsense value `0xFF`. -/
def OOKSenderCreate : OOKSender := { GPIO := 0xFF }

/-- Source function `OOKSenderSetTransmitGPIO`. -/
def OOKSenderSetTransmitGPIO (sender : OOKSender) ( GPIO : Nat) : OOKSender :=
  { sender with GPIO := GPIO % 2 ^ 8 }

/-- One call `gpioWrite(sender->GPIO, level)` together with the time the sender
busy-waits after it (0 for the closing write). -/
structure GPIOWrite where
  level : Nat
  hold : Nat
  deriving DecidableEq

/-- The inner loop `for (index = 0; index < length; index++)` of
`OOKSenderTransmit`, from `index` on with `count` passes left: write the level,
wait `durations[index]`, toggle the level. -/
def OOKSenderTransmitFrame (durations : Nat → Nat) : Nat → Nat → Nat → List GPIOWrite
  | 0, _, _ => []
  | count + 1, index, level =>
    { level := level, hold := durations index } ::
      OOKSenderTransmitFrame durations count (index + 1) (if level = 0 then 1 else 0)

/-- The writes of `count` consecutive passes of the outer loop of
`OOKSenderTransmit`; each pass starts again from
`level = firstValueHigh ? 1 : 0`. -/
def OOKSenderTransmitPasses (durations : Nat → Nat) (length : Nat) ( firstValueHigh : Bool) :
    Nat → List GPIOWrite
  | 0 => []
  | count + 1 =>
    OOKSenderTransmitFrame durations length 0 (if firstValueHigh then 1 else 0) ++
      OOKSenderTransmitPasses durations length firstValueHigh count

/-- The outer loop `for (repeatIndex = 0; repeatIndex <= repeats; repeatIndex++)`
of `OOKSenderTransmit` from `repeatIndex` on (both `uint32_t`). The first
argument bounds the number of guard tests; `none` means that the loop has not
ended within that bound. -/
def OOKSenderTransmitLoop (durations : Nat → Nat) (length : Nat) ( firstValueHigh : Bool)
    (repeats : Nat) : Nat → Nat → Option (List GPIOWrite)
  | 0, _ => none
  | fuel + 1, repeatIndex =>
    if repeatIndex ≤ repeats % 2 ^ 32 then
      (OOKSenderTransmitLoop durations length firstValueHigh repeats fuel
          (add32 repeatIndex 1)).map
        (fun rest =>
          OOKSenderTransmitFrame durations length 0 (if firstValueHigh then 1 else 0) ++ rest)
    else some []

/-- Source function `OOKSenderTransmit`: the sequence of pin writes of a call
that returns within `fuel` guard tests of the outer loop (`none` otherwise).
With the pin still `0xFF` nothing is written (with assertions compiled in, the
process aborts there). The closing write turns the transmitter off. -/
def OOKSenderTransmit (sender : OOKSender) (durations : Nat → Nat) (length : Nat)
    ( firstValueHigh : Bool) (repeats fuel : Nat) : Option (List GPIOWrite) :=
  if OOKSender.GPIO sender = 0xFF then some []
  else
    (OOKSenderTransmitLoop durations length firstValueHigh repeats fuel 0).map
      (fun writes => writes ++ [{ level := 0, hold := 0 }])

/-- The call of `OOKSenderTransmit` that ends `OOKSenderSendCOCO`: 15 repeats,
for which 17 guard tests of the outer loop suffice. -/
def OOKSenderSendCOCOTransmit (sender : OOKSender) (message : COCOMessage) : List GPIOWrite :=
  (OOKSenderTransmit sender (OOKSenderSendCOCOArray message) kCOCOTotalNumberOfPulses true 15
    17).getD []

/-- The call of `OOKSenderTransmit` that ends `OOKSenderSendKFS`: 6 repeats,
for which 8 guard tests of the outer loop suffice. -/
def OOKSenderSendKFSTransmit (sender : OOKSender) (message : KFSMessage) : List GPIOWrite :=
  (OOKSenderTransmit sender (OOKSenderSendKFSArray message) kKFSTotalNumberOfPulses true 6
    8).getD []

/-- The edge timestamps (`uint32_t` microsecond ticks) a listener on the line
sees when the writes happen with exact timing: the line is at `level`, the
first write happens at `time`, every write that changes the level is an edge,
and the next write follows after the hold time. -/
def gpioEdges : Nat → Nat → List GPIOWrite → List Nat
  | _, _, [] => []
  | level, time, write :: rest =>
    (if write.level = level then [] else [time % 2 ^ 32]) ++
      gpioEdges write.level (time + write.hold) rest

/-- The durations of the concrete COCO scenario: 260, 2600, then 32 times
260, 260, 260, 1040, then 260, 10400. -/
def COCOScenarioDurations : List Nat :=
  [260, 2600] ++ (List.replicate 32 [260, 260, 260, 1040]).flatten ++ [260, 10400]

/-- A garbled COCO frame for the receiver's windows: 132 `uint32_t` durations
with the sync pulses of a valid frame (the first and the 131st no sync, the
second a start-sync, the last an end-sync, none of the 128 in between a sync),
in which at least one of the 32 groups of four matches neither the '0' nor the
'1' pattern. -/
def COCOGarbledFrame (receiver : COCOReceiver) (frame : List Nat) : Bool :=
  decide (frame.length = 132) &&
  frame.all (fun duration => decide (duration < 2 ^ 32)) &&
  !COCOInStartSync receiver (frame.getD 0 0) && !COCOInEndSync receiver (frame.getD 0 0) &&
  COCOInStartSync receiver (frame.getD 1 0) && !COCOInEndSync receiver (frame.getD 1 0) &&
  (List.range 129).all (fun j =>
    !COCOInStartSync receiver (frame.getD (j + 2) 0) &&
    !COCOInEndSync receiver (frame.getD (j + 2) 0)) &&
  COCOInEndSync receiver (frame.getD 131 0) && !COCOInStartSync receiver (frame.getD 131 0) &&
  (List.range 32).any (fun k =>
    (COCOGroupBit receiver (fun j => frame.getD (j + 1) 0) k).isNone)

/-- The message of address 1 with group, onOff and channel all off (code 64),
used in concrete runs. -/
def COCOExampleMessage : COCOMessage :=
  { timestamp := 0, fullMessageCode := 0, address := 1, group := false, onOff := false,
    channel := 0 }

/-- The frame of `COCOExampleMessage` with the long pulse of its first group
(1040 at index 5) replaced by 500, which is neither a unit nor a long pulse. -/
def COCOExampleGarbled : List Nat :=
  (OOKSenderSendCOCO COCOExampleMessage).set 5 500

/-- The frame of the all-zero message (`COCOScenarioDurations`) with the long
pulse of its first group (1040 at index 5) replaced by 500. -/
def COCOZeroGarbled : List Nat := COCOScenarioDurations.set 5 500

/-- The `uint32_t` timestamps of writes that start at `time` and are held for
the given times. -/
def writeTimes (time : Nat) : List Nat → List Nat
  | [] => []
  | hold :: rest => time % 2 ^ 32 :: writeTimes (time + hold) rest

/-- A KFS receiver with the default windows, a handler, repeatCount 2 and
refractoryPeriod 0 that has just stored a sync (one duration buffered) at the
timestamp `last`, with the given repeat state. -/
def KFSListening (receiver : KFSReceiver) (last repeats previousIdentifier previousBitSize
    previousHit : Nat) : Prop :=
  KFSDefaultWindows receiver ∧ receiver.durationsIndex = 1 ∧ receiver.lastTimestamp = last ∧
  receiver.callback = true ∧ receiver.repeatCount = 2 ∧ receiver.refractoryPeriod = 0 ∧
  receiver.repeats = repeats ∧ receiver.previousMessageIdentifier = previousIdentifier ∧
  receiver.previousIdentifierBitSize = previousBitSize ∧
  receiver.timestampPreviousHit = previousHit

/-- The edges of two complete KFS transmissions of the same identifier from pin
17 on a line that is low before each: the first write of the first at
timestamp `first`, of the second at `second`. -/
def KFSTwoTransmissions (identifier first second : Nat) : List Nat :=
  gpioEdges 0 first
      (OOKSenderSendKFSTransmit ( OOKSenderSetTransmitGPIO OOKSenderCreate 17)
        { identifier := identifier, identifierBitSize := 0, timestamp := 0 }) ++
    gpioEdges 0 second
      (OOKSenderSendKFSTransmit ( OOKSenderSetTransmitGPIO OOKSenderCreate 17)
        { identifier := identifier, identifierBitSize := 0, timestamp := 0 })

/-- The fields of a KFS receiver that its repeat and refractory filter reads or
writes. -/
structure KFSFilter where
  repeats : Nat
  previousMessageIdentifier : Nat
  previousIdentifierBitSize : Nat
  timestampPreviousHit : Nat
  repeatCount : Nat
  refractoryPeriod : Nat
  callback : Bool
  deriving DecidableEq

/-- The filter fields of a receiver. -/
def KFSFilterOf (receiver : KFSReceiver) : KFSFilter :=
  { repeats := receiver.repeats
    previousMessageIdentifier := receiver.previousMessageIdentifier
    previousIdentifierBitSize := receiver.previousIdentifierBitSize
    timestampPreviousHit := receiver.timestampPreviousHit
    repeatCount := receiver.repeatCount
    refractoryPeriod := receiver.refractoryPeriod
    callback := receiver.callback }

/-- What `KFSAccept` does, seen on the filter fields alone (`KFSAccept_filter`
proves the agreement). -/
def KFSFilterAccept (filter : KFSFilter) (message : KFSMessage) :
    KFSFilter × Option KFSMessage :=
  if message.identifier ≠ 0 ∧
      message.identifier = filter.previousMessageIdentifier ∧
      message.identifierBitSize = filter.previousIdentifierBitSize then
    if add32 filter.repeats 1 = filter.repeatCount then
      if sub32 message.timestamp filter.timestampPreviousHit >
          mul32 filter.refractoryPeriod 1000000 then
        ({ filter with
            timestampPreviousHit := message.timestamp
            repeats := 0
            previousMessageIdentifier := message.identifier
            previousIdentifierBitSize := message.identifierBitSize },
          if filter.callback then some message else none)
      else
        ({ filter with
            repeats := add32 filter.repeats 1
            previousMessageIdentifier := message.identifier
            previousIdentifierBitSize := message.identifierBitSize }, none)
    else
      ({ filter with
          repeats := add32 filter.repeats 1
          previousMessageIdentifier := message.identifier
          previousIdentifierBitSize := message.identifierBitSize }, none)
  else
    ({ filter with
        repeats := 0
        previousMessageIdentifier := message.identifier
        previousIdentifierBitSize := message.identifierBitSize }, none)

/-- The filter applied to a sequence of decoded messages; the list collects the
handler calls. -/
def KFSFilterRun (filter : KFSFilter) : List KFSMessage → KFSFilter × List KFSMessage
  | [] => (filter, [])
  | message :: rest =>
    ((KFSFilterRun (KFSFilterAccept filter message).1 rest).1,
      (KFSFilterAccept filter message).2.toList ++
        (KFSFilterRun (KFSFilterAccept filter message).1 rest).2)

/-- The messages that `count` consecutive cycles of 44800 microseconds decode
to, the first cycle starting at `last`: the identifier with 24 bits, stamped
with the closing sync edge of each cycle. -/
def KFSCycleMessages (identifier : Nat) : Nat → Nat → List KFSMessage
  | _, 0 => []
  | last, count + 1 =>
    { identifier := identifier, identifierBitSize := 24, timestamp := last + 44800 } ::
      KFSCycleMessages identifier (last + 44800) count

/-- A KFS receiver with the default windows that has just stored a sync (one
duration buffered) at the timestamp `last`. -/
def KFSSynced (receiver : KFSReceiver) (last : Nat) : Prop :=
  KFSDefaultWindows receiver ∧ receiver.durationsIndex = 1 ∧ receiver.lastTimestamp = last

/-- The 48 bit durations of the KFS frame of an identifier (the frame without
its opening pulse and sync). -/
def KFSFrameBits (identifier : Nat) : List Nat :=
  (OOKSenderSendKFS { identifier := identifier, identifierBitSize := 0, timestamp := 0 }).drop 2

/-- The edge-to-edge durations a receiver that saw no edge before measures over
two complete KFS transmissions of one identifier, the first write of the first
at `first`, the second transmission following its last edge after `gap`: the
first edge, opening pulse and sync; six cycles; the cut-off seventh frame (47
bit durations), the gap, opening pulse and sync of the second transmission; six
cycles; the cut-off last frame. -/
def KFSTwoTransmissionsDurations (identifier first gap : Nat) : List Nat :=
  [first, 350, 10850] ++
    (repeatFrame 6 (KFSFrameBits identifier ++ [350, 10850]) ++
      (((KFSFrameBits identifier).dropLast ++ [gap, 350]) ++ [10850] ++
        (repeatFrame 6 (KFSFrameBits identifier ++ [350, 10850]) ++
          (KFSFrameBits identifier).dropLast)))

/-- The time a call of `OOKSenderTransmit` spends busy-waiting over its writes:
the sum of the hold times, in microseconds. -/
def transmitHoldTime (writes : List GPIOWrite) : Nat :=
  (writes.map GPIOWrite.hold).sum

/-! ## Reference decoders, following the specification -/

/-- Specification side of the COCO analysis: a unit pulse within tolerance, a
duration strictly inside the unit window. -/
def COCOSpecUnit (receiver : COCOReceiver) (duration : Nat) : Bool :=
  decide (receiver.singlePulseMinDuration < duration) &&
  decide (duration < receiver.singlePulseMaxDuration)

/-- Specification side of the COCO analysis: a long pulse (4 units) within
tolerance, a duration strictly inside four times the unit window. -/
def COCOSpecLong (receiver : COCOReceiver) (duration : Nat) : Bool :=
  decide (4 * receiver.singlePulseMinDuration < duration) &&
  decide (duration < 4 * receiver.singlePulseMaxDuration)

/-- Specification side of the COCO analysis: group `k`, the durations
`4k+1 .. 4k+4`, matches pattern '0' (unit, unit, unit, 4*unit). -/
def COCOSpecMatchesZero (receiver : COCOReceiver) (durations : Nat → Nat) (k : Nat) : Bool :=
  COCOSpecUnit receiver (durations (4 * k + 1)) &&
  COCOSpecUnit receiver (durations (4 * k + 2)) &&
  COCOSpecUnit receiver (durations (4 * k + 3)) &&
  COCOSpecLong receiver (durations (4 * k + 4))

/-- Specification side of the COCO analysis: group `k` matches pattern '1'
(unit, 4*unit, unit, unit). -/
def COCOSpecMatchesOne (receiver : COCOReceiver) (durations : Nat → Nat) (k : Nat) : Bool :=
  COCOSpecUnit receiver (durations (4 * k + 1)) &&
  COCOSpecLong receiver (durations (4 * k + 2)) &&
  COCOSpecUnit receiver (durations (4 * k + 3)) &&
  COCOSpecUnit receiver (durations (4 * k + 4))

/-- Specification side of the COCO analysis: the bit of group `k`, 0 for
pattern '0' and 1 otherwise (for a valid group: pattern '1'). -/
def COCOSpecBit (receiver : COCOReceiver) (durations : Nat → Nat) (k : Nat) : Nat :=
  if COCOSpecMatchesZero receiver durations k then 0 else 1

/-- Specification side of the COCO analysis: the code
`sum over k of bit_k * 2^(31-k)` of the 32 groups. -/
def COCOSpecCode (receiver : COCOReceiver) (durations : Nat → Nat) : Nat :=
  ((List.range 32).map (fun k => COCOSpecBit receiver durations k * 2 ^ (31 - k))).sum

/-- Specification side of the COCO analysis: the code when each of the 32
groups matches one of the two patterns, nothing otherwise. -/
def COCOSpecDecode (receiver : COCOReceiver) (durations : Nat → Nat) : Option Nat :=
  if (List.range 32).all
      (fun k => COCOSpecMatchesZero receiver durations k ||
        COCOSpecMatchesOne receiver durations k) then
    some (COCOSpecCode receiver durations)
  else none

/-- A default receiver whose buffer holds, at index 130, a frame with the
groups alternating between pattern '1' (even k: 260, 1040, 260, 260) and
pattern '0' (odd k: 260, 260, 260, 1040): start-sync 2600 in slot 0, 260 in
slot 129 and the end-sync 10400 in slot 130. -/
def COCOAlternatingReceiver : COCOReceiver :=
  { COCOReceiverCreate
      (fun j =>
        if j = 0 then 2600 else if j = 130 then 10400 else if j = 129 then 260
        else if (j - 1) / 4 % 2 = 0 then (if (j - 1) % 4 = 1 then 1040 else 260)
        else (if (j - 1) % 4 = 3 then 1040 else 260))
      true with durationsIndex := 130 }

/-- Specification side of the KFS analysis: a short pulse (1 unit) within
tolerance, a duration strictly inside the unit window. -/
def KFSSpecShort (receiver : KFSReceiver) (duration : Nat) : Bool :=
  decide (receiver.singlePulseMinDuration < duration) &&
  decide (duration < receiver.singlePulseMaxDuration)

/-- Specification side of the KFS analysis: a long pulse (3 units) within
tolerance, a duration strictly inside three times the unit window. -/
def KFSSpecLong (receiver : KFSReceiver) (duration : Nat) : Bool :=
  decide (3 * receiver.singlePulseMinDuration < duration) &&
  decide (duration < 3 * receiver.singlePulseMaxDuration)

/-- Specification side of the KFS analysis: the bit of a pair, 0 for
(short, long), 1 for (long, short), none when the pair matches neither. -/
def KFSSpecPairBit (receiver : KFSReceiver) (pair : Nat × Nat) : Option Bool :=
  if KFSSpecShort receiver pair.1 && KFSSpecLong receiver pair.2 then some false
  else if KFSSpecLong receiver pair.1 && KFSSpecShort receiver pair.2 then some true
  else none

/-- The pairs the loop of `arePulsesValidCode` tests, from pair `first` on:
`(durations[2k + 1], durations[2k + 2])` for every `k` whose first slot
`2k + 1` lies below the buffer index (the guard `i < durationsIndex`). For an
even index the last of them ends in the slot at the index. -/
def KFSLoopPairsFrom (receiver : KFSReceiver) (first : Nat) : List (Nat × Nat) :=
  (List.range' first (receiver.durationsIndex / 2 - first)).map
    (fun k => (receiver.durations (2 * k + 1), receiver.durations (2 * k + 2)))

/-- Specification side of the KFS analysis: the pairs
`(durations[1], durations[2]), (durations[3], durations[4]), ...` below the
buffer index, from pair `first` on: both durations of a pair lie below the
index. -/
def KFSSpecPairsFrom (receiver : KFSReceiver) (first : Nat) : List (Nat × Nat) :=
  (List.range' first ((receiver.durationsIndex - 1) / 2 - first)).map
    (fun k => (receiver.durations (2 * k + 1), receiver.durations (2 * k + 2)))

/-- Specification side of the KFS analysis: the bits of the longest prefix of
pairs that each match one of the two patterns. -/
def KFSSpecPrefix (receiver : KFSReceiver) : List (Nat × Nat) → List Bool
  | [] => []
  | pair :: rest =>
    match KFSSpecPairBit receiver pair with
    | none => []
    | some bit => bit :: KFSSpecPrefix receiver rest

/-- Specification side of the KFS analysis: append a bit to a code, most
significant bit first. -/
def KFSSpecAppend (code : Nat) (bit : Bool) : Nat :=
  2 * code + (if bit then 1 else 0)

/-- Specification side of the KFS analysis: the bits decoded, the longest valid
prefix of the pairs capped at 24 pairs. -/
def KFSSpecBits (receiver : KFSReceiver) : List Bool :=
  (KFSSpecPrefix receiver (KFSSpecPairsFrom receiver 0)).take 24

/-- Specification side of the KFS analysis: the message of the decoded bits,
reported when the code is not zero and has more than 4 bits. -/
def KFSSpecDecode (receiver : KFSReceiver) (timestamp : Nat) : Option KFSMessage :=
  if 0 ≠ (KFSSpecBits receiver).foldl KFSSpecAppend 0 ∧ (KFSSpecBits receiver).length > 4 then
    some
      { identifier := (KFSSpecBits receiver).foldl KFSSpecAppend 0
        identifierBitSize := (KFSSpecBits receiver).length
        timestamp := timestamp }
  else none

/-- A short KFS frame of five bits: the pairs for 1, 0, 1, 1, 0 followed by the
opening pulse of the next frame. -/
def KFSFiveBitFrame : List Nat :=
  [1050, 350, 350, 1050, 1050, 350, 1050, 350, 350, 1050, 350]

/-- A short KFS frame of four bits: the pairs for 1, 0, 1, 1 followed by the
opening pulse of the next frame. -/
def KFSFourBitFrame : List Nat :=
  [1050, 350, 350, 1050, 1050, 350, 1050, 350, 350]

/-- A fresh default KFS receiver (zeroed buffer) that saw a first edge at 1000,
an opening pulse and a sync, the five-bit frame, a sync and the four-bit
frame. -/
def KFSStaleReceiver : KFSReceiver :=
  (KFSFeedDurations (KFSReceiverCreate (fun _ => 0) true)
    ([1000, 350, 10850] ++ KFSFiveBitFrame ++ [10850] ++ KFSFourBitFrame)).1

/-- A fresh default KFS receiver (zeroed buffer) that saw a first edge at 1000,
an opening pulse and a sync, and the four-bit frame. -/
def KFSCleanReceiver : KFSReceiver :=
  (KFSFeedDurations (KFSReceiverCreate (fun _ => 0) true)
    ([1000, 350, 10850] ++ KFSFourBitFrame)).1

/-- A fresh default KFS receiver (zeroed buffer) that saw a first edge at 1000,
an opening pulse and a sync, and the five-bit frame. -/
def KFSFiveBitReceiver : KFSReceiver :=
  (KFSFeedDurations (KFSReceiverCreate (fun _ => 0) true)
    ([1000, 350, 10850] ++ KFSFiveBitFrame)).1

/-- The durations a COCO receiver measures when its first edge, at tick 100, is
the end of a start-sync low it did not see begin: the first edge itself (100
ticks after 0), the 32 groups 260, 260, 260, 1040 of the all-zero code and the
high pulse 260 before the end-sync. -/
def COCOHeadlessDurations : List Nat :=
  100 :: ((List.replicate 32 [260, 260, 260, 1040]).flatten ++ [260])

/-- A freshly created default COCO receiver fed the edges of
`COCOHeadlessDurations`. -/
def COCOHeadlessReceiver : COCOReceiver :=
  (COCOFeedDurations (COCOReceiverCreate (fun _ => 0) true) COCOHeadlessDurations).1

/-- The durations of the late-repeat scenario up to the third frame: the first
edge at tick 1000, then two consecutive nominal frames of the message with
address 1. -/
def COCOLateRepeatOpening : List Nat :=
  1000 :: (OOKSenderSendCOCO COCOExampleMessage ++ OOKSenderSendCOCO COCOExampleMessage)

/-- The third frame of the late-repeat scenario: the nominal frame of the same
message, its first high pulse lasting 1,000,260 instead of 260 microseconds. -/
def COCOLateRepeatFrame : List Nat :=
  1000260 :: (OOKSenderSendCOCO COCOExampleMessage).tail

/-- The receiver of the late-repeat scenario: freshly created with a handler,
repeatCount 1 (the default) and refractoryPeriod 1 second. -/
def COCOLateRepeatReceiver : COCOReceiver :=
  COCOReceiverSetRefractoryPeriod (COCOReceiverCreate (fun _ => 0) true) 1

/-! ## Buffer slots read by the two analyses -/

/-- The buffer slots the loop of `arePulsesValidCode` reads, from `i` on, with
the control flow of `arePulsesValidCodeLoop`: a pass tests `durations[i]` and,
unless the tests of `durations[i]` already fail, `durations[i + 1]`; both are
listed. -/
def arePulsesValidCodeLoopReads (receiver : KFSReceiver) : Nat → Nat → Nat → Nat → List Nat
  | 0, _, _, _ => []
  | fuel + 1, i, code, codeLength =>
    if i < receiver.durationsIndex then
      i :: (i + 1) ::
        (if KFSIsZero receiver i then
          let code := shl32 code 1
          let codeLength := (codeLength + 1) % 2 ^ 8
          if codeLength = 24 then []
          else arePulsesValidCodeLoopReads receiver fuel (i + 2) code codeLength
        else if KFSIsOne receiver i then
          let code := shl32 code 1 ||| 1
          let codeLength := (codeLength + 1) % 2 ^ 8
          if codeLength = 24 then []
          else arePulsesValidCodeLoopReads receiver fuel (i + 2) code codeLength
        else [])
    else []

/-- The buffer slots a call of `arePulsesValidCode` reads: those of the loop
and, when the call succeeds while a pulse recorder is attached (`recorder`),
the slots `0 .. codeLength - 1` that `PulseRecorderAddPulses` prints
(lines 190-198). -/
def arePulsesValidCodeReads (receiver : KFSReceiver) (recorder : Bool) : List Nat :=
  let result := arePulsesValidCodeLoop receiver receiver.durationsIndex 1 0 0
  arePulsesValidCodeLoopReads receiver receiver.durationsIndex 1 0 0 ++
    (if (0 ≠ result.1 ∧ result.2 > 4) ∧ recorder = true then List.range result.2 else [])

/-- The buffer slots the loop of `analyzeDurations` reads, from `index` on,
with the control flow of `analyzeLoop`: pass `index` reads `durations[index]`
(pass 0 only for its `DebugLog`). -/
def analyzeLoopReads (receiver : COCOReceiver) : Nat → Nat → COCOAnalysis → List Nat
  | 0, _, _ => []
  | fuel + 1, index, state =>
    if index ≤ receiver.durationsIndex then
      index ::
        (if 0 = index then
          analyzeLoopReads receiver fuel (index + 1) state
        else if index = COCOMessagePulseCount - 1 ∧
            receiver.durations index > receiver.endSyncLowMinDuration ∧
            receiver.durations index < receiver.endSyncLowMaxDuration then
          []
        else
          let bitIndex := sub32 index 1 % COCOPulsesPerBit
          let bitValues := setSlot state.bitValues bitIndex (receiver.durations index)
          if bitIndex = COCOPulsesPerBit - 1 then
            if COCOIsZero receiver bitValues then
              analyzeLoopReads receiver fuel (index + 1)
                { code := shl32 state.code 1
                  codeLength := add32 state.codeLength 1
                  bitValues := bitValues }
            else if COCOIsOne receiver bitValues then
              analyzeLoopReads receiver fuel (index + 1)
                { code := shl32 state.code 1 ||| 1
                  codeLength := add32 state.codeLength 1
                  bitValues := bitValues }
            else []
          else
            analyzeLoopReads receiver fuel (index + 1) { state with bitValues := bitValues })
    else []

/-- The buffer slots a call of `analyzeDurations` reads: none when it returns
at its first test; otherwise slot 0 and the slot at the index for the estimated
pulse duration (line 185), the slots the loop reads and, when the loop
completes while a pulse recorder is attached (`recorder`), the slots
`0 .. durationsIndex` that `PulseRecorderAddPulses` prints (line 282). -/
def analyzeDurationsReads (receiver : COCOReceiver) (recorder : Bool) : List Nat :=
  if receiver.durationsIndex < COCOMessagePulseCount - 1 then []
  else
    0 :: receiver.durationsIndex ::
      (analyzeLoopReads receiver (receiver.durationsIndex + 1) 0
          { code := 0, codeLength := 0, bitValues := fun _ => 0 } ++
        (if (analyzeLoop receiver (receiver.durationsIndex + 1) 0
              { code := 0, codeLength := 0, bitValues := fun _ => 0 }).isSome = true ∧
            recorder = true then
          List.range (receiver.durationsIndex + 1)
        else []))

/-! ## The receivers with any handler

When a receiver calls the handler, the message belongs to the handler
(`ownership is handed over to the callback`); `COCOReceiver.h` and
`KeyFobSwitchReceiver.h` make the handler responsible for releasing it, and
the handlers of `LPD433.c` release it before they return. Both receivers read
the message once more after the call. The definitions of this section take the
values those reads return as a parameter; `COCOAccept` and `KFSAccept` above
are the case of a handler that leaves the message in place. -/

/-- The repeat and refractory filter of `COCOReceiverFeedGPIOValueChangeTime`
(lines 363-404) for any handler: `after` is the `uint32_t` that the read of
`message->fullMessageCode` in line 404 returns when the handler was called
before it. When the handler was not called the message is intact. -/
def COCOAcceptWith (receiver : COCOReceiver) (message : COCOMessage) (after : Nat) :
    COCOReceiver × Option COCOMessage :=
  if message.fullMessageCode = receiver.previousMessageCode then
    let receiver := { receiver with repeats := add32 receiver.repeats 1 }
    if receiver.repeats ≥ receiver.repeatCount then
      if sub32 message.timestamp receiver.timestampPreviousHit >
          mul32 receiver.refractoryPeriod 1000000 then
        ({ receiver with
            timestampPreviousHit := message.timestamp
            repeats := 0
            previousMessageCode :=
              if receiver.callback then after % 2 ^ 32 else message.fullMessageCode },
          if receiver.callback then some message else none)
      else ({ receiver with previousMessageCode := message.fullMessageCode }, none)
    else ({ receiver with previousMessageCode := message.fullMessageCode }, none)
  else ({ receiver with repeats := 0, previousMessageCode := message.fullMessageCode }, none)

/-- The second `if` of `COCOReceiverFeedGPIOValueChangeTime` for any handler. -/
def COCOEndSyncWith (receiver : COCOReceiver) (duration after : Nat) :
    COCOReceiver × Option COCOMessage :=
  if duration > receiver.endSyncLowMinDuration ∧ duration < receiver.endSyncLowMaxDuration then
    let receiver :=
      { receiver with durations := setSlot receiver.durations receiver.durationsIndex duration }
    match analyzeDurations receiver receiver.startTime with
    | some message => COCOAcceptWith receiver message after
    | none => ({ receiver with previousMessageCode := 0 }, none)
  else (receiver, none)

/-- Source function `COCOReceiverFeedGPIOValueChangeTime` for any handler: the
new receiver state and the message handed to the handler, if it is called;
`after` is the value read from the message after that call. -/
def COCOReceiverFeedGPIOValueChangeTimeWith (receiver : COCOReceiver) (timestamp after : Nat) :
    COCOReceiver × Option COCOMessage :=
  let duration := sub32 timestamp receiver.lastTimestamp
  let receiver := COCOStartSync receiver timestamp duration
  let result := COCOEndSyncWith receiver duration after
  (COCOStore result.1 timestamp duration, result.2)

/-- Feed a sequence of edge timestamps to a receiver with any handler:
`after k` is the value read from the message after the handler call made for
edge `k` of the sequence, if one is made. -/
def COCOReceiverFeedAllWith (receiver : COCOReceiver) (after : Nat → Nat) :
    List Nat → COCOReceiver × List COCOMessage
  | [] => (receiver, [])
  | timestamp :: rest =>
    let step := COCOReceiverFeedGPIOValueChangeTimeWith receiver timestamp (after 0)
    let tail := COCOReceiverFeedAllWith step.1 (fun k => after (k + 1)) rest
    (tail.1, step.2.toList ++ tail.2)

/-- Feed a receiver with any handler the edges that follow its last edge at the
given successive durations. -/
def COCOFeedDurationsWith (receiver : COCOReceiver) (after : Nat → Nat)
    (durations : List Nat) : COCOReceiver × List COCOMessage :=
  COCOReceiverFeedAllWith receiver after (edgeTimestamps receiver.lastTimestamp durations)

/-- Source function `arePulsesValidCode` (lines 149-204) on a receiver for which
`KFSSetRecordReceivedTransmissions` was never called. `KFSReceiverCreate` does
not initialise `receiver->pulseRecorder` (the COCO constructor sets its field
to `NULL`), so the field holds the pointer value `pulseRecorder` that `malloc`
left there, 0 for `NULL`. When the decoding succeeds and the value is not
`NULL`, lines 190-198 pass it to `PulseRecorderAddSequenceDescription` and
`PulseRecorderAddPulses`, which dereference it although it refers to no
recorder: the call yields no result (`none`). Otherwise the result is that of
`arePulsesValidCode`. -/
def arePulsesValidCodeWith (pulseRecorder : Nat) (receiver : KFSReceiver) (timestamp : Nat) :
    Option (Option KFSMessage) :=
  match arePulsesValidCode receiver timestamp with
  | some message => if pulseRecorder ≠ 0 then none else some (some message)
  | none => some none

/-- The part of `KFSReceiverFeedGPIOValueChangeTime` that follows a successful
`arePulsesValidCode` (lines 268-302) for any handler: `after` holds the two
`uint32_t` values that the reads of `message->identifier` and
`message->identifierBitSize` in lines 301-302 return when the handler was
called before them. When the handler was not called the message is intact. -/
def KFSAcceptWith (receiver : KFSReceiver) (message : KFSMessage) (after : Nat × Nat) :
    KFSReceiver × Option KFSMessage :=
  if message.identifier ≠ 0 ∧
      message.identifier = receiver.previousMessageIdentifier ∧
      message.identifierBitSize = receiver.previousIdentifierBitSize then
    let receiver := { receiver with repeats := add32 receiver.repeats 1 }
    if receiver.repeats = receiver.repeatCount then
      if sub32 message.timestamp receiver.timestampPreviousHit >
          mul32 receiver.refractoryPeriod 1000000 then
        ({ receiver with
            timestampPreviousHit := message.timestamp
            repeats := 0
            previousMessageIdentifier :=
              if receiver.callback then after.1 % 2 ^ 32 else message.identifier
            previousIdentifierBitSize :=
              if receiver.callback then after.2 % 2 ^ 32 else message.identifierBitSize },
          if receiver.callback then some message else none)
      else
        ({ receiver with
            previousMessageIdentifier := message.identifier
            previousIdentifierBitSize := message.identifierBitSize }, none)
    else
      ({ receiver with
          previousMessageIdentifier := message.identifier
          previousIdentifierBitSize := message.identifierBitSize }, none)
  else
    ({ receiver with
        repeats := 0
        previousMessageIdentifier := message.identifier
        previousIdentifierBitSize := message.identifierBitSize }, none)

/-- The start-sync branch of `KFSReceiverFeedGPIOValueChangeTime` (lines 250-311)
with the uninitialised recorder field and any handler; `none` when the call of
`arePulsesValidCode` yields no result. -/
def KFSStartSyncWith (pulseRecorder : Nat) (receiver : KFSReceiver)
    (timestamp duration : Nat) (after : Nat × Nat) :
    Option (KFSReceiver × Option KFSMessage) :=
  if duration > receiver.startSyncLowMinDuration ∧
      duration < receiver.startSyncLowMaxDuration then
    let receiver := { receiver with startTime := timestamp }
    if receiver.durationsIndex ≥ KFSMessageMinPulseCount then
      match arePulsesValidCodeWith pulseRecorder receiver receiver.startTime with
      | none => none
      | some (some message) =>
        some ({ (KFSAcceptWith receiver message after).1 with durationsIndex := 0 },
          (KFSAcceptWith receiver message after).2)
      | some none => some ({ receiver with durationsIndex := 0 }, none)
    else some ({ receiver with durationsIndex := 0 }, none)
  else some (receiver, none)

/-- Source function `KFSReceiverFeedGPIOValueChangeTime` with the uninitialised
recorder field and any handler: the new receiver state and the message handed
to the handler, if it is called; `none` when the call does not return because
the value left in `pulseRecorder` is dereferenced. -/
def KFSReceiverFeedGPIOValueChangeTimeWith (pulseRecorder : Nat) (receiver : KFSReceiver)
    (timestamp : Nat) (after : Nat × Nat) : Option (KFSReceiver × Option KFSMessage) :=
  let duration := sub32 timestamp receiver.lastTimestamp
  if 0 = receiver.lastTimestamp then
    some ({ receiver with lastTimestamp := timestamp }, none)
  else
    (KFSStartSyncWith pulseRecorder receiver timestamp duration after).map
      (fun result => (KFSStore result.1 timestamp duration, result.2))

/-- Feed a sequence of edge timestamps: the final receiver state, `none` when a
call did not return, and the handler calls made, in order. `after k` holds the
values read from the message after the handler call made for edge `k`. -/
def KFSReceiverFeedAllWith (pulseRecorder : Nat) (receiver : KFSReceiver)
    (after : Nat → Nat × Nat) : List Nat → Option KFSReceiver × List KFSMessage
  | [] => (some receiver, [])
  | timestamp :: rest =>
    match KFSReceiverFeedGPIOValueChangeTimeWith pulseRecorder receiver timestamp (after 0) with
    | none => (none, [])
    | some step =>
      ((KFSReceiverFeedAllWith pulseRecorder step.1 (fun k => after (k + 1)) rest).1,
        step.2.toList ++
          (KFSReceiverFeedAllWith pulseRecorder step.1 (fun k => after (k + 1)) rest).2)

/-! ## Theorems -/

theorem sub32_of_le {a b : Nat} (hb : b ≤ a) (ha : a < 2 ^ 32) : sub32 a b = a - b := by
  unfold sub32
  norm_num at ha ⊢
  omega

theorem sub32_add32_self (start d : Nat) : sub32 (add32 start d) start = d % 2 ^ 32 := by
  unfold sub32 add32
  norm_num
  omega

theorem setSlot_apply (a : Nat → Nat) (i v j : Nat) :
    setSlot a i v j = if j = i then v else a j := rfl

theorem COCOSendBody_eq (c k : Nat) (d : Nat → Nat) (hk : k < 32) :
    COCOSendBody c (2 + 4 * k) d =
      setSlot (setSlot (setSlot (setSlot d (2 + 4 * k) 260)
        (2 + 4 * k + 1) (if c.testBit (31 - k) then 1040 else 260))
        (2 + 4 * k + 2) 260)
        (2 + 4 * k + 3) (if c.testBit (31 - k) then 260 else 1040) := by
  have h1 : sub32 (2 + 4 * k) 2 = 4 * k := by
    unfold sub32; norm_num; omega
  have h2 : sub32 31 (4 * k / 4) = 31 - k := by
    unfold sub32; norm_num; omega
  have h3 : (31 - k) % 2 ^ 8 = 31 - k := Nat.mod_eq_of_lt (by norm_num; omega)
  have h4 : ((c >>> (31 - k)) &&& 1) % 2 ^ 8 = if c.testBit (31 - k) then 1 else 0 := by
    rw [Nat.and_one_is_mod, Nat.testBit_to_div_mod, Nat.shiftRight_eq_div_pow]
    have := Nat.mod_two_eq_zero_or_one (c / 2 ^ (31 - k))
    rcases this with h | h <;> simp [h]
  unfold COCOSendBody
  simp only [h1, h2, h3, h4, kCOCOSinglePulseLength]
  cases c.testBit (31 - k) <;> simp


theorem COCOSendLoop_apply (c : Nat) :
    ∀ (fuel k : Nat) (d : Nat → Nat) (j : Nat), k ≤ 32 → 32 - k ≤ fuel →
      COCOSendLoop c fuel (2 + 4 * k) d j =
        if 2 + 4 * k ≤ j ∧ j < 130 then COCOPulseAt c j else d j := by
  intro fuel
  induction fuel with
  | zero =>
    intro k d j hk hf
    have : k = 32 := by omega
    subst this
    simp only [COCOSendLoop]
    rw [if_neg (by omega)]
  | succ fuel ih =>
    intro k d j hk hf
    unfold COCOSendLoop
    by_cases hlt : k < 32
    · rw [if_pos (by simp only [kCOCOTotalNumberOfPulses]; omega)]
      have e : 2 + 4 * k + 4 = 2 + 4 * (k + 1) := by ring
      rw [e, ih (k + 1) _ j (by omega) (by omega), COCOSendBody_eq c k d hlt]
      simp only [setSlot_apply, COCOPulseAt]
      have hdiv : 2 + 4 * k ≤ j → j < 2 + 4 * (k + 1) → (j - 2) / 4 = k := by omega
      have hcase : j < 2 + 4 * k ∨ 2 + 4 * (k + 1) ≤ j ∨ j = 2 + 4 * k ∨ j = 2 + 4 * k + 1 ∨
          j = 2 + 4 * k + 2 ∨ j = 2 + 4 * k + 3 := by omega
      rcases hcase with h | h | h | h | h | h
      · simp (disch := omega) only [if_pos, if_neg]
      · by_cases h130 : j < 130
        · simp (disch := omega) only [if_pos, if_neg]
        · simp (disch := omega) only [if_pos, if_neg]
      all_goals
        have a1 : (j - 2) / 4 = k := by omega
        have a2 : (j - 2) % 4 = j - (2 + 4 * k) := by omega
        subst h
        simp (disch := omega) only [if_pos, if_neg, a1, a2, if_true]
    · have : k = 32 := by omega
      subst this
      rw [if_neg (by simp [kCOCOTotalNumberOfPulses]), if_neg (by omega)]


theorem OOKSenderSendCOCOArray_apply (message : COCOMessage) (j : Nat) :
    OOKSenderSendCOCOArray message j =
      if j = 0 then 260 else if j = 1 then 2600
      else if j < 130 then COCOPulseAt (COCOFullCode message) j
      else if j = 130 then 260 else if j = 131 then 10400 else 0 := by
  unfold OOKSenderSendCOCOArray
  have h := fun d => COCOSendLoop_apply (COCOFullCode message) 132 0 d j (by omega) (by omega)
  simp only [Nat.mul_zero, Nat.add_zero] at h
  simp only [kCOCOTotalNumberOfPulses, kCOCOSinglePulseLength, h, setSlot_apply]
  by_cases h0 : j = 0
  · subst h0; simp
  by_cases h1 : j = 1
  · subst h1; simp
  by_cases h2 : j < 130
  · simp (disch := omega) only [if_pos, if_neg, and_self]
  · simp (disch := omega) only [if_pos, if_neg]
    split_ifs <;> first | rfl | omega

theorem OOKSenderSendCOCO_getElem (message : COCOMessage) (j : Nat) (hj : j < 132) :
    (OOKSenderSendCOCO message)[j]? = some (OOKSenderSendCOCOArray message j) := by
  unfold OOKSenderSendCOCO
  rw [List.getElem?_map, List.getElem?_range (by simpa [kCOCOTotalNumberOfPulses] using hj)]
  rfl

/-- C3. COCO frame layout: for every message the duration sequence
`OOKSenderSendCOCO` builds has exactly 132 entries with d[0] = 260,
d[1] = 2600, d[130] = 260, d[131] = 10400, and for each i in 0..31 the four
entries d[2+4i .. 5+4i] are 260, 260, 260, 1040 when bit 31 - i of the composed
32-bit code is 0 and 260, 1040, 260, 260 when it is 1. -/
theorem C3_COCO_frame_layout (message : COCOMessage) :
    (OOKSenderSendCOCO message).length = 132 ∧
    (OOKSenderSendCOCO message)[0]? = some 260 ∧
    (OOKSenderSendCOCO message)[1]? = some 2600 ∧
    (OOKSenderSendCOCO message)[130]? = some 260 ∧
    (OOKSenderSendCOCO message)[131]? = some 10400 ∧
    ∀ i : Fin 32,
      [(OOKSenderSendCOCO message)[2 + 4 * i.val]?, (OOKSenderSendCOCO message)[3 + 4 * i.val]?,
        (OOKSenderSendCOCO message)[4 + 4 * i.val]?, (OOKSenderSendCOCO message)[5 + 4 * i.val]?] =
      if (COCOFullCode message).testBit (31 - i.val) then [some 260, some 1040, some 260, some 260]
      else [some 260, some 260, some 260, some 1040] := by
  refine ⟨by simp [OOKSenderSendCOCO, kCOCOTotalNumberOfPulses], ?_, ?_, ?_, ?_, ?_⟩
  · rw [OOKSenderSendCOCO_getElem _ _ (by omega), OOKSenderSendCOCOArray_apply]; rfl
  · rw [OOKSenderSendCOCO_getElem _ _ (by omega), OOKSenderSendCOCOArray_apply]; rfl
  · rw [OOKSenderSendCOCO_getElem _ _ (by omega), OOKSenderSendCOCOArray_apply]; rfl
  · rw [OOKSenderSendCOCO_getElem _ _ (by omega), OOKSenderSendCOCOArray_apply]; rfl
  · intro i
    obtain ⟨i, hi⟩ := i
    have a0 : (2 + 4 * i - 2) / 4 = i := by omega
    have a1 : (3 + 4 * i - 2) / 4 = i := by omega
    have a2 : (4 + 4 * i - 2) / 4 = i := by omega
    have a3 : (5 + 4 * i - 2) / 4 = i := by omega
    have b0 : (2 + 4 * i - 2) % 4 = 0 := by omega
    have b1 : (3 + 4 * i - 2) % 4 = 1 := by omega
    have b2 : (4 + 4 * i - 2) % 4 = 2 := by omega
    have b3 : (5 + 4 * i - 2) % 4 = 3 := by omega
    simp only []
    rw [OOKSenderSendCOCO_getElem _ _ (by omega), OOKSenderSendCOCO_getElem _ _ (by omega),
      OOKSenderSendCOCO_getElem _ _ (by omega), OOKSenderSendCOCO_getElem _ _ (by omega)]
    simp (disch := omega) only [OOKSenderSendCOCOArray_apply, COCOPulseAt, if_pos, if_neg,
      a0, a1, a2, a3, b0, b1, b2, b3]
    cases (COCOFullCode message).testBit (31 - i) <;> simp


theorem KFSSendBody_eq (c k : Nat) (d : Nat → Nat) (hk : k < 24) :
    KFSSendBody c (2 + 2 * k) d =
      setSlot (setSlot d (2 + 2 * k) (if c.testBit (23 - k) then 1050 else 350))
        (2 + 2 * k + 1) (if c.testBit (23 - k) then 350 else 1050) := by
  have h1 : sub32 (2 + 2 * k) 2 = 2 * k := by
    unfold sub32; norm_num; omega
  have h2 : sub32 23 (2 * k / 2) = 23 - k := by
    unfold sub32; norm_num; omega
  have h3 : (23 - k) % 2 ^ 8 = 23 - k := Nat.mod_eq_of_lt (by norm_num; omega)
  have h4 : ((c >>> (23 - k)) &&& 1) % 2 ^ 8 = if c.testBit (23 - k) then 1 else 0 := by
    rw [Nat.and_one_is_mod, Nat.testBit_to_div_mod, Nat.shiftRight_eq_div_pow]
    have := Nat.mod_two_eq_zero_or_one (c / 2 ^ (23 - k))
    rcases this with h | h <;> simp [h]
  unfold KFSSendBody
  simp only [h1, h2, h3, h4, kKFSSinglePulseLength]
  cases c.testBit (23 - k) <;> simp

theorem KFSSendLoop_apply (c : Nat) :
    ∀ (fuel k : Nat) (d : Nat → Nat) (j : Nat), k ≤ 24 → 24 - k ≤ fuel →
      KFSSendLoop c fuel (2 + 2 * k) d j =
        if 2 + 2 * k ≤ j ∧ j < 50 then KFSPulseAt c j else d j := by
  intro fuel
  induction fuel with
  | zero =>
    intro k d j hk hf
    have : k = 24 := by omega
    subst this
    simp only [KFSSendLoop]
    rw [if_neg (by omega)]
  | succ fuel ih =>
    intro k d j hk hf
    unfold KFSSendLoop
    by_cases hlt : k < 24
    · rw [if_pos (by simp only [kKFSTotalNumberOfPulses]; omega)]
      have e : 2 + 2 * k + 2 = 2 + 2 * (k + 1) := by ring
      rw [e, ih (k + 1) _ j (by omega) (by omega), KFSSendBody_eq c k d hlt]
      simp only [setSlot_apply, KFSPulseAt]
      have hcase : j < 2 + 2 * k ∨ 2 + 2 * (k + 1) ≤ j ∨ j = 2 + 2 * k ∨ j = 2 + 2 * k + 1 := by
        omega
      rcases hcase with h | h | h | h
      · simp (disch := omega) only [if_pos, if_neg]
      · by_cases h50 : j < 50
        · simp (disch := omega) only [if_pos, if_neg]
        · simp (disch := omega) only [if_pos, if_neg]
      all_goals
        have a1 : (j - 2) / 2 = k := by omega
        have a2 : (j - 2) % 2 = j - (2 + 2 * k) := by omega
        subst h
        simp (disch := omega) only [if_pos, if_neg, a1, a2, if_true]
    · have : k = 24 := by omega
      subst this
      rw [if_neg (by simp [kKFSTotalNumberOfPulses]), if_neg (by omega)]

theorem OOKSenderSendKFSArray_apply (message : KFSMessage) (j : Nat) :
    OOKSenderSendKFSArray message j =
      if j = 0 then 350 else if j = 1 then 10850
      else if j < 50 then KFSPulseAt (KFSMessageGetIdentifier message % 2 ^ 32) j else 0 := by
  unfold OOKSenderSendKFSArray
  have h := fun d =>
    KFSSendLoop_apply (KFSMessageGetIdentifier message % 2 ^ 32) 50 0 d j (by omega) (by omega)
  simp only [Nat.mul_zero, Nat.add_zero] at h
  simp only [kKFSTotalNumberOfPulses, kKFSSinglePulseLength, h, setSlot_apply]
  by_cases h0 : j = 0
  · subst h0; simp
  by_cases h1 : j = 1
  · subst h1; simp
  by_cases h2 : j < 50
  · simp (disch := omega) only [if_pos, if_neg, and_self]
  · simp (disch := omega) only [if_pos, if_neg]

theorem OOKSenderSendKFS_getElem (message : KFSMessage) (j : Nat) (hj : j < 50) :
    (OOKSenderSendKFS message)[j]? = some (OOKSenderSendKFSArray message j) := by
  unfold OOKSenderSendKFS
  rw [List.getElem?_map, List.getElem?_range (by simpa [kKFSTotalNumberOfPulses] using hj)]
  rfl

/-- C4. KFS frame layout: for every message the duration sequence
`OOKSenderSendKFS` builds has exactly 50 entries with d[0] = 350, d[1] = 10850,
and for each i in 0..23 the pair (d[2+2i], d[3+2i]) is (350, 1050) when bit
23 - i of the identifier is 0 and (1050, 350) when it is 1. -/
theorem C4_KFS_frame_layout (message : KFSMessage) :
    (OOKSenderSendKFS message).length = 50 ∧
    (OOKSenderSendKFS message)[0]? = some 350 ∧
    (OOKSenderSendKFS message)[1]? = some 10850 ∧
    ∀ i : Fin 24,
      ((OOKSenderSendKFS message)[2 + 2 * i.val]?, (OOKSenderSendKFS message)[3 + 2 * i.val]?) =
      if (KFSMessageGetIdentifier message).testBit (23 - i.val) then
        (some 1050, some 350)
      else (some 350, some 1050) := by
  refine ⟨by simp [OOKSenderSendKFS, kKFSTotalNumberOfPulses], ?_, ?_, ?_⟩
  · rw [OOKSenderSendKFS_getElem _ _ (by omega), OOKSenderSendKFSArray_apply]; rfl
  · rw [OOKSenderSendKFS_getElem _ _ (by omega), OOKSenderSendKFSArray_apply]; rfl
  · intro i
    obtain ⟨i, hi⟩ := i
    have a0 : (2 + 2 * i - 2) / 2 = i := by omega
    have a1 : (3 + 2 * i - 2) / 2 = i := by omega
    have b0 : (2 + 2 * i - 2) % 2 = 0 := by omega
    have b1 : (3 + 2 * i - 2) % 2 = 1 := by omega
    simp only []
    rw [OOKSenderSendKFS_getElem _ _ (by omega), OOKSenderSendKFS_getElem _ _ (by omega)]
    have hbit : (KFSMessageGetIdentifier message % 2 ^ 32).testBit (23 - i) =
        (KFSMessageGetIdentifier message).testBit (23 - i) := by
      rw [Nat.testBit_mod_two_pow, decide_eq_true (by omega), Bool.true_and]
    simp (disch := omega) only [OOKSenderSendKFSArray_apply, KFSPulseAt, if_pos, if_neg,
      a0, a1, b0, b1, hbit]
    cases (KFSMessageGetIdentifier message).testBit (23 - i) <;> simp

theorem shl32_lt (a s : Nat) : shl32 a s < 4294967296 := by
  unfold shl32
  exact Nat.mod_lt _ (by norm_num)

theorem shl32_or_one_lt (a : Nat) : shl32 a 1 ||| 1 < 4294967296 := by
  have h := Nat.or_lt_two_pow (x := shl32 a 1) (y := 1) (n := 32)
    (by have := shl32_lt a 1; norm_num; exact this) (by norm_num)
  norm_num at h
  exact h

theorem analyzeLoop_code_lt (receiver : COCOReceiver) :
    ∀ (fuel index : Nat) (state result : COCOAnalysis), state.code < 4294967296 →
      analyzeLoop receiver fuel index state = some result → result.code < 4294967296 := by
  intro fuel
  induction fuel with
  | zero =>
    intro index state result hs h
    simp only [analyzeLoop, Option.some.injEq] at h
    subst h; exact hs
  | succ fuel ih =>
    intro index state result hs h
    unfold analyzeLoop at h
    by_cases c1 : index ≤ receiver.durationsIndex
    swap
    · rw [if_neg c1] at h
      simp only [Option.some.injEq] at h
      subst h; exact hs
    rw [if_pos c1] at h
    by_cases c2 : 0 = index
    · rw [if_pos c2] at h
      exact ih _ _ _ hs h
    rw [if_neg c2] at h
    by_cases c3 : index = COCOMessagePulseCount - 1 ∧
        receiver.durations index > receiver.endSyncLowMinDuration ∧
        receiver.durations index < receiver.endSyncLowMaxDuration
    · rw [if_pos c3] at h
      simp only [Option.some.injEq] at h
      subst h; exact hs
    rw [if_neg c3] at h
    simp only [] at h
    by_cases c4 : sub32 index 1 % COCOPulsesPerBit = COCOPulsesPerBit - 1
    swap
    · rw [if_neg c4] at h
      exact ih _ _ _ (by exact hs) h
    rw [if_pos c4] at h
    by_cases c5 : COCOIsZero receiver
        (setSlot state.bitValues (sub32 index 1 % COCOPulsesPerBit) (receiver.durations index))
    · rw [if_pos c5] at h
      exact ih _ _ _ (shl32_lt state.code 1) h
    rw [if_neg c5] at h
    by_cases c6 : COCOIsOne receiver
        (setSlot state.bitValues (sub32 index 1 % COCOPulsesPerBit) (receiver.durations index))
    · rw [if_pos c6] at h
      exact ih _ _ _ (shl32_or_one_lt state.code) h
    · rw [if_neg c6] at h
      exact absurd h (by simp)

theorem analyzeDurations_code_lt (receiver : COCOReceiver) (timestamp : Nat)
    (message : COCOMessage) (h : analyzeDurations receiver timestamp = some message) :
    message.fullMessageCode < 4294967296 ∧
      message = COCOMessageOfCode receiver timestamp message.fullMessageCode := by
  unfold analyzeDurations at h
  split_ifs at h
  split at h
  · exact absurd h (by simp)
  · rename_i state hstate
    simp only [Option.some.injEq] at h
    subst h
    exact ⟨analyzeLoop_code_lt receiver _ _ _ _ (by simp) hstate, rfl⟩

theorem and_mask_shift (code : Nat) (h : code < 4294967296) :
    (code &&& 0b11111111111111111111111111000000) >>> 6 = code >>> 6 := by
  apply Nat.eq_of_testBit_eq
  intro i
  simp only [Nat.testBit_shiftRight, Nat.testBit_and]
  by_cases hi : 6 + i < 32
  · have : (0b11111111111111111111111111000000 : Nat).testBit (6 + i) = true := by
      have hi2 : i < 26 := by omega
      interval_cases i <;> rfl
    rw [this, Bool.and_true]
  · have : code.testBit (6 + i) = false :=
      Nat.testBit_lt_two_pow (lt_of_lt_of_le (b := 2 ^ 32) (by norm_num; exact h)
        (Nat.pow_le_pow_right (by norm_num) (by omega)))
    rw [this, Bool.false_and]

theorem and_two_pow_eq_iff (code i : Nat) :
    (code &&& 2 ^ i = 2 ^ i) ↔ code.testBit i = true := by
  constructor
  · intro h
    have := congrArg (fun x => Nat.testBit x i) h
    simpa [Nat.testBit_two_pow_self] using this
  · intro h
    apply Nat.eq_of_testBit_eq
    intro j
    rw [Nat.testBit_and, Nat.testBit_two_pow]
    by_cases hj : i = j
    · subst hj; simp [h]
    · simp [hj]

/-- The fields of a message `analyzeDurations` fills in, relative to the code it
stores in the message, for a receiver carrying the masks that
`COCOReceiverCreate` installs: address = code >> 6, group = bit 5 of the code,
onOff = bit 4 of the code and channel = code AND 0x0F; hence address < 2^26
and channel < 16. -/
theorem analyzeDurations_field_split (receiver : COCOReceiver) (timestamp : Nat) (message : COCOMessage)
    (hmasks : COCOCreatedMasks receiver)
    (h : analyzeDurations receiver timestamp = some message) :
    message.address = message.fullMessageCode >>> 6 ∧
    message.group = message.fullMessageCode.testBit 5 ∧
    message.onOff = message.fullMessageCode.testBit 4 ∧
    message.channel = message.fullMessageCode &&& 0x0F ∧
    message.address < 2 ^ 26 ∧ message.channel < 16 := by
  obtain ⟨hlt, hm⟩ := analyzeDurations_code_lt receiver timestamp message h
  obtain ⟨h1, h2, h3, h4⟩ := hmasks
  generalize message.fullMessageCode = code at hlt hm
  subst hm
  have hch : code &&& 15 < 16 := Nat.and_lt_two_pow code (n := 4) (by norm_num)
  simp only [COCOMessageOfCode, h1, h2, h3, h4]
  refine ⟨and_mask_shift code hlt, ?_, ?_, ?_, ?_, ?_⟩
  · have := and_two_pow_eq_iff code 5
    norm_num at this
    rw [Bool.eq_iff_iff]
    simpa using this
  · have := and_two_pow_eq_iff code 4
    norm_num at this
    rw [Bool.eq_iff_iff]
    simpa using this
  · exact Nat.mod_eq_of_lt (by omega)
  · rw [and_mask_shift code hlt, Nat.shiftRight_eq_div_pow]
    norm_num at hlt ⊢
    omega
  · rw [Nat.mod_eq_of_lt (by omega)]
    exact hch

theorem mul32_one_of_lt (n : Nat) (h : n < 4294967296) : mul32 n 1 = n := by
  unfold mul32; norm_num; omega

theorem window_min_nat (n units neg : Nat) (hneg : neg ≤ 100)
    (h2 : n * units * 100 < 4294967296) :
    mul32 (mul32 n units) (sub32 100 neg) / 100 = n * units * (100 - neg) / 100 := by
  have e1 : sub32 100 neg = 100 - neg := by
    unfold sub32; norm_num; omega
  have hle : n * units * (100 - neg) ≤ n * units * 100 :=
    Nat.mul_le_mul_left _ (by omega)
  have hnu : n * units ≤ n * units * 100 := Nat.le_mul_of_pos_right _ (by norm_num)
  have e2 : mul32 n units = n * units := by
    unfold mul32; norm_num; omega
  have e3 : mul32 (n * units) (100 - neg) = n * units * (100 - neg) := by
    unfold mul32; norm_num; omega
  rw [e1, e2, e3]

theorem window_max_nat (n units pos : Nat) (hn : 0 < n * units)
    (h2 : n * units * (100 + pos) < 4294967296) :
    mul32 (mul32 n units) (add32 100 pos) / 100 = n * units * (100 + pos) / 100 := by
  have hp : 100 + pos < 4294967296 := by
    by_contra hc
    push_neg at hc
    have := Nat.mul_le_mul hn hc
    omega
  have e1 : add32 100 pos = 100 + pos := by
    unfold add32; norm_num; omega
  have hnu : n * units ≤ n * units * (100 + pos) := Nat.le_mul_of_pos_right _ (by omega)
  have e2 : mul32 n units = n * units := by
    unfold mul32; norm_num; omega
  have e3 : mul32 (n * units) (100 + pos) = n * units * (100 + pos) := by
    unfold mul32; norm_num; omega
  rw [e1, e2, e3]

theorem window_min_exact (n units neg : Nat)
    (h1 : (0 : Int) ≤ (n : Int) * (100 - (neg : Int)))
    (h2 : n * units * 100 < 4294967296) :
    ((mul32 (mul32 n units) (sub32 100 neg) / 100 : Nat) : Int) =
      Int.fdiv ((n : Int) * units * (100 - (neg : Int))) 100 := by
  rcases Nat.eq_zero_or_pos n with hn | hn
  · subst hn
    simp [mul32, Int.fdiv]
  · have hneg : neg ≤ 100 := by
      by_contra hc
      push_neg at hc
      have : (n : Int) * (100 - (neg : Int)) < 0 := by
        apply mul_neg_of_pos_of_neg
        · exact_mod_cast hn
        · omega
      omega
    rw [window_min_nat n units neg hneg h2, Int.fdiv_eq_ediv _ (by norm_num)]
    push_cast [Nat.cast_sub hneg]
    rfl

theorem window_max_exact (n units pos : Nat)
    (h2 : n * units * (100 + pos) < 4294967296) :
    ((mul32 (mul32 n units) (add32 100 pos) / 100 : Nat) : Int) =
      Int.fdiv ((n : Int) * units * (100 + (pos : Int))) 100 := by
  rcases Nat.eq_zero_or_pos (n * units) with hn | hn
  · have e2 : mul32 n units = 0 := by unfold mul32; rw [hn]; rfl
    have : (n : Int) * units = 0 := by exact_mod_cast hn
    rw [e2, this]
    simp [mul32, Int.fdiv]
  · rw [window_max_nat n units pos hn h2, Int.fdiv_eq_ediv _ (by norm_num)]
    push_cast
    rfl

/-- C6. Tolerance windows: when the exact products are not negative and fit
in 32 bits, `updateDurationsForReceiver` sets unitMin = floor(n*(100-neg)/100),
unitMax = floor(n*(100+pos)/100), the start-sync bounds to
floor(n*10*(100-neg)/100) and floor(n*10*(100+pos)/100) and the end-sync bounds
to floor(n*40*(100-neg)/100) and floor(n*40*(100+pos)/100);
`KFSUpdateDurationsForReceiver` sets the same unit bounds and the start-sync
bounds with 31 units. -/
theorem C6_tolerance_windows (receiver : COCOReceiver) (kfs : KFSReceiver)
    (hmin : (0 : Int) ≤ (receiver.singlePulseDuration : Int) * (100 - receiver.negativeTolerance))
    (hmax : receiver.singlePulseDuration * 40 * (100 + receiver.positiveTolerance) < 2 ^ 32)
    (kmin : (0 : Int) ≤ (kfs.singlePulseDuration : Int) * (100 - kfs.negativeTolerance))
    (kmax : kfs.singlePulseDuration * 31 * (100 + kfs.positiveTolerance) < 2 ^ 32) :
    ((updateDurationsForReceiver receiver).singlePulseMinDuration : Int) =
      Int.fdiv (receiver.singlePulseDuration * (100 - receiver.negativeTolerance)) 100 ∧
    ((updateDurationsForReceiver receiver).singlePulseMaxDuration : Int) =
      Int.fdiv (receiver.singlePulseDuration * (100 + receiver.positiveTolerance)) 100 ∧
    ((updateDurationsForReceiver receiver).startSyncLowMinDuration : Int) =
      Int.fdiv (receiver.singlePulseDuration * 10 * (100 - receiver.negativeTolerance)) 100 ∧
    ((updateDurationsForReceiver receiver).startSyncLowMaxDuration : Int) =
      Int.fdiv (receiver.singlePulseDuration * 10 * (100 + receiver.positiveTolerance)) 100 ∧
    ((updateDurationsForReceiver receiver).endSyncLowMinDuration : Int) =
      Int.fdiv (receiver.singlePulseDuration * 40 * (100 - receiver.negativeTolerance)) 100 ∧
    ((updateDurationsForReceiver receiver).endSyncLowMaxDuration : Int) =
      Int.fdiv (receiver.singlePulseDuration * 40 * (100 + receiver.positiveTolerance)) 100 ∧
    ((KFSUpdateDurationsForReceiver kfs).singlePulseMinDuration : Int) =
      Int.fdiv (kfs.singlePulseDuration * (100 - kfs.negativeTolerance)) 100 ∧
    ((KFSUpdateDurationsForReceiver kfs).singlePulseMaxDuration : Int) =
      Int.fdiv (kfs.singlePulseDuration * (100 + kfs.positiveTolerance)) 100 ∧
    ((KFSUpdateDurationsForReceiver kfs).startSyncLowMinDuration : Int) =
      Int.fdiv (kfs.singlePulseDuration * 31 * (100 - kfs.negativeTolerance)) 100 ∧
    ((KFSUpdateDurationsForReceiver kfs).startSyncLowMaxDuration : Int) =
      Int.fdiv (kfs.singlePulseDuration * 31 * (100 + kfs.positiveTolerance)) 100 := by
  norm_num at hmax kmax
  simp only [updateDurationsForReceiver, KFSUpdateDurationsForReceiver,
    COCOStartSyncLowPulsesCount, COCOEndSyncLowPulsesCount, KFSStartSyncLowPulsesCount]
  generalize receiver.singlePulseDuration = n at *
  generalize receiver.positiveTolerance = pos at *
  generalize receiver.negativeTolerance = neg at *
  generalize kfs.singlePulseDuration = m at *
  generalize kfs.positiveTolerance = kpos at *
  generalize kfs.negativeTolerance = kneg at *
  have window_facts : ∀ (x units tol : Nat), 10 ≤ units →
      x * units * (100 + tol) < 4294967296 →
      x < 4294967296 ∧ x * 1 * 100 < 4294967296 ∧ x * 1 * (100 + tol) < 4294967296 ∧
      x * 10 * 100 < 4294967296 ∧ x * units * 100 < 4294967296 ∧
      x * 10 * (100 + tol) < 4294967296 := by
    intro x units tol hu h
    have e1 : x * units * (100 + tol) = units * (x * (100 + tol)) := by ring
    have e2 : x * (100 + tol) = 100 * x + x * tol := by ring
    have e3 : x * 1 * (100 + tol) = x * (100 + tol) := by ring
    have e4 : x * 10 * (100 + tol) = 10 * (x * (100 + tol)) := by ring
    have e5 : x * units * 100 = units * (100 * x) := by ring
    have h1 : 10 * (x * (100 + tol)) ≤ units * (x * (100 + tol)) :=
      Nat.mul_le_mul_right _ hu
    have h2 : units * (100 * x) ≤ units * (x * (100 + tol)) :=
      Nat.mul_le_mul_left _ (by omega)
    refine ⟨by omega, by omega, by omega, by omega, by omega, by omega⟩
  obtain ⟨hn, c1, c2, c3, c5, c4⟩ := window_facts n 40 pos (by norm_num) hmax
  obtain ⟨hm, d1, d2, -, d5, -⟩ := window_facts m 31 kpos (by norm_num) kmax
  have a1 := window_min_exact n 1 neg hmin c1
  have a2 := window_max_exact n 1 pos c2
  have a3 := window_min_exact n 10 neg hmin c3
  have a4 := window_max_exact n 10 pos c4
  have a5 := window_min_exact n 40 neg hmin c5
  have a6 := window_max_exact n 40 pos hmax
  have b1 := window_min_exact m 1 kneg kmin d1
  have b2 := window_max_exact m 1 kpos d2
  have b3 := window_min_exact m 31 kneg kmin d5
  have b4 := window_max_exact m 31 kpos kmax
  rw [mul32_one_of_lt n hn] at a1 a2
  rw [mul32_one_of_lt m hm] at b1 b2
  simp only [Nat.cast_one, mul_one, Nat.cast_ofNat] at a1 a2 a3 a4 a5 a6 b1 b2 b3 b4
  exact ⟨a1, a2, a3, a4, a5, a6, b1, b2, b3, b4⟩


theorem window_min_lt (n units neg : Nat) (hn : 0 < n * units) (h0 : 0 < neg) (hneg : neg ≤ 100)
    (h2 : n * units * 100 < 4294967296) :
    mul32 (mul32 n units) (sub32 100 neg) / 100 < n * units := by
  rw [window_min_nat n units neg hneg h2]
  generalize n * units = a at *
  have e : a * (100 - neg) = 100 * a - a * neg := by
    rw [Nat.mul_sub, Nat.mul_comm a 100]
  have h3 : a * 1 ≤ a * neg := Nat.mul_le_mul_left _ h0
  have h4 : a * neg ≤ a * 100 := Nat.mul_le_mul_left _ hneg
  rw [e]
  omega

theorem window_max_gt_iff (n units pos : Nat) (hn : 0 < n * units)
    (h2 : n * units * (100 + pos) < 4294967296) :
    n * units < mul32 (mul32 n units) (add32 100 pos) / 100 ↔ 100 ≤ n * units * pos := by
  rw [window_max_nat n units pos hn h2]
  generalize n * units = a at *
  have e : a * (100 + pos) = 100 * a + a * pos := by ring
  rw [e]
  omega

/-- C8 (amended). Window invariant: for every nominal pulse duration > 0 and
every negative tolerance in (0,100], without 32-bit overflow of the products,
each derived window has min < nominal value; and nominal value < max holds
exactly when units * nominal * positiveTolerance >= 100 (units = 1, 10, 40 for
COCO and 1, 31 for KFS). In particular min < nominal < max for every window
once nominal * positiveTolerance >= 100. -/
theorem C8_window_invariant (receiver : COCOReceiver) (kfs : KFSReceiver)
    (hn : 0 < receiver.singlePulseDuration)
    (hneg : 0 < receiver.negativeTolerance ∧ receiver.negativeTolerance ≤ 100)
    (hmax : receiver.singlePulseDuration * 40 * (100 + receiver.positiveTolerance) < 2 ^ 32)
    (kn : 0 < kfs.singlePulseDuration)
    (kneg : 0 < kfs.negativeTolerance ∧ kfs.negativeTolerance ≤ 100)
    (kmax : kfs.singlePulseDuration * 31 * (100 + kfs.positiveTolerance) < 2 ^ 32) :
    ((updateDurationsForReceiver receiver).singlePulseMinDuration < receiver.singlePulseDuration ∧
      (receiver.singlePulseDuration < (updateDurationsForReceiver receiver).singlePulseMaxDuration ↔
        100 ≤ receiver.singlePulseDuration * receiver.positiveTolerance)) ∧
    ((updateDurationsForReceiver receiver).startSyncLowMinDuration <
        receiver.singlePulseDuration * 10 ∧
      (receiver.singlePulseDuration * 10 <
          (updateDurationsForReceiver receiver).startSyncLowMaxDuration ↔
        100 ≤ receiver.singlePulseDuration * 10 * receiver.positiveTolerance)) ∧
    ((updateDurationsForReceiver receiver).endSyncLowMinDuration <
        receiver.singlePulseDuration * 40 ∧
      (receiver.singlePulseDuration * 40 <
          (updateDurationsForReceiver receiver).endSyncLowMaxDuration ↔
        100 ≤ receiver.singlePulseDuration * 40 * receiver.positiveTolerance)) ∧
    ((KFSUpdateDurationsForReceiver kfs).singlePulseMinDuration < kfs.singlePulseDuration ∧
      (kfs.singlePulseDuration < (KFSUpdateDurationsForReceiver kfs).singlePulseMaxDuration ↔
        100 ≤ kfs.singlePulseDuration * kfs.positiveTolerance)) ∧
    ((KFSUpdateDurationsForReceiver kfs).startSyncLowMinDuration < kfs.singlePulseDuration * 31 ∧
      (kfs.singlePulseDuration * 31 < (KFSUpdateDurationsForReceiver kfs).startSyncLowMaxDuration ↔
        100 ≤ kfs.singlePulseDuration * 31 * kfs.positiveTolerance)) := by
  norm_num at hmax kmax
  simp only [updateDurationsForReceiver, KFSUpdateDurationsForReceiver,
    COCOStartSyncLowPulsesCount, COCOEndSyncLowPulsesCount, KFSStartSyncLowPulsesCount]
  generalize receiver.singlePulseDuration = n at *
  generalize receiver.positiveTolerance = pos at *
  generalize receiver.negativeTolerance = neg at *
  generalize kfs.singlePulseDuration = m at *
  generalize kfs.positiveTolerance = qpos at *
  generalize kfs.negativeTolerance = qneg at *
  have window_facts : ∀ (x units tol : Nat), 10 ≤ units →
      x * units * (100 + tol) < 4294967296 →
      x < 4294967296 ∧ x * 1 * 100 < 4294967296 ∧ x * 1 * (100 + tol) < 4294967296 ∧
      x * 10 * 100 < 4294967296 ∧ x * units * 100 < 4294967296 ∧
      x * 10 * (100 + tol) < 4294967296 := by
    intro x units tol hu h
    have e1 : x * units * (100 + tol) = units * (x * (100 + tol)) := by ring
    have e2 : x * (100 + tol) = 100 * x + x * tol := by ring
    have e3 : x * 1 * (100 + tol) = x * (100 + tol) := by ring
    have e4 : x * 10 * (100 + tol) = 10 * (x * (100 + tol)) := by ring
    have e5 : x * units * 100 = units * (100 * x) := by ring
    have h1 : 10 * (x * (100 + tol)) ≤ units * (x * (100 + tol)) :=
      Nat.mul_le_mul_right _ hu
    have h2 : units * (100 * x) ≤ units * (x * (100 + tol)) :=
      Nat.mul_le_mul_left _ (by omega)
    refine ⟨by omega, by omega, by omega, by omega, by omega, by omega⟩
  obtain ⟨hn32, c1, c2, c3, c5, c4⟩ := window_facts n 40 pos (by norm_num) hmax
  obtain ⟨hm32, d1, d2, -, d5, -⟩ := window_facts m 31 qpos (by norm_num) kmax
  have a1 := window_min_lt n 1 neg (by omega) hneg.1 hneg.2 c1
  have a2 := window_max_gt_iff n 1 pos (by omega) c2
  have a3 := window_min_lt n 10 neg (by omega) hneg.1 hneg.2 c3
  have a4 := window_max_gt_iff n 10 pos (by omega) c4
  have a5 := window_min_lt n 40 neg (by omega) hneg.1 hneg.2 c5
  have a6 := window_max_gt_iff n 40 pos (by omega) hmax
  have b1 := window_min_lt m 1 qneg (by omega) kneg.1 kneg.2 d1
  have b2 := window_max_gt_iff m 1 qpos (by omega) d2
  have b3 := window_min_lt m 31 qneg (by omega) kneg.1 kneg.2 d5
  have b4 := window_max_gt_iff m 31 qpos (by omega) kmax
  rw [mul32_one_of_lt n hn32] at a1 a2
  rw [mul32_one_of_lt m hm32] at b1 b2
  simp only [mul_one] at a1 a2 b1 b2
  exact ⟨⟨a1, a2⟩, ⟨a3, a4⟩, ⟨a5, a6⟩, ⟨b1, b2⟩, ⟨b3, b4⟩⟩

/-- C8 (counterexample). Nominal duration 1 with the default tolerances
40/40: the unit window is unitMin = 0, unitMax = 1, so nominal < unitMax fails. -/
theorem C8_window_invariant_counterexample :
    (COCOReceiverSetSinglePulseDuration
      (COCOReceiverCreate (fun _ => 0) false) 1).singlePulseDuration = 1 ∧
    (COCOReceiverSetSinglePulseDuration
      (COCOReceiverCreate (fun _ => 0) false) 1).positiveTolerance = 40 ∧
    (COCOReceiverSetSinglePulseDuration
      (COCOReceiverCreate (fun _ => 0) false) 1).negativeTolerance = 40 ∧
    (COCOReceiverSetSinglePulseDuration
      (COCOReceiverCreate (fun _ => 0) false) 1).singlePulseMaxDuration = 1 ∧
    ¬ ((COCOReceiverSetSinglePulseDuration
          (COCOReceiverCreate (fun _ => 0) false) 1).singlePulseMinDuration < 1 ∧
        1 < (COCOReceiverSetSinglePulseDuration
          (COCOReceiverCreate (fun _ => 0) false) 1).singlePulseMaxDuration) := by
  decide

theorem sub32_one (index : Nat) (h1 : 1 ≤ index) (h2 : index < 4294967296) :
    sub32 index 1 = index - 1 := by
  unfold sub32; norm_num; omega

theorem COCOIsZero_congr (receiver : COCOReceiver) (a b : Nat → Nat)
    (h0 : a 0 = b 0) (h1 : a 1 = b 1) (h2 : a 2 = b 2) (h3 : a 3 = b 3) :
    COCOIsZero receiver a = COCOIsZero receiver b := by
  unfold COCOIsZero
  rw [h0, h1, h2, h3]

theorem COCOIsOne_congr (receiver : COCOReceiver) (a b : Nat → Nat)
    (h0 : a 0 = b 0) (h1 : a 1 = b 1) (h2 : a 2 = b 2) (h3 : a 3 = b 3) :
    COCOIsOne receiver a = COCOIsOne receiver b := by
  unfold COCOIsOne
  rw [h0, h1, h2, h3]

/-- A pass of the loop at an index that does not complete a group only stores
the duration in `bitValues`. -/
theorem analyzeLoop_store (receiver : COCOReceiver) (fuel index : Nat) (state : COCOAnalysis)
    (h1 : 1 ≤ index) (h2 : index ≤ receiver.durationsIndex) (h3 : index ≤ 129)
    (h4 : (index - 1) % 4 ≠ 3) :
    analyzeLoop receiver (fuel + 1) index state =
      analyzeLoop receiver fuel (index + 1)
        { state with
          bitValues := setSlot state.bitValues ((index - 1) % 4) (receiver.durations index) } := by
  rw [analyzeLoop]
  rw [if_pos h2, if_neg (by omega), if_neg (by simp only [COCOMessagePulseCount]; omega)]
  simp only [sub32_one index h1 (by omega), COCOPulsesPerBit]
  rw [if_neg (by omega)]

/-- A pass of the loop at an index that completes a group classifies the group. -/
theorem analyzeLoop_check (receiver : COCOReceiver) (fuel index : Nat) (state : COCOAnalysis)
    (h1 : 1 ≤ index) (h2 : index ≤ receiver.durationsIndex) (h3 : index ≤ 129)
    (h4 : (index - 1) % 4 = 3) :
    analyzeLoop receiver (fuel + 1) index state =
      if COCOIsZero receiver (setSlot state.bitValues 3 (receiver.durations index)) then
        analyzeLoop receiver fuel (index + 1)
          { code := shl32 state.code 1
            codeLength := add32 state.codeLength 1
            bitValues := setSlot state.bitValues 3 (receiver.durations index) }
      else if COCOIsOne receiver (setSlot state.bitValues 3 (receiver.durations index)) then
        analyzeLoop receiver fuel (index + 1)
          { code := shl32 state.code 1 ||| 1
            codeLength := add32 state.codeLength 1
            bitValues := setSlot state.bitValues 3 (receiver.durations index) }
      else none := by
  rw [analyzeLoop]
  rw [if_pos h2, if_neg (by omega), if_neg (by simp only [COCOMessagePulseCount]; omega)]
  simp only [sub32_one index h1 (by omega), COCOPulsesPerBit, h4]
  rw [if_pos (by norm_num)]

/-- The last two passes (slots 129 and 130) never change the code. -/
theorem analyzeLoop_tail (receiver : COCOReceiver) (state : COCOAnalysis)
    (hidx : receiver.durationsIndex = 130) :
    (analyzeLoop receiver 2 129 state).map (fun s => s.code) = some state.code := by
  rw [analyzeLoop_store receiver 1 129 state (by omega) (by omega) (by omega) (by omega)]
  rw [analyzeLoop]
  rw [if_pos (by omega), if_neg (by omega)]
  have hb : ¬ (sub32 (129 + 1) 1 % COCOPulsesPerBit = COCOPulsesPerBit - 1) := by decide
  by_cases hend : 129 + 1 = COCOMessagePulseCount - 1 ∧
      receiver.durations (129 + 1) > receiver.endSyncLowMinDuration ∧
      receiver.durations (129 + 1) < receiver.endSyncLowMaxDuration
  · rw [if_pos hend]
    rfl
  · rw [if_neg hend]
    simp only []
    rw [if_neg hb]
    rfl

/-- The loop of `analyzeDurations` over the groups `k .. 31` computes the
reference decoder. -/
theorem analyzeLoop_groups (receiver : COCOReceiver) (hidx : receiver.durationsIndex = 130) :
    ∀ (count k : Nat) (state : COCOAnalysis), k + count = 32 →
      (analyzeLoop receiver (4 * count + 2) (4 * k + 1) state).map (fun s => s.code) =
        COCODecodeFrom receiver receiver.durations count k state.code := by
  intro count
  induction count with
  | zero =>
    intro k state hk
    have : k = 32 := by omega
    subst this
    simpa [COCODecodeFrom] using analyzeLoop_tail receiver state hidx
  | succ count ih =>
    intro k state hk
    have e : 4 * (count + 1) + 2 = (4 * count + 2) + 1 + 1 + 1 + 1 := by ring
    rw [e]
    rw [analyzeLoop_store receiver _ (4 * k + 1) state (by omega) (by omega) (by omega)
      (by omega)]
    rw [analyzeLoop_store receiver _ (4 * k + 1 + 1) _ (by omega) (by omega) (by omega)
      (by omega)]
    rw [analyzeLoop_store receiver _ (4 * k + 1 + 1 + 1) _ (by omega) (by omega) (by omega)
      (by omega)]
    rw [analyzeLoop_check receiver _ (4 * k + 1 + 1 + 1 + 1) _ (by omega) (by omega) (by omega)
      (by omega)]
    have m0 : (4 * k + 1 - 1) % 4 = 0 := by omega
    have m1 : (4 * k + 1 + 1 - 1) % 4 = 1 := by omega
    have m2 : (4 * k + 1 + 1 + 1 - 1) % 4 = 2 := by omega
    simp only [m0, m1, m2]
    have e2 : 4 * k + 1 + 1 + 1 + 1 + 1 = 4 * (k + 1) + 1 := by ring
    have z : COCOIsZero receiver
        (setSlot (setSlot (setSlot (setSlot state.bitValues 0 (receiver.durations (4 * k + 1)))
          1 (receiver.durations (4 * k + 1 + 1))) 2 (receiver.durations (4 * k + 1 + 1 + 1)))
          3 (receiver.durations (4 * k + 1 + 1 + 1 + 1))) =
        COCOIsZero receiver (fun p => receiver.durations (4 * k + 1 + p)) :=
      COCOIsZero_congr _ _ _ rfl rfl rfl rfl
    have o : COCOIsOne receiver
        (setSlot (setSlot (setSlot (setSlot state.bitValues 0 (receiver.durations (4 * k + 1)))
          1 (receiver.durations (4 * k + 1 + 1))) 2 (receiver.durations (4 * k + 1 + 1 + 1)))
          3 (receiver.durations (4 * k + 1 + 1 + 1 + 1))) =
        COCOIsOne receiver (fun p => receiver.durations (4 * k + 1 + p)) :=
      COCOIsOne_congr _ _ _ rfl rfl rfl rfl
    rw [z, o, e2]
    rw [COCODecodeFrom, COCOGroupBit]
    by_cases hz : COCOIsZero receiver (fun p => receiver.durations (4 * k + 1 + p)) = true
    · rw [if_pos hz, if_pos hz]
      simp only [Bool.false_eq_true, if_false]
      exact ih (k + 1) _ (by omega)
    · rw [if_neg hz, if_neg hz]
      by_cases ho : COCOIsOne receiver (fun p => receiver.durations (4 * k + 1 + p)) = true
      · rw [if_pos ho, if_pos ho]
        simp only [if_true]
        exact ih (k + 1) _ (by omega)
      · rw [if_neg ho, if_neg ho]
        rfl

/-- With the buffer index at 130, `analyzeDurations` is the reference decoder
followed by the field split. -/
theorem analyzeDurations_eq_decode (receiver : COCOReceiver) (timestamp : Nat)
    (hidx : receiver.durationsIndex = 130) :
    analyzeDurations receiver timestamp =
      (COCODecode receiver receiver.durations).map (COCOMessageOfCode receiver timestamp) := by
  have h := analyzeLoop_groups receiver hidx 32 0
    { code := 0, codeLength := 0, bitValues := fun _ => 0 } (by omega)
  unfold analyzeDurations COCODecode
  rw [if_neg (by simp only [COCOMessagePulseCount]; omega), hidx]
  have e : (130 : Nat) + 1 = 1 + (4 * 32 + 2) := by norm_num
  rw [e, Nat.add_comm 1, analyzeLoop]
  rw [if_pos (by omega), if_pos rfl]
  simp only [Nat.mul_zero, Nat.zero_add] at h
  simp only [Nat.zero_add]
  rw [← h]
  cases analyzeLoop receiver (4 * 32 + 2) 1 { code := 0, codeLength := 0, bitValues := fun _ => 0 } <;> rfl

theorem sub32_add32_of_lt (start d : Nat) (hd : d < 4294967296) :
    sub32 (add32 start d) start = d := by
  unfold sub32 add32
  norm_num
  omega

theorem COCOFeedDurations_nil (receiver : COCOReceiver) :
    COCOFeedDurations receiver [] = (receiver, []) := rfl

theorem COCOFeed_lastTimestamp (receiver : COCOReceiver) (timestamp : Nat) :
    (COCOReceiverFeedGPIOValueChangeTime receiver timestamp).1.lastTimestamp = timestamp := rfl

theorem COCOFeedDurations_cons (receiver : COCOReceiver) (d : Nat) (ds : List Nat) :
    COCOFeedDurations receiver (d :: ds) =
      ((COCOFeedDurations
          (COCOReceiverFeedGPIOValueChangeTime receiver (add32 receiver.lastTimestamp d)).1 ds).1,
        (COCOReceiverFeedGPIOValueChangeTime receiver (add32 receiver.lastTimestamp d)).2.toList ++
          (COCOFeedDurations
            (COCOReceiverFeedGPIOValueChangeTime receiver (add32 receiver.lastTimestamp d)).1
            ds).2) := rfl

theorem COCOFeedDurations_append (ds es : List Nat) :
    ∀ receiver : COCOReceiver,
      COCOFeedDurations receiver (ds ++ es) =
        ((COCOFeedDurations (COCOFeedDurations receiver ds).1 es).1,
          (COCOFeedDurations receiver ds).2 ++
            (COCOFeedDurations (COCOFeedDurations receiver ds).1 es).2) := by
  induction ds with
  | nil => intro receiver; simp [COCOFeedDurations_nil]
  | cons d ds ih =>
    intro receiver
    rw [List.cons_append, COCOFeedDurations_cons, COCOFeedDurations_cons, ih]
    simp only [List.append_assoc]

/-- An edge whose duration is neither a start-sync nor an end-sync is only stored. -/
theorem COCOFeed_plain (receiver : COCOReceiver) (d : Nat) (hd : d < 4294967296)
    (hs : COCOInStartSync receiver d = false) (he : COCOInEndSync receiver d = false) :
    COCOReceiverFeedGPIOValueChangeTime receiver (add32 receiver.lastTimestamp d) =
      (COCOStore receiver (add32 receiver.lastTimestamp d) d, none) := by
  unfold COCOReceiverFeedGPIOValueChangeTime
  simp only [sub32_add32_of_lt _ d hd]
  simp only [COCOInStartSync, COCOInEndSync, decide_eq_false_iff_not] at hs he
  simp only [COCOStartSync, if_neg hs, COCOEndSync, if_neg he]

/-- An edge whose duration is a start-sync restarts the sequence. -/
theorem COCOFeed_start (receiver : COCOReceiver) (d : Nat) (hd : d < 4294967296)
    (hs : COCOInStartSync receiver d = true) (he : COCOInEndSync receiver d = false) :
    COCOReceiverFeedGPIOValueChangeTime receiver (add32 receiver.lastTimestamp d) =
      (COCOStore { receiver with startTime := add32 receiver.lastTimestamp d, durationsIndex := 0 }
        (add32 receiver.lastTimestamp d) d, none) := by
  unfold COCOReceiverFeedGPIOValueChangeTime
  simp only [sub32_add32_of_lt _ d hd]
  simp only [COCOInStartSync, COCOInEndSync, decide_eq_false_iff_not, decide_eq_true_eq] at hs he
  simp only [COCOStartSync, if_pos hs, COCOEndSync, if_neg he]

/-- An edge whose duration is an end-sync triggers the analysis. -/
theorem COCOFeed_end (receiver : COCOReceiver) (d : Nat) (hd : d < 4294967296)
    (hs : COCOInStartSync receiver d = false) (he : COCOInEndSync receiver d = true) :
    COCOReceiverFeedGPIOValueChangeTime receiver (add32 receiver.lastTimestamp d) =
      (COCOStore
        (COCOEndSync receiver d).1 (add32 receiver.lastTimestamp d) d,
        (COCOEndSync receiver d).2) ∧
    COCOEndSync receiver d =
      (match analyzeDurations
          { receiver with durations := setSlot receiver.durations receiver.durationsIndex d }
          receiver.startTime with
        | some message =>
          COCOAccept
            { receiver with durations := setSlot receiver.durations receiver.durationsIndex d }
            message
        | none =>
          ({ receiver with
              durations := setSlot receiver.durations receiver.durationsIndex d
              previousMessageCode := 0 }, none)) ∧
    COCOEdgeAnalysis receiver (add32 receiver.lastTimestamp d) =
      analyzeDurations
          { receiver with durations := setSlot receiver.durations receiver.durationsIndex d }
          receiver.startTime := by
  simp only [COCOInStartSync, COCOInEndSync, decide_eq_false_iff_not, decide_eq_true_eq] at hs he
  refine ⟨?_, ?_, ?_⟩
  · unfold COCOReceiverFeedGPIOValueChangeTime
    simp only [sub32_add32_of_lt _ d hd]
    simp only [COCOStartSync, if_neg hs]
  · unfold COCOEndSync
    rw [if_pos he]
  · unfold COCOEdgeAnalysis
    simp only [sub32_add32_of_lt _ d hd]
    simp only [COCOStartSync, if_neg hs, if_pos he]

theorem COCOStore_eq (receiver : COCOReceiver) (timestamp d : Nat)
    (h : receiver.durationsIndex < 130) :
    COCOStore receiver timestamp d =
      { receiver with
        durations := setSlot receiver.durations receiver.durationsIndex d
        durationsIndex := receiver.durationsIndex + 1
        lastTimestamp := timestamp } := by
  have e : add32 receiver.durationsIndex 1 = receiver.durationsIndex + 1 := by
    unfold add32; norm_num; omega
  unfold COCOStore
  simp only [e, COCOMessagePulseCount]
  rw [if_neg (by omega)]

theorem COCOStore_wrap (receiver : COCOReceiver) (timestamp d : Nat)
    (h : receiver.durationsIndex = 130) :
    COCOStore receiver timestamp d =
      { receiver with
        durations := setSlot receiver.durations receiver.durationsIndex d
        durationsIndex := 0
        lastTimestamp := timestamp } := by
  have e : add32 receiver.durationsIndex 1 = 131 := by
    unfold add32; rw [h]; norm_num
  unfold COCOStore
  simp only [e, COCOMessagePulseCount]
  rfl

/-- Feeding a list of durations none of which is a sync stores them in
consecutive slots. -/
theorem COCOFeedDurations_plain (ds : List Nat) :
    ∀ receiver : COCOReceiver,
      (∀ d ∈ ds, d < 4294967296 ∧ COCOInStartSync receiver d = false ∧
        COCOInEndSync receiver d = false) →
      receiver.durationsIndex + ds.length ≤ 130 →
      COCOFeedDurations receiver ds =
        ({ receiver with
            durations := writeSlots receiver.durations receiver.durationsIndex ds
            durationsIndex := receiver.durationsIndex + ds.length
            lastTimestamp := advance receiver.lastTimestamp ds }, []) := by
  induction ds with
  | nil => intro receiver _ _; rfl
  | cons d ds ih =>
    intro receiver hall hlen
    obtain ⟨hd, hs, he⟩ := hall d (List.mem_cons_self _ _)
    simp only [List.length_cons] at hlen
    rw [COCOFeedDurations_cons, COCOFeed_plain receiver d hd hs he,
      COCOStore_eq receiver _ d (by omega)]
    simp only [Option.toList, List.nil_append]
    rw [ih]
    · simp only [writeSlots, advance, List.length_cons]
      congr 2
      omega
    · intro x hx
      exact hall x (List.mem_cons_of_mem _ hx)
    · simp only []
      omega

theorem writeSlots_apply (ds : List Nat) :
    ∀ (buffer : Nat → Nat) (i j : Nat),
      writeSlots buffer i ds j =
        if i ≤ j ∧ j < i + ds.length then ds.getD (j - i) 0 else buffer j := by
  induction ds with
  | nil =>
    intro buffer i j
    simp only [writeSlots, List.length_nil, Nat.add_zero]
    rw [if_neg (by omega)]
  | cons d ds ih =>
    intro buffer i j
    simp only [writeSlots, List.length_cons]
    rw [ih, setSlot_apply]
    by_cases h1 : j = i
    · subst h1
      rw [if_neg (by omega), if_pos rfl, if_pos (by omega), Nat.sub_self]
      rfl
    · by_cases h2 : i + 1 ≤ j ∧ j < i + 1 + ds.length
      · rw [if_pos h2, if_pos (by omega)]
        have e : j - i = (j - (i + 1)) + 1 := by omega
        rw [e, List.getD_cons_succ]
      · rw [if_neg h2, if_neg h1, if_neg (by omega)]

theorem setSlot_setSlot_same (buffer : Nat → Nat) (i v : Nat) :
    setSlot (setSlot buffer i v) i v = setSlot buffer i v := by
  funext j
  simp only [setSlot_apply]
  split_ifs <;> rfl

/-- Function `COCOStore` changes the buffer, the index and the last timestamp only. -/
theorem COCOStore_shape (receiver : COCOReceiver) (timestamp d : Nat) :
    COCOStore receiver timestamp d =
      { receiver with
        durations := setSlot receiver.durations receiver.durationsIndex d
        durationsIndex := (COCOStore receiver timestamp d).durationsIndex
        lastTimestamp := timestamp } := by
  unfold COCOStore
  simp only []
  split_ifs <;> rfl

/-- The repeat filter reads and writes neither the buffer, its index, the
origin nor the last timestamp, so it commutes with changes of these. -/
theorem COCOAccept_frame (receiver : COCOReceiver) (message : COCOMessage)
    (durations : Nat → Nat) (index last : Nat) :
    COCOAccept { receiver with durations := durations, durationsIndex := index,
                               lastTimestamp := last } message =
      ({ (COCOAccept receiver message).1 with durations := durations, durationsIndex := index,
                                              lastTimestamp := last },
        (COCOAccept receiver message).2) := by
  unfold COCOAccept
  simp only []
  split_ifs <;> rfl

theorem COCODecodeFrom_congr (receiver other : COCOReceiver) (a b : Nat → Nat)
    (hw : other.singlePulseMinDuration = receiver.singlePulseMinDuration ∧
      other.singlePulseMaxDuration = receiver.singlePulseMaxDuration)
    (hab : ∀ j, 1 ≤ j → j ≤ 128 → a j = b j) :
    ∀ (count k code : Nat), k + count ≤ 32 →
      COCODecodeFrom other a count k code = COCODecodeFrom receiver b count k code := by
  intro count
  induction count with
  | zero => intro k code _; rfl
  | succ count ih =>
    intro k code hk
    have g : COCOGroupBit other a k = COCOGroupBit receiver b k := by
      unfold COCOGroupBit COCOIsZero COCOIsOne
      simp only [hw.1, hw.2]
      rw [hab (4 * k + 1 + 0) (by omega) (by omega), hab (4 * k + 1 + 1) (by omega) (by omega),
        hab (4 * k + 1 + 2) (by omega) (by omega), hab (4 * k + 1 + 3) (by omega) (by omega)]
    simp only [COCODecodeFrom, g]
    cases COCOGroupBit receiver b k with
    | none => rfl
    | some bit => exact ih _ _ (by omega)

/-- The buffer after a frame `d0, s, body, e` was fed. -/
theorem COCOFeedDurations_frame (receiver : COCOReceiver) (d0 s e : Nat) (body : List Nat)
    (hlen : body.length = 129)
    (h0 : d0 < 4294967296 ∧ COCOInStartSync receiver d0 = false ∧
      COCOInEndSync receiver d0 = false)
    (hs : s < 4294967296 ∧ COCOInStartSync receiver s = true ∧ COCOInEndSync receiver s = false)
    (hb : ∀ d ∈ body, d < 4294967296 ∧ COCOInStartSync receiver d = false ∧
      COCOInEndSync receiver d = false)
    (he : e < 4294967296 ∧ COCOInStartSync receiver e = false ∧ COCOInEndSync receiver e = true) :
    COCOFeedDurations receiver (d0 :: s :: (body ++ [e])) =
      (match COCODecode receiver
          (setSlot (writeSlots (setSlot (setSlot receiver.durations receiver.durationsIndex d0)
            0 s) 1 body) 130 e) with
        | some code =>
          ((COCOAccept
              { receiver with
                startTime := add32 (add32 receiver.lastTimestamp d0) s
                durations :=
                  setSlot (writeSlots (setSlot (setSlot receiver.durations
                    receiver.durationsIndex d0) 0 s) 1 body) 130 e
                durationsIndex := 0
                lastTimestamp :=
                  add32 (advance (add32 (add32 receiver.lastTimestamp d0) s) body) e }
              (COCOMessageOfCode receiver (add32 (add32 receiver.lastTimestamp d0) s) code)).1,
            (COCOAccept
              { receiver with
                startTime := add32 (add32 receiver.lastTimestamp d0) s
                durations :=
                  setSlot (writeSlots (setSlot (setSlot receiver.durations
                    receiver.durationsIndex d0) 0 s) 1 body) 130 e
                durationsIndex := 0
                lastTimestamp :=
                  add32 (advance (add32 (add32 receiver.lastTimestamp d0) s) body) e }
              (COCOMessageOfCode receiver
                (add32 (add32 receiver.lastTimestamp d0) s) code)).2.toList)
        | none =>
          ({ receiver with
              startTime := add32 (add32 receiver.lastTimestamp d0) s
              durations :=
                setSlot (writeSlots (setSlot (setSlot receiver.durations
                  receiver.durationsIndex d0) 0 s) 1 body) 130 e
              durationsIndex := 0
              lastTimestamp := add32 (advance (add32 (add32 receiver.lastTimestamp d0) s) body) e
              previousMessageCode := 0 }, [])) := by
  -- first pulse
  rw [COCOFeedDurations_cons, COCOFeed_plain receiver d0 h0.1 h0.2.1 h0.2.2]
  rw [COCOStore_shape]
  generalize (COCOStore receiver (add32 receiver.lastTimestamp d0) d0).durationsIndex = i1
  -- start-sync
  rw [COCOFeedDurations_cons,
    COCOFeed_start
      { receiver with
        durations := setSlot receiver.durations receiver.durationsIndex d0
        durationsIndex := i1
        lastTimestamp := add32 receiver.lastTimestamp d0 } s hs.1 hs.2.1 hs.2.2]
  rw [COCOStore_eq _ _ _ (by show 0 < 130; omega)]
  -- the 129 durations up to the end-sync
  rw [COCOFeedDurations_append,
    COCOFeedDurations_plain body
      { receiver with
        startTime := add32 (add32 receiver.lastTimestamp d0) s
        durations := setSlot (setSlot receiver.durations receiver.durationsIndex d0) 0 s
        durationsIndex := 0 + 1
        lastTimestamp := add32 (add32 receiver.lastTimestamp d0) s } hb
      (by show 0 + 1 + body.length ≤ 130; omega)]
  -- end-sync
  rw [COCOFeedDurations_cons, COCOFeedDurations_nil]
  obtain ⟨f1, f2, -⟩ := COCOFeed_end
    { receiver with
      startTime := add32 (add32 receiver.lastTimestamp d0) s
      durations := writeSlots (setSlot (setSlot receiver.durations receiver.durationsIndex d0)
        0 s) (0 + 1) body
      durationsIndex := 0 + 1 + body.length
      lastTimestamp := advance (add32 (add32 receiver.lastTimestamp d0) s) body }
    e he.1 he.2.1 he.2.2
  rw [f1, f2]
  clear f1 f2
  rw [analyzeDurations_eq_decode _ _ (by show 0 + 1 + body.length = 130; omega)]
  simp only [hlen, Nat.zero_add, Nat.reduceAdd]
  generalize writeSlots (setSlot (setSlot receiver.durations receiver.durationsIndex d0) 0 s)
    1 body = W
  generalize add32 (add32 receiver.lastTimestamp d0) s = t1
  generalize advance t1 body = tb
  have hdecode : COCODecode
      { receiver with
        startTime := t1, durations := setSlot W 130 e, durationsIndex := 130,
        lastTimestamp := tb } (setSlot W 130 e) = COCODecode receiver (setSlot W 130 e) :=
    COCODecodeFrom_congr receiver _ _ _ ⟨rfl, rfl⟩ (fun _ _ _ => rfl) 32 0 0 (by omega)
  rw [hdecode]
  cases COCODecode receiver (setSlot W 130 e) with
  | none =>
    simp only [Option.map_none', Option.toList, List.append_nil]
    rw [COCOStore_wrap _ _ _ rfl]
    simp only [setSlot_setSlot_same]
  | some code =>
    simp only [Option.map_some', List.append_nil, List.nil_append]
    have hacc := fun (m : COCOMessage) (D : Nat → Nat) (I L : Nat) =>
      COCOAccept_frame { receiver with startTime := t1 } m D I L
    rw [show COCOAccept
        { receiver with
          startTime := t1, durations := setSlot W 130 e, durationsIndex := 130,
          lastTimestamp := tb }
        (COCOMessageOfCode
          { receiver with
            startTime := t1, durations := setSlot W 130 e, durationsIndex := 130,
            lastTimestamp := tb } t1 code) = _ from
      hacc (COCOMessageOfCode receiver t1 code) (setSlot W 130 e) 130 tb]
    rw [show COCOAccept
        { receiver with
          startTime := t1, durations := setSlot W 130 e, durationsIndex := 0,
          lastTimestamp := add32 tb e }
        (COCOMessageOfCode receiver t1 code) = _ from
      hacc (COCOMessageOfCode receiver t1 code) (setSlot W 130 e) 0 (add32 tb e)]
    generalize COCOAccept { receiver with startTime := t1 }
      (COCOMessageOfCode receiver t1 code) = acc
    rw [COCOStore_wrap _ _ _ rfl]
    simp only [setSlot_setSlot_same]
    rfl

theorem writeSlots_append (ds es : List Nat) :
    ∀ (buffer : Nat → Nat) (i : Nat),
      writeSlots buffer i (ds ++ es) = writeSlots (writeSlots buffer i ds) (i + ds.length) es := by
  induction ds with
  | nil => intro buffer i; rfl
  | cons d ds ih =>
    intro buffer i
    rw [List.cons_append, writeSlots, writeSlots, ih, List.length_cons]
    have e : i + 1 + ds.length = i + (ds.length + 1) := by omega
    rw [e]

theorem advance_append (ds es : List Nat) :
    ∀ start : Nat, advance start (ds ++ es) = advance (advance start ds) es := by
  induction ds with
  | nil => intro start; rfl
  | cons d ds ih => intro start; rw [List.cons_append, advance, advance, ih]

/-- A list of 132 durations splits into first pulse, start-sync, 129 further
durations and the last one. -/
theorem frame_split (frame : List Nat) (h : frame.length = 132) :
    frame = frame.getD 0 0 :: frame.getD 1 0 ::
      ((frame.drop 2).take 129 ++ [frame.getD 131 0]) := by
  match frame, h with
  | d0 :: s :: rest, h =>
    simp only [List.length_cons] at h
    have hr : rest.length = 130 := by omega
    simp only [List.getD_cons_zero, List.getD_cons_succ, List.drop_succ_cons, List.drop_zero,
      List.cons.injEq, true_and]
    have h1 : rest.drop 129 = [rest.getD 129 0] := by
      rw [List.drop_eq_getElem_cons (by omega), List.drop_of_length_le (by omega)]
      simp [List.getD_eq_getElem?_getD, List.getElem?_eq_getElem (show 129 < rest.length by omega)]
    conv_lhs => rw [← List.take_append_drop 129 rest]
    rw [h1]

theorem getD_body (frame : List Nat) (j : Nat) (hj : j < 129) :
    ((frame.drop 2).take 129).getD j 0 = frame.getD (j + 2) 0 := by
  simp only [List.getD_eq_getElem?_getD]
  rw [List.getElem?_take_of_lt hj, List.getElem?_drop, Nat.add_comm]

theorem mem_body (frame : List Nat) (h : frame.length = 132) (d : Nat)
    (hd : d ∈ (frame.drop 2).take 129) :
    ∃ j, j < 129 ∧ d = frame.getD (j + 2) 0 ∧ d ∈ frame := by
  have hmem : d ∈ frame := List.mem_of_mem_drop (List.mem_of_mem_take hd)
  obtain ⟨j, hj, hjd⟩ := List.getElem_of_mem hd
  have hlen : ((frame.drop 2).take 129).length = 129 := by
    simp only [List.length_take, List.length_drop, h]
    rfl
  refine ⟨j, by omega, ?_, hmem⟩
  rw [← getD_body frame j (by omega), List.getD_eq_getElem?_getD,
    List.getElem?_eq_getElem hj, hjd]
  rfl

theorem COCOValidFrame_parts (receiver : COCOReceiver) (frame : List Nat)
    (hv : COCOValidFrame receiver frame = true) :
    ∃ (d0 s e : Nat) (body : List Nat), frame = d0 :: s :: (body ++ [e]) ∧
      body.length = 129 ∧
      (d0 < 4294967296 ∧ COCOInStartSync receiver d0 = false ∧
        COCOInEndSync receiver d0 = false) ∧
      (s < 4294967296 ∧ COCOInStartSync receiver s = true ∧ COCOInEndSync receiver s = false) ∧
      (∀ d ∈ body, d < 4294967296 ∧ COCOInStartSync receiver d = false ∧
        COCOInEndSync receiver d = false) ∧
      (e < 4294967296 ∧ COCOInStartSync receiver e = false ∧ COCOInEndSync receiver e = true) ∧
      (COCODecode receiver (fun j => frame.getD (j + 1) 0)).isSome = true := by
  simp only [COCOValidFrame, Bool.and_eq_true, decide_eq_true_eq, List.all_eq_true,
    Bool.not_eq_true', List.mem_range] at hv
  obtain ⟨⟨⟨⟨⟨⟨⟨⟨⟨hlen, hall⟩, a0⟩, b0⟩, a1⟩, b1⟩, hbody⟩, b131⟩, a131⟩, hdec⟩ := hv
  norm_num at hall
  have hsplit := frame_split frame hlen
  have hm : ∀ i, i < 132 → frame.getD i 0 ∈ frame := by
    intro i hi
    rw [List.getD_eq_getElem?_getD, List.getElem?_eq_getElem (by omega)]
    exact List.getElem_mem _
  refine ⟨frame.getD 0 0, frame.getD 1 0, frame.getD 131 0, (frame.drop 2).take 129, hsplit, ?_,
    ⟨hall _ (hm 0 (by omega)), a0, b0⟩, ⟨hall _ (hm 1 (by omega)), a1, b1⟩, ?_,
    ⟨hall _ (hm 131 (by omega)), a131, b131⟩, hdec⟩
  · simp only [List.length_take, List.length_drop, hlen]
    rfl
  · intro d hd
    obtain ⟨j, hj, hjd, hmem⟩ := mem_body frame hlen d hd
    have := hbody j hj
    rw [← hjd] at this
    exact ⟨hall d hmem, this.1, this.2⟩

/-- Feeding a valid frame: the buffer holds the frame, and the repeat filter is
applied once to the decoded message. -/
theorem COCOFeedDurations_validFrame (receiver : COCOReceiver) (frame : List Nat)
    (hv : COCOValidFrame receiver frame = true) :
    COCOFeedDurations receiver frame =
      ((COCOAccept (COCOAfterFrame receiver frame) (COCOFrameMessage receiver frame)).1,
        (COCOAccept (COCOAfterFrame receiver frame)
          (COCOFrameMessage receiver frame)).2.toList) := by
  obtain ⟨d0, s, e, body, hf, hlen, h0, hs, hb, he, hdec⟩ := COCOValidFrame_parts receiver frame hv
  subst hf
  rw [COCOFeedDurations_frame receiver d0 s e body hlen h0 hs hb he]
  have hcongr : COCODecode receiver
      (setSlot (writeSlots (setSlot (setSlot receiver.durations receiver.durationsIndex d0)
        0 s) 1 body) 130 e) =
      COCODecode receiver (fun j => (d0 :: s :: (body ++ [e])).getD (j + 1) 0) := by
    apply COCODecodeFrom_congr receiver receiver _ _ ⟨rfl, rfl⟩ _ 32 0 0 (by omega)
    intro j h1 h2
    rw [setSlot_apply, if_neg (by omega), writeSlots_apply, if_pos (by omega)]
    simp only [List.getD_cons_succ]
    obtain ⟨i, rfl⟩ : ∃ i, j = i + 1 := ⟨j - 1, by omega⟩
    rw [List.getD_cons_succ, List.getD_append body [e] 0 i (by omega)]
    rfl
  have hbuf : setSlot (writeSlots (setSlot (setSlot receiver.durations receiver.durationsIndex d0)
        0 s) 1 body) 130 e =
      writeSlots (setSlot receiver.durations receiver.durationsIndex d0) 0 (s :: (body ++ [e])) := by
    rw [writeSlots, writeSlots_append, hlen]
    rfl
  have hadv : add32 (advance (add32 (add32 receiver.lastTimestamp d0) s) body) e =
      advance receiver.lastTimestamp (d0 :: s :: (body ++ [e])) := by
    rw [advance, advance, advance_append]
    rfl
  rw [hcongr, hbuf, hadv]
  unfold COCOFrameMessage COCOFrameCode COCOAfterFrame COCOFrameOrigin
  cases hd : COCODecode receiver (fun j => (d0 :: s :: (body ++ [e])).getD (j + 1) 0) with
  | none => rw [hd] at hdec; exact absurd hdec (by simp)
  | some code => rfl

theorem or_of_mul_pow (a b i : Nat) (hb : b < 2 ^ i) : a * 2 ^ i ||| b = a * 2 ^ i + b := by
  rw [Nat.mul_comm, ← Nat.mul_add_lt_is_or hb]

theorem shl32_eq (a s : Nat) (h : a * 2 ^ s < 4294967296) : shl32 a s = a * 2 ^ s := by
  unfold shl32
  rw [Nat.shiftLeft_eq]
  exact Nat.mod_eq_of_lt (by norm_num; exact h)

/-- For an address of at most 26 bits and a channel of at most 4 bits the
composed code is the concatenation of the four fields. -/
theorem COCOFullCode_eq (message : COCOMessage) (ha : message.address < 2 ^ 26)
    (hc : message.channel < 16) :
    COCOFullCode message =
      message.address * 64 + (if message.group then 32 else 0) +
        (if message.onOff then 16 else 0) + message.channel := by
  norm_num at ha
  unfold COCOFullCode COCOMessageGetAddress COCOMessageGetGroup COCOMessageGetOnOff
    COCOMessageGetChannel
  simp only []
  have e0 : message.address % 2 ^ 32 = message.address := Nat.mod_eq_of_lt (by norm_num; omega)
  have e1 : message.channel % 2 ^ 16 = message.channel := Nat.mod_eq_of_lt (by norm_num; omega)
  rw [e0, e1]
  generalize message.address = a at *
  generalize message.channel = c at *
  have key : ∀ g o : Nat, g ≤ 1 → o ≤ 1 →
      shl32 (shl32 (shl32 a 1 ||| g) 1 ||| o) 4 ||| c = a * 64 + g * 32 + o * 16 + c := by
    intro g o hg ho
    have s1 : shl32 a 1 = a * 2 ^ 1 := shl32_eq _ 1 (by norm_num; omega)
    rw [s1, or_of_mul_pow a g 1 (by norm_num; omega)]
    have s2 : shl32 (a * 2 ^ 1 + g) 1 = (a * 2 ^ 1 + g) * 2 ^ 1 :=
      shl32_eq _ 1 (by norm_num; omega)
    rw [s2, or_of_mul_pow _ o 1 (by norm_num; omega)]
    have s3 : shl32 ((a * 2 ^ 1 + g) * 2 ^ 1 + o) 4 = ((a * 2 ^ 1 + g) * 2 ^ 1 + o) * 2 ^ 4 :=
      shl32_eq _ 4 (by norm_num; omega)
    rw [s3, or_of_mul_pow _ c 4 (by norm_num; omega)]
    norm_num
    omega
  cases message.group <;> cases message.onOff
  · simpa using key 0 0 (by norm_num) (by norm_num)
  · simpa using key 0 1 (by norm_num) (by norm_num)
  · simpa using key 1 0 (by norm_num) (by norm_num)
  · simpa using key 1 1 (by norm_num) (by norm_num)

theorem COCOFullCode_lt (message : COCOMessage) : COCOFullCode message < 4294967296 := by
  unfold COCOFullCode
  simp only []
  have h := Nat.or_lt_two_pow (x := shl32 (shl32 (shl32 (COCOMessageGetAddress message % 2 ^ 32) 1 |||
      if COCOMessageGetGroup message = true then 1 else 0) 1 |||
      if COCOMessageGetOnOff message = true then 1 else 0) 4)
    (y := COCOMessageGetChannel message % 2 ^ 16) (n := 32)
    (by have := shl32_lt (shl32 (shl32 (COCOMessageGetAddress message % 2 ^ 32) 1 |||
          if COCOMessageGetGroup message = true then 1 else 0) 1 |||
          if COCOMessageGetOnOff message = true then 1 else 0) 4
        norm_num; exact this)
    (lt_of_lt_of_le (Nat.mod_lt _ (by norm_num)) (by norm_num))
  norm_num at h ⊢
  exact h

/-- The reference decoder returns `code` when each group `k` carries bit
`31 - k` of `code`. -/
theorem COCODecodeFrom_bits (receiver : COCOReceiver) (buffer : Nat → Nat) (code : Nat)
    (hcode : code < 4294967296)
    (hbits : ∀ k, k < 32 → COCOGroupBit receiver buffer k = some (code.testBit (31 - k))) :
    ∀ (count k : Nat), k + count = 32 →
      COCODecodeFrom receiver buffer count k (code / 2 ^ (32 - k)) = some code := by
  intro count
  induction count with
  | zero =>
    intro k hk
    have : k = 32 := by omega
    subst this
    simp [COCODecodeFrom]
  | succ count ih =>
    intro k hk
    rw [COCODecodeFrom, hbits k (by omega)]
    simp only []
    have hq : code / 2 ^ (32 - k) = code / 2 ^ (31 - k) / 2 := by
      rw [Nat.div_div_eq_div_mul, ← pow_succ]
      congr 2
      omega
    have hlt : code / 2 ^ (31 - k) < 4294967296 := lt_of_le_of_lt (Nat.div_le_self _ _) hcode
    have hnext : (if code.testBit (31 - k) = true then shl32 (code / 2 ^ (32 - k)) 1 ||| 1
        else shl32 (code / 2 ^ (32 - k)) 1) = code / 2 ^ (32 - (k + 1)) := by
      have e32 : 32 - (k + 1) = 31 - k := by omega
      rw [e32, hq, shl32_eq _ 1 (by norm_num; omega), Nat.testBit_to_div_mod]
      have h2 := Nat.mod_two_eq_zero_or_one (code / 2 ^ (31 - k))
      rcases h2 with h2 | h2
      · simp only [h2]
        norm_num
        omega
      · simp only [h2]
        rw [or_of_mul_pow _ 1 1 (by norm_num)]
        norm_num
        omega
    rw [hnext]
    exact ih (k + 1) (by omega)

theorem OOKSenderSendCOCO_getD (message : COCOMessage) (j : Nat) :
    (OOKSenderSendCOCO message).getD j 0 = OOKSenderSendCOCOArray message j := by
  by_cases hj : j < 132
  · rw [List.getD_eq_getElem?_getD, OOKSenderSendCOCO_getElem message j hj]
    rfl
  · rw [List.getD_eq_default _ _ (by simp [OOKSenderSendCOCO, kCOCOTotalNumberOfPulses]; omega),
      OOKSenderSendCOCOArray_apply]
    simp (disch := omega) only [if_neg]

theorem COCOPulseAt_cases (code j : Nat) : COCOPulseAt code j = 260 ∨ COCOPulseAt code j = 1040 := by
  unfold COCOPulseAt
  split_ifs <;> simp

theorem OOKSenderSendCOCOArray_mid (message : COCOMessage) (j : Nat) (h1 : 2 ≤ j) (h2 : j ≤ 130) :
    OOKSenderSendCOCOArray message j = 260 ∨ OOKSenderSendCOCOArray message j = 1040 := by
  rw [OOKSenderSendCOCOArray_apply, if_neg (by omega), if_neg (by omega)]
  by_cases h : j < 130
  · rw [if_pos h]
    exact COCOPulseAt_cases _ _
  · rw [if_neg h, if_pos (by omega)]
    exact Or.inl rfl

theorem OOKSenderSendCOCOArray_le (message : COCOMessage) (j : Nat) :
    OOKSenderSendCOCOArray message j ≤ 10400 := by
  rw [OOKSenderSendCOCOArray_apply]
  have := COCOPulseAt_cases (COCOFullCode message) j
  split_ifs <;> omega

/-- Under the default windows group `k` of a sent frame decodes to bit `31 - k`
of the composed code. -/
theorem OOKSenderSendCOCO_groupBit (receiver : COCOReceiver) (hw : COCODefaultWindows receiver)
    (message : COCOMessage) (k : Nat) (hk : k < 32) :
    COCOGroupBit receiver (fun j => (OOKSenderSendCOCO message).getD (j + 1) 0) k =
      some ((COCOFullCode message).testBit (31 - k)) := by
  obtain ⟨w1, w2, -, -, -, -⟩ := hw
  have a0 : (4 * k + 1 + 0 + 1 - 2) / 4 = k := by omega
  have a1 : (4 * k + 1 + 1 + 1 - 2) / 4 = k := by omega
  have a2 : (4 * k + 1 + 2 + 1 - 2) / 4 = k := by omega
  have a3 : (4 * k + 1 + 3 + 1 - 2) / 4 = k := by omega
  have b0 : (4 * k + 1 + 0 + 1 - 2) % 4 = 0 := by omega
  have b1 : (4 * k + 1 + 1 + 1 - 2) % 4 = 1 := by omega
  have b2 : (4 * k + 1 + 2 + 1 - 2) % 4 = 2 := by omega
  have b3 : (4 * k + 1 + 3 + 1 - 2) % 4 = 3 := by omega
  unfold COCOGroupBit COCOIsZero COCOIsOne
  simp (disch := omega) only [OOKSenderSendCOCO_getD, OOKSenderSendCOCOArray_apply, COCOPulseAt,
    if_pos, if_neg, a0, a1, a2, a3, b0, b1, b2, b3, w1, w2, COCOPulsesLong, mul32]
  cases (COCOFullCode message).testBit (31 - k) <;> simp

theorem OOKSenderSendCOCO_decode (receiver : COCOReceiver) (hw : COCODefaultWindows receiver)
    (message : COCOMessage) :
    COCODecode receiver (fun j => (OOKSenderSendCOCO message).getD (j + 1) 0) =
      some (COCOFullCode message) := by
  have h := COCODecodeFrom_bits receiver _ (COCOFullCode message) (COCOFullCode_lt message)
    (fun k hk => OOKSenderSendCOCO_groupBit receiver hw message k hk) 32 0 (by omega)
  have e : COCOFullCode message / 2 ^ (32 - 0) = 0 :=
    Nat.div_eq_of_lt (by have := COCOFullCode_lt message; norm_num; exact this)
  rw [e] at h
  exact h

/-- Every frame the sender builds is a valid frame for the default windows. -/
theorem OOKSenderSendCOCO_valid (receiver : COCOReceiver) (hw : COCODefaultWindows receiver)
    (message : COCOMessage) :
    COCOValidFrame receiver (OOKSenderSendCOCO message) = true ∧
      COCOFrameCode receiver (OOKSenderSendCOCO message) = COCOFullCode message := by
  have hdec := OOKSenderSendCOCO_decode receiver hw message
  refine ⟨?_, by unfold COCOFrameCode; rw [hdec]; rfl⟩
  obtain ⟨w1, w2, w3, w4, w5, w6⟩ := hw
  unfold COCOValidFrame
  rw [hdec]
  simp only [Bool.and_eq_true, decide_eq_true_eq, List.all_eq_true, Bool.not_eq_true',
    List.mem_range, OOKSenderSendCOCO_getD, COCOInStartSync, COCOInEndSync, w3, w4, w5, w6,
    decide_eq_false_iff_not, Option.isSome_some, and_true]
  have v0 : OOKSenderSendCOCOArray message 0 = 260 := by rw [OOKSenderSendCOCOArray_apply]; rfl
  have v1 : OOKSenderSendCOCOArray message 1 = 2600 := by rw [OOKSenderSendCOCOArray_apply]; rfl
  have v131 : OOKSenderSendCOCOArray message 131 = 10400 := by
    rw [OOKSenderSendCOCOArray_apply]; rfl
  rw [v0, v1, v131]
  refine ⟨⟨⟨⟨⟨⟨⟨⟨?_, ?_⟩, by omega⟩, by omega⟩, by omega⟩, by omega⟩, ?_⟩, by omega⟩, by omega⟩
  · simp [OOKSenderSendCOCO, kCOCOTotalNumberOfPulses]
  · intro x hx
    simp only [OOKSenderSendCOCO, List.mem_map] at hx
    obtain ⟨j, -, rfl⟩ := hx
    have := OOKSenderSendCOCOArray_le message j
    norm_num
    omega
  · intro j hj
    rcases OOKSenderSendCOCOArray_mid message (j + 2) (by omega) (by omega) with h | h <;>
      rw [h] <;> omega

/-- Feeding a start-sync and the 129 durations that follow it in a frame. -/
theorem COCOFeedDurations_toEnd (receiver : COCOReceiver) (s : Nat) (body : List Nat)
    (hlen : body.length = 129)
    (hs : s < 4294967296 ∧ COCOInStartSync receiver s = true ∧ COCOInEndSync receiver s = false)
    (hb : ∀ d ∈ body, d < 4294967296 ∧ COCOInStartSync receiver d = false ∧
      COCOInEndSync receiver d = false) :
    COCOFeedDurations receiver (s :: body) =
      ({ receiver with
          startTime := add32 receiver.lastTimestamp s
          durations := writeSlots (setSlot receiver.durations 0 s) 1 body
          durationsIndex := 130
          lastTimestamp := advance (add32 receiver.lastTimestamp s) body }, []) := by
  rw [COCOFeedDurations_cons, COCOFeed_start receiver s hs.1 hs.2.1 hs.2.2]
  rw [COCOStore_eq _ _ _ (by show 0 < 130; omega)]
  rw [COCOFeedDurations_plain body
      { receiver with
        startTime := add32 receiver.lastTimestamp s
        durations := setSlot receiver.durations 0 s
        durationsIndex := 0 + 1
        lastTimestamp := add32 receiver.lastTimestamp s } hb
      (by show 0 + 1 + body.length ≤ 130; omega)]
  simp only [hlen, Option.toList, List.nil_append]

theorem COCOMessageOfCode_fullCode (receiver : COCOReceiver) (hm : COCOCreatedMasks receiver)
    (timestamp : Nat) (message : COCOMessage) (ha : message.address < 2 ^ 26)
    (hc : message.channel < 16) :
    COCOMessageOfCode receiver timestamp (COCOFullCode message) =
      { timestamp := timestamp, fullMessageCode := COCOFullCode message,
        address := message.address, group := message.group, onOff := message.onOff,
        channel := message.channel } := by
  obtain ⟨h1, h2, h3, h4⟩ := hm
  have hlt := COCOFullCode_lt message
  have hcode := COCOFullCode_eq message ha hc
  norm_num at ha
  unfold COCOMessageOfCode
  rw [h1, h2, h3, h4, and_mask_shift _ hlt]
  have g5 := and_two_pow_eq_iff (COCOFullCode message) 5
  have g4 := and_two_pow_eq_iff (COCOFullCode message) 4
  have c4 := Nat.and_pow_two_sub_one_eq_mod (COCOFullCode message) 4
  norm_num at g5 g4 c4
  simp only [Nat.testBit_to_div_mod, decide_eq_true_eq] at g5 g4
  have e1 : COCOFullCode message >>> 6 = message.address := by
    rw [Nat.shiftRight_eq_div_pow, hcode]
    cases message.group <;> cases message.onOff <;> norm_num <;> omega
  have e2 : decide (COCOFullCode message &&& 32 = 32) = message.group := by
    rw [Bool.eq_iff_iff, decide_eq_true_eq, g5, hcode]
    cases message.group <;> cases message.onOff <;> norm_num <;> omega
  have e3 : decide (COCOFullCode message &&& 16 = 16) = message.onOff := by
    rw [Bool.eq_iff_iff, decide_eq_true_eq, g4, hcode]
    cases message.group <;> cases message.onOff <;> norm_num <;> omega
  have e4 : (COCOFullCode message &&& 15) % 2 ^ 16 = message.channel := by
    rw [c4, hcode]
    cases message.group <;> cases message.onOff <;> norm_num <;> omega
  rw [e1, e2, e3, e4]

/-- C1. COCO round trip: for every address below 2^26, channel below 16 and
booleans group and onOff, feeding a receiver with the default windows and masks
(in any state) the edges whose successive durations are entries 1..131 of the
frame `OOKSenderSendCOCO` builds makes the call of `analyzeDurations` on the
last (end-sync) edge succeed, with a message whose address, group, onOff and
channel are the original ones. -/
theorem C1_COCO_round_trip (receiver : COCOReceiver) (message : COCOMessage)
    (hw : COCODefaultWindows receiver) (hm : COCOCreatedMasks receiver)
    (ha : message.address < 2 ^ 26) (hc : message.channel < 16) :
    ∃ decoded : COCOMessage,
      COCOEdgeAnalysis
          (COCOFeedDurations receiver (((OOKSenderSendCOCO message).drop 1).take 130)).1
          (add32
            (COCOFeedDurations receiver
              (((OOKSenderSendCOCO message).drop 1).take 130)).1.lastTimestamp
            ((OOKSenderSendCOCO message).getD 131 0)) = some decoded ∧
      decoded.address = message.address ∧ decoded.group = message.group ∧
      decoded.onOff = message.onOff ∧ decoded.channel = message.channel := by
  obtain ⟨hv, hcode⟩ := OOKSenderSendCOCO_valid receiver hw message
  have hdec := OOKSenderSendCOCO_decode receiver hw message
  obtain ⟨d0, s, e, body, hf, hlen, -, hs, hb, he, -⟩ :=
    COCOValidFrame_parts receiver _ hv
  rw [hf] at hdec ⊢
  have htake : ((d0 :: s :: (body ++ [e])).drop 1).take 130 = s :: body := by
    simp only [List.drop_succ_cons, List.drop_zero]
    rw [show (130 : Nat) = 129 + 1 from rfl, List.take_succ_cons, ← hlen, List.take_left]
  have hlast : (d0 :: s :: (body ++ [e])).getD 131 0 = e := by
    simp only [List.getD_cons_succ]
    rw [List.getD_append_right _ _ _ _ (by omega), hlen]
    rfl
  rw [htake, hlast, COCOFeedDurations_toEnd receiver s body hlen hs hb]
  obtain ⟨-, -, f3⟩ := COCOFeed_end
    { receiver with
      startTime := add32 receiver.lastTimestamp s
      durations := writeSlots (setSlot receiver.durations 0 s) 1 body
      durationsIndex := 130
      lastTimestamp := advance (add32 receiver.lastTimestamp s) body }
    e he.1 he.2.1 he.2.2
  rw [f3, analyzeDurations_eq_decode _ _ rfl]
  have hcongr : COCODecode
      { receiver with
        startTime := add32 receiver.lastTimestamp s
        durations := setSlot (writeSlots (setSlot receiver.durations 0 s) 1 body) 130 e
        durationsIndex := 130
        lastTimestamp := advance (add32 receiver.lastTimestamp s) body }
      (setSlot (writeSlots (setSlot receiver.durations 0 s) 1 body) 130 e) =
      COCODecode receiver (fun j => (d0 :: s :: (body ++ [e])).getD (j + 1) 0) := by
    apply COCODecodeFrom_congr receiver _ _ _ ⟨rfl, rfl⟩ _ 32 0 0 (by omega)
    intro j h1 h2
    rw [setSlot_apply, if_neg (by omega), writeSlots_apply, if_pos (by omega)]
    simp only [List.getD_cons_succ]
    obtain ⟨i, rfl⟩ : ∃ i, j = i + 1 := ⟨j - 1, by omega⟩
    rw [List.getD_cons_succ, List.getD_append body [e] 0 i (by omega)]
    rfl
  have hmsg := COCOMessageOfCode_fullCode receiver hm (add32 receiver.lastTimestamp s) message ha hc
  refine ⟨COCOMessageOfCode receiver (add32 receiver.lastTimestamp s) (COCOFullCode message),
    ?_, ?_⟩
  · show Option.map _ (COCODecode _ _) = _
    rw [hcongr, hdec]
    rfl
  · rw [hmsg]
    exact ⟨rfl, rfl, rfl, rfl⟩

/-- Witness of C1: address 5, group, channel 3 on a freshly created receiver. -/
theorem C1_COCO_round_trip_witness :
    COCODefaultWindows (COCOReceiverCreate (fun _ => 0) true) ∧
    COCOCreatedMasks (COCOReceiverCreate (fun _ => 0) true) ∧
    ∃ decoded : COCOMessage,
      COCOEdgeAnalysis
          (COCOFeedDurations (COCOReceiverCreate (fun _ => 0) true)
            (((OOKSenderSendCOCO
              { timestamp := 0, fullMessageCode := 0, address := 5, group := true,
                onOff := false, channel := 3 }).drop 1).take 130)).1
          (add32
            (COCOFeedDurations (COCOReceiverCreate (fun _ => 0) true)
              (((OOKSenderSendCOCO
                { timestamp := 0, fullMessageCode := 0, address := 5, group := true,
                  onOff := false, channel := 3 }).drop 1).take 130)).1.lastTimestamp
            ((OOKSenderSendCOCO
              { timestamp := 0, fullMessageCode := 0, address := 5, group := true,
                onOff := false, channel := 3 }).getD 131 0)) = some decoded ∧
      decoded.address = 5 ∧ decoded.group = true ∧ decoded.onOff = false ∧
      decoded.channel = 3 :=
  ⟨by unfold COCODefaultWindows; decide, by unfold COCOCreatedMasks; decide,
    C1_COCO_round_trip (COCOReceiverCreate (fun _ => 0) true)
      { timestamp := 0, fullMessageCode := 0, address := 5, group := true,
        onOff := false, channel := 3 }
      (by unfold COCODefaultWindows; decide) (by unfold COCOCreatedMasks; decide)
      (by decide) (by decide)⟩

theorem repeatFrame_succ_right (frame : List Nat) :
    ∀ count : Nat, repeatFrame (count + 1) frame = repeatFrame count frame ++ frame := by
  intro count
  induction count with
  | zero => simp [repeatFrame]
  | succ count ih =>
    rw [repeatFrame, ih, ← List.append_assoc, ← repeatFrame, ih]

/-- The repeat filter for a code that differs from the previous one. -/
theorem COCOAccept_new (receiver : COCOReceiver) (message : COCOMessage)
    (h : message.fullMessageCode ≠ receiver.previousMessageCode) :
    COCOAccept receiver message =
      ({ receiver with repeats := 0, previousMessageCode := message.fullMessageCode }, none) := by
  unfold COCOAccept
  rw [if_neg h]

/-- The repeat filter for a repeated code below the repeat count. -/
theorem COCOAccept_count (receiver : COCOReceiver) (message : COCOMessage)
    (h : message.fullMessageCode = receiver.previousMessageCode)
    (hlt : add32 receiver.repeats 1 < receiver.repeatCount) :
    COCOAccept receiver message =
      ({ receiver with
          repeats := add32 receiver.repeats 1
          previousMessageCode := message.fullMessageCode }, none) := by
  unfold COCOAccept
  rw [if_pos h]
  simp only []
  rw [if_neg (by omega)]

/-- The repeat filter for a repeated code that reaches the repeat count outside
the refractory period: a hit. -/
theorem COCOAccept_hit (receiver : COCOReceiver) (message : COCOMessage)
    (h : message.fullMessageCode = receiver.previousMessageCode)
    (hge : receiver.repeatCount ≤ add32 receiver.repeats 1)
    (href : mul32 receiver.refractoryPeriod 1000000 <
      sub32 message.timestamp receiver.timestampPreviousHit) :
    COCOAccept receiver message =
      ({ receiver with
          timestampPreviousHit := message.timestamp
          repeats := 0
          previousMessageCode := message.fullMessageCode },
        if receiver.callback then some message else none) := by
  unfold COCOAccept
  rw [if_pos h]
  simp only []
  rw [if_pos (by omega), if_pos (by omega)]

/-- The repeat filter for a repeated code that reaches the repeat count inside
the refractory period: suppressed. -/
theorem COCOAccept_refractory (receiver : COCOReceiver) (message : COCOMessage)
    (h : message.fullMessageCode = receiver.previousMessageCode)
    (hge : receiver.repeatCount ≤ add32 receiver.repeats 1)
    (href : ¬ mul32 receiver.refractoryPeriod 1000000 <
      sub32 message.timestamp receiver.timestampPreviousHit) :
    COCOAccept receiver message =
      ({ receiver with
          repeats := add32 receiver.repeats 1
          previousMessageCode := message.fullMessageCode }, none) := by
  unfold COCOAccept
  rw [if_pos h]
  simp only []
  rw [if_pos (by omega), if_neg (by omega)]

/-- Validity and code of a frame depend on the receiver through its windows only. -/
theorem COCOValidFrame_congr (receiver other : COCOReceiver) (frame : List Nat)
    (h1 : other.singlePulseMinDuration = receiver.singlePulseMinDuration)
    (h2 : other.singlePulseMaxDuration = receiver.singlePulseMaxDuration)
    (h3 : other.startSyncLowMinDuration = receiver.startSyncLowMinDuration)
    (h4 : other.startSyncLowMaxDuration = receiver.startSyncLowMaxDuration)
    (h5 : other.endSyncLowMinDuration = receiver.endSyncLowMinDuration)
    (h6 : other.endSyncLowMaxDuration = receiver.endSyncLowMaxDuration) :
    COCOValidFrame other frame = COCOValidFrame receiver frame ∧
      COCOFrameCode other frame = COCOFrameCode receiver frame := by
  have hd : COCODecode other (fun j => frame.getD (j + 1) 0) =
      COCODecode receiver (fun j => frame.getD (j + 1) 0) :=
    COCODecodeFrom_congr receiver other _ _ ⟨h1, h2⟩ (fun _ _ _ => rfl) 32 0 0 (by omega)
  unfold COCOValidFrame COCOFrameCode COCOInStartSync COCOInEndSync
  rw [hd, h3, h4, h5, h6]
  exact ⟨rfl, rfl⟩

theorem add32_of_lt (a b : Nat) (h : a + b < 4294967296) : add32 a b = a + b := by
  unfold add32
  exact Nat.mod_eq_of_lt (by norm_num; exact h)

/-- While the repeat count is not reached, each further identical frame only
increments `repeats`; the callback is not called. -/
theorem COCOFeedDurations_streak (frame : List Nat) :
    ∀ (k : Nat) (receiver : COCOReceiver), COCOValidFrame receiver frame = true →
      receiver.previousMessageCode = COCOFrameCode receiver frame →
      receiver.repeats + k < receiver.repeatCount → receiver.repeatCount ≤ 4294967296 →
      ∃ (S : Nat) (D : Nat → Nat) (I : Nat),
        COCOFeedDurations receiver (repeatFrame k frame) =
          ({ receiver with
              startTime := S, durations := D, durationsIndex := I
              lastTimestamp := advance receiver.lastTimestamp (repeatFrame k frame)
              repeats := receiver.repeats + k }, []) := by
  intro k
  induction k with
  | zero =>
    intro receiver _ _ _ _
    exact ⟨receiver.startTime, receiver.durations, receiver.durationsIndex, rfl⟩
  | succ k ih =>
    intro receiver hv hprev hlt hcount
    rw [repeatFrame, COCOFeedDurations_append, COCOFeedDurations_validFrame receiver frame hv]
    have hacc := COCOAccept_count (COCOAfterFrame receiver frame) (COCOFrameMessage receiver frame)
      hprev.symm
      (by show add32 receiver.repeats 1 < receiver.repeatCount
          rw [add32_of_lt _ _ (by omega)]; omega)
    rw [hacc]
    simp only [Option.toList, List.nil_append]
    obtain ⟨hv1, hc1⟩ := COCOValidFrame_congr receiver
      { COCOAfterFrame receiver frame with
        repeats := add32 (COCOAfterFrame receiver frame).repeats 1
        previousMessageCode := (COCOFrameMessage receiver frame).fullMessageCode }
      frame rfl rfl rfl rfl rfl rfl
    have hrep : add32 (COCOAfterFrame receiver frame).repeats 1 = receiver.repeats + 1 :=
      add32_of_lt _ _ (by show receiver.repeats + 1 < 4294967296; omega)
    obtain ⟨S, D, I, hfeed⟩ := ih
      { COCOAfterFrame receiver frame with
        repeats := add32 (COCOAfterFrame receiver frame).repeats 1
        previousMessageCode := (COCOFrameMessage receiver frame).fullMessageCode }
      (by rw [hv1]; exact hv) (by rw [hc1]; rfl)
      (by show add32 (COCOAfterFrame receiver frame).repeats 1 + k < receiver.repeatCount
          rw [hrep]; omega)
      hcount
    refine ⟨S, D, I, ?_⟩
    rw [hfeed, advance_append]
    have hcode : (COCOFrameMessage receiver frame).fullMessageCode =
        receiver.previousMessageCode := hprev.symm
    simp only [hrep, hcode]
    have e : receiver.repeats + 1 + k = receiver.repeats + (k + 1) := by omega
    rw [e]
    rfl

theorem analyzeDurations_short (receiver : COCOReceiver) (timestamp : Nat)
    (h : receiver.durationsIndex < 130) : analyzeDurations receiver timestamp = none := by
  unfold analyzeDurations
  rw [if_pos (by simp only [COCOMessagePulseCount]; omega)]

theorem COCOEndSync_short (receiver : COCOReceiver) (duration : Nat)
    (h : receiver.durationsIndex < 130) :
    ∃ (D : Nat → Nat) (P : Nat),
      COCOEndSync receiver duration =
        ({ receiver with durations := D, previousMessageCode := P }, none) ∧
      (P = receiver.previousMessageCode ∨ P = 0) := by
  unfold COCOEndSync
  by_cases hc : duration > receiver.endSyncLowMinDuration ∧
      duration < receiver.endSyncLowMaxDuration
  · rw [if_pos hc]
    simp only []
    rw [analyzeDurations_short
      { receiver with durations := setSlot receiver.durations receiver.durationsIndex duration }
      receiver.startTime h]
    exact ⟨_, _, rfl, Or.inr rfl⟩
  · rw [if_neg hc]
    exact ⟨receiver.durations, receiver.previousMessageCode, rfl, Or.inl rfl⟩

/-- An edge that arrives while fewer than 130 durations are buffered never
calls the callback; it can only clear the previous code. -/
theorem COCOFeed_short (receiver : COCOReceiver) (timestamp : Nat)
    (h : receiver.durationsIndex < 130) :
    ∃ (S : Nat) (D : Nat → Nat) (I P : Nat),
      COCOReceiverFeedGPIOValueChangeTime receiver timestamp =
        ({ receiver with
            startTime := S, durations := D, durationsIndex := I, lastTimestamp := timestamp
            previousMessageCode := P }, none) ∧
      (P = receiver.previousMessageCode ∨ P = 0) := by
  unfold COCOReceiverFeedGPIOValueChangeTime
  simp only []
  generalize sub32 timestamp receiver.lastTimestamp = duration
  have hstart : ∃ S I, I < 130 ∧ COCOStartSync receiver timestamp duration =
      { receiver with startTime := S, durationsIndex := I } := by
    unfold COCOStartSync
    split_ifs
    · exact ⟨timestamp, 0, by omega, rfl⟩
    · exact ⟨receiver.startTime, receiver.durationsIndex, h, rfl⟩
  obtain ⟨S, I, hI, hS⟩ := hstart
  rw [hS]
  obtain ⟨D, P, hE, hP⟩ := COCOEndSync_short
    { receiver with startTime := S, durationsIndex := I } duration hI
  rw [hE, COCOStore_shape]
  exact ⟨_, _, _, _, rfl, hP⟩

/-- A receiver whose previous code differs from the code of a valid frame and
whose repeat count is `m + 1`: the first `m + 1` transmissions of the frame call
nothing; transmission `m + 2` calls the callback once when its origin lies
outside the refractory period. -/
theorem COCOFeedDurations_debounce (receiver : COCOReceiver) (frame : List Nat) (m : Nat)
    (hv : COCOValidFrame receiver frame = true)
    (hprev : receiver.previousMessageCode ≠ COCOFrameCode receiver frame)
    (hcount : receiver.repeatCount = m + 1) (h32 : m + 1 < 4294967296)
    (hcb : receiver.callback = true) :
    (COCOFeedDurations receiver (repeatFrame (m + 1) frame)).2 = [] ∧
    (mul32 receiver.refractoryPeriod 1000000 <
        sub32 (add32 (add32 (advance receiver.lastTimestamp (repeatFrame (m + 1) frame))
          (frame.getD 0 0)) (frame.getD 1 0)) receiver.timestampPreviousHit →
      ∃ message : COCOMessage,
        (COCOFeedDurations receiver (repeatFrame (m + 1 + 1) frame)).2 = [message] ∧
        message.fullMessageCode = COCOFrameCode receiver frame ∧
        message.timestamp =
          add32 (add32 (advance receiver.lastTimestamp (repeatFrame (m + 1) frame))
            (frame.getD 0 0)) (frame.getD 1 0)) := by
  -- first transmission: a new code
  have hfirst := COCOFeedDurations_validFrame receiver frame hv
  rw [COCOAccept_new (COCOAfterFrame receiver frame) (COCOFrameMessage receiver frame)
    (fun h => hprev h.symm)] at hfirst
  simp only [Option.toList] at hfirst
  -- the receiver after the first transmission
  obtain ⟨hv1, hc1⟩ := COCOValidFrame_congr receiver
    { COCOAfterFrame receiver frame with
      repeats := 0
      previousMessageCode := (COCOFrameMessage receiver frame).fullMessageCode }
    frame rfl rfl rfl rfl rfl rfl
  -- transmissions 2 .. m + 1
  obtain ⟨S, D, I, hstreak⟩ := COCOFeedDurations_streak frame m
    { COCOAfterFrame receiver frame with
      repeats := 0
      previousMessageCode := (COCOFrameMessage receiver frame).fullMessageCode }
    (by rw [hv1]; exact hv) (by rw [hc1]; rfl)
    (by show 0 + m < receiver.repeatCount; omega)
    (by show receiver.repeatCount ≤ 4294967296; omega)
  have hall : COCOFeedDurations receiver (repeatFrame (m + 1) frame) =
      ({ receiver with
          startTime := S, durations := D, durationsIndex := I
          lastTimestamp := advance receiver.lastTimestamp (repeatFrame (m + 1) frame)
          repeats := m
          previousMessageCode := COCOFrameCode receiver frame }, []) := by
    rw [repeatFrame, COCOFeedDurations_append, hfirst, hstreak, advance_append]
    simp only [List.append_nil, Nat.zero_add]
    rfl
  refine ⟨by rw [hall], ?_⟩
  intro href
  -- transmission m + 2
  obtain ⟨hv2, hc2⟩ := COCOValidFrame_congr receiver
    { receiver with
      startTime := S, durations := D, durationsIndex := I
      lastTimestamp := advance receiver.lastTimestamp (repeatFrame (m + 1) frame)
      repeats := m
      previousMessageCode := COCOFrameCode receiver frame }
    frame rfl rfl rfl rfl rfl rfl
  have hlast := COCOFeedDurations_validFrame
    { receiver with
      startTime := S, durations := D, durationsIndex := I
      lastTimestamp := advance receiver.lastTimestamp (repeatFrame (m + 1) frame)
      repeats := m
      previousMessageCode := COCOFrameCode receiver frame }
    frame (by rw [hv2]; exact hv)
  rw [COCOAccept_hit _ _ (by rw [COCOFrameMessage, hc2]; rfl)
    (by show receiver.repeatCount ≤ add32 m 1
        rw [add32_of_lt _ _ (by omega)]; omega)
    (by exact href)] at hlast
  rw [repeatFrame_succ_right, COCOFeedDurations_append, hall, hlast]
  refine ⟨COCOFrameMessage
    { receiver with
      startTime := S, durations := D, durationsIndex := I
      lastTimestamp := advance receiver.lastTimestamp (repeatFrame (m + 1) frame)
      repeats := m
      previousMessageCode := COCOFrameCode receiver frame } frame, ?_, ?_, ?_⟩
  · show [] ++ (if receiver.callback = true then some _ else none).toList = _
    rw [hcb]
    rfl
  · rw [COCOFrameMessage, hc2]
    rfl
  · rfl

theorem sub32_zero_of_lt (a : Nat) (h : a < 4294967296) : sub32 a 0 = a := by
  unfold sub32; norm_num; omega

theorem add32_lt (a b : Nat) : add32 a b < 4294967296 := by
  unfold add32
  exact Nat.mod_lt _ (by norm_num)

/-- C9 (amended). Debounce: for every valid COCO frame whose code is not zero
and every repeatCount >= 1, a freshly created COCO receiver (refractoryPeriod 0,
handler registered) that is fed a first edge and then that frame
repeatCount + 1 times consecutively invokes the handler exactly once, provided
the origin timestamp of the last frame is not 0; fed the frame repeatCount
times it invokes the handler zero times. -/
theorem C9_debounce (buffer : Nat → Nat) (callback : Bool) (repeatCount first : Nat)
    (frame : List Nat)
    (hn : 1 ≤ repeatCount ∧ repeatCount < 2 ^ 32)
    (hv : COCOValidFrame (COCOReceiverCreate buffer callback) frame = true)
    (hcode : COCOFrameCode (COCOReceiverCreate buffer callback) frame ≠ 0)
    (horigin : add32 (add32 (advance (add32 0 first) (repeatFrame repeatCount frame))
      (frame.getD 0 0)) (frame.getD 1 0) ≠ 0) :
    (COCOFeedDurations
        (COCOReceiverSetCallback
          (COCOReceiverSetRepeatCount (COCOReceiverCreate buffer callback) repeatCount) true)
        (first :: repeatFrame (repeatCount + 1) frame)).2.length = 1 ∧
    (COCOFeedDurations
        (COCOReceiverSetCallback
          (COCOReceiverSetRepeatCount (COCOReceiverCreate buffer callback) repeatCount) true)
        (first :: repeatFrame repeatCount frame)).2.length = 0 := by
  obtain ⟨hn1, hn2⟩ := hn
  norm_num at hn2
  obtain ⟨m, rfl⟩ : ∃ m, repeatCount = m + 1 := ⟨repeatCount - 1, by omega⟩
  have hmod : (m + 1) % 2 ^ 32 = m + 1 := Nat.mod_eq_of_lt (by norm_num; omega)
  generalize hr0 : COCOReceiverSetCallback
    (COCOReceiverSetRepeatCount (COCOReceiverCreate buffer callback) (m + 1)) true = r0
  have f1 : r0.durationsIndex = 0 := by rw [← hr0]; rfl
  have f2 : r0.previousMessageCode = 0 := by rw [← hr0]; rfl
  have f3 : r0.repeatCount = m + 1 := by rw [← hr0]; exact hmod
  have f4 : r0.callback = true := by rw [← hr0]; rfl
  have f5 : r0.refractoryPeriod = 0 := by rw [← hr0]; rfl
  have f6 : r0.timestampPreviousHit = 0 := by rw [← hr0]; rfl
  have f7 : r0.lastTimestamp = 0 := by rw [← hr0]; rfl
  obtain ⟨hv0, hc0⟩ := COCOValidFrame_congr (COCOReceiverCreate buffer callback) r0 frame
    (by rw [← hr0]; rfl) (by rw [← hr0]; rfl) (by rw [← hr0]; rfl) (by rw [← hr0]; rfl)
    (by rw [← hr0]; rfl) (by rw [← hr0]; rfl)
  obtain ⟨S, D, I, P, hfeed, hP⟩ := COCOFeed_short r0 (add32 r0.lastTimestamp first)
    (by rw [f1]; omega)
  have hP0 : P = 0 := by rcases hP with h | h <;> simp [h, f2]
  subst hP0
  obtain ⟨hv1, hc1⟩ := COCOValidFrame_congr r0
    { r0 with
      startTime := S, durations := D, durationsIndex := I
      lastTimestamp := add32 r0.lastTimestamp first
      previousMessageCode := 0 }
    frame rfl rfl rfl rfl rfl rfl
  obtain ⟨hnone, hone⟩ := COCOFeedDurations_debounce
    { r0 with
      startTime := S, durations := D, durationsIndex := I
      lastTimestamp := add32 r0.lastTimestamp first
      previousMessageCode := 0 }
    frame m (by rw [hv1, hv0]; exact hv)
    (by rw [hc1, hc0]; exact fun h => hcode h.symm) f3 (by omega) f4
  have horigin2 : mul32 r0.refractoryPeriod 1000000 <
      sub32 (add32 (add32 (advance (add32 r0.lastTimestamp first) (repeatFrame (m + 1) frame))
        (frame.getD 0 0)) (frame.getD 1 0)) r0.timestampPreviousHit := by
    rw [f5, f6, f7, sub32_zero_of_lt _ (add32_lt _ _)]
    show 0 < _
    exact Nat.pos_of_ne_zero horigin
  obtain ⟨message, hmsg, -, -⟩ := hone horigin2
  constructor
  · rw [COCOFeedDurations_cons, hfeed, hmsg]
    rfl
  · rw [COCOFeedDurations_cons, hfeed, hnone]
    rfl

set_option maxRecDepth 1000000 in
/-- C9 (counterexample). A freshly created receiver with repeatCount 1 that is
fed the valid frame of address 1 once does not invoke the handler. -/
theorem C9_debounce_counterexample :
    COCOValidFrame (COCOReceiverCreate (fun _ => 0) true)
        (OOKSenderSendCOCO
          { timestamp := 0, fullMessageCode := 0, address := 1, group := false,
            onOff := false, channel := 0 }) = true ∧
    (COCOFeedDurations
        (COCOReceiverSetCallback
          (COCOReceiverSetRepeatCount (COCOReceiverCreate (fun _ => 0) true) 1) true)
        (1000 :: repeatFrame 1
          (OOKSenderSendCOCO
            { timestamp := 0, fullMessageCode := 0, address := 1, group := false,
              onOff := false, channel := 0 }))).2.length = 0 := by
  constructor <;> decide

theorem COCODecodeFrom_isSome (receiver : COCOReceiver) (buffer : Nat → Nat) :
    ∀ (count k code : Nat),
      (COCODecodeFrom receiver buffer count k code).isSome = true ↔
        ∀ j, k ≤ j → j < k + count → (COCOGroupBit receiver buffer j).isSome = true := by
  intro count
  induction count with
  | zero =>
    intro k code
    simp only [COCODecodeFrom, Option.isSome_some, Nat.add_zero, true_iff]
    intro j h1 h2
    omega
  | succ count ih =>
    intro k code
    rw [COCODecodeFrom]
    cases hg : COCOGroupBit receiver buffer k with
    | none =>
      simp only [Option.isSome_none, Bool.false_eq_true, false_iff]
      intro h
      have := h k (le_refl _) (by omega)
      rw [hg] at this
      exact absurd this (by simp)
    | some bit =>
      simp only []
      rw [ih]
      constructor
      · intro h j h1 h2
        by_cases hj : j = k
        · subst hj; rw [hg]; rfl
        · exact h j (by omega) (by omega)
      · intro h j h1 h2
        exact h j (by omega) (by omega)

theorem COCOGroupBit_setSlot_other (receiver : COCOReceiver) (buffer : Nat → Nat) (k j v : Nat)
    (h : j ≠ k) :
    COCOGroupBit receiver (setSlot buffer (4 * k + 1) v) j = COCOGroupBit receiver buffer j := by
  unfold COCOGroupBit
  rw [COCOIsZero_congr receiver (fun p => setSlot buffer (4 * k + 1) v (4 * j + 1 + p))
      (fun p => buffer (4 * j + 1 + p)),
    COCOIsOne_congr receiver (fun p => setSlot buffer (4 * k + 1) v (4 * j + 1 + p))
      (fun p => buffer (4 * j + 1 + p))]
  all_goals
    show setSlot buffer (4 * k + 1) v _ = buffer _
    rw [setSlot_apply, if_neg (by omega)]

theorem COCOGroupBit_setSlot_first (receiver : COCOReceiver) (buffer : Nat → Nat) (k v : Nat)
    (h : (COCOGroupBit receiver buffer k).isSome = true) :
    (COCOGroupBit receiver (setSlot buffer (4 * k + 1) v) k).isSome = true ↔
      receiver.singlePulseMinDuration < v ∧ v < receiver.singlePulseMaxDuration := by
  have e0 : setSlot buffer (4 * k + 1) v (4 * k + 1 + 0) = v := by
    rw [setSlot_apply, if_pos rfl]
  have e1 : setSlot buffer (4 * k + 1) v (4 * k + 1 + 1) = buffer (4 * k + 1 + 1) := by
    rw [setSlot_apply, if_neg (by omega)]
  have e2 : setSlot buffer (4 * k + 1) v (4 * k + 1 + 2) = buffer (4 * k + 1 + 2) := by
    rw [setSlot_apply, if_neg (by omega)]
  have e3 : setSlot buffer (4 * k + 1) v (4 * k + 1 + 3) = buffer (4 * k + 1 + 3) := by
    rw [setSlot_apply, if_neg (by omega)]
  unfold COCOGroupBit COCOIsZero COCOIsOne at h ⊢
  simp only [e0, e1, e2, e3]
  constructor
  · intro h2
    by_contra hc
    split_ifs at h2 with c1 c2
    · simp only [Bool.and_eq_true, decide_eq_true_eq] at c1
      omega
    · simp only [Bool.and_eq_true, decide_eq_true_eq] at c2
      omega
    · exact absurd h2 (by simp)
  · intro hv
    split_ifs at h with c1 c2
    · simp only [Bool.and_eq_true, decide_eq_true_eq] at c1
      rw [if_pos (by simp only [Bool.and_eq_true, decide_eq_true_eq]; omega)]
      rfl
    · simp only [Bool.and_eq_true, decide_eq_true_eq] at c2
      split_ifs
      · rfl
      · rfl
      · rename_i c3 c4
        simp only [Bool.and_eq_true, decide_eq_true_eq] at c4
        omega
    · exact absurd h (by simp)

/-- C7 (amended). The tolerance boundary is exclusive: in a buffered frame that
`analyzeDurations` accepts, replace the first (short) pulse of any group `k` by
a duration `v`; the frame is still accepted if and only if
unitMin < v < unitMax. So a duration equal to unitMax or to unitMin is rejected,
and unitMax - 1 and unitMin + 1 are accepted when they lie strictly between
the bounds. -/
theorem C7_tolerance_boundary (receiver : COCOReceiver) (timestamp k v : Nat)
    (hidx : receiver.durationsIndex = 130) (hk : k < 32)
    (hok : (analyzeDurations receiver timestamp).isSome = true) :
    ((analyzeDurations
        { receiver with durations := setSlot receiver.durations (4 * k + 1) v }
        timestamp).isSome = true ↔
      receiver.singlePulseMinDuration < v ∧ v < receiver.singlePulseMaxDuration) ∧
    (analyzeDurations
        { receiver with
          durations := setSlot receiver.durations (4 * k + 1) receiver.singlePulseMaxDuration }
        timestamp = none) ∧
    (analyzeDurations
        { receiver with
          durations := setSlot receiver.durations (4 * k + 1) receiver.singlePulseMinDuration }
        timestamp = none) := by
  have key : ∀ w : Nat,
      ((analyzeDurations
          { receiver with durations := setSlot receiver.durations (4 * k + 1) w }
          timestamp).isSome = true ↔
        receiver.singlePulseMinDuration < w ∧ w < receiver.singlePulseMaxDuration) := by
    intro w
    rw [analyzeDurations_eq_decode _ _ hidx] at hok
    rw [analyzeDurations_eq_decode _ _ (by exact hidx)]
    rw [Option.isSome_map'] at hok ⊢
    have hcongr : COCODecode
        { receiver with durations := setSlot receiver.durations (4 * k + 1) w }
        (setSlot receiver.durations (4 * k + 1) w) =
        COCODecode receiver (setSlot receiver.durations (4 * k + 1) w) :=
      COCODecodeFrom_congr receiver _ _ _ ⟨rfl, rfl⟩ (fun _ _ _ => rfl) 32 0 0 (by omega)
    simp only [hcongr]
    unfold COCODecode at hok ⊢
    rw [COCODecodeFrom_isSome] at hok ⊢
    have hgk := hok k (by omega) (by omega)
    constructor
    · intro h
      exact (COCOGroupBit_setSlot_first receiver _ k w hgk).1 (h k (by omega) (by omega))
    · intro h j h1 h2
      by_cases hj : j = k
      · subst hj
        exact (COCOGroupBit_setSlot_first receiver _ j w hgk).2 h
      · rw [COCOGroupBit_setSlot_other receiver _ k j w hj]
        exact hok j h1 h2
  refine ⟨key v, ?_, ?_⟩
  · have h := key receiver.singlePulseMaxDuration
    rw [← Option.not_isSome_iff_eq_none, h]
    omega
  · have h := key receiver.singlePulseMinDuration
    rw [← Option.not_isSome_iff_eq_none, h]
    omega

set_option maxRecDepth 100000 in
/-- Witness of C7: the buffered all-zero frame with the first pulse of group 0
replaced by 300. -/
theorem C7_tolerance_boundary_witness :
    COCOZeroFrameReceiver.durationsIndex = 130 ∧ 0 < 32 ∧
    (analyzeDurations COCOZeroFrameReceiver 7).isSome = true ∧
    ((analyzeDurations
        { COCOZeroFrameReceiver with
          durations := setSlot COCOZeroFrameReceiver.durations (4 * 0 + 1) 300 } 7).isSome = true ↔
      COCOZeroFrameReceiver.singlePulseMinDuration < 300 ∧
        300 < COCOZeroFrameReceiver.singlePulseMaxDuration) :=
  ⟨rfl, by decide, by decide,
    (C7_tolerance_boundary COCOZeroFrameReceiver 7 0 300 rfl (by decide) (by decide)).1⟩

set_option maxRecDepth 100000 in
/-- C7 (counterexample). With the default windows (unitMin 156, unitMax 364) a
first pulse of exactly 364 or exactly 156 makes `analyzeDurations` reject the
otherwise valid frame, while 363 and 157 are accepted. -/
theorem C7_tolerance_boundary_counterexample :
    COCOZeroFrameReceiver.singlePulseMaxDuration = 364 ∧
    COCOZeroFrameReceiver.singlePulseMinDuration = 156 ∧
    (analyzeDurations COCOZeroFrameReceiver 7).isSome = true ∧
    analyzeDurations
      { COCOZeroFrameReceiver with
        durations := setSlot COCOZeroFrameReceiver.durations 1 364 } 7 = none ∧
    analyzeDurations
      { COCOZeroFrameReceiver with
        durations := setSlot COCOZeroFrameReceiver.durations 1 156 } 7 = none ∧
    (analyzeDurations
      { COCOZeroFrameReceiver with
        durations := setSlot COCOZeroFrameReceiver.durations 1 363 } 7).isSome = true ∧
    (analyzeDurations
      { COCOZeroFrameReceiver with
        durations := setSlot COCOZeroFrameReceiver.durations 1 157 } 7).isSome = true := by
  refine ⟨rfl, rfl, ?_, ?_, ?_, ?_, ?_⟩ <;> decide

/-- The refractory test of the source: a message is handed to the callback only
when the 32-bit difference of its timestamp and the previous hit exceeds the
32-bit product `refractoryPeriod * 1000000`. -/
theorem COCOAccept_reported (receiver : COCOReceiver) (message reported : COCOMessage)
    (h : (COCOAccept receiver message).2 = some reported) :
    mul32 receiver.refractoryPeriod 1000000 <
      sub32 message.timestamp receiver.timestampPreviousHit := by
  unfold COCOAccept at h
  simp only [] at h
  split_ifs at h with h1 h2 h3 h4
  all_goals exact h3

set_option maxRecDepth 1000000 in
/-- C10 (failing input). With refractoryPeriod 4295 s the 32-bit product
`4295 * 1000000` wraps to 32704, and a receiver with repeatCount 1 that is fed
three consecutive frames of the same message calls the handler for the second
and for the third frame, whose origins 75620 and 147380 are only 71760
microseconds apart. -/
theorem C10_refractory_overflow :
    mul32 4295 1000000 = 32704 ∧
    ((COCOFeedDurations
        (COCOReceiverSetCallback
          (COCOReceiverSetRefractoryPeriod (COCOReceiverCreate (fun _ => 0) true) 4295) true)
        (1000 :: repeatFrame 3
          (OOKSenderSendCOCO
            { timestamp := 0, fullMessageCode := 0, address := 1, group := false,
              onOff := false, channel := 0 }))).2.map
      (fun message => (message.timestamp, message.address))) =
      [(75620, 1), (147380, 1)] := by
  constructor <;> decide

set_option maxRecDepth 1000000 in
/-- Witness of C9: repeatCount 2 and the frame of address 1, first edge at 1000. -/
theorem C9_debounce_witness :
    (COCOFeedDurations
        (COCOReceiverSetCallback
          (COCOReceiverSetRepeatCount (COCOReceiverCreate (fun _ => 0) false) 2) true)
        (1000 :: repeatFrame (2 + 1)
          (OOKSenderSendCOCO
            { timestamp := 0, fullMessageCode := 0, address := 1, group := false,
              onOff := false, channel := 0 }))).2.length = 1 ∧
    (COCOFeedDurations
        (COCOReceiverSetCallback
          (COCOReceiverSetRepeatCount (COCOReceiverCreate (fun _ => 0) false) 2) true)
        (1000 :: repeatFrame 2
          (OOKSenderSendCOCO
            { timestamp := 0, fullMessageCode := 0, address := 1, group := false,
              onOff := false, channel := 0 }))).2.length = 0 :=
  C9_debounce (fun _ => 0) false 2 1000
    (OOKSenderSendCOCO
      { timestamp := 0, fullMessageCode := 0, address := 1, group := false,
        onOff := false, channel := 0 })
    (by decide) (by decide) (by decide) (by decide)

/-- Witness of C6: the default configurations (260, 40/40 and 350, 20/20). -/
theorem C6_tolerance_windows_witness :
    ((updateDurationsForReceiver (COCOReceiverCreate (fun _ => 0) false)).singlePulseMinDuration
        : Int) = 156 ∧
    ((KFSUpdateDurationsForReceiver (KFSReceiverCreate (fun _ => 0) false)).startSyncLowMaxDuration
        : Int) = 13020 := by
  have h := C6_tolerance_windows (COCOReceiverCreate (fun _ => 0) false)
    (KFSReceiverCreate (fun _ => 0) false) (by decide) (by decide) (by decide) (by decide)
  refine ⟨h.1.trans (by decide), h.2.2.2.2.2.2.2.2.2.trans (by decide)⟩

/-- Witness of C8: the default configurations (260, 40/40 and 350, 20/20). -/
theorem C8_window_invariant_witness :
    (updateDurationsForReceiver (COCOReceiverCreate (fun _ => 0) false)).singlePulseMinDuration
        < 260 ∧
    (260 < (updateDurationsForReceiver (COCOReceiverCreate (fun _ => 0) false)).singlePulseMaxDuration
      ↔ 100 ≤ 260 * 40) :=
  (C8_window_invariant (COCOReceiverCreate (fun _ => 0) false)
    (KFSReceiverCreate (fun _ => 0) false) (by decide) (by decide) (by decide)
    (by decide) (by decide) (by decide)).1

theorem KFSFeedDurations_nil (receiver : KFSReceiver) :
    KFSFeedDurations receiver [] = (receiver, []) := rfl

theorem KFSFeed_lastTimestamp (receiver : KFSReceiver) (timestamp : Nat) :
    (KFSReceiverFeedGPIOValueChangeTime receiver timestamp).1.lastTimestamp = timestamp := by
  unfold KFSReceiverFeedGPIOValueChangeTime
  simp only []
  split_ifs <;> rfl

theorem KFSFeedDurations_cons (receiver : KFSReceiver) (d : Nat) (ds : List Nat) :
    KFSFeedDurations receiver (d :: ds) =
      ((KFSFeedDurations
          (KFSReceiverFeedGPIOValueChangeTime receiver (add32 receiver.lastTimestamp d)).1 ds).1,
        (KFSReceiverFeedGPIOValueChangeTime receiver (add32 receiver.lastTimestamp d)).2.toList ++
          (KFSFeedDurations
            (KFSReceiverFeedGPIOValueChangeTime receiver (add32 receiver.lastTimestamp d)).1
            ds).2) := by
  unfold KFSFeedDurations
  rw [KFSFeed_lastTimestamp]
  rfl

theorem KFSFeedDurations_append (ds es : List Nat) :
    ∀ receiver : KFSReceiver,
      KFSFeedDurations receiver (ds ++ es) =
        ((KFSFeedDurations (KFSFeedDurations receiver ds).1 es).1,
          (KFSFeedDurations receiver ds).2 ++
            (KFSFeedDurations (KFSFeedDurations receiver ds).1 es).2) := by
  induction ds with
  | nil => intro receiver; simp [KFSFeedDurations_nil]
  | cons d ds ih =>
    intro receiver
    rw [List.cons_append, KFSFeedDurations_cons, KFSFeedDurations_cons, ih]
    simp only [List.append_assoc]

theorem KFSStore_eq (receiver : KFSReceiver) (timestamp d : Nat)
    (h : receiver.durationsIndex < 67) :
    KFSStore receiver timestamp d =
      { receiver with
        durations := setSlot receiver.durations receiver.durationsIndex d
        durationsIndex := receiver.durationsIndex + 1
        lastTimestamp := timestamp } := by
  have e : add32 receiver.durationsIndex 1 = receiver.durationsIndex + 1 :=
    add32_of_lt _ _ (by omega)
  unfold KFSStore
  simp only [KFSMessageMaxPulseCount]
  rw [if_neg (by omega), e]

/-- A later edge whose duration is no sync is only stored. -/
theorem KFSFeed_plain (receiver : KFSReceiver) (d : Nat) (hd : d < 4294967296)
    (hlast : receiver.lastTimestamp ≠ 0) (hs : KFSInSync receiver d = false) :
    KFSReceiverFeedGPIOValueChangeTime receiver (add32 receiver.lastTimestamp d) =
      (KFSStore receiver (add32 receiver.lastTimestamp d) d, none) := by
  unfold KFSReceiverFeedGPIOValueChangeTime
  simp only [sub32_add32_of_lt _ d hd]
  simp only [KFSInSync, decide_eq_false_iff_not] at hs
  rw [if_neg (fun h => hlast h.symm)]
  simp only [KFSStartSync, if_neg hs]

/-- The repeat filter changes the repeat state only. -/
theorem KFSAccept_shape (receiver : KFSReceiver) (message : KFSMessage) :
    ∃ (R T P B : Nat) (out : Option KFSMessage),
      KFSAccept receiver message =
        ({ receiver with
            repeats := R, timestampPreviousHit := T, previousMessageIdentifier := P
            previousIdentifierBitSize := B }, out) := by
  unfold KFSAccept
  simp only []
  split_ifs
  all_goals exact ⟨_, _, _, _, _, rfl⟩

/-- A later edge whose duration is a sync closes the buffered frame and opens
the next one: the buffer restarts with the sync in slot 0. -/
theorem KFSFeed_sync (receiver : KFSReceiver) (d : Nat) (hd : d < 4294967296)
    (hlast : receiver.lastTimestamp ≠ 0) (hs : KFSInSync receiver d = true) :
    ∃ (R T P B : Nat) (out : Option KFSMessage),
      KFSReceiverFeedGPIOValueChangeTime receiver (add32 receiver.lastTimestamp d) =
        ({ receiver with
            startTime := add32 receiver.lastTimestamp d
            durations := setSlot receiver.durations 0 d
            durationsIndex := 1
            lastTimestamp := add32 receiver.lastTimestamp d
            repeats := R, timestampPreviousHit := T, previousMessageIdentifier := P
            previousIdentifierBitSize := B }, out) := by
  unfold KFSReceiverFeedGPIOValueChangeTime
  simp only [sub32_add32_of_lt _ d hd]
  simp only [KFSInSync, decide_eq_true_eq] at hs
  rw [if_neg (fun h => hlast h.symm)]
  unfold KFSStartSync
  rw [if_pos hs]
  simp only []
  by_cases h5 : receiver.durationsIndex ≥ KFSMessageMinPulseCount
  · rw [if_pos h5]
    cases hv : arePulsesValidCode
        { receiver with startTime := add32 receiver.lastTimestamp d }
        (add32 receiver.lastTimestamp d) with
    | none =>
      simp only []
      rw [KFSStore_eq _ _ _ (by show 0 < 67; omega)]
      exact ⟨_, _, _, _, _, rfl⟩
    | some message =>
      simp only []
      obtain ⟨R, T, P, B, out, hacc⟩ := KFSAccept_shape
        { receiver with startTime := add32 receiver.lastTimestamp d } message
      rw [hacc, KFSStore_eq _ _ _ (by show 0 < 67; omega)]
      exact ⟨_, _, _, _, _, rfl⟩
  · rw [if_neg h5]
    simp only []
    rw [KFSStore_eq _ _ _ (by show 0 < 67; omega)]
    exact ⟨_, _, _, _, _, rfl⟩

/-- Feeding a list of durations none of which is a sync stores them in
consecutive slots (no timestamp wrap). -/
theorem KFSFeedDurations_plain (ds : List Nat) :
    ∀ receiver : KFSReceiver,
      (∀ d ∈ ds, KFSInSync receiver d = false) →
      receiver.durationsIndex + ds.length ≤ 67 →
      0 < receiver.lastTimestamp → receiver.lastTimestamp + ds.sum < 4294967296 →
      KFSFeedDurations receiver ds =
        ({ receiver with
            durations := writeSlots receiver.durations receiver.durationsIndex ds
            durationsIndex := receiver.durationsIndex + ds.length
            lastTimestamp := receiver.lastTimestamp + ds.sum }, []) := by
  induction ds with
  | nil => intro receiver _ _ _ _; rfl
  | cons d ds ih =>
    intro receiver hall hlen hpos hsum
    have hs := hall d (List.mem_cons_self _ _)
    simp only [List.length_cons] at hlen
    simp only [List.sum_cons] at hsum
    have hadd : add32 receiver.lastTimestamp d = receiver.lastTimestamp + d :=
      add32_of_lt _ _ (by omega)
    rw [KFSFeedDurations_cons, KFSFeed_plain receiver d (by omega) (by omega) hs,
      KFSStore_eq receiver _ d (by omega), hadd]
    simp only [Option.toList, List.nil_append]
    rw [ih]
    · simp only [writeSlots, List.length_cons, List.sum_cons]
      have e1 : receiver.durationsIndex + 1 + ds.length =
          receiver.durationsIndex + (ds.length + 1) := by omega
      have e2 : receiver.lastTimestamp + d + ds.sum = receiver.lastTimestamp + (d + ds.sum) := by
        omega
      rw [e1, e2]
    · intro x hx
      exact hall x (List.mem_cons_of_mem _ hx)
    · show receiver.durationsIndex + 1 + ds.length ≤ 67
      omega
    · show 0 < receiver.lastTimestamp + d
      omega
    · show receiver.lastTimestamp + d + ds.sum < 4294967296
      omega

/-- The loop of `arePulsesValidCode` on a buffer whose pair `k` carries bit
`23 - k` of `identifier`, for each of the 24 pairs: it returns the identifier
and the length 24. -/
theorem arePulsesValidCodeLoop_bits (receiver : KFSReceiver) (identifier : Nat)
    (hid : identifier < 16777216) (hidx : 48 ≤ receiver.durationsIndex)
    (hbits : ∀ k, k < 24 →
      KFSIsZero receiver (2 * k + 1) = !identifier.testBit (23 - k) ∧
      KFSIsOne receiver (2 * k + 1) = identifier.testBit (23 - k)) :
    ∀ (count k fuel : Nat), k + count + 1 = 24 → count < fuel →
      arePulsesValidCodeLoop receiver fuel (2 * k + 1) (identifier / 2 ^ (24 - k)) k =
        (identifier, 24) := by
  intro count
  induction count with
  | zero =>
    intro k fuel hk hf
    obtain ⟨fuel, rfl⟩ : ∃ f, fuel = f + 1 := ⟨fuel - 1, by omega⟩
    have hk23 : k = 23 := by omega
    subst hk23
    obtain ⟨hz, ho⟩ := hbits 23 (by omega)
    rw [arePulsesValidCodeLoop, if_pos (by omega), hz, ho]
    have hq : identifier / 2 ^ (24 - 23) = identifier / 2 := by norm_num
    have hb : identifier.testBit (23 - 23) = decide (identifier % 2 = 1) := by
      rw [Nat.testBit_to_div_mod]; norm_num
    rw [hq, hb, shl32_eq _ 1 (by norm_num; omega)]
    rcases Nat.mod_two_eq_zero_or_one identifier with h2 | h2
    · simp only [h2]
      norm_num
      omega
    · simp only [h2]
      rw [or_of_mul_pow _ 1 1 (by norm_num)]
      norm_num
      omega
  | succ count ih =>
    intro k fuel hk hf
    obtain ⟨fuel, rfl⟩ : ∃ f, fuel = f + 1 := ⟨fuel - 1, by omega⟩
    obtain ⟨hz, ho⟩ := hbits k (by omega)
    rw [arePulsesValidCodeLoop, if_pos (by omega), hz, ho]
    have hq : identifier / 2 ^ (24 - k) = identifier / 2 ^ (23 - k) / 2 := by
      rw [Nat.div_div_eq_div_mul, ← pow_succ]
      congr 2
      omega
    have hlt : identifier / 2 ^ (23 - k) < 16777216 :=
      lt_of_le_of_lt (Nat.div_le_self _ _) hid
    have hlen : (k + 1) % 2 ^ 8 = k + 1 := Nat.mod_eq_of_lt (by norm_num; omega)
    have hnext := ih (k + 1) fuel (by omega) (by omega)
    have e24 : 24 - (k + 1) = 23 - k := by omega
    have e2k : 2 * (k + 1) + 1 = 2 * k + 1 + 2 := by ring
    rw [e24, e2k] at hnext
    rw [hq, shl32_eq _ 1 (by norm_num; omega), Nat.testBit_to_div_mod]
    rcases Nat.mod_two_eq_zero_or_one (identifier / 2 ^ (23 - k)) with h2 | h2
    · simp only [h2, hlen]
      norm_num
      rw [if_neg (by omega)]
      have e : identifier / 2 ^ (23 - k) / 2 * 2 = identifier / 2 ^ (23 - k) := by omega
      rw [e]
      exact hnext
    · simp only [h2, hlen]
      rw [or_of_mul_pow _ 1 1 (by norm_num)]
      norm_num
      rw [if_neg (by omega)]
      have e : identifier / 2 ^ (23 - k) / 2 * 2 + 1 = identifier / 2 ^ (23 - k) := by omega
      rw [e]
      exact hnext

theorem OOKSenderSendKFS_getD (message : KFSMessage) (j : Nat) :
    (OOKSenderSendKFS message).getD j 0 = OOKSenderSendKFSArray message j := by
  by_cases hj : j < 50
  · rw [List.getD_eq_getElem?_getD, OOKSenderSendKFS_getElem message j hj]
    rfl
  · rw [List.getD_eq_default _ _ (by simp [OOKSenderSendKFS, kKFSTotalNumberOfPulses]; omega),
      OOKSenderSendKFSArray_apply]
    simp (disch := omega) only [if_neg]

theorem KFSPulseAt_cases (identifier j : Nat) :
    KFSPulseAt identifier j = 350 ∨ KFSPulseAt identifier j = 1050 := by
  unfold KFSPulseAt
  split_ifs <;> simp

/-- The frame the sender builds is its first pulse, its sync and 48 bit pulses. -/
theorem OOKSenderSendKFS_split (message : KFSMessage) :
    ∃ bits : List Nat, OOKSenderSendKFS message = 350 :: 10850 :: bits ∧ bits.length = 48 ∧
      (∀ d ∈ bits, d = 350 ∨ d = 1050) ∧
      (∀ j, j < 48 → bits.getD j 0 =
        KFSPulseAt (KFSMessageGetIdentifier message % 2 ^ 32) (j + 2)) := by
  have hlen : (OOKSenderSendKFS message).length = 50 := by
    simp [OOKSenderSendKFS, kKFSTotalNumberOfPulses]
  have h0 : (OOKSenderSendKFS message).getD 0 0 = 350 := by
    rw [OOKSenderSendKFS_getD, OOKSenderSendKFSArray_apply]; rfl
  have h1 : (OOKSenderSendKFS message).getD 1 0 = 10850 := by
    rw [OOKSenderSendKFS_getD, OOKSenderSendKFSArray_apply]; rfl
  have hj : ∀ j, j < 48 → (OOKSenderSendKFS message).getD (j + 2) 0 =
      KFSPulseAt (KFSMessageGetIdentifier message % 2 ^ 32) (j + 2) := by
    intro j hj
    rw [OOKSenderSendKFS_getD, OOKSenderSendKFSArray_apply]
    simp (disch := omega) only [if_neg, if_pos]
  generalize OOKSenderSendKFS message = frame at *
  match frame, hlen with
  | a :: b :: bits, hlen =>
    simp only [List.getD_cons_zero, List.getD_cons_succ] at h0 h1 hj
    simp only [List.length_cons] at hlen
    subst h0 h1
    refine ⟨bits, rfl, by omega, ?_, hj⟩
    intro d hd
    obtain ⟨j, hjlt, hjd⟩ := List.getElem_of_mem hd
    have := hj j (by omega)
    rw [List.getD_eq_getElem?_getD, List.getElem?_eq_getElem hjlt, hjd] at this
    simp only [Option.getD_some] at this
    rw [this]
    exact KFSPulseAt_cases _ _

theorem pair_sum (n : Nat) :
    ∀ l : List Nat, l.length = 2 * n →
      (∀ k, k < n → l.getD (2 * k) 0 + l.getD (2 * k + 1) 0 = 1400) → l.sum = 1400 * n := by
  induction n with
  | zero =>
    intro l hl _
    have : l = [] := List.length_eq_zero.1 (by omega)
    subst this
    rfl
  | succ n ih =>
    intro l hl h
    match l, hl with
    | a :: b :: rest, hl =>
      simp only [List.length_cons] at hl
      have h0 := h 0 (by omega)
      simp only [Nat.mul_zero, List.getD_cons_zero, Nat.zero_add, List.getD_cons_succ] at h0
      have hrest := ih rest (by omega) (by
        intro k hk
        have := h (k + 1) (by omega)
        have e1 : 2 * (k + 1) = 2 * k + 1 + 1 := by ring
        have e2 : 2 * (k + 1) + 1 = 2 * k + 1 + 1 + 1 := by ring
        rw [e1] at this
        simpa only [List.getD_cons_succ] using this)
      simp only [List.sum_cons]
      omega

theorem KFSPulseAt_pair (identifier k : Nat) :
    KFSPulseAt identifier (2 * k + 2) + KFSPulseAt identifier (2 * k + 1 + 2) = 1400 := by
  have a0 : (2 * k + 2 - 2) / 2 = k := by omega
  have a1 : (2 * k + 1 + 2 - 2) / 2 = k := by omega
  have b0 : (2 * k + 2 - 2) % 2 = 0 := by omega
  have b1 : (2 * k + 1 + 2 - 2) % 2 = 1 := by omega
  unfold KFSPulseAt
  simp only [a0, a1, b0, b1]
  cases identifier.testBit (23 - k) <;> simp

/-- Claim C18: a freshly created COCO receiver reports repeatCount 1,
refractoryPeriod 0, positive and negative tolerance 40 and a nominal pulse of
260 through its getters; a freshly created KFS receiver reports repeatCount 2,
refractoryPeriod 0, tolerances 20 and 20 and a nominal pulse of 350. Nothing
depends on the uninitialised buffer or callback. -/
theorem C18_defaults (durations : Nat → Nat) (callback : Bool) :
    (COCOReceiverGetRepeatCount (COCOReceiverCreate durations callback) = 1 ∧
      COCOReceiverGetRefractoryPeriod (COCOReceiverCreate durations callback) = 0 ∧
      COCOReceiverGetPositiveTolerance (COCOReceiverCreate durations callback) = 40 ∧
      COCOReceiverGetNegativeTolerance (COCOReceiverCreate durations callback) = 40 ∧
      COCOReceiverGetSinglePulseDuration (COCOReceiverCreate durations callback) = 260) ∧
    (KFSReceiverGetRepeatCount (KFSReceiverCreate durations callback) = 2 ∧
      KFSReceiverGetRefractoryPeriod (KFSReceiverCreate durations callback) = 0 ∧
      KFSReceiverGetPositiveTolerance (KFSReceiverCreate durations callback) = 20 ∧
      KFSReceiverGetNegativeTolerance (KFSReceiverCreate durations callback) = 20 ∧
      KFSReceiverGetSinglePulseDuration (KFSReceiverCreate durations callback) = 350) :=
  ⟨⟨rfl, rfl, rfl, rfl, rfl⟩, ⟨rfl, rfl, rfl, rfl, rfl⟩⟩

/-- The three KFS configuration setters leave the four derived bounds as they
were, whatever the receiver and the value. -/
theorem KFSSetters_keep_windows (receiver : KFSReceiver) (value : Nat) :
    (∀ changed, changed = KFSReceiverSetSinglePulseDuration receiver value ∨
        changed = KFSReceiverSetPositiveTolerance receiver value ∨
        changed = KFSReceiverSetNegativeTolerance receiver value →
      changed.singlePulseMinDuration = receiver.singlePulseMinDuration ∧
      changed.singlePulseMaxDuration = receiver.singlePulseMaxDuration ∧
      changed.startSyncLowMinDuration = receiver.startSyncLowMinDuration ∧
      changed.startSyncLowMaxDuration = receiver.startSyncLowMaxDuration) := by
  rintro changed (h | h | h) <;> subst h <;> exact ⟨rfl, rfl, rfl, rfl⟩

/-- Claim C19, evaluation at the failing input: after
`KFSReceiverSetSinglePulseDuration` with 400 on a fresh KFS receiver the
getter reports 400, but the four derived bounds are still 280, 420, 8680 and
13020 (those of 350), while the formulas at the new value, which
`KFSUpdateDurationsForReceiver` computes, give 320, 480, 9920 and 14880.
Likewise the tolerance setters with 50 leave the bounds at 280 and 420 where
the formulas give 175 and 525. -/
theorem C19_KFS_setters_do_not_recompute (durations : Nat → Nat) (callback : Bool) :
    KFSReceiverGetSinglePulseDuration
      (KFSReceiverSetSinglePulseDuration (KFSReceiverCreate durations callback) 400) = 400 ∧
    ((KFSReceiverSetSinglePulseDuration (KFSReceiverCreate durations callback) 400)
        |>.singlePulseMinDuration) = 280 ∧
    ((KFSReceiverSetSinglePulseDuration (KFSReceiverCreate durations callback) 400)
        |>.singlePulseMaxDuration) = 420 ∧
    ((KFSReceiverSetSinglePulseDuration (KFSReceiverCreate durations callback) 400)
        |>.startSyncLowMinDuration) = 8680 ∧
    ((KFSReceiverSetSinglePulseDuration (KFSReceiverCreate durations callback) 400)
        |>.startSyncLowMaxDuration) = 13020 ∧
    ((KFSUpdateDurationsForReceiver
        (KFSReceiverSetSinglePulseDuration (KFSReceiverCreate durations callback) 400))
        |>.singlePulseMinDuration) = 320 ∧
    ((KFSUpdateDurationsForReceiver
        (KFSReceiverSetSinglePulseDuration (KFSReceiverCreate durations callback) 400))
        |>.singlePulseMaxDuration) = 480 ∧
    ((KFSUpdateDurationsForReceiver
        (KFSReceiverSetSinglePulseDuration (KFSReceiverCreate durations callback) 400))
        |>.startSyncLowMinDuration) = 9920 ∧
    ((KFSUpdateDurationsForReceiver
        (KFSReceiverSetSinglePulseDuration (KFSReceiverCreate durations callback) 400))
        |>.startSyncLowMaxDuration) = 14880 ∧
    ((KFSReceiverSetPositiveTolerance (KFSReceiverCreate durations callback) 50)
        |>.singlePulseMaxDuration) = 420 ∧
    ((KFSUpdateDurationsForReceiver
        (KFSReceiverSetPositiveTolerance (KFSReceiverCreate durations callback) 50))
        |>.singlePulseMaxDuration) = 525 ∧
    ((KFSReceiverSetNegativeTolerance (KFSReceiverCreate durations callback) 50)
        |>.singlePulseMinDuration) = 280 ∧
    ((KFSUpdateDurationsForReceiver
        (KFSReceiverSetNegativeTolerance (KFSReceiverCreate durations callback) 50))
        |>.singlePulseMinDuration) = 175 := by
  simp only [KFSReceiverGetSinglePulseDuration, KFSReceiverSetSinglePulseDuration,
    KFSReceiverSetPositiveTolerance, KFSReceiverSetNegativeTolerance, KFSReceiverCreate,
    KFSUpdateDurationsForReceiver]
  decide

/-- The COCO tolerance setters store the clamped content of the uninitialised
local and never the argument: two calls that differ only in the (valid)
argument give the same receiver. -/
theorem COCOToleranceSetters_ignore_argument (receiver : COCOReceiver)
    (tolerance other newValue : Nat)
    (ht : 0 < tolerance % 2 ^ 32 ∧ tolerance % 2 ^ 32 ≤ 100)
    (ho : 0 < other % 2 ^ 32 ∧ other % 2 ^ 32 ≤ 100) :
    COCOReceiverSetPositiveTolerance receiver tolerance newValue =
      COCOReceiverSetPositiveTolerance receiver other newValue ∧
    COCOReceiverSetNegativeTolerance receiver tolerance newValue =
      COCOReceiverSetNegativeTolerance receiver other newValue := by
  unfold COCOReceiverSetPositiveTolerance COCOReceiverSetNegativeTolerance
  rw [if_pos ht, if_pos ho, if_pos ht, if_pos ho]
  exact ⟨rfl, rfl⟩

/-- Claim C20, evaluation at the failing input: on a fresh COCO receiver,
`COCOReceiverSetPositiveTolerance` called with 50 while the uninitialised local
holds 7 makes the getter report 7 and computes the unit maximum as
260 * 107 / 100 = 278 (with 50 it would be 390), and
`COCOReceiverSetNegativeTolerance` called with 50 makes the getter report 7
and the unit minimum 260 * 93 / 100 = 241 (with 50 it would be 130). -/
theorem C20_tolerance_setters_store_garbage (durations : Nat → Nat) (callback : Bool) :
    (COCOReceiverSetPositiveTolerance (COCOReceiverCreate durations callback) 50 7).map
        COCOReceiverGetPositiveTolerance = some 7 ∧
    (COCOReceiverSetPositiveTolerance (COCOReceiverCreate durations callback) 50 7).map
        (fun receiver => receiver.singlePulseMaxDuration) = some 278 ∧
    (COCOReceiverSetNegativeTolerance (COCOReceiverCreate durations callback) 50 7).map
        COCOReceiverGetNegativeTolerance = some 7 ∧
    (COCOReceiverSetNegativeTolerance (COCOReceiverCreate durations callback) 50 7).map
        (fun receiver => receiver.singlePulseMinDuration) = some 241 := by
  simp only [COCOReceiverSetPositiveTolerance, COCOReceiverSetNegativeTolerance,
    COCOReceiverGetPositiveTolerance, COCOReceiverGetNegativeTolerance, COCOReceiverCreate,
    updateDurationsForReceiver, if_pos (show 50 % 2 ^ 32 > 0 ∧ 50 % 2 ^ 32 ≤ 100 by decide),
    Option.map_some']
  decide

/-- The loop of `arePulsesValidCode` never counts more than 24 bits and the
code it accumulates fits into the bits counted. -/
theorem arePulsesValidCodeLoop_bounds (receiver : KFSReceiver) :
    ∀ (fuel i code codeLength : Nat), codeLength < 24 → code < 2 ^ codeLength →
      (arePulsesValidCodeLoop receiver fuel i code codeLength).2 ≤ 24 ∧
      (arePulsesValidCodeLoop receiver fuel i code codeLength).1 <
        2 ^ (arePulsesValidCodeLoop receiver fuel i code codeLength).2 := by
  intro fuel
  induction fuel with
  | zero =>
    intro i code codeLength hl hc
    rw [arePulsesValidCodeLoop]
    exact ⟨by simp only; omega, hc⟩
  | succ fuel ih =>
    intro i code codeLength hl hc
    have hlen : (codeLength + 1) % 2 ^ 8 = codeLength + 1 := by
      apply Nat.mod_eq_of_lt; norm_num; omega
    have hpow : (2 : Nat) ^ codeLength ≤ 2 ^ 23 :=
      Nat.pow_le_pow_right (by norm_num) (by omega)
    have hcode : code < 8388608 := by
      have : (2 : Nat) ^ 23 = 8388608 := by norm_num
      omega
    have hshl : shl32 code 1 = code * 2 := by
      rw [shl32_eq _ 1 (by norm_num; omega)]; norm_num
    have hor : shl32 code 1 ||| 1 = code * 2 + 1 := by
      rw [hshl]
      have := or_of_mul_pow code 1 1 (by norm_num)
      simpa using this
    have hp1 : (2 : Nat) ^ (codeLength + 1) = 2 ^ codeLength * 2 := by ring
    rw [arePulsesValidCodeLoop]
    by_cases hi : i < receiver.durationsIndex
    · rw [if_pos hi]
      by_cases hz : KFSIsZero receiver i = true
      · rw [if_pos hz]
        simp only [hlen]
        by_cases h24 : codeLength + 1 = 24
        · rw [if_pos h24]
          refine ⟨by simp only; omega, ?_⟩
          simp only [hshl, hp1]; omega
        · rw [if_neg h24]
          exact ih _ _ _ (by omega) (by rw [hshl, hp1]; omega)
      · rw [if_neg hz]
        by_cases ho : KFSIsOne receiver i = true
        · rw [if_pos ho]
          simp only [hlen]
          by_cases h24 : codeLength + 1 = 24
          · rw [if_pos h24]
            refine ⟨by simp only; omega, ?_⟩
            simp only [hor, hp1]; omega
          · rw [if_neg h24]
            exact ih _ _ _ (by omega) (by rw [hor, hp1]; omega)
        · rw [if_neg ho]
          exact ⟨by simp only; omega, hc⟩
    · rw [if_neg hi]
      exact ⟨by simp only; omega, hc⟩

set_option maxRecDepth 1000000 in
theorem COCOScenarioDurations_valid :
    COCOValidFrame (COCOReceiverCreate (fun _ => 0) true) COCOScenarioDurations = true ∧
    COCOFrameCode (COCOReceiverCreate (fun _ => 0) true) COCOScenarioDurations = 0 ∧
    COCOScenarioDurations.getD 0 0 = 260 ∧ COCOScenarioDurations.getD 1 0 = 2600 := by
  decide

/-- The state a fresh receiver is in after its first edge: no handler call, the
previous code still 0, the configuration untouched. -/
theorem COCOFeed_first (receiver : COCOReceiver) (first : Nat)
    (hidx : receiver.durationsIndex < 130) (hprev : receiver.previousMessageCode = 0) :
    ∃ (S : Nat) (D : Nat → Nat) (I : Nat),
      COCOReceiverFeedGPIOValueChangeTime receiver (add32 receiver.lastTimestamp first) =
        ({ receiver with
            startTime := S, durations := D, durationsIndex := I
            lastTimestamp := add32 receiver.lastTimestamp first
            previousMessageCode := 0 }, none) := by
  obtain ⟨S, D, I, P, hfeed, hP⟩ := COCOFeed_short receiver (add32 receiver.lastTimestamp first)
    hidx
  have hP0 : P = 0 := by rcases hP with h | h <;> simp [h, hprev]
  subst hP0
  exact ⟨S, D, I, hfeed⟩

/-- A fresh receiver (repeatCount 1, refractoryPeriod 0, handler registered)
that sees a first edge and then a valid frame of code 0 whose origin timestamp
is not 0 calls the handler once, for that frame: code 0 equals the initial
previous code. -/
theorem COCOFeedDurations_fresh_zero (buffer : Nat → Nat) (callback : Bool) (first : Nat)
    (frame : List Nat)
    (hvalid : COCOValidFrame (COCOReceiverCreate (fun _ => 0) true) frame = true)
    (hcode : COCOFrameCode (COCOReceiverCreate (fun _ => 0) true) frame = 0)
    (horigin : add32 (add32 (add32 0 first) (frame.getD 0 0)) (frame.getD 1 0) ≠ 0) :
    (COCOFeedDurations (COCOReceiverSetCallback (COCOReceiverCreate buffer callback) true)
      (first :: frame)).2 =
      [{ timestamp := add32 (add32 (add32 0 first) (frame.getD 0 0)) (frame.getD 1 0),
         fullMessageCode := 0, address := 0, group := false, onOff := false, channel := 0 }] := by
  generalize hr0 : COCOReceiverSetCallback (COCOReceiverCreate buffer callback) true = r0
  have f1 : r0.durationsIndex = 0 := by rw [← hr0]; rfl
  have f2 : r0.previousMessageCode = 0 := by rw [← hr0]; rfl
  have f3 : r0.repeatCount = 1 := by rw [← hr0]; rfl
  have f4 : r0.callback = true := by rw [← hr0]; rfl
  have f5 : r0.refractoryPeriod = 0 := by rw [← hr0]; rfl
  have f6 : r0.timestampPreviousHit = 0 := by rw [← hr0]; rfl
  have f7 : r0.lastTimestamp = 0 := by rw [← hr0]; rfl
  have f8 : r0.repeats = 0 := by rw [← hr0]; rfl
  have hmask : COCOCreatedMasks r0 := by
    rw [← hr0]; exact ⟨rfl, rfl, rfl, rfl⟩
  obtain ⟨hv0, hc0⟩ := COCOValidFrame_congr (COCOReceiverCreate (fun _ => 0) true) r0
    frame
    (by rw [← hr0]; rfl) (by rw [← hr0]; rfl) (by rw [← hr0]; rfl) (by rw [← hr0]; rfl)
    (by rw [← hr0]; rfl) (by rw [← hr0]; rfl)
  obtain ⟨S, D, I, hfeed⟩ := COCOFeed_first r0 first (by rw [f1]; omega) f2
  generalize hr1 : ({ r0 with
      startTime := S, durations := D, durationsIndex := I
      lastTimestamp := add32 r0.lastTimestamp first
      previousMessageCode := 0 } : COCOReceiver) = r1 at hfeed
  obtain ⟨hv1, hc1⟩ := COCOValidFrame_congr r0 r1 frame
    (by rw [← hr1]) (by rw [← hr1]) (by rw [← hr1]) (by rw [← hr1]) (by rw [← hr1])
    (by rw [← hr1])
  have g1 : r1.lastTimestamp = add32 0 first := by
    rw [← hr1]; show add32 r0.lastTimestamp first = _
    rw [f7]
  have horigin1 : COCOFrameOrigin r1 frame =
      add32 (add32 (add32 0 first) (frame.getD 0 0)) (frame.getD 1 0) := by
    unfold COCOFrameOrigin
    rw [g1]
  generalize add32 (add32 (add32 0 first) (frame.getD 0 0)) (frame.getD 1 0) = origin
    at horigin horigin1 ⊢
  have hlt : origin < 4294967296 := by
    rw [← horigin1]; exact add32_lt _ _
  have hmsg : COCOFrameMessage r1 frame =
      { timestamp := origin, fullMessageCode := 0, address := 0, group := false,
        onOff := false, channel := 0 } := by
    unfold COCOFrameMessage
    rw [horigin1, hc1, hc0, hcode]
    have := COCOMessageOfCode_fullCode r1
      (by rw [← hr1]; exact hmask) origin
      { timestamp := 0, fullMessageCode := 0, address := 0, group := false, onOff := false,
        channel := 0 } (by norm_num) (by norm_num)
    exact this
  rw [COCOFeedDurations_cons, hfeed]
  show (COCOFeedDurations r1 frame).2 = _
  rw [COCOFeedDurations_validFrame r1 _ (by rw [hv1, hv0]; exact hvalid), hmsg]
  have hcb : (COCOAfterFrame r1 frame).callback = true := by
    rw [← hr1]; exact f4
  rw [COCOAccept_hit]
  · simp only [hcb, if_true, Option.toList]
  · show 0 = r1.previousMessageCode
    rw [← hr1]
  · show r1.repeatCount ≤ add32 r1.repeats 1
    rw [← hr1]; show r0.repeatCount ≤ add32 r0.repeats 1
    rw [f3, f8]; decide
  · show mul32 r1.refractoryPeriod 1000000 < sub32 origin r1.timestampPreviousHit
    rw [← hr1]
    show mul32 r0.refractoryPeriod 1000000 < sub32 origin r0.timestampPreviousHit
    rw [f5, f6, sub32_zero_of_lt _ hlt]
    show 0 < _
    omega

/-- Claim C13: a fresh COCO receiver with a handler registered that sees a first
edge (at any timestamp `first`, the timestamps not wrapping during the
scenario) and then edges at the successive durations 260, 2600, 32 times
260, 260, 260, 1040, then 260, 10400 hands the handler exactly one message:
address 0, group false, onOff false, channel 0, stamped with the end of the
start-sync. -/
theorem C13_COCO_scenario (buffer : Nat → Nat) (callback : Bool) (first : Nat)
    (hwrap : first + 71760 < 2 ^ 32) :
    (COCOFeedDurations (COCOReceiverSetCallback (COCOReceiverCreate buffer callback) true)
      (first :: COCOScenarioDurations)).2 =
      [{ timestamp := first + 2860, fullMessageCode := 0, address := 0, group := false,
         onOff := false, channel := 0 }] := by
  norm_num at hwrap
  obtain ⟨hvalid, hcode, hd0, hd1⟩ := COCOScenarioDurations_valid
  have horigin : add32 (add32 (add32 0 first) (COCOScenarioDurations.getD 0 0))
      (COCOScenarioDurations.getD 1 0) = first + 2860 := by
    rw [hd0, hd1, add32_of_lt 0 first (by omega), add32_of_lt (0 + first) 260 (by omega),
      add32_of_lt (0 + first + 260) 2600 (by omega)]
    omega
  have := COCOFeedDurations_fresh_zero buffer callback first COCOScenarioDurations hvalid hcode
    (by rw [horigin]; omega)
  rw [horigin] at this
  exact this

/-- Instance of C13 with the first edge at timestamp 1000. -/
theorem C13_COCO_scenario_witness :
    1000 + 71760 < 2 ^ 32 ∧
    (COCOFeedDurations (COCOReceiverSetCallback (COCOReceiverCreate (fun _ => 0) false) true)
      (1000 :: COCOScenarioDurations)).2 =
      [{ timestamp := 1000 + 2860, fullMessageCode := 0, address := 0, group := false,
         onOff := false, channel := 0 }] :=
  ⟨by decide, C13_COCO_scenario (fun _ => 0) false 1000 (by decide)⟩

theorem COCOGarbledFrame_parts (receiver : COCOReceiver) (frame : List Nat)
    (hv : COCOGarbledFrame receiver frame = true) :
    ∃ (d0 s e : Nat) (body : List Nat), frame = d0 :: s :: (body ++ [e]) ∧
      body.length = 129 ∧
      (d0 < 4294967296 ∧ COCOInStartSync receiver d0 = false ∧
        COCOInEndSync receiver d0 = false) ∧
      (s < 4294967296 ∧ COCOInStartSync receiver s = true ∧ COCOInEndSync receiver s = false) ∧
      (∀ d ∈ body, d < 4294967296 ∧ COCOInStartSync receiver d = false ∧
        COCOInEndSync receiver d = false) ∧
      (e < 4294967296 ∧ COCOInStartSync receiver e = false ∧ COCOInEndSync receiver e = true) ∧
      COCODecode receiver (fun j => frame.getD (j + 1) 0) = none := by
  simp only [COCOGarbledFrame, Bool.and_eq_true, decide_eq_true_eq, List.all_eq_true,
    Bool.not_eq_true', List.mem_range, List.any_eq_true] at hv
  obtain ⟨⟨⟨⟨⟨⟨⟨⟨⟨hlen, hall⟩, a0⟩, b0⟩, a1⟩, b1⟩, hbody⟩, b131⟩, a131⟩, k, hk, hnone⟩ := hv
  norm_num at hall
  have hsplit := frame_split frame hlen
  have hm : ∀ i, i < 132 → frame.getD i 0 ∈ frame := by
    intro i hi
    rw [List.getD_eq_getElem?_getD, List.getElem?_eq_getElem (by omega)]
    exact List.getElem_mem _
  refine ⟨frame.getD 0 0, frame.getD 1 0, frame.getD 131 0, (frame.drop 2).take 129, hsplit, ?_,
    ⟨hall _ (hm 0 (by omega)), a0, b0⟩, ⟨hall _ (hm 1 (by omega)), a1, b1⟩, ?_,
    ⟨hall _ (hm 131 (by omega)), a131, b131⟩, ?_⟩
  · simp only [List.length_take, List.length_drop, hlen]
    rfl
  · intro d hd
    obtain ⟨j, hj, hjd, hmem⟩ := mem_body frame hlen d hd
    have := hbody j hj
    rw [← hjd] at this
    exact ⟨hall d hmem, this.1, this.2⟩
  · cases hd : COCODecode receiver (fun j => frame.getD (j + 1) 0) with
    | none => rfl
    | some code =>
      have hs : (COCODecodeFrom receiver (fun j => frame.getD (j + 1) 0) 32 0 0).isSome = true := by
        unfold COCODecode at hd; rw [hd]; rfl
      rw [COCODecodeFrom_isSome] at hs
      have := hs k (by omega) (by omega)
      rw [Option.isNone_iff_eq_none] at hnone
      rw [hnone] at this
      exact absurd this (by simp)

/-- Feeding a garbled frame: the buffer holds the frame, no handler is called,
and the previous code is cleared to 0; the repeat counter and the timestamp of
the previous hit stay. -/
theorem COCOFeedDurations_garbledFrame (receiver : COCOReceiver) (frame : List Nat)
    (hv : COCOGarbledFrame receiver frame = true) :
    COCOFeedDurations receiver frame =
      ({ COCOAfterFrame receiver frame with previousMessageCode := 0 }, []) := by
  obtain ⟨d0, s, e, body, hf, hlen, h0, hs, hb, he, hdec⟩ :=
    COCOGarbledFrame_parts receiver frame hv
  subst hf
  rw [COCOFeedDurations_frame receiver d0 s e body hlen h0 hs hb he]
  have hcongr : COCODecode receiver
      (setSlot (writeSlots (setSlot (setSlot receiver.durations receiver.durationsIndex d0)
        0 s) 1 body) 130 e) =
      COCODecode receiver (fun j => (d0 :: s :: (body ++ [e])).getD (j + 1) 0) := by
    apply COCODecodeFrom_congr receiver receiver _ _ ⟨rfl, rfl⟩ _ 32 0 0 (by omega)
    intro j h1 h2
    rw [setSlot_apply, if_neg (by omega), writeSlots_apply, if_pos (by omega)]
    simp only [List.getD_cons_succ]
    obtain ⟨i, rfl⟩ : ∃ i, j = i + 1 := ⟨j - 1, by omega⟩
    rw [List.getD_cons_succ, List.getD_append body [e] 0 i (by omega)]
    rfl
  have hbuf : setSlot (writeSlots (setSlot (setSlot receiver.durations receiver.durationsIndex d0)
        0 s) 1 body) 130 e =
      writeSlots (setSlot receiver.durations receiver.durationsIndex d0) 0 (s :: (body ++ [e])) := by
    rw [writeSlots, writeSlots_append, hlen]
    rfl
  have hadv : add32 (advance (add32 (add32 receiver.lastTimestamp d0) s) body) e =
      advance receiver.lastTimestamp (d0 :: s :: (body ++ [e])) := by
    rw [advance, advance, advance_append]
    rfl
  rw [hcongr, hbuf, hadv, hdec]
  rfl

/-- Claim C11 (amended): with a COCO receiver at repeatCount 1 and
refractoryPeriod 0 (handler registered), a garbled frame followed by one clean,
fully valid frame of a non-zero code results in no handler invocation; followed
by that clean frame twice it results in exactly one invocation, for the second
clean frame (stamped with that frame's origin), provided this origin differs
from the timestamp of the previous hit. -/
theorem C11_resynchronisation (receiver : COCOReceiver) (garbled clean : List Nat)
    (hcount : receiver.repeatCount = 1) (href : receiver.refractoryPeriod = 0)
    (hcb : receiver.callback = true)
    (hg : COCOGarbledFrame receiver garbled = true)
    (hv : COCOValidFrame receiver clean = true)
    (hcode : COCOFrameCode receiver clean ≠ 0)
    (horigin : sub32 (add32 (add32 (advance receiver.lastTimestamp (garbled ++ clean))
      (clean.getD 0 0)) (clean.getD 1 0)) receiver.timestampPreviousHit ≠ 0) :
    (COCOFeedDurations receiver (garbled ++ clean)).2 = [] ∧
    ∃ message : COCOMessage,
      (COCOFeedDurations receiver (garbled ++ (clean ++ clean))).2 = [message] ∧
      message.fullMessageCode = COCOFrameCode receiver clean ∧
      message.timestamp =
        add32 (add32 (advance receiver.lastTimestamp (garbled ++ clean))
          (clean.getD 0 0)) (clean.getD 1 0) := by
  have hfeed := COCOFeedDurations_garbledFrame receiver garbled hg
  generalize hr1 : ({ COCOAfterFrame receiver garbled with previousMessageCode := 0 } :
    COCOReceiver) = r1 at hfeed
  obtain ⟨hv1, hc1⟩ := COCOValidFrame_congr receiver r1 clean
    (by rw [← hr1]; rfl) (by rw [← hr1]; rfl) (by rw [← hr1]; rfl) (by rw [← hr1]; rfl)
    (by rw [← hr1]; rfl) (by rw [← hr1]; rfl)
  have g1 : r1.lastTimestamp = advance receiver.lastTimestamp garbled := by rw [← hr1]; rfl
  have g2 : r1.timestampPreviousHit = receiver.timestampPreviousHit := by rw [← hr1]; rfl
  have g3 : r1.refractoryPeriod = 0 := by rw [← hr1]; exact href
  obtain ⟨hnone, hone⟩ := COCOFeedDurations_debounce r1 clean 0 (by rw [hv1]; exact hv)
    (by rw [hc1, ← hr1]; exact fun h => hcode h.symm)
    (by rw [← hr1]; exact hcount) (by norm_num) (by rw [← hr1]; exact hcb)
  have e1 : repeatFrame (0 + 1) clean = clean := by
    simp [repeatFrame]
  have e2 : repeatFrame (0 + 1 + 1) clean = clean ++ clean := by
    simp [repeatFrame]
  rw [e1] at hnone hone
  rw [e2] at hone
  rw [g1, g2, g3, ← advance_append, hc1] at hone
  constructor
  · rw [COCOFeedDurations_append, hfeed, hnone]
    rfl
  · obtain ⟨message, hm1, hm2, hm3⟩ := hone (by
      have : mul32 0 1000000 = 0 := by decide
      rw [this]
      exact Nat.pos_of_ne_zero horigin)
    refine ⟨message, ?_, hm2, hm3⟩
    rw [COCOFeedDurations_append, hfeed, hm1]
    rfl

set_option maxRecDepth 1000000 in
/-- Instance of C11 (amended): a fresh receiver with a handler, the garbled
frame of the example message and its clean frame. -/
theorem C11_resynchronisation_witness :
    COCOGarbledFrame (COCOReceiverSetCallback (COCOReceiverCreate (fun _ => 0) false) true)
      COCOExampleGarbled = true ∧
    COCOValidFrame (COCOReceiverSetCallback (COCOReceiverCreate (fun _ => 0) false) true)
      (OOKSenderSendCOCO COCOExampleMessage) = true ∧
    COCOFrameCode (COCOReceiverSetCallback (COCOReceiverCreate (fun _ => 0) false) true)
      (OOKSenderSendCOCO COCOExampleMessage) ≠ 0 ∧
    ((COCOFeedDurations (COCOReceiverSetCallback (COCOReceiverCreate (fun _ => 0) false) true)
        (COCOExampleGarbled ++ OOKSenderSendCOCO COCOExampleMessage)).2 = [] ∧
      ∃ message : COCOMessage,
        (COCOFeedDurations
          (COCOReceiverSetCallback (COCOReceiverCreate (fun _ => 0) false) true)
          (COCOExampleGarbled ++
            (OOKSenderSendCOCO COCOExampleMessage ++ OOKSenderSendCOCO COCOExampleMessage))).2 =
          [message] ∧
        message.fullMessageCode =
          COCOFrameCode (COCOReceiverSetCallback (COCOReceiverCreate (fun _ => 0) false) true)
            (OOKSenderSendCOCO COCOExampleMessage) ∧
        message.timestamp =
          add32 (add32 (advance
            (COCOReceiverSetCallback (COCOReceiverCreate (fun _ => 0) false) true).lastTimestamp
            (COCOExampleGarbled ++ OOKSenderSendCOCO COCOExampleMessage))
            ((OOKSenderSendCOCO COCOExampleMessage).getD 0 0))
            ((OOKSenderSendCOCO COCOExampleMessage).getD 1 0)) :=
  ⟨by decide, by decide, by decide,
    C11_resynchronisation (COCOReceiverSetCallback (COCOReceiverCreate (fun _ => 0) false) true)
      COCOExampleGarbled (OOKSenderSendCOCO COCOExampleMessage) rfl rfl rfl
      (by decide) (by decide) (by decide) (by decide)⟩

set_option maxRecDepth 1000000 in
/-- Claim C11 (counterexample): a fresh receiver (repeatCount 1, refractoryPeriod
0, handler registered) that sees a first edge at 1000, then the garbled frame
and then one clean, valid frame of the example message (code 64) does not
invoke the handler at all. -/
theorem C11_resynchronisation_counterexample :
    (COCOReceiverSetCallback (COCOReceiverCreate (fun _ => 0) false) true).repeatCount = 1 ∧
    (COCOReceiverSetCallback (COCOReceiverCreate (fun _ => 0) false) true).refractoryPeriod = 0 ∧
    COCOGarbledFrame (COCOReceiverSetCallback (COCOReceiverCreate (fun _ => 0) false) true)
      COCOExampleGarbled = true ∧
    COCOValidFrame (COCOReceiverSetCallback (COCOReceiverCreate (fun _ => 0) false) true)
      (OOKSenderSendCOCO COCOExampleMessage) = true ∧
    (COCOFeedDurations (COCOReceiverSetCallback (COCOReceiverCreate (fun _ => 0) false) true)
      (1000 :: (COCOExampleGarbled ++ OOKSenderSendCOCO COCOExampleMessage))).2.length = 0 := by
  refine ⟨rfl, rfl, ?_, ?_, ?_⟩ <;> decide

/-- Whenever the repeat filter hands a message to the handler, the message is
the analysed one, its code equals the previous code, the incremented repeat
counter has reached repeatCount, and the `uint32_t` difference to the previous
hit exceeds the `uint32_t` product refractoryPeriod * 1000000. -/
theorem COCOAccept_some (receiver : COCOReceiver) (message reported : COCOMessage)
    (h : (COCOAccept receiver message).2 = some reported) :
    reported = message ∧ message.fullMessageCode = receiver.previousMessageCode ∧
    receiver.repeatCount ≤ add32 receiver.repeats 1 ∧
    mul32 receiver.refractoryPeriod 1000000 <
      sub32 message.timestamp receiver.timestampPreviousHit ∧
    receiver.callback = true := by
  unfold COCOAccept at h
  by_cases h1 : message.fullMessageCode = receiver.previousMessageCode
  · rw [if_pos h1] at h
    simp only [ge_iff_le, gt_iff_lt] at h
    by_cases h2 : receiver.repeatCount ≤ add32 receiver.repeats 1
    · rw [if_pos h2] at h
      by_cases h3 : mul32 receiver.refractoryPeriod 1000000 <
          sub32 message.timestamp receiver.timestampPreviousHit
      · rw [if_pos h3] at h
        by_cases h4 : receiver.callback = true
        · rw [if_pos h4] at h
          injection h with h
          exact ⟨h.symm, h1, h2, h3, h4⟩
        · rw [if_neg h4] at h
          exact absurd h (by simp)
      · rw [if_neg h3] at h
        exact absurd h (by simp)
    · rw [if_neg h2] at h
      exact absurd h (by simp)
  · rw [if_neg h1] at h
    exact absurd h (by simp)

set_option maxRecDepth 1000000 in
/-- Claim C12, evaluation at the failing input: a fresh receiver with a handler
and repeatCount 2 sees a first edge at 1000, then the frame of the all-zero
message, then that frame garbled, then the frame of the all-zero message again.
The first two frames call no handler, the garbled frame does not decode,
and still the third frame calls the handler (code 0): the frame analysed
immediately before it did not decode, and only one frame of code 0 was analysed
before it at all. -/
theorem C12_acceptance_invariant_fails :
    COCOGarbledFrame
      (COCOReceiverSetCallback
        (COCOReceiverSetRepeatCount (COCOReceiverCreate (fun _ => 0) false) 2) true)
      COCOZeroGarbled = true ∧
    (COCOFeedDurations
      (COCOReceiverSetCallback
        (COCOReceiverSetRepeatCount (COCOReceiverCreate (fun _ => 0) false) 2) true)
      (1000 :: COCOScenarioDurations)).2 = [] ∧
    COCODecode
      (COCOReceiverSetCallback
        (COCOReceiverSetRepeatCount (COCOReceiverCreate (fun _ => 0) false) 2) true)
      (fun j => COCOZeroGarbled.getD (j + 1) 0) = none ∧
    (COCOFeedDurations
      (COCOReceiverSetCallback
        (COCOReceiverSetRepeatCount (COCOReceiverCreate (fun _ => 0) false) 2) true)
      (1000 :: (COCOScenarioDurations ++ COCOZeroGarbled))).2 = [] ∧
    (COCOFeedDurations
      (COCOReceiverSetCallback
        (COCOReceiverSetRepeatCount (COCOReceiverCreate (fun _ => 0) false) 2) true)
      (1000 :: (COCOScenarioDurations ++ COCOZeroGarbled ++ COCOScenarioDurations))).2 =
      [{ timestamp := 1000 + 71760 + 71220 + 2860, fullMessageCode := 0, address := 0,
         group := false, onOff := false, channel := 0 }] := by
  refine ⟨?_, ?_, ?_, ?_, ?_⟩ <;> decide

theorem gpioEdges_append (ws vs : List GPIOWrite) :
    ∀ (level time : Nat),
      gpioEdges level time (ws ++ vs) =
        gpioEdges level time ws ++
          gpioEdges ((ws.getLast?.map (fun w => w.level)).getD level)
            (time + (ws.map (fun w => w.hold)).sum) vs := by
  induction ws with
  | nil => intro level time; simp [gpioEdges]
  | cons w ws ih =>
    intro level time
    have hlev : (((w :: ws).getLast?.map (fun w => w.level)).getD level) =
        ((ws.getLast?.map (fun w => w.level)).getD w.level) := by
      cases ws with
      | nil => rfl
      | cons v vs =>
        rw [List.getLast?_cons_cons, List.getLast?_eq_getLast _ (by simp)]
        rfl
    have hsum : time + ((w :: ws).map (fun w => w.hold)).sum =
        time + w.hold + (ws.map (fun w => w.hold)).sum := by
      simp only [List.map_cons, List.sum_cons]; omega
    rw [List.cons_append, gpioEdges, gpioEdges, ih, List.append_assoc, hlev, hsum]

/-- The writes of one pass of the inner loop: the holds are the durations from
`index` on, every write is an edge when the line is at the other level before,
and after an even number of writes the line is back at the level it had. -/
theorem OOKSenderTransmitFrame_edges (durations : Nat → Nat) :
    ∀ (count index level line time : Nat), level ≤ 1 → line ≤ 1 → line ≠ level →
      gpioEdges line time (OOKSenderTransmitFrame durations count index level) =
        writeTimes time ((List.range' index count).map durations) ∧
      ((OOKSenderTransmitFrame durations count index level).map (fun w => w.hold)) =
        (List.range' index count).map durations ∧
      ((OOKSenderTransmitFrame durations count index level).getLast?.map
        (fun w => w.level)).getD line = if count % 2 = 0 then line else level := by
  intro count
  induction count with
  | zero =>
    intro index level line time _ _ _
    simp [OOKSenderTransmitFrame, gpioEdges, writeTimes]
  | succ count ih =>
    intro index level line time h1 h2 h3
    have hl : (if level = 0 then 1 else 0) = line := by
      by_cases h : level = 0
      · rw [if_pos h]; omega
      · rw [if_neg h]; omega
    obtain ⟨e1, e2, e3⟩ := ih (index + 1) line level (time + durations index) h2 h1
      (fun h => h3 h.symm)
    rw [OOKSenderTransmitFrame, hl]
    refine ⟨?_, ?_, ?_⟩
    · rw [gpioEdges, if_neg (fun h => h3 h.symm), e1]
      simp [List.range'_succ, writeTimes]
    · simp only [List.map_cons, e2, List.range'_succ]
    · cases hc : OOKSenderTransmitFrame durations count (index + 1) line with
      | nil =>
        have hz : count = 0 := by
          cases count with
          | zero => rfl
          | succ c => rw [OOKSenderTransmitFrame] at hc; exact absurd hc (by simp)
        subst hz
        simp
      | cons v vs =>
        rw [hc] at e3
        rw [List.getLast?_cons_cons]
        have e4 : (Option.map (fun w => w.level) (v :: vs).getLast?).getD line =
            (Option.map (fun w => w.level) (v :: vs).getLast?).getD level := by
          rw [List.getLast?_eq_getLast _ (by simp)]
          rfl
        rw [e4, e3]
        by_cases hp : count % 2 = 0
        · rw [if_pos hp, if_neg (by omega)]
        · rw [if_neg hp, if_pos (by omega)]

theorem writeTimes_append (ds es : List Nat) :
    ∀ time : Nat,
      writeTimes time (ds ++ es) = writeTimes time ds ++ writeTimes (time + ds.sum) es := by
  induction ds with
  | nil => intro time; simp [writeTimes]
  | cons d ds ih =>
    intro time
    rw [List.cons_append, writeTimes, writeTimes, ih, List.sum_cons, List.cons_append]
    rw [show time + d + ds.sum = time + (d + ds.sum) by omega]

theorem writeTimes_concat (ds : List Nat) (x : Nat) :
    ∀ time : Nat,
      writeTimes time (ds ++ [x]) = time % 2 ^ 32 :: edgeTimestamps (time % 2 ^ 32) ds := by
  induction ds with
  | nil => intro time; rfl
  | cons d ds ih =>
    intro time
    rw [List.cons_append, writeTimes, ih, edgeTimestamps]
    have : add32 (time % 2 ^ 32) d = (time + d) % 2 ^ 32 := by
      unfold add32; rw [Nat.mod_add_mod]
    rw [this]

/-- The writes of the outer loop with a high first value and an even number of
durations: every write is an edge on a line that was low, and the line is low
again after each pass. -/
theorem OOKSenderTransmitPasses_edges (durations : Nat → Nat) (length : Nat)
    (heven : length % 2 = 0) :
    ∀ (count time : Nat),
      gpioEdges 0 time (OOKSenderTransmitPasses durations length true count) =
        writeTimes time (repeatFrame count ((List.range length).map durations)) ∧
      ((OOKSenderTransmitPasses durations length true count).map (fun w => w.hold)) =
        repeatFrame count ((List.range length).map durations) ∧
      ((OOKSenderTransmitPasses durations length true count).getLast?.map
        (fun w => w.level)).getD 0 = 0 := by
  intro count
  induction count with
  | zero => intro time; simp [OOKSenderTransmitPasses, gpioEdges, repeatFrame, writeTimes]
  | succ count ih =>
    intro time
    obtain ⟨f1, f2, f3⟩ := OOKSenderTransmitFrame_edges durations length 0 1 0 time
      (by omega) (by omega) (by omega)
    rw [if_pos heven] at f3
    rw [← List.range_eq_range'] at f1 f2
    obtain ⟨e1, e2, e3⟩ := ih (time + ((List.range length).map durations).sum)
    rw [OOKSenderTransmitPasses, repeatFrame]
    simp only [if_true]
    refine ⟨?_, ?_, ?_⟩
    · rw [gpioEdges_append, f1, f2, f3, e1, writeTimes_append]
    · rw [List.map_append, f2, e2]
    · cases hc : OOKSenderTransmitPasses durations length true count with
      | nil => rw [List.append_nil]; exact f3
      | cons v vs =>
        rw [List.getLast?_append_of_ne_nil _ (by simp)]
        rw [hc] at e3
        exact e3

/-- The outer loop ends when the repeat count is below `UINT32_MAX` and the
bound allows one guard test more than there are passes left: the writes are
those of the remaining passes. -/
theorem OOKSenderTransmitLoop_returns (durations : Nat → Nat) (length : Nat)
    ( firstValueHigh : Bool) (repeats : Nat) (hrep : repeats < 4294967295) :
    ∀ (count fuel : Nat), count ≤ repeats + 1 → count < fuel →
      OOKSenderTransmitLoop durations length firstValueHigh repeats fuel (repeats + 1 - count) =
        some (OOKSenderTransmitPasses durations length firstValueHigh count) := by
  have hmod : repeats % 2 ^ 32 = repeats := Nat.mod_eq_of_lt (by norm_num; omega)
  intro count
  induction count with
  | zero =>
    intro fuel _ hf
    obtain ⟨fuel, rfl⟩ : ∃ f, fuel = f + 1 := ⟨fuel - 1, by omega⟩
    rw [OOKSenderTransmitLoop, hmod, if_neg (by omega)]
    rfl
  | succ count ih =>
    intro fuel hc hf
    obtain ⟨fuel, rfl⟩ : ∃ f, fuel = f + 1 := ⟨fuel - 1, by omega⟩
    have hnext : add32 (repeats + 1 - (count + 1)) 1 = repeats + 1 - count := by
      rw [add32_of_lt _ _ (by omega)]; omega
    rw [OOKSenderTransmitLoop, hmod, if_pos (by omega), hnext, ih fuel (by omega) (by omega)]
    rfl

/-- A call of `OOKSenderTransmit` with a repeat count below `UINT32_MAX` returns:
no write when the pin is unset, else the writes of `repeats + 1` passes and
the closing write. -/
theorem OOKSenderTransmit_returns (sender : OOKSender) (durations : Nat → Nat) (length : Nat)
    ( firstValueHigh : Bool) (repeats fuel : Nat) (hrep : repeats < 4294967295)
    (hfuel : repeats + 1 < fuel) :
    OOKSenderTransmit sender durations length firstValueHigh repeats fuel =
      some (if OOKSender.GPIO sender = 0xFF then []
        else OOKSenderTransmitPasses durations length firstValueHigh (repeats + 1) ++
          [{ level := 0, hold := 0 }]) := by
  unfold OOKSenderTransmit
  by_cases h : OOKSender.GPIO sender = 0xFF
  · rw [if_pos h, if_pos h]
  · rw [if_neg h, if_neg h]
    have := OOKSenderTransmitLoop_returns durations length firstValueHigh repeats hrep
      (repeats + 1) fuel (le_refl _) hfuel
    rw [Nat.sub_self] at this
    rw [this]
    rfl

/-- The edges of a complete transmission with a high first value and an even
number of durations on a line that is low before: the first write and the end
of every duration but the very last one, after which the closing write finds
the line low already. -/
theorem OOKSenderTransmit_edges (sender : OOKSender) (hgpio : OOKSender.GPIO sender ≠ 0xFF)
    (durations : Nat → Nat) (length : Nat) (heven : length % 2 = 0) (repeats fuel : Nat)
    (hrep : repeats < 4294967295) (hfuel : repeats + 1 < fuel) (time : Nat) :
    gpioEdges 0 time ((OOKSenderTransmit sender durations length true repeats fuel).getD []) =
      writeTimes time (repeatFrame (repeats + 1) ((List.range length).map durations)) := by
  rw [OOKSenderTransmit_returns sender durations length true repeats fuel hrep hfuel,
    if_neg hgpio, Option.getD_some, gpioEdges_append]
  obtain ⟨e1, e2, e3⟩ := OOKSenderTransmitPasses_edges durations length heven (repeats + 1) time
  rw [e1, e3]
  simp [gpioEdges]

theorem quad_sum (n : Nat) :
    ∀ l : List Nat, l.length = 4 * n →
      (∀ k, k < n → l.getD (4 * k) 0 + l.getD (4 * k + 1) 0 + l.getD (4 * k + 2) 0 +
        l.getD (4 * k + 3) 0 = 1820) → l.sum = 1820 * n := by
  induction n with
  | zero =>
    intro l hl _
    have : l = [] := List.length_eq_zero.1 (by omega)
    subst this
    rfl
  | succ n ih =>
    intro l hl h
    match l, hl with
    | a :: b :: c :: d :: rest, hl =>
      simp only [List.length_cons] at hl
      have h0 := h 0 (by omega)
      simp only [Nat.mul_zero, List.getD_cons_zero, Nat.zero_add, List.getD_cons_succ] at h0
      have hrest := ih rest (by omega) (by
        intro k hk
        have := h (k + 1) (by omega)
        have e1 : 4 * (k + 1) = 4 * k + 1 + 1 + 1 + 1 := by ring
        have e2 : 4 * k + 1 + 1 + 1 + 1 + 1 = 4 * k + 1 + 1 + 1 + 1 + 1 := rfl
        have e3 : 4 * k + 1 + 1 + 1 + 1 + 2 = 4 * k + 2 + 1 + 1 + 1 + 1 := by ring
        have e4 : 4 * k + 1 + 1 + 1 + 1 + 3 = 4 * k + 3 + 1 + 1 + 1 + 1 := by ring
        rw [e1, e3, e4] at this
        simpa only [List.getD_cons_succ] using this)
      simp only [List.sum_cons]
      omega

theorem COCOPulseAt_quad (code k : Nat) :
    COCOPulseAt code (4 * k + 2) + COCOPulseAt code (4 * k + 1 + 2) +
      COCOPulseAt code (4 * k + 2 + 2) + COCOPulseAt code (4 * k + 3 + 2) = 1820 := by
  have a0 : (4 * k + 2 - 2) / 4 = k := by omega
  have a1 : (4 * k + 1 + 2 - 2) / 4 = k := by omega
  have a2 : (4 * k + 2 + 2 - 2) / 4 = k := by omega
  have a3 : (4 * k + 3 + 2 - 2) / 4 = k := by omega
  have b0 : (4 * k + 2 - 2) % 4 = 0 := by omega
  have b1 : (4 * k + 1 + 2 - 2) % 4 = 1 := by omega
  have b2 : (4 * k + 2 + 2 - 2) % 4 = 2 := by omega
  have b3 : (4 * k + 3 + 2 - 2) % 4 = 3 := by omega
  unfold COCOPulseAt
  simp only [a0, a1, a2, a3, b0, b1, b2, b3]
  cases code.testBit (31 - k) <;> simp

/-- The 132 durations of a COCO frame add up to 71760 microseconds, whatever the
message. -/
theorem OOKSenderSendCOCO_sum (message : COCOMessage) :
    (OOKSenderSendCOCO message).sum = 71760 := by
  have hlen : (OOKSenderSendCOCO message).length = 132 := by
    simp [OOKSenderSendCOCO, kCOCOTotalNumberOfPulses]
  have h0 : (OOKSenderSendCOCO message).getD 0 0 = 260 := by
    rw [OOKSenderSendCOCO_getD, OOKSenderSendCOCOArray_apply]; rfl
  have h1 : (OOKSenderSendCOCO message).getD 1 0 = 2600 := by
    rw [OOKSenderSendCOCO_getD, OOKSenderSendCOCOArray_apply]; rfl
  have h130 : (OOKSenderSendCOCO message).getD 130 0 = 260 := by
    rw [OOKSenderSendCOCO_getD, OOKSenderSendCOCOArray_apply]; rfl
  have h131 : (OOKSenderSendCOCO message).getD 131 0 = 10400 := by
    rw [OOKSenderSendCOCO_getD, OOKSenderSendCOCOArray_apply]; rfl
  have hj : ∀ j, j < 128 → (OOKSenderSendCOCO message).getD (j + 2) 0 =
      COCOPulseAt (COCOFullCode message) (j + 2) := by
    intro j hj
    rw [OOKSenderSendCOCO_getD, OOKSenderSendCOCOArray_apply]
    simp (disch := omega) only [if_neg, if_pos]
  generalize OOKSenderSendCOCO message = frame at *
  match frame, hlen with
  | a :: b :: rest, hlen =>
    simp only [List.getD_cons_zero, List.getD_cons_succ] at h0 h1 h130 h131 hj
    simp only [List.length_cons] at hlen
    have hr : rest.length = 130 := by omega
    have hd : rest.drop 128 = [rest.getD 128 0, rest.getD 129 0] := by
      rw [List.drop_eq_getElem_cons (by omega), List.drop_eq_getElem_cons (by omega),
        List.drop_of_length_le (by omega)]
      simp [List.getD_eq_getElem?_getD, List.getElem?_eq_getElem (show 128 < rest.length by omega),
        List.getElem?_eq_getElem (show 129 < rest.length by omega)]
    have hq := quad_sum 32 (rest.take 128) (by simp [hr]) (by
      intro k hk
      have g : ∀ i, i < 128 → (rest.take 128).getD i 0 =
          COCOPulseAt (COCOFullCode message) (i + 2) := by
        intro i hi
        rw [List.getD_eq_getElem?_getD, List.getElem?_take_of_lt hi,
          ← List.getD_eq_getElem?_getD]
        exact hj i hi
      rw [g _ (by omega), g _ (by omega), g _ (by omega), g _ (by omega)]
      exact COCOPulseAt_quad _ k)
    have hs : rest.sum = (rest.take 128).sum + (rest.drop 128).sum := by
      conv_lhs => rw [← List.take_append_drop 128 rest]
      rw [List.sum_append]
    rw [List.sum_cons, List.sum_cons, hs, hq, hd, h0, h1, h130, h131]
    rfl

theorem advance_of_lt (ds : List Nat) :
    ∀ start : Nat, start + ds.sum < 4294967296 → advance start ds = start + ds.sum := by
  induction ds with
  | nil => intro start _; rfl
  | cons d ds ih =>
    intro start h
    rw [List.sum_cons] at h
    rw [advance, add32_of_lt _ _ (by omega), ih _ (by omega), List.sum_cons]
    omega

theorem repeatFrame_sum (frame : List Nat) (count : Nat) :
    (repeatFrame count frame).sum = count * frame.sum := by
  induction count with
  | zero => simp [repeatFrame]
  | succ count ih => rw [repeatFrame, List.sum_append, ih]; ring

theorem COCOAccept_shape (receiver : COCOReceiver) (message : COCOMessage) :
    ∃ (R T P : Nat) (out : Option COCOMessage),
      COCOAccept receiver message =
        ({ receiver with repeats := R, timestampPreviousHit := T, previousMessageCode := P },
          out) := by
  unfold COCOAccept
  simp only []
  split_ifs
  all_goals exact ⟨_, _, _, _, rfl⟩

theorem repeatFrame_add (frame : List Nat) (a b : Nat) :
    repeatFrame (a + b) frame = repeatFrame a frame ++ repeatFrame b frame := by
  induction a with
  | zero => simp [repeatFrame]
  | succ a ih =>
    rw [show a + 1 + b = (a + b) + 1 by omega, repeatFrame, repeatFrame, ih, List.append_assoc]

/-- A frame whose end-sync edge has not come yet calls no handler. -/
theorem COCOFeedDurations_open (receiver : COCOReceiver) (d0 s : Nat) (body : List Nat)
    (hlen : body.length = 129)
    (h0 : d0 < 4294967296 ∧ COCOInStartSync receiver d0 = false ∧
      COCOInEndSync receiver d0 = false)
    (hs : s < 4294967296 ∧ COCOInStartSync receiver s = true ∧ COCOInEndSync receiver s = false)
    (hb : ∀ d ∈ body, d < 4294967296 ∧ COCOInStartSync receiver d = false ∧
      COCOInEndSync receiver d = false) :
    (COCOFeedDurations receiver (d0 :: s :: body)).2 = [] := by
  rw [COCOFeedDurations_cons, COCOFeed_plain receiver d0 h0.1 h0.2.1 h0.2.2]
  rw [COCOStore_shape]
  generalize (COCOStore receiver (add32 receiver.lastTimestamp d0) d0).durationsIndex = i1
  rw [COCOFeedDurations_toEnd
      { receiver with
        durations := setSlot receiver.durations receiver.durationsIndex d0
        durationsIndex := i1
        lastTimestamp := add32 receiver.lastTimestamp d0 } s body hlen hs hb]
  rfl

/-- Every handler call made while a receiver with the default windows and the
created masks is fed repetitions of the frame of a valid message carries the
fields of that message; the windows and masks stay as they are. -/
theorem COCOFeedDurations_repeat_fields (message : COCOMessage)
    (ha : message.address < 2 ^ 26) (hc : message.channel < 16) :
    ∀ (count : Nat) (receiver : COCOReceiver), COCODefaultWindows receiver →
      COCOCreatedMasks receiver →
      (∀ reported ∈ (COCOFeedDurations receiver
          (repeatFrame count (OOKSenderSendCOCO message))).2,
        reported.address = message.address ∧ reported.group = message.group ∧
        reported.onOff = message.onOff ∧ reported.channel = message.channel) ∧
      COCODefaultWindows
        (COCOFeedDurations receiver (repeatFrame count (OOKSenderSendCOCO message))).1 ∧
      COCOCreatedMasks
        (COCOFeedDurations receiver (repeatFrame count (OOKSenderSendCOCO message))).1 := by
  intro count
  induction count with
  | zero =>
    intro receiver hw hm
    simp only [repeatFrame, COCOFeedDurations_nil]
    exact ⟨fun _ h => absurd h (by simp), hw, hm⟩
  | succ count ih =>
    intro receiver hw hm
    obtain ⟨hv, hcode⟩ := OOKSenderSendCOCO_valid receiver hw message
    rw [repeatFrame, COCOFeedDurations_append, COCOFeedDurations_validFrame receiver _ hv]
    generalize OOKSenderSendCOCO message = frame at *
    obtain ⟨R, T, P, out, hacc⟩ := COCOAccept_shape (COCOAfterFrame receiver frame)
      (COCOFrameMessage receiver frame)
    have hout : ∀ reported, (COCOAccept (COCOAfterFrame receiver frame)
        (COCOFrameMessage receiver frame)).2 = some reported →
        reported = COCOFrameMessage receiver frame := by
      intro reported h
      exact (COCOAccept_some _ _ _ h).1
    rw [hacc] at hout ⊢
    simp only
    obtain ⟨i1, i2, i3⟩ := ih
      { COCOAfterFrame receiver frame with
        repeats := R, timestampPreviousHit := T, previousMessageCode := P } hw hm
    refine ⟨?_, i2, i3⟩
    intro reported hr
    rw [List.mem_append] at hr
    rcases hr with hr | hr
    · have hx : out = some reported := by
        cases out with
        | none => exact absurd hr (by simp)
        | some x => simp only [Option.toList, List.mem_singleton] at hr; rw [hr]
      have := hout reported hx
      rw [this]
      unfold COCOFrameMessage
      rw [hcode, COCOMessageOfCode_fullCode receiver hm _ message ha hc]
      exact ⟨rfl, rfl, rfl, rfl⟩
    · exact i1 reported hr

/-- The edges of the complete transmission of `OOKSenderSendCOCO` on a line that
was low, seen by a receiver that saw no edge before: the first write at `first`,
then the ends of the durations of 15 whole frames and of the 16th frame without
its last duration. -/
theorem OOKSenderSendCOCOTransmit_feed (receiver : COCOReceiver) (sender : OOKSender)
    (message : COCOMessage) (first : Nat) (hgpio : OOKSender.GPIO sender ≠ 0xFF)
    (hlast : receiver.lastTimestamp = 0) :
    COCOReceiverFeedAll receiver (gpioEdges 0 first (OOKSenderSendCOCOTransmit sender message)) =
      COCOFeedDurations receiver
        (first :: (repeatFrame 15 (OOKSenderSendCOCO message) ++
          (OOKSenderSendCOCO message).dropLast)) := by
  unfold OOKSenderSendCOCOTransmit
  rw [OOKSenderTransmit_edges sender hgpio _ _ (by decide) 15 17 (by decide) (by decide)]
  have hframe : (List.range kCOCOTotalNumberOfPulses).map (OOKSenderSendCOCOArray message) =
      OOKSenderSendCOCO message := rfl
  rw [hframe]
  have hne : OOKSenderSendCOCO message ≠ [] := by
    intro h
    have : (OOKSenderSendCOCO message).length = 132 := by
      simp [OOKSenderSendCOCO, kCOCOTotalNumberOfPulses]
    rw [h] at this
    exact absurd this (by simp)
  have hsplit : repeatFrame (15 + 1) (OOKSenderSendCOCO message) =
      (repeatFrame 15 (OOKSenderSendCOCO message) ++ (OOKSenderSendCOCO message).dropLast) ++
        [(OOKSenderSendCOCO message).getLast hne] := by
    rw [repeatFrame_succ_right, List.append_assoc, List.dropLast_append_getLast]
  rw [hsplit, writeTimes_concat]
  unfold COCOFeedDurations
  rw [hlast, edgeTimestamps]
  have : add32 0 first = first % 2 ^ 32 := by unfold add32; rw [Nat.zero_add]
  rw [this]

theorem COCOReceiverCreate_setup (buffer : Nat → Nat) (callback handler : Bool) :
    COCODefaultWindows (COCOReceiverSetCallback (COCOReceiverCreate buffer callback) handler) ∧
    COCOCreatedMasks (COCOReceiverSetCallback (COCOReceiverCreate buffer callback) handler) := by
  constructor
  · simp only [COCODefaultWindows, COCOReceiverSetCallback, COCOReceiverCreate,
      updateDurationsForReceiver]
    decide
  · exact ⟨rfl, rfl, rfl, rfl⟩

/-- A receiver with the default windows, repeatCount 1, refractoryPeriod 0 and a
handler, whose previous code is 0 and which never had a hit, calls the handler
during the first two repetitions of the frame of a message, when the timestamps
do not wrap. -/
theorem COCOFeedDurations_first_hit (receiver : COCOReceiver) (message : COCOMessage)
    (hw : COCODefaultWindows receiver)
    (hprev : receiver.previousMessageCode = 0) (hrep : receiver.repeats = 0)
    (hcount : receiver.repeatCount = 1) (href : receiver.refractoryPeriod = 0)
    (hhit : receiver.timestampPreviousHit = 0) (hcb : receiver.callback = true)
    (hwrap : receiver.lastTimestamp + 2 * 71760 < 4294967296) :
    (COCOFeedDurations receiver (repeatFrame 2 (OOKSenderSendCOCO message))).2 ≠ [] := by
  obtain ⟨hv, hcode⟩ := OOKSenderSendCOCO_valid receiver hw message
  have hsum := OOKSenderSendCOCO_sum message
  have h0 : (OOKSenderSendCOCO message).getD 0 0 = 260 := by
    rw [OOKSenderSendCOCO_getD, OOKSenderSendCOCOArray_apply]; rfl
  have h1 : (OOKSenderSendCOCO message).getD 1 0 = 2600 := by
    rw [OOKSenderSendCOCO_getD, OOKSenderSendCOCOArray_apply]; rfl
  generalize OOKSenderSendCOCO message = frame at *
  have hz : mul32 0 1000000 = 0 := by decide
  by_cases hc0 : COCOFrameCode receiver frame = 0
  · have e : repeatFrame 2 frame = frame ++ repeatFrame 1 frame := rfl
    rw [e, COCOFeedDurations_append, COCOFeedDurations_validFrame receiver frame hv]
    have horigin : (COCOFrameMessage receiver frame).timestamp =
        receiver.lastTimestamp + 260 + 2600 := by
      show add32 (add32 receiver.lastTimestamp (frame.getD 0 0)) (frame.getD 1 0) = _
      rw [h0, h1, add32_of_lt receiver.lastTimestamp 260 (by omega),
        add32_of_lt (receiver.lastTimestamp + 260) 2600 (by omega)]
    rw [COCOAccept_hit]
    · have hcb2 : (COCOAfterFrame receiver frame).callback = true := hcb
      simp only [hcb2, if_true, Option.toList]
      exact fun h => absurd h (by simp)
    · show COCOFrameCode receiver frame = receiver.previousMessageCode
      rw [hc0, hprev]
    · show receiver.repeatCount ≤ add32 receiver.repeats 1
      rw [hcount, hrep]; decide
    · show mul32 receiver.refractoryPeriod 1000000 <
        sub32 (COCOFrameMessage receiver frame).timestamp receiver.timestampPreviousHit
      rw [href, hhit, horigin, hz, sub32_zero_of_lt _ (by omega)]
      omega
  · obtain ⟨-, hone⟩ := COCOFeedDurations_debounce receiver frame 0 hv
      (by rw [hprev]; exact fun h => hc0 h.symm) hcount (by norm_num) hcb
    have hadv : advance receiver.lastTimestamp (repeatFrame (0 + 1) frame) =
        receiver.lastTimestamp + 71760 := by
      rw [advance_of_lt _ _ (by rw [repeatFrame_sum, hsum]; omega), repeatFrame_sum, hsum]
    rw [hadv, h0, h1, href, hhit, hz, add32_of_lt (receiver.lastTimestamp + 71760) 260 (by omega),
      add32_of_lt (receiver.lastTimestamp + 71760 + 260) 2600 (by omega),
      sub32_zero_of_lt _ (by omega)] at hone
    obtain ⟨reported, hr, -, -⟩ := hone (by omega)
    rw [show repeatFrame 2 frame = repeatFrame (0 + 1 + 1) frame from rfl, hr]
    exact fun h => absurd h (by simp)

/-- The complete transmission with a handler that leaves the message in place:
for every valid message (address below 2^26, channel below 16), a fresh default
COCO receiver with such a handler registered that is fed the edges of the
complete transmission `OOKSenderSendCOCO` drives (the 132-duration frame
written 16 times with exact timing on a line that was low, the first write at
timestamp `first`, no 32-bit wrap) invokes the handler at least once, and every
invocation carries the original address, group, onOff and channel. -/
theorem COCOReceiverFeedAll_transmission (buffer : Nat → Nat) (callback : Bool) (sender : OOKSender)
    (message : COCOMessage) (first : Nat) (hgpio : OOKSender.GPIO sender ≠ 0xFF)
    (ha : message.address < 2 ^ 26) (hc : message.channel < 16)
    (hwrap : first + 16 * 71760 < 2 ^ 32) :
    (COCOReceiverFeedAll (COCOReceiverSetCallback (COCOReceiverCreate buffer callback) true)
      (gpioEdges 0 first (OOKSenderSendCOCOTransmit sender message))).2 ≠ [] ∧
    ∀ reported ∈
      (COCOReceiverFeedAll (COCOReceiverSetCallback (COCOReceiverCreate buffer callback) true)
        (gpioEdges 0 first (OOKSenderSendCOCOTransmit sender message))).2,
      reported.address = message.address ∧ reported.group = message.group ∧
      reported.onOff = message.onOff ∧ reported.channel = message.channel := by
  norm_num at hwrap
  obtain ⟨hw0, hm0⟩ := COCOReceiverCreate_setup buffer callback true
  rw [OOKSenderSendCOCOTransmit_feed _ _ _ _ hgpio rfl]
  generalize hr0 : COCOReceiverSetCallback (COCOReceiverCreate buffer callback) true = r0
    at hw0 hm0 ⊢
  have f1 : r0.durationsIndex = 0 := by rw [← hr0]; rfl
  have f2 : r0.previousMessageCode = 0 := by rw [← hr0]; rfl
  have f3 : r0.repeatCount = 1 := by rw [← hr0]; rfl
  have f4 : r0.callback = true := by rw [← hr0]; rfl
  have f5 : r0.refractoryPeriod = 0 := by rw [← hr0]; rfl
  have f6 : r0.timestampPreviousHit = 0 := by rw [← hr0]; rfl
  have f7 : r0.lastTimestamp = 0 := by rw [← hr0]; rfl
  have f8 : r0.repeats = 0 := by rw [← hr0]; rfl
  obtain ⟨S, D, I, hfeed⟩ := COCOFeed_first r0 first (by rw [f1]; omega) f2
  generalize hr1 : ({ r0 with
      startTime := S, durations := D, durationsIndex := I
      lastTimestamp := add32 r0.lastTimestamp first
      previousMessageCode := 0 } : COCOReceiver) = r1 at hfeed
  have hw1 : COCODefaultWindows r1 := by rw [← hr1]; exact hw0
  have hm1 : COCOCreatedMasks r1 := by rw [← hr1]; exact hm0
  have g1 : r1.lastTimestamp = first := by
    rw [← hr1]; show add32 r0.lastTimestamp first = first
    rw [f7, add32_of_lt 0 first (by omega)]; omega
  obtain ⟨hfields, hw16, -⟩ := COCOFeedDurations_repeat_fields message ha hc 15 r1 hw1 hm1
  have hhit := COCOFeedDurations_first_hit r1 message hw1 (by rw [← hr1])
    (by rw [← hr1]; exact f8) (by rw [← hr1]; exact f3) (by rw [← hr1]; exact f5)
    (by rw [← hr1]; exact f6) (by rw [← hr1]; exact f4) (by rw [g1]; omega)
  obtain ⟨hv16, -⟩ := OOKSenderSendCOCO_valid _ hw16 message
  obtain ⟨d0, s, e, body, hf, hlen, h0, hs, hb, -, -⟩ := COCOValidFrame_parts _ _ hv16
  have hdrop : (OOKSenderSendCOCO message).dropLast = d0 :: s :: body := by
    rw [hf, show d0 :: s :: (body ++ [e]) = (d0 :: s :: body) ++ [e] by simp,
      List.dropLast_concat]
  have hopen := COCOFeedDurations_open _ d0 s body hlen h0 hs hb
  rw [← hdrop] at hopen
  have hout : (COCOFeedDurations r0
      (first :: (repeatFrame 15 (OOKSenderSendCOCO message) ++
        (OOKSenderSendCOCO message).dropLast))).2 =
      (COCOFeedDurations r1 (repeatFrame 15 (OOKSenderSendCOCO message))).2 := by
    rw [COCOFeedDurations_cons, hfeed]
    show [] ++ (COCOFeedDurations r1 _).2 = _
    rw [COCOFeedDurations_append, hopen, List.nil_append, List.append_nil]
  rw [hout]
  refine ⟨?_, hfields⟩
  rw [show (15 : Nat) = 2 + 13 from rfl, repeatFrame_add, COCOFeedDurations_append]
  intro h
  exact hhit (List.append_eq_nil.1 h).1

/-- The KFS repeat filter reads and writes neither the buffer, its index, the
origin nor the last timestamp, so it commutes with changes of these. -/
theorem KFSAccept_frame (receiver : KFSReceiver) (message : KFSMessage)
    (start : Nat) (durations : Nat → Nat) (index last : Nat) :
    KFSAccept { receiver with startTime := start, durations := durations,
                              durationsIndex := index, lastTimestamp := last } message =
      ({ (KFSAccept receiver message).1 with startTime := start, durations := durations,
                                             durationsIndex := index, lastTimestamp := last },
        (KFSAccept receiver message).2) := by
  unfold KFSAccept
  simp only []
  split_ifs <;> rfl

/-- A sync edge that closes a buffered frame which decodes: the repeat filter is
applied to the decoded message and the buffer restarts with the sync in slot 0. -/
theorem KFSFeed_sync_some (receiver : KFSReceiver) (d : Nat) (hd : d < 4294967296)
    (hlast : receiver.lastTimestamp ≠ 0) (hs : KFSInSync receiver d = true)
    (h5 : 5 ≤ receiver.durationsIndex) (message : KFSMessage)
    (hv : arePulsesValidCode { receiver with startTime := add32 receiver.lastTimestamp d }
      (add32 receiver.lastTimestamp d) = some message) :
    KFSReceiverFeedGPIOValueChangeTime receiver (add32 receiver.lastTimestamp d) =
      ({ (KFSAccept receiver message).1 with
          startTime := add32 receiver.lastTimestamp d
          durations := setSlot receiver.durations 0 d
          durationsIndex := 1
          lastTimestamp := add32 receiver.lastTimestamp d },
        (KFSAccept receiver message).2) := by
  unfold KFSReceiverFeedGPIOValueChangeTime
  simp only [sub32_add32_of_lt _ d hd]
  simp only [KFSInSync, decide_eq_true_eq] at hs
  rw [if_neg (fun h => hlast h.symm)]
  unfold KFSStartSync
  rw [if_pos hs]
  simp only []
  rw [if_pos (by simp only [KFSMessageMinPulseCount]; omega), hv]
  simp only []
  have hacc := KFSAccept_frame receiver message (add32 receiver.lastTimestamp d)
    receiver.durations receiver.durationsIndex receiver.lastTimestamp
  rw [show ({ receiver with startTime := add32 receiver.lastTimestamp d } : KFSReceiver) =
    { receiver with startTime := add32 receiver.lastTimestamp d, durations := receiver.durations,
                    durationsIndex := receiver.durationsIndex,
                    lastTimestamp := receiver.lastTimestamp } from rfl, hacc]
  simp only []
  rw [KFSStore_eq _ _ _ (by show 0 < 67; omega)]

/-- One cycle of a KFS transmission seen from a receiver that has just stored a
sync: the 48 bit durations of the identifier, the opening pulse of the next
repetition and its sync. The sync edge decodes the identifier with 24 bits and
applies the repeat filter once; the buffer restarts. -/
theorem KFSFeedDurations_cycle (receiver : KFSReceiver) (identifier : Nat) (bits : List Nat)
    (hw : KFSDefaultWindows receiver) (hidx : receiver.durationsIndex = 1)
    (hpos : 0 < receiver.lastTimestamp)
    (hwrap : receiver.lastTimestamp + 44800 < 4294967296)
    (hid : 1 ≤ identifier ∧ identifier < 16777216)
    (hblen : bits.length = 48) (hbval : ∀ d ∈ bits, d = 350 ∨ d = 1050)
    (hbits : ∀ j, j < 48 → bits.getD j 0 = KFSPulseAt identifier (j + 2)) :
    KFSFeedDurations receiver (bits ++ [350, 10850]) =
      ({ (KFSAccept receiver
            { identifier := identifier, identifierBitSize := 24,
              timestamp := receiver.lastTimestamp + 44800 }).1 with
          startTime := receiver.lastTimestamp + 44800
          durations := setSlot (writeSlots receiver.durations 1 (bits ++ [350])) 0 10850
          durationsIndex := 1
          lastTimestamp := receiver.lastTimestamp + 44800 },
        (KFSAccept receiver
            { identifier := identifier, identifierBitSize := 24,
              timestamp := receiver.lastTimestamp + 44800 }).2.toList) := by
  obtain ⟨hid1, hid2⟩ := hid
  obtain ⟨w1, w2, w3, w4⟩ := hw
  have hbsum : bits.sum = 33600 :=
    pair_sum 24 bits (by omega) (by
      intro k hk
      rw [hbits (2 * k) (by omega), hbits (2 * k + 1) (by omega)]
      exact KFSPulseAt_pair _ k)
  have hrestval : ∀ d ∈ bits ++ [350], d = 350 ∨ d = 1050 := by
    intro d hd
    rcases List.mem_append.1 hd with h | h
    · exact hbval d h
    · simp only [List.mem_singleton] at h
      exact Or.inl h
  have hrestsum : (bits ++ [350]).sum = 33950 := by
    rw [List.sum_append, hbsum]
    rfl
  have hrestlen : (bits ++ [350]).length = 49 := by simp [hblen]
  rw [show bits ++ [350, 10850] = (bits ++ [350]) ++ [10850] by simp, KFSFeedDurations_append,
    KFSFeedDurations_plain (bits ++ [350]) receiver
      (by
        intro d hd
        rcases hrestval d hd with h | h <;> rw [h] <;> simp only [KFSInSync, w3, w4] <;> decide)
      (by omega) hpos (by omega)]
  simp only [hrestsum, hrestlen, hidx, List.nil_append]
  generalize hst : ({ receiver with
      durations := writeSlots receiver.durations 1 (bits ++ [350])
      durationsIndex := 1 + 49
      lastTimestamp := receiver.lastTimestamp + 33950 } : KFSReceiver) = st
  have s1 : st.lastTimestamp = receiver.lastTimestamp + 33950 := by rw [← hst]
  have s2 : st.durationsIndex = 50 := by rw [← hst]
  have s3 : st.durations = writeSlots receiver.durations 1 (bits ++ [350]) := by rw [← hst]
  have hslot : ∀ j, 1 ≤ j → j ≤ 48 →
      st.durations j = KFSPulseAt identifier (j + 1) := by
    intro j h1 h2
    rw [s3, writeSlots_apply, if_pos (by omega), List.getD_append _ _ _ _ (by omega)]
    have := hbits (j - 1) (by omega)
    have e : j - 1 + 2 = j + 1 := by omega
    rw [e] at this
    exact this
  have hadd : add32 st.lastTimestamp 10850 = receiver.lastTimestamp + 44800 := by
    rw [add32_of_lt _ _ (by omega), s1]
  have hloop := arePulsesValidCodeLoop_bits
    { st with startTime := add32 st.lastTimestamp 10850 }
    identifier hid2 (by show 48 ≤ st.durationsIndex; omega)
    (by
      intro k hk
      have a0 : (2 * k + 1 + 1 - 2) / 2 = k := by omega
      have a1 : (2 * k + 1 + 1 + 1 - 2) / 2 = k := by omega
      have b0 : (2 * k + 1 + 1 - 2) % 2 = 0 := by omega
      have b1 : (2 * k + 1 + 1 + 1 - 2) % 2 = 1 := by omega
      have f3 : st.singlePulseMinDuration = 280 := by rw [← hst]; exact w1
      have f4 : st.singlePulseMaxDuration = 420 := by rw [← hst]; exact w2
      unfold KFSIsZero KFSIsOne
      simp only [hslot (2 * k + 1) (by omega) (by omega),
        hslot (2 * k + 1 + 1) (by omega) (by omega), KFSPulseAt, a0, a1, b0, b1, f3, f4,
        KFSPulsesShort, KFSPulsesLong, mul32]
      cases identifier.testBit (23 - k) <;> simp)
    23 0 st.durationsIndex (by omega) (by omega)
  have hzero : identifier / 2 ^ (24 - 0) = 0 := Nat.div_eq_of_lt (by norm_num; omega)
  rw [hzero] at hloop
  simp only [Nat.mul_zero, Nat.zero_add] at hloop
  have hv : arePulsesValidCode { st with startTime := add32 st.lastTimestamp 10850 }
      (add32 st.lastTimestamp 10850) =
      some { identifier := identifier, identifierBitSize := 24,
             timestamp := add32 st.lastTimestamp 10850 } := by
    unfold arePulsesValidCode
    show (if 0 ≠ (arePulsesValidCodeLoop _ st.durationsIndex 1 0 0).1 ∧
        (arePulsesValidCodeLoop _ st.durationsIndex 1 0 0).2 > 4 then _ else _) = _
    rw [hloop, if_pos (by constructor <;> omega)]
  rw [KFSFeedDurations_cons, KFSFeedDurations_nil,
    KFSFeed_sync_some st 10850 (by norm_num) (by omega)
      (by simp only [KFSInSync, ← hst, w3, w4]; decide) (by omega) _ hv]
  rw [hadd, ← hst]
  have hacc := KFSAccept_frame receiver
    { identifier := identifier, identifierBitSize := 24,
      timestamp := receiver.lastTimestamp + 44800 }
    receiver.startTime (writeSlots receiver.durations 1 (bits ++ [350])) (1 + 49)
    (receiver.lastTimestamp + 33950)
  rw [show ({ receiver with
      durations := writeSlots receiver.durations 1 (bits ++ [350])
      durationsIndex := 1 + 49
      lastTimestamp := receiver.lastTimestamp + 33950 } : KFSReceiver) =
    { receiver with
      startTime := receiver.startTime
      durations := writeSlots receiver.durations 1 (bits ++ [350])
      durationsIndex := 1 + 49
      lastTimestamp := receiver.lastTimestamp + 33950 } from rfl, hacc]
  simp only [List.append_nil]

theorem KFSAccept_new (receiver : KFSReceiver) (message : KFSMessage)
    (h : ¬ (message.identifier ≠ 0 ∧
      message.identifier = receiver.previousMessageIdentifier ∧
      message.identifierBitSize = receiver.previousIdentifierBitSize)) :
    KFSAccept receiver message =
      ({ receiver with
          repeats := 0
          previousMessageIdentifier := message.identifier
          previousIdentifierBitSize := message.identifierBitSize }, none) := by
  unfold KFSAccept
  rw [if_neg h]

theorem KFSAccept_count (receiver : KFSReceiver) (message : KFSMessage)
    (h : message.identifier ≠ 0 ∧
      message.identifier = receiver.previousMessageIdentifier ∧
      message.identifierBitSize = receiver.previousIdentifierBitSize)
    (hne : add32 receiver.repeats 1 ≠ receiver.repeatCount) :
    KFSAccept receiver message =
      ({ receiver with
          repeats := add32 receiver.repeats 1
          previousMessageIdentifier := message.identifier
          previousIdentifierBitSize := message.identifierBitSize }, none) := by
  unfold KFSAccept
  rw [if_pos h]
  simp only []
  rw [if_neg hne]

theorem KFSAccept_hit (receiver : KFSReceiver) (message : KFSMessage)
    (h : message.identifier ≠ 0 ∧
      message.identifier = receiver.previousMessageIdentifier ∧
      message.identifierBitSize = receiver.previousIdentifierBitSize)
    (heq : add32 receiver.repeats 1 = receiver.repeatCount)
    (href : mul32 receiver.refractoryPeriod 1000000 <
      sub32 message.timestamp receiver.timestampPreviousHit) :
    KFSAccept receiver message =
      ({ receiver with
          timestampPreviousHit := message.timestamp
          repeats := 0
          previousMessageIdentifier := message.identifier
          previousIdentifierBitSize := message.identifierBitSize },
        if receiver.callback then some message else none) := by
  unfold KFSAccept
  rw [if_pos h]
  simp only []
  rw [if_pos heq, if_pos href]

theorem KFSAccept_refractory (receiver : KFSReceiver) (message : KFSMessage)
    (h : message.identifier ≠ 0 ∧
      message.identifier = receiver.previousMessageIdentifier ∧
      message.identifierBitSize = receiver.previousIdentifierBitSize)
    (heq : add32 receiver.repeats 1 = receiver.repeatCount)
    (href : ¬ mul32 receiver.refractoryPeriod 1000000 <
      sub32 message.timestamp receiver.timestampPreviousHit) :
    KFSAccept receiver message =
      ({ receiver with
          repeats := add32 receiver.repeats 1
          previousMessageIdentifier := message.identifier
          previousIdentifierBitSize := message.identifierBitSize }, none) := by
  unfold KFSAccept
  rw [if_pos h]
  simp only []
  rw [if_pos heq, if_neg href]

/-- A cycle whose identifier differs from the previous one restarts the repeat
counter and calls no handler. -/
theorem KFSCycle_new (receiver : KFSReceiver) (identifier : Nat) (bits : List Nat)
    (last repeats previousIdentifier previousBitSize previousHit : Nat)
    (h : KFSListening receiver last repeats previousIdentifier previousBitSize previousHit)
    (hne : ¬ (previousIdentifier = identifier ∧ previousBitSize = 24))
    (hpos : 0 < last) (hwrap : last + 44800 < 4294967296)
    (hid : 1 ≤ identifier ∧ identifier < 16777216)
    (hblen : bits.length = 48) (hbval : ∀ d ∈ bits, d = 350 ∨ d = 1050)
    (hbits : ∀ j, j < 48 → bits.getD j 0 = KFSPulseAt identifier (j + 2)) :
    ∃ next, KFSFeedDurations receiver (bits ++ [350, 10850]) = (next, []) ∧
      KFSListening next (last + 44800) 0 identifier 24 previousHit := by
  obtain ⟨hw, h1, h2, h3, h4, h5, h6, h7, h8, h9⟩ := h
  rw [KFSFeedDurations_cycle receiver identifier bits hw h1 (by omega) (by omega) hid hblen
    hbval hbits, KFSAccept_new _ _ (by
      rw [h7, h8]
      exact fun hc => hne ⟨hc.2.1.symm, hc.2.2.symm⟩)]
  exact ⟨_, rfl, hw, rfl, by rw [h2], h3, h4, h5, rfl, rfl, rfl, h9⟩

/-- A cycle that repeats the previous identifier for the first time counts it
and calls no handler. -/
theorem KFSCycle_count (receiver : KFSReceiver) (identifier : Nat) (bits : List Nat)
    (last previousHit : Nat)
    (h : KFSListening receiver last 0 identifier 24 previousHit)
    (hpos : 0 < last) (hwrap : last + 44800 < 4294967296)
    (hid : 1 ≤ identifier ∧ identifier < 16777216)
    (hblen : bits.length = 48) (hbval : ∀ d ∈ bits, d = 350 ∨ d = 1050)
    (hbits : ∀ j, j < 48 → bits.getD j 0 = KFSPulseAt identifier (j + 2)) :
    ∃ next, KFSFeedDurations receiver (bits ++ [350, 10850]) = (next, []) ∧
      KFSListening next (last + 44800) 1 identifier 24 previousHit := by
  obtain ⟨hw, h1, h2, h3, h4, h5, h6, h7, h8, h9⟩ := h
  rw [KFSFeedDurations_cycle receiver identifier bits hw h1 (by omega) (by omega) hid hblen
    hbval hbits, KFSAccept_count _ _ (by
      rw [h7, h8]
      exact ⟨by show identifier ≠ 0; omega, rfl, rfl⟩) (by rw [h6, h4]; decide)]
  have hr : add32 receiver.repeats 1 = 1 := by rw [h6]; decide
  exact ⟨_, rfl, hw, rfl, by rw [h2], h3, h4, h5, hr, rfl, rfl, h9⟩

/-- A cycle that repeats the previous identifier for the second time reaches
repeatCount 2: the handler is called with the identifier and 24 bits, stamped
with the sync edge, and the repeat counter restarts. -/
theorem KFSCycle_hit (receiver : KFSReceiver) (identifier : Nat) (bits : List Nat)
    (last previousHit : Nat)
    (h : KFSListening receiver last 1 identifier 24 previousHit)
    (hhit : previousHit ≤ last)
    (hpos : 0 < last) (hwrap : last + 44800 < 4294967296)
    (hid : 1 ≤ identifier ∧ identifier < 16777216)
    (hblen : bits.length = 48) (hbval : ∀ d ∈ bits, d = 350 ∨ d = 1050)
    (hbits : ∀ j, j < 48 → bits.getD j 0 = KFSPulseAt identifier (j + 2)) :
    ∃ next, KFSFeedDurations receiver (bits ++ [350, 10850]) =
        (next, [{ identifier := identifier, identifierBitSize := 24,
                  timestamp := last + 44800 }]) ∧
      KFSListening next (last + 44800) 0 identifier 24 (last + 44800) := by
  obtain ⟨hw, h1, h2, h3, h4, h5, h6, h7, h8, h9⟩ := h
  have hz : mul32 0 1000000 = 0 := by decide
  rw [KFSFeedDurations_cycle receiver identifier bits hw h1 (by omega) (by omega) hid hblen
    hbval hbits, KFSAccept_hit _ _ (by
      rw [h7, h8]
      exact ⟨by show identifier ≠ 0; omega, rfl, rfl⟩) (by rw [h6, h4]; decide) (by
      rw [h5, h9, hz]
      show 0 < sub32 (receiver.lastTimestamp + 44800) previousHit
      rw [sub32_of_le (by omega) (by norm_num; omega)]
      omega)]
  rw [h3, h2]
  exact ⟨_, rfl, hw, rfl, rfl, rfl, h4, h5, rfl, rfl, rfl, rfl⟩

/-- The edges of the complete transmission of `OOKSenderSendKFS` on a line that
was low, seen by a receiver that saw no edge before: the first write at `first`,
then the ends of the durations of 6 whole frames and of the 7th frame without
its last duration. -/
theorem OOKSenderSendKFSTransmit_feed (receiver : KFSReceiver) (sender : OOKSender)
    (message : KFSMessage) (first : Nat) (hgpio : OOKSender.GPIO sender ≠ 0xFF)
    (hlast : receiver.lastTimestamp = 0) :
    KFSReceiverFeedAll receiver (gpioEdges 0 first (OOKSenderSendKFSTransmit sender message)) =
      KFSFeedDurations receiver
        (first :: (repeatFrame 6 (OOKSenderSendKFS message) ++
          (OOKSenderSendKFS message).dropLast)) := by
  unfold OOKSenderSendKFSTransmit
  rw [OOKSenderTransmit_edges sender hgpio _ _ (by decide) 6 8 (by decide) (by decide)]
  have hframe : (List.range kKFSTotalNumberOfPulses).map (OOKSenderSendKFSArray message) =
      OOKSenderSendKFS message := rfl
  rw [hframe]
  have hne : OOKSenderSendKFS message ≠ [] := by
    intro h
    have : (OOKSenderSendKFS message).length = 50 := by
      simp [OOKSenderSendKFS, kKFSTotalNumberOfPulses]
    rw [h] at this
    exact absurd this (by simp)
  have hsplit : repeatFrame (6 + 1) (OOKSenderSendKFS message) =
      (repeatFrame 6 (OOKSenderSendKFS message) ++ (OOKSenderSendKFS message).dropLast) ++
        [(OOKSenderSendKFS message).getLast hne] := by
    rw [repeatFrame_succ_right, List.append_assoc, List.dropLast_append_getLast]
  rw [hsplit, writeTimes_concat]
  unfold KFSFeedDurations
  rw [hlast, edgeTimestamps]
  have : add32 0 first = first % 2 ^ 32 := by unfold add32; rw [Nat.zero_add]
  rw [this]

theorem repeatFrame_rotate (a b : List Nat) :
    ∀ count : Nat, repeatFrame count (a ++ b) ++ a = a ++ repeatFrame count (b ++ a) := by
  intro count
  induction count with
  | zero => simp [repeatFrame]
  | succ count ih =>
    rw [repeatFrame, repeatFrame, List.append_assoc, ih]
    simp only [List.append_assoc]

/-- A sync edge while fewer than 5 durations are buffered only restarts the
buffer with the sync in slot 0. -/
theorem KFSFeed_sync_short (receiver : KFSReceiver) (d : Nat) (hd : d < 4294967296)
    (hlast : receiver.lastTimestamp ≠ 0) (hs : KFSInSync receiver d = true)
    (h5 : receiver.durationsIndex < 5) :
    KFSReceiverFeedGPIOValueChangeTime receiver (add32 receiver.lastTimestamp d) =
      ({ receiver with
          startTime := add32 receiver.lastTimestamp d
          durations := setSlot receiver.durations 0 d
          durationsIndex := 1
          lastTimestamp := add32 receiver.lastTimestamp d }, none) := by
  unfold KFSReceiverFeedGPIOValueChangeTime
  simp only [sub32_add32_of_lt _ d hd]
  simp only [KFSInSync, decide_eq_true_eq] at hs
  rw [if_neg (fun h => hlast h.symm)]
  unfold KFSStartSync
  rw [if_pos hs]
  simp only []
  rw [if_neg (by simp only [KFSMessageMinPulseCount]; omega)]
  simp only []
  rw [KFSStore_eq _ _ _ (by show 0 < 67; omega)]

/-- A fresh KFS receiver with a handler that sees a first edge at a non-zero
timestamp, the opening pulse 350 and the sync 10850 is listening, with nothing
counted yet. -/
theorem KFSFeedDurations_opening (buffer : Nat → Nat) (callback : Bool) (first : Nat)
    (hfirst : 0 < first) (hwrap : first + 11200 < 4294967296) :
    ∃ next,
      KFSFeedDurations (KFSReceiverSetCallback (KFSReceiverCreate buffer callback) true)
        [first, 350, 10850] = (next, []) ∧
      KFSListening next (first + 11200) 0 0 0 0 := by
  have hw0 : KFSDefaultWindows
      (KFSReceiverSetCallback (KFSReceiverCreate buffer callback) true) := by
    simp only [KFSDefaultWindows, KFSReceiverSetCallback, KFSReceiverCreate,
      KFSUpdateDurationsForReceiver]
    decide
  generalize hr0 : KFSReceiverSetCallback (KFSReceiverCreate buffer callback) true = r0 at hw0
  have f1 : r0.durationsIndex = 0 := by rw [← hr0]; rfl
  have f2 : r0.lastTimestamp = 0 := by rw [← hr0]; rfl
  have f3 : r0.callback = true := by rw [← hr0]; rfl
  have f4 : r0.repeatCount = 2 := by rw [← hr0]; rfl
  have f5 : r0.refractoryPeriod = 0 := by rw [← hr0]; rfl
  have f6 : r0.repeats = 0 := by rw [← hr0]; rfl
  have f7 : r0.previousMessageIdentifier = 0 := by rw [← hr0]; rfl
  have f8 : r0.previousIdentifierBitSize = 0 := by rw [← hr0]; rfl
  have f9 : r0.timestampPreviousHit = 0 := by rw [← hr0]; rfl
  obtain ⟨w1, w2, w3, w4⟩ := hw0
  have hstep0 : KFSReceiverFeedGPIOValueChangeTime r0 (add32 r0.lastTimestamp first) =
      ({ r0 with lastTimestamp := first }, none) := by
    unfold KFSReceiverFeedGPIOValueChangeTime
    rw [if_pos f2.symm, f2, add32_of_lt 0 first (by omega), Nat.zero_add]
  rw [KFSFeedDurations_cons, hstep0]
  rw [KFSFeedDurations_cons,
    KFSFeed_plain { r0 with lastTimestamp := first } 350 (by norm_num)
      (by show first ≠ 0; omega) (by simp only [KFSInSync, w3, w4]; decide),
    KFSStore_eq _ _ _ (by show r0.durationsIndex < 67; omega)]
  rw [KFSFeedDurations_cons, KFSFeedDurations_nil,
    KFSFeed_sync_short _ 10850 (by norm_num)
      (by show add32 first 350 ≠ 0; rw [add32_of_lt first 350 (by omega)]; omega)
      (by simp only [KFSInSync, w3, w4]; decide)
      (by show r0.durationsIndex + 1 < 5; omega)]
  refine ⟨_, rfl, ⟨w1, w2, w3, w4⟩, rfl, ?_, f3, f4, f5, f6, f7, f8, f9⟩
  show add32 (add32 first 350) 10850 = first + 11200
  rw [add32_of_lt first 350 (by omega), add32_of_lt (first + 350) 10850 (by omega)]

/-- The handler calls of a fresh default KFS receiver over a complete
transmission of an identifier between 1 and 2^24 - 1: the third and the fifth
analysed frame reach repeatCount 2. -/
theorem KFSFeedDurations_transmission (buffer : Nat → Nat) (callback : Bool)
    (message : KFSMessage) (first : Nat)
    (hid : 1 ≤ message.identifier ∧ message.identifier < 2 ^ 24)
    (hfirst : 0 < first) (hwrap : first + 7 * 44800 < 2 ^ 32) :
    (KFSFeedDurations (KFSReceiverSetCallback (KFSReceiverCreate buffer callback) true)
      (first :: (repeatFrame 6 (OOKSenderSendKFS message) ++
        (OOKSenderSendKFS message).dropLast))).2 =
      [{ identifier := message.identifier, identifierBitSize := 24,
         timestamp := first + 145600 },
       { identifier := message.identifier, identifierBitSize := 24,
         timestamp := first + 235200 }] := by
  obtain ⟨hid1, hid2⟩ := hid
  norm_num at hid2 hwrap
  obtain ⟨bits, hframe, hblen, hbval, hbits⟩ := OOKSenderSendKFS_split message
  have hidmod : KFSMessageGetIdentifier message % 2 ^ 32 = message.identifier :=
    Nat.mod_eq_of_lt (by show message.identifier < 2 ^ 32; norm_num; omega)
  rw [hidmod] at hbits
  have hbne : bits ≠ [] := by
    intro h; rw [h] at hblen; exact absurd hblen (by simp)
  have hbsum : bits.sum = 33600 :=
    pair_sum 24 bits (by omega) (by
      intro k hk
      rw [hbits (2 * k) (by omega), hbits (2 * k + 1) (by omega)]
      exact KFSPulseAt_pair _ k)
  have htail : bits.dropLast.sum ≤ 33600 := by
    have := congrArg List.sum (List.dropLast_append_getLast hbne)
    rw [List.sum_append] at this
    omega
  have htlen : bits.dropLast.length = 47 := by simp [hblen]
  have htval : ∀ d ∈ bits.dropLast, d = 350 ∨ d = 1050 :=
    fun d hd => hbval d (List.mem_of_mem_dropLast hd)
  have hlist : first :: (repeatFrame 6 (OOKSenderSendKFS message) ++
      (OOKSenderSendKFS message).dropLast) =
      [first, 350, 10850] ++ ((bits ++ [350, 10850]) ++ ((bits ++ [350, 10850]) ++
        ((bits ++ [350, 10850]) ++ ((bits ++ [350, 10850]) ++ ((bits ++ [350, 10850]) ++
        ((bits ++ [350, 10850]) ++ bits.dropLast)))))) := by
    rw [hframe, show 350 :: 10850 :: bits = [350, 10850] ++ bits from rfl,
      List.dropLast_append_of_ne_nil _ hbne, ← List.append_assoc, repeatFrame_rotate]
    simp only [repeatFrame, List.append_assoc, List.nil_append, List.cons_append,
      List.append_nil]
  rw [hlist]
  obtain ⟨r1, e1, l1⟩ := KFSFeedDurations_opening buffer callback first hfirst (by omega)
  obtain ⟨r2, e2, l2⟩ := KFSCycle_new r1 message.identifier bits _ _ _ _ _ l1
    (by omega) (by omega) (by omega) ⟨hid1, hid2⟩ hblen hbval hbits
  obtain ⟨r3, e3, l3⟩ := KFSCycle_count r2 message.identifier bits _ _ l2
    (by omega) (by omega) ⟨hid1, hid2⟩ hblen hbval hbits
  obtain ⟨r4, e4, l4⟩ := KFSCycle_hit r3 message.identifier bits _ _ l3
    (by omega) (by omega) (by omega) ⟨hid1, hid2⟩ hblen hbval hbits
  obtain ⟨r5, e5, l5⟩ := KFSCycle_count r4 message.identifier bits _ _ l4
    (by omega) (by omega) ⟨hid1, hid2⟩ hblen hbval hbits
  obtain ⟨r6, e6, l6⟩ := KFSCycle_hit r5 message.identifier bits _ _ l5
    (by omega) (by omega) (by omega) ⟨hid1, hid2⟩ hblen hbval hbits
  obtain ⟨r7, e7, l7⟩ := KFSCycle_count r6 message.identifier bits _ _ l6
    (by omega) (by omega) ⟨hid1, hid2⟩ hblen hbval hbits
  obtain ⟨⟨w1, w2, w3, w4⟩, k1, k2, -⟩ := l7
  have e8 := KFSFeedDurations_plain bits.dropLast r7
    (by
      intro d hd
      rcases htval d hd with h | h <;> rw [h] <;> simp only [KFSInSync, w3, w4] <;> decide)
    (by omega) (by omega) (by omega)
  have t1 : first + 11200 + 44800 + 44800 + 44800 = first + 145600 := by omega
  have t2 : first + 11200 + 44800 + 44800 + 44800 + 44800 + 44800 = first + 235200 := by omega
  rw [t1] at e4
  rw [t2] at e6
  rw [KFSFeedDurations_append, e1]
  simp only
  rw [KFSFeedDurations_append, e2]
  simp only
  rw [KFSFeedDurations_append, e3]
  simp only
  rw [KFSFeedDurations_append, e4]
  simp only
  rw [KFSFeedDurations_append, e5]
  simp only
  rw [KFSFeedDurations_append, e6]
  simp only
  rw [KFSFeedDurations_append, e7]
  simp only
  rw [e8]
  rfl

/-- The complete transmission with the recorder field `NULL` and a handler that
leaves the message in place: for every identifier with
1 <= identifier < 2^24, a fresh default KFS receiver (repeatCount 2,
refractoryPeriod 0) with such a handler registered that is fed the edges of the complete transmission `OOKSenderSendKFS` drives (the
50-duration frame written 7 times with exact timing on a line that was low, the
first write at a non-zero timestamp, no 32-bit wrap) invokes the handler at
least once, and every invocation carries the original identifier (with 24
bits). -/
theorem KFSReceiverFeedAll_transmission (buffer : Nat → Nat) (callback : Bool) (sender : OOKSender)
    (message : KFSMessage) (first : Nat) (hgpio : OOKSender.GPIO sender ≠ 0xFF)
    (hid : 1 ≤ message.identifier ∧ message.identifier < 2 ^ 24)
    (hfirst : 0 < first) (hwrap : first + 7 * 44800 < 2 ^ 32) :
    (KFSReceiverFeedAll (KFSReceiverSetCallback (KFSReceiverCreate buffer callback) true)
      (gpioEdges 0 first (OOKSenderSendKFSTransmit sender message))).2 ≠ [] ∧
    ∀ reported ∈
      (KFSReceiverFeedAll (KFSReceiverSetCallback (KFSReceiverCreate buffer callback) true)
        (gpioEdges 0 first (OOKSenderSendKFSTransmit sender message))).2,
      reported.identifier = message.identifier ∧ reported.identifierBitSize = 24 := by
  rw [OOKSenderSendKFSTransmit_feed _ _ _ _ hgpio rfl,
    KFSFeedDurations_transmission buffer callback message first hid hfirst hwrap]
  refine ⟨by simp, ?_⟩
  intro reported hr
  simp only [List.mem_cons, List.mem_singleton, List.not_mem_nil, or_false] at hr
  rcases hr with h | h <;> rw [h] <;> exact ⟨rfl, rfl⟩

/-- The repeat filter of the source, `KFSAccept`, agrees with its description on
the filter fields. -/
theorem KFSAccept_filter (receiver : KFSReceiver) (message : KFSMessage) :
    KFSFilterOf (KFSAccept receiver message).1 =
      (KFSFilterAccept (KFSFilterOf receiver) message).1 ∧
    (KFSAccept receiver message).2 = (KFSFilterAccept (KFSFilterOf receiver) message).2 := by
  unfold KFSAccept KFSFilterAccept KFSFilterOf
  simp only []
  split_ifs <;> exact ⟨rfl, rfl⟩

/-- One cycle in terms of the filter: the decoded message goes through the
filter once, the receiver is synced again 44800 microseconds later. -/
theorem KFSCycle_filter (receiver : KFSReceiver) (identifier : Nat) (bits : List Nat)
    (last : Nat) (hs : KFSSynced receiver last)
    (hpos : 0 < last) (hwrap : last + 44800 < 4294967296)
    (hid : 1 ≤ identifier ∧ identifier < 16777216)
    (hblen : bits.length = 48) (hbval : ∀ d ∈ bits, d = 350 ∨ d = 1050)
    (hbits : ∀ j, j < 48 → bits.getD j 0 = KFSPulseAt identifier (j + 2)) :
    KFSSynced (KFSFeedDurations receiver (bits ++ [350, 10850])).1 (last + 44800) ∧
    KFSFilterOf (KFSFeedDurations receiver (bits ++ [350, 10850])).1 =
      (KFSFilterAccept (KFSFilterOf receiver)
        { identifier := identifier, identifierBitSize := 24, timestamp := last + 44800 }).1 ∧
    (KFSFeedDurations receiver (bits ++ [350, 10850])).2 =
      (KFSFilterAccept (KFSFilterOf receiver)
        { identifier := identifier, identifierBitSize := 24,
          timestamp := last + 44800 }).2.toList := by
  obtain ⟨hw, h1, h2⟩ := hs
  rw [KFSFeedDurations_cycle receiver identifier bits hw h1 (by omega) (by omega) hid hblen
    hbval hbits, h2]
  obtain ⟨a1, a2⟩ := KFSAccept_filter receiver
    { identifier := identifier, identifierBitSize := 24, timestamp := last + 44800 }
  obtain ⟨R, T, P, B, out, hsh⟩ := KFSAccept_shape receiver
    { identifier := identifier, identifierBitSize := 24, timestamp := last + 44800 }
  rw [← a1, ← a2, hsh]
  exact ⟨⟨hw, rfl, rfl⟩, rfl, rfl⟩

/-- Consecutive cycles in terms of the filter. -/
theorem KFSCycles_filter (identifier : Nat) (bits : List Nat)
    (hid : 1 ≤ identifier ∧ identifier < 16777216)
    (hblen : bits.length = 48) (hbval : ∀ d ∈ bits, d = 350 ∨ d = 1050)
    (hbits : ∀ j, j < 48 → bits.getD j 0 = KFSPulseAt identifier (j + 2)) :
    ∀ (count : Nat) (receiver : KFSReceiver) (last : Nat), KFSSynced receiver last →
      0 < last → last + count * 44800 < 4294967296 →
      KFSSynced (KFSFeedDurations receiver (repeatFrame count (bits ++ [350, 10850]))).1
        (last + count * 44800) ∧
      KFSFilterOf (KFSFeedDurations receiver (repeatFrame count (bits ++ [350, 10850]))).1 =
        (KFSFilterRun (KFSFilterOf receiver) (KFSCycleMessages identifier last count)).1 ∧
      (KFSFeedDurations receiver (repeatFrame count (bits ++ [350, 10850]))).2 =
        (KFSFilterRun (KFSFilterOf receiver) (KFSCycleMessages identifier last count)).2 := by
  intro count
  induction count with
  | zero =>
    intro receiver last hs _ _
    refine ⟨?_, rfl, rfl⟩
    rw [Nat.zero_mul, Nat.add_zero]
    exact hs
  | succ count ih =>
    intro receiver last hs hpos hwrap
    have hw2 : last + 44800 + count * 44800 < 4294967296 := by
      have : (count + 1) * 44800 = 44800 + count * 44800 := by ring
      omega
    obtain ⟨c1, c2, c3⟩ := KFSCycle_filter receiver identifier bits last hs hpos (by omega)
      hid hblen hbval hbits
    obtain ⟨i1, i2, i3⟩ := ih _ (last + 44800) c1 (by omega) hw2
    rw [repeatFrame, KFSFeedDurations_append, KFSCycleMessages, KFSFilterRun]
    simp only
    rw [i2, i3, c2, c3]
    refine ⟨?_, rfl, rfl⟩
    have e : last + (count + 1) * 44800 = last + 44800 + count * 44800 := by ring
    rw [e]
    exact i1

/-- The loop of `arePulsesValidCode`, started at slot 1 with nothing decoded,
reads only the unit window, the index and the slots 1 to 48: after 24 pairs it
returns. -/
theorem arePulsesValidCodeLoop_congr (a b : KFSReceiver)
    (h1 : a.singlePulseMinDuration = b.singlePulseMinDuration)
    (h2 : a.singlePulseMaxDuration = b.singlePulseMaxDuration)
    (h3 : a.durationsIndex = b.durationsIndex)
    (h4 : ∀ j, 1 ≤ j → j ≤ 48 → a.durations j = b.durations j) :
    ∀ (fuel code codeLength : Nat), codeLength < 24 →
      arePulsesValidCodeLoop a fuel (2 * codeLength + 1) code codeLength =
        arePulsesValidCodeLoop b fuel (2 * codeLength + 1) code codeLength := by
  intro fuel
  induction fuel with
  | zero => intro code codeLength _; rfl
  | succ fuel ih =>
    intro code codeLength hl
    have hlen : (codeLength + 1) % 2 ^ 8 = codeLength + 1 := by
      apply Nat.mod_eq_of_lt; norm_num; omega
    have hnext : 2 * codeLength + 1 + 2 = 2 * (codeLength + 1) + 1 := by ring
    rw [arePulsesValidCodeLoop, arePulsesValidCodeLoop, ← h3]
    by_cases hlt : 2 * codeLength + 1 < a.durationsIndex
    · rw [if_pos hlt, if_pos hlt]
      have hz : KFSIsZero a (2 * codeLength + 1) = KFSIsZero b (2 * codeLength + 1) := by
        unfold KFSIsZero
        rw [h1, h2, h4 (2 * codeLength + 1) (by omega) (by omega),
          h4 (2 * codeLength + 1 + 1) (by omega) (by omega)]
      have ho : KFSIsOne a (2 * codeLength + 1) = KFSIsOne b (2 * codeLength + 1) := by
        unfold KFSIsOne
        rw [h1, h2, h4 (2 * codeLength + 1) (by omega) (by omega),
          h4 (2 * codeLength + 1 + 1) (by omega) (by omega)]
      rw [hz, ho]
      simp only [hlen, hnext]
      by_cases h24 : codeLength + 1 = 24
      · simp only [h24, if_true]
      · simp only [h24, if_false]
        rw [ih _ _ (by omega), ih _ _ (by omega)]
    · rw [if_neg hlt, if_neg hlt]

theorem arePulsesValidCode_congr (a b : KFSReceiver) (timestamp : Nat)
    (h1 : a.singlePulseMinDuration = b.singlePulseMinDuration)
    (h2 : a.singlePulseMaxDuration = b.singlePulseMaxDuration)
    (h3 : a.durationsIndex = b.durationsIndex)
    (h4 : ∀ j, 1 ≤ j → j ≤ 48 → a.durations j = b.durations j) :
    arePulsesValidCode a timestamp = arePulsesValidCode b timestamp := by
  unfold arePulsesValidCode
  have := arePulsesValidCodeLoop_congr a b h1 h2 h3 h4 a.durationsIndex 0 0 (by norm_num)
  simp only [Nat.mul_zero, Nat.zero_add] at this
  rw [this, h3]

/-- A sync edge that closes a buffered frame which does not decode changes
nothing but the buffer, which restarts with the sync in slot 0. -/
theorem KFSFeed_sync_none (receiver : KFSReceiver) (d : Nat) (hd : d < 4294967296)
    (hlast : receiver.lastTimestamp ≠ 0) (hs : KFSInSync receiver d = true)
    (hv : arePulsesValidCode { receiver with startTime := add32 receiver.lastTimestamp d }
      (add32 receiver.lastTimestamp d) = none) :
    KFSReceiverFeedGPIOValueChangeTime receiver (add32 receiver.lastTimestamp d) =
      ({ receiver with
          startTime := add32 receiver.lastTimestamp d
          durations := setSlot receiver.durations 0 d
          durationsIndex := 1
          lastTimestamp := add32 receiver.lastTimestamp d }, none) := by
  unfold KFSReceiverFeedGPIOValueChangeTime
  simp only [sub32_add32_of_lt _ d hd]
  simp only [KFSInSync, decide_eq_true_eq] at hs
  rw [if_neg (fun h => hlast h.symm)]
  unfold KFSStartSync
  rw [if_pos hs]
  simp only []
  by_cases h5 : receiver.durationsIndex ≥ KFSMessageMinPulseCount
  · rw [if_pos h5, hv]
    simp only []
    rw [KFSStore_eq _ _ _ (by show 0 < 67; omega)]
  · rw [if_neg h5]
    simp only []
    rw [KFSStore_eq _ _ _ (by show 0 < 67; omega)]

/-- A buffered frame of 49 durations that does not decode: the sync edge that
closes it calls no handler and leaves the filter fields as they are. -/
theorem KFSFeedDurations_failed (receiver : KFSReceiver) (last : Nat) (ds : List Nat)
    (hs : KFSSynced receiver last) (hlen : ds.length = 49)
    (hplain : ∀ d ∈ ds, KFSInSync receiver d = false)
    (hpos : 0 < last) (hwrap : last + ds.sum + 10850 < 4294967296)
    (hnone : ∀ other : KFSReceiver, KFSDefaultWindows other → other.durationsIndex = 50 →
      (∀ j, 1 ≤ j → j ≤ 48 → other.durations j = writeSlots (fun _ => 0) 1 ds j) →
      ∀ timestamp, arePulsesValidCode other timestamp = none) :
    KFSSynced (KFSFeedDurations receiver (ds ++ [10850])).1 (last + ds.sum + 10850) ∧
    KFSFilterOf (KFSFeedDurations receiver (ds ++ [10850])).1 = KFSFilterOf receiver ∧
    (KFSFeedDurations receiver (ds ++ [10850])).2 = [] := by
  obtain ⟨hw, h1, h2⟩ := hs
  obtain ⟨w1, w2, w3, w4⟩ := hw
  rw [KFSFeedDurations_append,
    KFSFeedDurations_plain ds receiver hplain (by omega) (by omega) (by omega)]
  simp only [h1, h2, hlen, List.nil_append]
  generalize hst : ({ receiver with
      durations := writeSlots receiver.durations 1 ds
      durationsIndex := 1 + 49
      lastTimestamp := last + ds.sum } : KFSReceiver) = st
  have s1 : st.lastTimestamp = last + ds.sum := by rw [← hst]
  have s2 : st.durationsIndex = 50 := by rw [← hst]
  have hadd : add32 st.lastTimestamp 10850 = last + ds.sum + 10850 := by
    rw [s1, add32_of_lt _ _ (by omega)]
  have hv := hnone { st with startTime := add32 st.lastTimestamp 10850 }
    (by rw [← hst]; exact ⟨w1, w2, w3, w4⟩) s2
    (by
      intro j hj1 hj2
      rw [← hst]
      show writeSlots receiver.durations 1 ds j = _
      rw [writeSlots_apply, writeSlots_apply]
      rw [if_pos (by omega), if_pos (by omega)])
    (add32 st.lastTimestamp 10850)
  rw [KFSFeedDurations_cons, KFSFeedDurations_nil,
    KFSFeed_sync_none st 10850 (by norm_num) (by omega)
      (by simp only [KFSInSync, ← hst, w3, w4]; decide) hv, hadd, ← hst]
  exact ⟨⟨⟨w1, w2, w3, w4⟩, rfl, rfl⟩, rfl, rfl⟩

/-- A receiver that saw no edge yet and has an empty buffer is synced after a
first edge at a non-zero timestamp, the opening pulse 350 and the sync 10850;
no handler is called and the filter fields stay. -/
theorem KFSOpening_filter (receiver : KFSReceiver) (first : Nat)
    (hw : KFSDefaultWindows receiver) (hlast : receiver.lastTimestamp = 0)
    (hidx : receiver.durationsIndex = 0)
    (hfirst : 0 < first) (hwrap : first + 11200 < 4294967296) :
    KFSSynced (KFSFeedDurations receiver [first, 350, 10850]).1 (first + 11200) ∧
    KFSFilterOf (KFSFeedDurations receiver [first, 350, 10850]).1 = KFSFilterOf receiver ∧
    (KFSFeedDurations receiver [first, 350, 10850]).2 = [] := by
  obtain ⟨w1, w2, w3, w4⟩ := hw
  have hstep0 : KFSReceiverFeedGPIOValueChangeTime receiver
      (add32 receiver.lastTimestamp first) = ({ receiver with lastTimestamp := first }, none) := by
    unfold KFSReceiverFeedGPIOValueChangeTime
    rw [if_pos hlast.symm, hlast, add32_of_lt 0 first (by omega), Nat.zero_add]
  rw [KFSFeedDurations_cons, hstep0]
  rw [KFSFeedDurations_cons,
    KFSFeed_plain { receiver with lastTimestamp := first } 350 (by norm_num)
      (by show first ≠ 0; omega) (by simp only [KFSInSync, w3, w4]; decide),
    KFSStore_eq _ _ _ (by show receiver.durationsIndex < 67; omega)]
  have hne : add32 first 350 ≠ 0 := by
    rw [add32_of_lt first 350 (by omega)]; omega
  have hsync : KFSInSync receiver 10850 = true := by
    simp only [KFSInSync, w3, w4]; decide
  rw [KFSFeedDurations_cons, KFSFeedDurations_nil,
    KFSFeed_sync_short
      { receiver with
        durations := setSlot receiver.durations receiver.durationsIndex 350
        durationsIndex := receiver.durationsIndex + 1
        lastTimestamp := add32 first 350 } 10850 (by norm_num) hne hsync
      (by show receiver.durationsIndex + 1 < 5; omega)]
  refine ⟨⟨⟨w1, w2, w3, w4⟩, rfl, ?_⟩, by unfold KFSFilterOf; rfl, rfl⟩
  have e1 : add32 first 350 = first + 350 := add32_of_lt first 350 (by omega)
  have e2 : add32 (first + 350) 10850 = first + 11200 := by
    rw [add32_of_lt (first + 350) 10850 (by omega)]
  show add32 (add32 first 350) 10850 = first + 11200
  rw [e1, e2]

/-- Durations that are no sync and do not fill the buffer call no handler and
leave the filter fields as they are. -/
theorem KFSTail_filter (receiver : KFSReceiver) (last : Nat) (ds : List Nat)
    (hs : KFSSynced receiver last) (hlen : ds.length ≤ 66)
    (hplain : ∀ d ∈ ds, KFSInSync receiver d = false)
    (hpos : 0 < last) (hwrap : last + ds.sum < 4294967296) :
    KFSFilterOf (KFSFeedDurations receiver ds).1 = KFSFilterOf receiver ∧
    (KFSFeedDurations receiver ds).2 = [] := by
  obtain ⟨hw, h1, h2⟩ := hs
  rw [KFSFeedDurations_plain ds receiver hplain (by omega) (by omega) (by omega)]
  exact ⟨rfl, rfl⟩

theorem KFSFrameBits_spec (identifier : Nat) (hid : identifier < 16777216) :
    (KFSFrameBits identifier).length = 48 ∧
    (∀ d ∈ KFSFrameBits identifier, d = 350 ∨ d = 1050) ∧
    (∀ j, j < 48 → (KFSFrameBits identifier).getD j 0 = KFSPulseAt identifier (j + 2)) := by
  obtain ⟨bits, hframe, hblen, hbval, hbits⟩ := OOKSenderSendKFS_split
    { identifier := identifier, identifierBitSize := 0, timestamp := 0 }
  have hidmod : KFSMessageGetIdentifier
      { identifier := identifier, identifierBitSize := 0, timestamp := 0 } % 2 ^ 32 =
      identifier :=
    Nat.mod_eq_of_lt (by show identifier < 2 ^ 32; norm_num; omega)
  rw [hidmod] at hbits
  have : KFSFrameBits identifier = bits := by
    unfold KFSFrameBits; rw [hframe]; rfl
  rw [this]
  exact ⟨hblen, hbval, hbits⟩

set_option maxRecDepth 1000000 in
theorem KFSTwoTransmissions_durations :
    KFSTwoTransmissions 1 2000000 5313600 =
      edgeTimestamps 0 (KFSTwoTransmissionsDurations 1 2000000 3000350) := by
  decide

set_option maxRecDepth 1000000 in
theorem KFSCutOff_fails :
    arePulsesValidCodeLoop
      { KFSReceiverCreate (fun _ => 0) false with
        durations := writeSlots (fun _ => 0) 1 ((KFSFrameBits 1).dropLast ++ [3000350, 350])
        durationsIndex := 50 } 50 1 0 0 = (0, 23) ∧
    ((KFSFrameBits 1).dropLast ++ [3000350, 350]).length = 49 ∧
    ((KFSFrameBits 1).dropLast ++ [3000350, 350]).sum = 3033950 ∧
    (KFSFrameBits 1).dropLast.sum = 33250 ∧
    (KFSFilterRun
      (KFSFilterOf (KFSReceiverSetCallback
        (KFSReceiverSetRefractoryPeriod (KFSReceiverCreate (fun _ => 0) false) 1) true))
      (KFSCycleMessages 1 2011200 6)) =
      ({ repeats := 3, previousMessageIdentifier := 1, previousIdentifierBitSize := 24,
         timestampPreviousHit := 2145600, repeatCount := 2, refractoryPeriod := 1,
         callback := true },
        [{ identifier := 1, identifierBitSize := 24, timestamp := 2145600 }]) ∧
    (KFSFilterRun
      { repeats := 3, previousMessageIdentifier := 1, previousIdentifierBitSize := 24,
        timestampPreviousHit := 2145600, repeatCount := 2, refractoryPeriod := 1,
        callback := true }
      (KFSCycleMessages 1 5324800 6)) =
      ({ repeats := 9, previousMessageIdentifier := 1, previousIdentifierBitSize := 24,
         timestampPreviousHit := 2145600, repeatCount := 2, refractoryPeriod := 1,
         callback := true }, []) := by
  refine ⟨?_, ?_, ?_, ?_, ?_, ?_⟩ <;> decide

/-- Claim C17, evaluation at the failing input: a fresh KFS receiver with a
handler, repeatCount 2 and refractoryPeriod 1 sees the edges of two complete
transmissions of identifier 1, the first starting at 2 s, the second at
5.3136 s, which is more than 3 s after the hit of the first at 2.1456 s, with
nothing else in between. The handler is called once, for the first transmission
only, and the repeat counter ends at 9: the candidate suppressed during the
first transmission left the counter at repeatCount without restarting it, the
frame cut off at the end of the first transmission does not decode, and
`repeats == repeatCount` never holds during the second transmission. -/
theorem C17_KFS_refractory_blocks :
    (KFSReceiverFeedAll
      (KFSReceiverSetCallback
        (KFSReceiverSetRefractoryPeriod (KFSReceiverCreate (fun _ => 0) false) 1) true)
      (KFSTwoTransmissions 1 2000000 5313600)).2 =
      [{ identifier := 1, identifierBitSize := 24, timestamp := 2145600 }] ∧
    (KFSFilterOf (KFSReceiverFeedAll
      (KFSReceiverSetCallback
        (KFSReceiverSetRefractoryPeriod (KFSReceiverCreate (fun _ => 0) false) 1) true)
      (KFSTwoTransmissions 1 2000000 5313600)).1).repeats = 9 := by
  obtain ⟨hloop, hdlen, hdsum, htsum, hrun1, hrun2⟩ := KFSCutOff_fails
  obtain ⟨hblen, hbval, hbits⟩ := KFSFrameBits_spec 1 (by norm_num)
  have hw0 : KFSDefaultWindows
      (KFSReceiverSetCallback
        (KFSReceiverSetRefractoryPeriod (KFSReceiverCreate (fun _ => 0) false) 1) true) := by
    unfold KFSDefaultWindows; decide
  rw [KFSTwoTransmissions_durations]
  show (KFSFeedDurations
      (KFSReceiverSetCallback
        (KFSReceiverSetRefractoryPeriod (KFSReceiverCreate (fun _ => 0) false) 1) true)
      (KFSTwoTransmissionsDurations 1 2000000 3000350)).2 = _ ∧
    (KFSFilterOf (KFSFeedDurations
      (KFSReceiverSetCallback
        (KFSReceiverSetRefractoryPeriod (KFSReceiverCreate (fun _ => 0) false) 1) true)
      (KFSTwoTransmissionsDurations 1 2000000 3000350)).1).repeats = 9
  generalize hr0 : KFSReceiverSetCallback
    (KFSReceiverSetRefractoryPeriod (KFSReceiverCreate (fun _ => 0) false) 1) true = r0
    at hw0 hrun1 ⊢
  have hl0 : r0.lastTimestamp = 0 := by rw [← hr0]; rfl
  have hi0 : r0.durationsIndex = 0 := by rw [← hr0]; rfl
  unfold KFSTwoTransmissionsDurations
  generalize hbs : KFSFrameBits 1 = bits at *
  rw [KFSFeedDurations_append [2000000, 350, 10850] _ r0]
  have htval : ∀ d ∈ bits.dropLast, d = 350 ∨ d = 1050 :=
    fun d hd => hbval d (List.mem_of_mem_dropLast hd)
  -- opening of the first transmission
  obtain ⟨a1, a2, a3⟩ := KFSOpening_filter r0 2000000 hw0 hl0 hi0 (by norm_num) (by norm_num)
  generalize KFSFeedDurations r0 [2000000, 350, 10850] = sA at a1 a2 a3 ⊢
  rw [KFSFeedDurations_append (repeatFrame 6 (bits ++ [350, 10850])) _ sA.1]
  -- six cycles
  obtain ⟨b1, b2, b3⟩ := KFSCycles_filter 1 bits (by norm_num) hblen hbval hbits 6 sA.1 _ a1
    (by norm_num) (by norm_num)
  rw [a2, hrun1] at b2 b3
  generalize KFSFeedDurations sA.1 (repeatFrame 6 (bits ++ [350, 10850])) = sB at b1 b2 b3 ⊢
  rw [KFSFeedDurations_append ((bits.dropLast ++ [3000350, 350]) ++ [10850]) _ sB.1]
  -- the cut-off frame, the gap and the opening of the second transmission
  have hplain : ∀ d ∈ bits.dropLast ++ [3000350, 350], KFSInSync sB.1 d = false := by
    obtain ⟨⟨w1, w2, w3, w4⟩, -, -⟩ := b1
    intro d hd
    rcases List.mem_append.1 hd with h | h
    · rcases htval d h with h | h <;> rw [h] <;> simp only [KFSInSync, w3, w4] <;> decide
    · simp only [List.mem_cons, List.mem_singleton, List.not_mem_nil, or_false] at h
      rcases h with h | h <;> rw [h] <;> simp only [KFSInSync, w3, w4] <;> decide
  obtain ⟨c1, c2, c3⟩ := KFSFeedDurations_failed sB.1 _ (bits.dropLast ++ [3000350, 350]) b1
    hdlen hplain (by norm_num) (by rw [hdsum]; norm_num)
    (by
      intro other how hoi hod timestamp
      obtain ⟨w1, w2, w3, w4⟩ := how
      have := arePulsesValidCode_congr other
        { KFSReceiverCreate (fun _ => 0) false with
          durations := writeSlots (fun _ => 0) 1 (bits.dropLast ++ [3000350, 350])
          durationsIndex := 50 } timestamp
        (by rw [w1]; rfl) (by rw [w2]; rfl) (by rw [hoi]) hod
      rw [this]
      unfold arePulsesValidCode
      show (if 0 ≠ (arePulsesValidCodeLoop _ 50 1 0 0).1 ∧
          (arePulsesValidCodeLoop _ 50 1 0 0).2 > 4 then _ else _) = _
      rw [hloop, if_neg (by simp)])
  rw [b2] at c2
  rw [hdsum] at c1
  generalize KFSFeedDurations sB.1 ((bits.dropLast ++ [3000350, 350]) ++ [10850]) = sC
    at c1 c2 c3 ⊢
  rw [KFSFeedDurations_append (repeatFrame 6 (bits ++ [350, 10850])) _ sC.1]
  -- six cycles of the second transmission
  obtain ⟨d1, d2, d3⟩ := KFSCycles_filter 1 bits (by norm_num) hblen hbval hbits 6 sC.1 _ c1
    (by norm_num) (by norm_num)
  have e5324800 : 2000000 + 11200 + 6 * 44800 + 3033950 + 10850 = 5324800 := by norm_num
  rw [e5324800] at d2 d3
  rw [c2, hrun2] at d2 d3
  generalize KFSFeedDurations sC.1 (repeatFrame 6 (bits ++ [350, 10850])) = sD at d1 d2 d3 ⊢
  -- the cut-off last frame
  have hplain2 : ∀ d ∈ bits.dropLast, KFSInSync sD.1 d = false := by
    obtain ⟨⟨w1, w2, w3, w4⟩, -, -⟩ := d1
    intro d hd
    rcases htval d hd with h | h <;> rw [h] <;> simp only [KFSInSync, w3, w4] <;> decide
  obtain ⟨f1, f2⟩ := KFSTail_filter sD.1 _ bits.dropLast d1 (by simp [hblen]) hplain2
    (by norm_num) (by rw [htsum]; norm_num)
  rw [d2] at f1
  generalize KFSFeedDurations sD.1 bits.dropLast = sE at f1 f2 ⊢
  simp only
  rw [a3, b3, c3, d3, f2, f1]
  exact ⟨rfl, rfl⟩

theorem OOKSenderTransmitFrame_length (durations : Nat → Nat) :
    ∀ (count index level : Nat),
      (OOKSenderTransmitFrame durations count index level).length = count := by
  intro count
  induction count with
  | zero => intro index level; rfl
  | succ count ih => intro index level; rw [OOKSenderTransmitFrame, List.length_cons, ih]

/-- The `i`-th write of a pass that starts at level 1 has level 1 when `i` is
even and 0 when it is odd, and is held for the duration at its index. -/
theorem OOKSenderTransmitFrame_getElem (durations : Nat → Nat) :
    ∀ (count index level i : Nat), level ≤ 1 → i < count →
      (OOKSenderTransmitFrame durations count index level)[i]? =
        some { level := if i % 2 = 0 then level else 1 - level, hold := durations (index + i) } := by
  intro count
  induction count with
  | zero => intro index level i _ hi; omega
  | succ count ih =>
    intro index level i hl hi
    rw [OOKSenderTransmitFrame]
    cases i with
    | zero => simp
    | succ i =>
      have ht : (if level = 0 then 1 else 0) = 1 - level := by
        by_cases h : level = 0
        · rw [if_pos h, h]
        · rw [if_neg h]; omega
      rw [List.getElem?_cons_succ, ht, ih (index + 1) (1 - level) i (by omega) (by omega)]
      have e1 : index + 1 + i = index + (i + 1) := by omega
      rw [e1]
      by_cases hp : i % 2 = 0
      · rw [if_pos hp, if_neg (by omega)]
      · rw [if_neg hp, if_pos (by omega)]
        have : 1 - (1 - level) = level := by omega
        rw [this]

theorem OOKSenderTransmitPasses_length (durations : Nat → Nat) (length : Nat)
    ( firstValueHigh : Bool) :
    ∀ count : Nat,
      (OOKSenderTransmitPasses durations length firstValueHigh count).length =
        count * length := by
  intro count
  induction count with
  | zero => simp [OOKSenderTransmitPasses]
  | succ count ih =>
    rw [OOKSenderTransmitPasses, List.length_append, OOKSenderTransmitFrame_length, ih]
    ring

theorem OOKSenderTransmitPasses_getElem (durations : Nat → Nat) (length : Nat) :
    ∀ (count pass i : Nat), pass < count → i < length →
      (OOKSenderTransmitPasses durations length true count)[pass * length + i]? =
        some { level := if i % 2 = 0 then 1 else 0, hold := durations i } := by
  intro count
  induction count with
  | zero => intro pass i hp _; omega
  | succ count ih =>
    intro pass i hp hi
    rw [OOKSenderTransmitPasses]
    cases pass with
    | zero =>
      rw [Nat.zero_mul, Nat.zero_add,
        List.getElem?_append_left (by rw [OOKSenderTransmitFrame_length]; exact hi),
        OOKSenderTransmitFrame_getElem durations length 0 _ i (by simp) hi]
      simp
    | succ pass =>
      rw [List.getElem?_append_right (by
        rw [OOKSenderTransmitFrame_length]
        have : (pass + 1) * length = pass * length + length := by ring
        omega), OOKSenderTransmitFrame_length]
      have e : (pass + 1) * length + i - length = pass * length + i := by
        have : (pass + 1) * length = pass * length + length := by ring
        omega
      rw [e]
      exact ih pass i (by omega) hi

/-- The transmit trace for a repeat count below `UINT32_MAX`: with a configured
pin and a high first value the call returns after exactly
`(repeats + 1) * length + 1` writes; in each of the `repeats + 1` passes the
`i`-th write has level 1 when `i` is even and 0 when it is odd and is held for
`durations[i]`; the closing write has level 0. -/
theorem OOKSenderTransmit_trace (sender : OOKSender) (durations : Nat → Nat)
    (length repeats fuel : Nat) (hgpio : OOKSender.GPIO sender ≠ 0xFF)
    (hrep : repeats < 4294967295) (hfuel : repeats + 1 < fuel) :
    ∃ writes : List GPIOWrite,
      OOKSenderTransmit sender durations length true repeats fuel = some writes ∧
      writes.length = (repeats + 1) * length + 1 ∧
      (∀ pass i, pass < repeats + 1 → i < length →
        writes[pass * length + i]? =
          some { level := if i % 2 = 0 then 1 else 0, hold := durations i }) ∧
      writes[(repeats + 1) * length]? = some { level := 0, hold := 0 } := by
  refine ⟨OOKSenderTransmitPasses durations length true (repeats + 1) ++
    [{ level := 0, hold := 0 }], ?_, ?_, ?_, ?_⟩
  · rw [OOKSenderTransmit_returns sender durations length true repeats fuel hrep hfuel,
      if_neg hgpio]
  · rw [List.length_append, OOKSenderTransmitPasses_length]
    rfl
  · intro pass i hp hi
    have hlt : pass * length + i < (repeats + 1) * length := by
      have : (pass + 1) * length ≤ (repeats + 1) * length :=
        Nat.mul_le_mul_right _ (by omega)
      have e : (pass + 1) * length = pass * length + length := by ring
      omega
    rw [List.getElem?_append_left (by rw [OOKSenderTransmitPasses_length]; exact hlt)]
    exact OOKSenderTransmitPasses_getElem durations length (repeats + 1) pass i hp hi
  · rw [List.getElem?_append_right (by rw [OOKSenderTransmitPasses_length]),
      OOKSenderTransmitPasses_length, Nat.sub_self]
    rfl

/-- With the repeat count `UINT32_MAX` the guard `repeatIndex <= repeats` of the
outer loop holds for every `uint32_t` index, so the loop does not end within
any bound. -/
theorem OOKSenderTransmitLoop_never (durations : Nat → Nat) (length : Nat)
    ( firstValueHigh : Bool) :
    ∀ (fuel repeatIndex : Nat), repeatIndex < 4294967296 →
      OOKSenderTransmitLoop durations length firstValueHigh 4294967295 fuel repeatIndex =
        none := by
  intro fuel
  induction fuel with
  | zero => intro repeatIndex _; rfl
  | succ fuel ih =>
    intro repeatIndex h
    have hmod : 4294967295 % 2 ^ 32 = 4294967295 := by norm_num
    rw [OOKSenderTransmitLoop, hmod, if_pos (by omega), ih _ (add32_lt _ _)]
    rfl

/-- The repeat count 4294967295 (`UINT32_MAX`), which neither caller of
`OOKSenderTransmit` passes, is the one value for which the outer loop does not
end: the guard `repeatIndex <= repeats` then holds for every `uint32_t`
`repeatIndex`, so no bound on the number of passes suffices. -/
theorem OOKSenderTransmit_max_repeats (durations : Nat → Nat) (length : Nat)
    ( firstValueHigh : Bool) (fuel : Nat) :
    OOKSenderTransmit ( OOKSenderSetTransmitGPIO OOKSenderCreate 17) durations length
      firstValueHigh 4294967295 fuel = none := by
  unfold OOKSenderTransmit
  rw [if_neg (by decide), OOKSenderTransmitLoop_never _ _ _ _ _ (by norm_num)]
  rfl

theorem OOKSenderTransmitFrame_holds (durations : Nat → Nat) :
    ∀ (count index level : Nat),
      (OOKSenderTransmitFrame durations count index level).map GPIOWrite.hold =
        (List.range' index count).map durations := by
  intro count
  induction count with
  | zero => intro index level; rfl
  | succ count ih =>
    intro index level
    rw [OOKSenderTransmitFrame, List.map_cons, ih, List.range'_succ, List.map_cons]

theorem OOKSenderTransmitPasses_holds (durations : Nat → Nat) (length : Nat)
    ( firstValueHigh : Bool) :
    ∀ count : Nat,
      (OOKSenderTransmitPasses durations length firstValueHigh count).map GPIOWrite.hold =
        repeatFrame count ((List.range length).map durations) := by
  intro count
  induction count with
  | zero => rfl
  | succ count ih =>
    rw [OOKSenderTransmitPasses, List.map_append, ih, OOKSenderTransmitFrame_holds,
      repeatFrame, List.range_eq_range']

/-- The busy-wait time of a call that returns: `repeats + 1` times the sum of
the durations. -/
theorem OOKSenderTransmit_holdTime (sender : OOKSender)
    (hgpio : OOKSender.GPIO sender ≠ 0xFF) (durations : Nat → Nat) (length : Nat)
    ( firstValueHigh : Bool) (repeats fuel : Nat) (hrep : repeats < 4294967295)
    (hfuel : repeats + 1 < fuel) :
    transmitHoldTime
        ((OOKSenderTransmit sender durations length firstValueHigh repeats fuel).getD []) =
      (repeats + 1) * ((List.range length).map durations).sum := by
  rw [OOKSenderTransmit_returns sender durations length firstValueHigh repeats fuel hrep hfuel,
    if_neg hgpio]
  unfold transmitHoldTime
  rw [Option.getD_some, List.map_append, List.sum_append, OOKSenderTransmitPasses_holds,
    repeatFrame_sum]
  rfl

/-- The 50 durations of a KFS frame add up to 44800 microseconds, whatever the
message. -/
theorem OOKSenderSendKFS_sum (message : KFSMessage) :
    (OOKSenderSendKFS message).sum = 44800 := by
  obtain ⟨bits, hframe, hlen, -, hbits⟩ := OOKSenderSendKFS_split message
  have hp := pair_sum 24 bits (by omega) (by
    intro k hk
    rw [hbits _ (by omega), hbits _ (by omega)]
    exact KFSPulseAt_pair _ k)
  rw [hframe, List.sum_cons, List.sum_cons, hp]

/-- Claim C24 (amended): with a configured pin, for every message, one
repetition (one frame) of `OOKSenderSendCOCO` lasts 71,760 microseconds, which
lies between 65,000 and 75,000, and one frame of `OOKSenderSendKFS` lasts 44,800
microseconds, which lies between 40,000 and 50,000; the hold times of all
writes of one call, every repetition included, add up to 16 frames,
1,148,160 microseconds, for COCO and to 7 frames, 313,600 microseconds, for
KFS. -/
theorem C24_blocking_time (sender : OOKSender) (hgpio : OOKSender.GPIO sender ≠ 0xFF)
    (coco : COCOMessage) (kfs : KFSMessage) :
    (OOKSenderSendCOCO coco).sum = 71760 ∧
    (65000 ≤ (OOKSenderSendCOCO coco).sum ∧ (OOKSenderSendCOCO coco).sum ≤ 75000) ∧
    transmitHoldTime (OOKSenderSendCOCOTransmit sender coco) = 1148160 ∧
    (OOKSenderSendKFS kfs).sum = 44800 ∧
    (40000 ≤ (OOKSenderSendKFS kfs).sum ∧ (OOKSenderSendKFS kfs).sum ≤ 50000) ∧
    transmitHoldTime (OOKSenderSendKFSTransmit sender kfs) = 313600 := by
  have hc := OOKSenderSendCOCO_sum coco
  have hk := OOKSenderSendKFS_sum kfs
  have tc := OOKSenderTransmit_holdTime sender hgpio (OOKSenderSendCOCOArray coco)
    kCOCOTotalNumberOfPulses true 15 17 (by decide) (by decide)
  have tk := OOKSenderTransmit_holdTime sender hgpio (OOKSenderSendKFSArray kfs)
    kKFSTotalNumberOfPulses true 6 8 (by decide) (by decide)
  unfold OOKSenderSendCOCO at hc
  unfold OOKSenderSendKFS at hk
  rw [hc] at tc
  rw [hk] at tk
  refine ⟨OOKSenderSendCOCO_sum coco, ?_, tc, OOKSenderSendKFS_sum kfs, ?_, tk⟩
  · rw [OOKSenderSendCOCO_sum]; decide
  · rw [OOKSenderSendKFS_sum]; decide

theorem C24_blocking_time_witness :
    OOKSender.GPIO ( OOKSenderSetTransmitGPIO OOKSenderCreate 17) ≠ 0xFF ∧
    transmitHoldTime
      (OOKSenderSendCOCOTransmit ( OOKSenderSetTransmitGPIO OOKSenderCreate 17)
        COCOExampleMessage) = 1148160 ∧
    transmitHoldTime
      (OOKSenderSendKFSTransmit ( OOKSenderSetTransmitGPIO OOKSenderCreate 17)
        { identifier := 11, identifierBitSize := 24, timestamp := 0 }) = 313600 :=
  ⟨by decide,
    (C24_blocking_time ( OOKSenderSetTransmitGPIO OOKSenderCreate 17) (by decide)
      COCOExampleMessage { identifier := 11, identifierBitSize := 24, timestamp := 0 }).2.2.1,
    (C24_blocking_time ( OOKSenderSetTransmitGPIO OOKSenderCreate 17) (by decide)
      COCOExampleMessage
      { identifier := 11, identifierBitSize := 24, timestamp := 0 }).2.2.2.2.2⟩

/-- Claim C24, counterexample: with pin 17 configured, the hold times of all
writes of one call of `OOKSenderSendCOCO` for the message with address 1 add up
to 1,148,160 microseconds, which is not between 65,000 and 75,000, and those of
one call of `OOKSenderSendKFS` for the identifier 11 add up to 313,600
microseconds, which is not between 40,000 and 50,000. -/
theorem C24_blocking_time_counterexample :
    transmitHoldTime
      (OOKSenderSendCOCOTransmit ( OOKSenderSetTransmitGPIO OOKSenderCreate 17)
        COCOExampleMessage) = 1148160 ∧
    ¬ (65000 ≤ transmitHoldTime
        (OOKSenderSendCOCOTransmit ( OOKSenderSetTransmitGPIO OOKSenderCreate 17)
          COCOExampleMessage) ∧
      transmitHoldTime
        (OOKSenderSendCOCOTransmit ( OOKSenderSetTransmitGPIO OOKSenderCreate 17)
          COCOExampleMessage) ≤ 75000) ∧
    transmitHoldTime
      (OOKSenderSendKFSTransmit ( OOKSenderSetTransmitGPIO OOKSenderCreate 17)
        { identifier := 11, identifierBitSize := 24, timestamp := 0 }) = 313600 ∧
    ¬ (40000 ≤ transmitHoldTime
        (OOKSenderSendKFSTransmit ( OOKSenderSetTransmitGPIO OOKSenderCreate 17)
          { identifier := 11, identifierBitSize := 24, timestamp := 0 }) ∧
      transmitHoldTime
        (OOKSenderSendKFSTransmit ( OOKSenderSetTransmitGPIO OOKSenderCreate 17)
          { identifier := 11, identifierBitSize := 24, timestamp := 0 }) ≤ 50000) := by
  have tc := OOKSenderTransmit_holdTime ( OOKSenderSetTransmitGPIO OOKSenderCreate 17)
    (by decide) (OOKSenderSendCOCOArray COCOExampleMessage)
    kCOCOTotalNumberOfPulses true 15 17 (by decide) (by decide)
  have tk := OOKSenderTransmit_holdTime ( OOKSenderSetTransmitGPIO OOKSenderCreate 17)
    (by decide) (OOKSenderSendKFSArray { identifier := 11, identifierBitSize := 24, timestamp := 0 })
    kKFSTotalNumberOfPulses true 6 8 (by decide) (by decide)
  have hc := OOKSenderSendCOCO_sum COCOExampleMessage
  have hk := OOKSenderSendKFS_sum { identifier := 11, identifierBitSize := 24, timestamp := 0 }
  unfold OOKSenderSendCOCO at hc
  unfold OOKSenderSendKFS at hk
  rw [hc] at tc
  rw [hk] at tk
  have tc' : transmitHoldTime
      (OOKSenderSendCOCOTransmit ( OOKSenderSetTransmitGPIO OOKSenderCreate 17)
        COCOExampleMessage) = 1148160 := tc
  have tk' : transmitHoldTime
      (OOKSenderSendKFSTransmit ( OOKSenderSetTransmitGPIO OOKSenderCreate 17)
        { identifier := 11, identifierBitSize := 24, timestamp := 0 }) = 313600 := tk
  rw [tc', tk']
  decide

/-- Claim C25: a sender whose pin is still the unset value `0xFF` writes
nothing: `OOKSenderTransmit` returns at once with an empty sequence of writes,
whatever the durations, their number, the first level and the repeat count, and
so do the transmissions of `OOKSenderSendCOCO` and `OOKSenderSendKFS`. -/
theorem C25_no_pin_no_write (sender : OOKSender) (hgpio : OOKSender.GPIO sender = 0xFF)
    (durations : Nat → Nat) (length : Nat) ( firstValueHigh : Bool) (repeats fuel : Nat)
    (coco : COCOMessage) (kfs : KFSMessage) :
    OOKSenderTransmit sender durations length firstValueHigh repeats fuel = some [] ∧
    OOKSenderSendCOCOTransmit sender coco = [] ∧
    OOKSenderSendKFSTransmit sender kfs = [] := by
  unfold OOKSenderSendCOCOTransmit OOKSenderSendKFSTransmit OOKSenderTransmit
  rw [if_pos hgpio, if_pos hgpio, if_pos hgpio]
  exact ⟨rfl, rfl, rfl⟩

theorem C25_no_pin_no_write_witness :
    OOKSender.GPIO OOKSenderCreate = 0xFF ∧
    OOKSenderTransmit OOKSenderCreate (fun _ => 350) 50 true 6 0 = some [] ∧
    OOKSenderSendCOCOTransmit OOKSenderCreate COCOExampleMessage = [] ∧
    OOKSenderSendKFSTransmit OOKSenderCreate
      { identifier := 11, identifierBitSize := 24, timestamp := 0 } = [] :=
  ⟨rfl, C25_no_pin_no_write OOKSenderCreate rfl (fun _ => 350) 50 true 6 0 COCOExampleMessage
    { identifier := 11, identifierBitSize := 24, timestamp := 0 }⟩

/-- The six bounds `updateDurationsForReceiver` computes are the floor formulas
when the exact products are not negative and fit in 32 bits. -/
theorem updateDurationsForReceiver_formulas (receiver : COCOReceiver)
    (hmin : (0 : Int) ≤ (receiver.singlePulseDuration : Int) * (100 - receiver.negativeTolerance))
    (hmax : receiver.singlePulseDuration * 40 * (100 + receiver.positiveTolerance) <
      4294967296) :
    ((updateDurationsForReceiver receiver).singlePulseMinDuration : Int) =
      Int.fdiv (receiver.singlePulseDuration * (100 - receiver.negativeTolerance)) 100 ∧
    ((updateDurationsForReceiver receiver).singlePulseMaxDuration : Int) =
      Int.fdiv (receiver.singlePulseDuration * (100 + receiver.positiveTolerance)) 100 ∧
    ((updateDurationsForReceiver receiver).startSyncLowMinDuration : Int) =
      Int.fdiv (receiver.singlePulseDuration * 10 * (100 - receiver.negativeTolerance)) 100 ∧
    ((updateDurationsForReceiver receiver).startSyncLowMaxDuration : Int) =
      Int.fdiv (receiver.singlePulseDuration * 10 * (100 + receiver.positiveTolerance)) 100 ∧
    ((updateDurationsForReceiver receiver).endSyncLowMinDuration : Int) =
      Int.fdiv (receiver.singlePulseDuration * 40 * (100 - receiver.negativeTolerance)) 100 ∧
    ((updateDurationsForReceiver receiver).endSyncLowMaxDuration : Int) =
      Int.fdiv (receiver.singlePulseDuration * 40 * (100 + receiver.positiveTolerance)) 100 := by
  simp only [updateDurationsForReceiver, COCOStartSyncLowPulsesCount, COCOEndSyncLowPulsesCount]
  generalize receiver.singlePulseDuration = n at *
  generalize receiver.positiveTolerance = pos at *
  generalize receiver.negativeTolerance = neg at *
  have e1 : n * 40 * (100 + pos) = 40 * (n * (100 + pos)) := by ring
  have e2 : n * (100 + pos) = 100 * n + n * pos := by ring
  have e3 : n * 1 * (100 + pos) = n * (100 + pos) := by ring
  have e4 : n * 10 * (100 + pos) = 10 * (n * (100 + pos)) := by ring
  have hn : n < 4294967296 := by omega
  have a1 := window_min_exact n 1 neg hmin (by omega)
  have a2 := window_max_exact n 1 pos (by omega)
  have a3 := window_min_exact n 10 neg hmin (by omega)
  have a4 := window_max_exact n 10 pos (by omega)
  have a5 := window_min_exact n 40 neg hmin (by omega)
  have a6 := window_max_exact n 40 pos hmax
  rw [mul32_one_of_lt n hn] at a1 a2
  simp only [Nat.cast_one, mul_one, Nat.cast_ofNat] at a1 a2 a3 a4 a5 a6
  exact ⟨a1, a2, a3, a4, a5, a6⟩

/-- What `COCOReceiverSetSinglePulseDuration(r, p)` does for a `uint32_t` value
`p`: afterwards the getter
`COCOReceiverGetSinglePulseDuration` returns `p`; the six derived bounds are the
ones `updateDurationsForReceiver` computes from `p` and the current tolerances
(the 32-bit products divided by 100), which are the floor formulas of the
tolerance windows, floor(p*u*(100-neg)/100) and floor(p*u*(100+pos)/100) for
u = 1, 10, 40, whenever the exact products are not negative and fit in 32 bits;
and repeatCount, refractoryPeriod, both tolerances, the buffer with its index
and last timestamp, the repeat state (repeats, previous code, time of the
previous hit, frame origin), the callback and the masks are unchanged. -/
theorem COCOReceiverSetSinglePulseDuration_effect (receiver : COCOReceiver) (p : Nat)
    (hp : p < 2 ^ 32) :
    COCOReceiverGetSinglePulseDuration (COCOReceiverSetSinglePulseDuration receiver p) = p ∧
    ((COCOReceiverSetSinglePulseDuration receiver p).singlePulseMinDuration =
        mul32 p (sub32 100 receiver.negativeTolerance) / 100 ∧
      (COCOReceiverSetSinglePulseDuration receiver p).singlePulseMaxDuration =
        mul32 p (add32 100 receiver.positiveTolerance) / 100 ∧
      (COCOReceiverSetSinglePulseDuration receiver p).startSyncLowMinDuration =
        mul32 (mul32 p 10) (sub32 100 receiver.negativeTolerance) / 100 ∧
      (COCOReceiverSetSinglePulseDuration receiver p).startSyncLowMaxDuration =
        mul32 (mul32 p 10) (add32 100 receiver.positiveTolerance) / 100 ∧
      (COCOReceiverSetSinglePulseDuration receiver p).endSyncLowMinDuration =
        mul32 (mul32 p 40) (sub32 100 receiver.negativeTolerance) / 100 ∧
      (COCOReceiverSetSinglePulseDuration receiver p).endSyncLowMaxDuration =
        mul32 (mul32 p 40) (add32 100 receiver.positiveTolerance) / 100) ∧
    ((0 : Int) ≤ (p : Int) * (100 - receiver.negativeTolerance) →
      p * 40 * (100 + receiver.positiveTolerance) < 2 ^ 32 →
      (((COCOReceiverSetSinglePulseDuration receiver p).singlePulseMinDuration : Int) =
          Int.fdiv (p * (100 - receiver.negativeTolerance)) 100 ∧
        ((COCOReceiverSetSinglePulseDuration receiver p).singlePulseMaxDuration : Int) =
          Int.fdiv (p * (100 + receiver.positiveTolerance)) 100 ∧
        ((COCOReceiverSetSinglePulseDuration receiver p).startSyncLowMinDuration : Int) =
          Int.fdiv (p * 10 * (100 - receiver.negativeTolerance)) 100 ∧
        ((COCOReceiverSetSinglePulseDuration receiver p).startSyncLowMaxDuration : Int) =
          Int.fdiv (p * 10 * (100 + receiver.positiveTolerance)) 100 ∧
        ((COCOReceiverSetSinglePulseDuration receiver p).endSyncLowMinDuration : Int) =
          Int.fdiv (p * 40 * (100 - receiver.negativeTolerance)) 100 ∧
        ((COCOReceiverSetSinglePulseDuration receiver p).endSyncLowMaxDuration : Int) =
          Int.fdiv (p * 40 * (100 + receiver.positiveTolerance)) 100)) ∧
    (COCOReceiverGetRepeatCount (COCOReceiverSetSinglePulseDuration receiver p) =
        COCOReceiverGetRepeatCount receiver ∧
      COCOReceiverGetRefractoryPeriod (COCOReceiverSetSinglePulseDuration receiver p) =
        COCOReceiverGetRefractoryPeriod receiver ∧
      COCOReceiverGetPositiveTolerance (COCOReceiverSetSinglePulseDuration receiver p) =
        COCOReceiverGetPositiveTolerance receiver ∧
      COCOReceiverGetNegativeTolerance (COCOReceiverSetSinglePulseDuration receiver p) =
        COCOReceiverGetNegativeTolerance receiver) ∧
    ((COCOReceiverSetSinglePulseDuration receiver p).durations = receiver.durations ∧
      (COCOReceiverSetSinglePulseDuration receiver p).durationsIndex =
        receiver.durationsIndex ∧
      (COCOReceiverSetSinglePulseDuration receiver p).lastTimestamp =
        receiver.lastTimestamp) ∧
    ((COCOReceiverSetSinglePulseDuration receiver p).repeats = receiver.repeats ∧
      (COCOReceiverSetSinglePulseDuration receiver p).previousMessageCode =
        receiver.previousMessageCode ∧
      (COCOReceiverSetSinglePulseDuration receiver p).timestampPreviousHit =
        receiver.timestampPreviousHit ∧
      (COCOReceiverSetSinglePulseDuration receiver p).startTime = receiver.startTime) ∧
    ((COCOReceiverSetSinglePulseDuration receiver p).callback = receiver.callback ∧
      (COCOReceiverSetSinglePulseDuration receiver p).channelMask = receiver.channelMask ∧
      (COCOReceiverSetSinglePulseDuration receiver p).onOffMask = receiver.onOffMask ∧
      (COCOReceiverSetSinglePulseDuration receiver p).groupMask = receiver.groupMask ∧
      (COCOReceiverSetSinglePulseDuration receiver p).addressMask = receiver.addressMask) := by
  have hmod : p % 2 ^ 32 = p := Nat.mod_eq_of_lt hp
  have hset : COCOReceiverSetSinglePulseDuration receiver p =
      updateDurationsForReceiver { receiver with singlePulseDuration := p } := by
    unfold COCOReceiverSetSinglePulseDuration
    rw [hmod]
  have hone : mul32 p 1 = p := mul32_one_of_lt p (by norm_num at hp; exact hp)
  refine ⟨?_, ?_, ?_, ⟨rfl, rfl, rfl, rfl⟩, ⟨rfl, rfl, rfl⟩, ⟨rfl, rfl, rfl, rfl⟩,
    ⟨rfl, rfl, rfl, rfl, rfl⟩⟩
  · rw [hset]; rfl
  · rw [hset]
    exact ⟨rfl, rfl, rfl, rfl, rfl, rfl⟩
  · intro hmin hmax
    rw [hset]
    exact updateDurationsForReceiver_formulas { receiver with singlePulseDuration := p } hmin
      (by norm_num at hmax; exact hmax)

/-- Claim C21, evaluation at the failing input: on a freshly created COCO
receiver (tolerances 40 and 40) `COCOReceiverSetSinglePulseDuration` with the
duration 1000000 stores the duration, and five of the six bounds are those of
the tolerance windows; but the upper bound of the end-sync window, whose exact
value is 1000000 * 40 * 140 / 100 = 56000000, becomes 13050327, because the
product 5600000000 does not fit in 32 bits. The bound lies below the lower
bound 24000000 of the same window, so no duration is an end-sync any more. -/
theorem C21_duration_setter_overflow :
    COCOReceiverGetSinglePulseDuration
      (COCOReceiverSetSinglePulseDuration (COCOReceiverCreate (fun _ => 0) true) 1000000) =
      1000000 ∧
    (COCOReceiverSetSinglePulseDuration (COCOReceiverCreate (fun _ => 0) true)
      1000000).singlePulseMinDuration = 600000 ∧
    (COCOReceiverSetSinglePulseDuration (COCOReceiverCreate (fun _ => 0) true)
      1000000).singlePulseMaxDuration = 1400000 ∧
    (COCOReceiverSetSinglePulseDuration (COCOReceiverCreate (fun _ => 0) true)
      1000000).startSyncLowMinDuration = 6000000 ∧
    (COCOReceiverSetSinglePulseDuration (COCOReceiverCreate (fun _ => 0) true)
      1000000).startSyncLowMaxDuration = 14000000 ∧
    (COCOReceiverSetSinglePulseDuration (COCOReceiverCreate (fun _ => 0) true)
      1000000).endSyncLowMinDuration = 24000000 ∧
    (COCOReceiverSetSinglePulseDuration (COCOReceiverCreate (fun _ => 0) true)
      1000000).endSyncLowMaxDuration = 13050327 ∧
    1000000 * 40 * (100 + 40) / 100 = 56000000 ∧
    (∀ duration : Nat,
      COCOInEndSync
        (COCOReceiverSetSinglePulseDuration (COCOReceiverCreate (fun _ => 0) true) 1000000)
        duration = false) := by
  refine ⟨by decide, by decide, by decide, by decide, by decide, by decide, by decide,
    by decide, ?_⟩
  intro duration
  have hmin : (COCOReceiverSetSinglePulseDuration (COCOReceiverCreate (fun _ => 0) true)
      1000000).endSyncLowMinDuration = 24000000 := by decide
  have hmax : (COCOReceiverSetSinglePulseDuration (COCOReceiverCreate (fun _ => 0) true)
      1000000).endSyncLowMaxDuration = 13050327 := by decide
  simp only [COCOInEndSync, hmin, hmax, decide_eq_false_iff_not]
  omega

/-- Claim C22, evaluation at the failing input: on a freshly created KFS
receiver `KFSReceiverSetPositiveTolerance` with the tolerance 0 and
`KFSReceiverSetNegativeTolerance` with the tolerance 150 are not rejected: they
store the value, so that the getters report 0 and 150 instead of the defaults
20 and 20. The COCO setters do reject both values at the call (the assertion
fails, whatever the uninitialised local holds). -/
theorem C22_KFS_setters_accept_any_tolerance (durations : Nat → Nat) (callback : Bool)
    (newValue : Nat) :
    KFSReceiverGetPositiveTolerance (KFSReceiverCreate durations callback) = 20 ∧
    KFSReceiverGetPositiveTolerance
      (KFSReceiverSetPositiveTolerance (KFSReceiverCreate durations callback) 0) = 0 ∧
    KFSReceiverGetNegativeTolerance (KFSReceiverCreate durations callback) = 20 ∧
    KFSReceiverGetNegativeTolerance
      (KFSReceiverSetNegativeTolerance (KFSReceiverCreate durations callback) 150) = 150 ∧
    COCOReceiverSetPositiveTolerance (COCOReceiverCreate durations callback) 0 newValue = none ∧
    COCOReceiverSetPositiveTolerance (COCOReceiverCreate durations callback) 150 newValue =
      none ∧
    COCOReceiverSetNegativeTolerance (COCOReceiverCreate durations callback) 0 newValue = none ∧
    COCOReceiverSetNegativeTolerance (COCOReceiverCreate durations callback) 150 newValue =
      none := by
  refine ⟨?_, ?_, ?_, ?_, ?_, ?_, ?_, ?_⟩
  · simp only [KFSReceiverGetPositiveTolerance, KFSReceiverCreate, KFSUpdateDurationsForReceiver]
  · simp only [KFSReceiverGetPositiveTolerance, KFSReceiverSetPositiveTolerance]
    decide
  · simp only [KFSReceiverGetNegativeTolerance, KFSReceiverCreate, KFSUpdateDurationsForReceiver]
  · simp only [KFSReceiverGetNegativeTolerance, KFSReceiverSetNegativeTolerance]
    decide
  · unfold COCOReceiverSetPositiveTolerance
    rw [if_neg (by decide)]
  · unfold COCOReceiverSetPositiveTolerance
    rw [if_neg (by decide)]
  · unfold COCOReceiverSetNegativeTolerance
    rw [if_neg (by decide)]
  · unfold COCOReceiverSetNegativeTolerance
    rw [if_neg (by decide)]

/-- The COCO tolerance setters reject every tolerance that is 0 or above 100:
the assertion fails, whatever the receiver and the uninitialised local. -/
theorem COCOToleranceSetters_reject (receiver : COCOReceiver) (tolerance newValue : Nat)
    (ht : tolerance % 2 ^ 32 = 0 ∨ 100 < tolerance % 2 ^ 32) :
    COCOReceiverSetPositiveTolerance receiver tolerance newValue = none ∧
    COCOReceiverSetNegativeTolerance receiver tolerance newValue = none := by
  unfold COCOReceiverSetPositiveTolerance COCOReceiverSetNegativeTolerance
  rw [if_neg (by omega), if_neg (by omega)]
  exact ⟨rfl, rfl⟩

theorem mul32_four_of_lt (n : Nat) (h : 4 * n < 4294967296) : mul32 4 n = 4 * n := by
  unfold mul32
  exact Nat.mod_eq_of_lt (by norm_num; exact h)

theorem COCOIsZero_spec (receiver : COCOReceiver) (buffer : Nat → Nat) (k : Nat)
    (hmin : 4 * receiver.singlePulseMinDuration < 4294967296)
    (hmax : 4 * receiver.singlePulseMaxDuration < 4294967296) :
    COCOIsZero receiver (fun p => buffer (4 * k + 1 + p)) =
      COCOSpecMatchesZero receiver buffer k := by
  unfold COCOIsZero COCOSpecMatchesZero COCOSpecUnit COCOSpecLong COCOPulsesLong
  rw [mul32_four_of_lt _ hmin, mul32_four_of_lt _ hmax]
  have e1 : 4 * k + 1 + 1 = 4 * k + 2 := rfl
  have e2 : 4 * k + 1 + 2 = 4 * k + 3 := rfl
  have e3 : 4 * k + 1 + 3 = 4 * k + 4 := rfl
  simp only [Nat.add_zero, e1, e2, e3, gt_iff_lt]
  rw [Bool.eq_iff_iff]
  simp only [Bool.and_eq_true, decide_eq_true_eq]
  tauto

theorem COCOIsOne_spec (receiver : COCOReceiver) (buffer : Nat → Nat) (k : Nat)
    (hmin : 4 * receiver.singlePulseMinDuration < 4294967296)
    (hmax : 4 * receiver.singlePulseMaxDuration < 4294967296) :
    COCOIsOne receiver (fun p => buffer (4 * k + 1 + p)) =
      COCOSpecMatchesOne receiver buffer k := by
  unfold COCOIsOne COCOSpecMatchesOne COCOSpecUnit COCOSpecLong COCOPulsesLong
  rw [mul32_four_of_lt _ hmin, mul32_four_of_lt _ hmax]
  have e1 : 4 * k + 1 + 1 = 4 * k + 2 := rfl
  have e2 : 4 * k + 1 + 2 = 4 * k + 3 := rfl
  have e3 : 4 * k + 1 + 3 = 4 * k + 4 := rfl
  simp only [Nat.add_zero, e1, e2, e3, gt_iff_lt]
  rw [Bool.eq_iff_iff]
  simp only [Bool.and_eq_true, decide_eq_true_eq]
  tauto

theorem COCOGroupBit_spec (receiver : COCOReceiver) (buffer : Nat → Nat) (k : Nat)
    (hmin : 4 * receiver.singlePulseMinDuration < 4294967296)
    (hmax : 4 * receiver.singlePulseMaxDuration < 4294967296) :
    COCOGroupBit receiver buffer k =
      if COCOSpecMatchesZero receiver buffer k = true then some false
      else if COCOSpecMatchesOne receiver buffer k = true then some true
      else none := by
  unfold COCOGroupBit
  rw [COCOIsZero_spec receiver buffer k hmin hmax, COCOIsOne_spec receiver buffer k hmin hmax]

theorem range_map_sum_succ (f : Nat → Nat) (n : Nat) :
    ((List.range (n + 1)).map f).sum = f 0 + ((List.range n).map (fun j => f (j + 1))).sum := by
  rw [List.range_succ_eq_map, List.map_cons, List.sum_cons, List.map_map]
  rfl

/-- The reference decoder returns the bits it reads, most significant first,
appended to the code it starts from. -/
theorem COCODecodeFrom_sum (receiver : COCOReceiver) (buffer : Nat → Nat) (bit : Nat → Nat)
    (hgroup : ∀ k, k < 32 →
      (COCOGroupBit receiver buffer k = some false ∧ bit k = 0) ∨
      (COCOGroupBit receiver buffer k = some true ∧ bit k = 1)) :
    ∀ (count k code : Nat), k + count = 32 → code < 2 ^ k →
      COCODecodeFrom receiver buffer count k code =
        some (code * 2 ^ count +
          ((List.range count).map (fun j => bit (k + j) * 2 ^ (count - 1 - j))).sum) := by
  intro count
  induction count with
  | zero =>
    intro k code _ _
    simp [COCODecodeFrom]
  | succ count ih =>
    intro k code hk hcode
    have hpow : (2 : Nat) ^ k ≤ 2 ^ 31 := Nat.pow_le_pow_right (by norm_num) (by omega)
    have h31 : (2 : Nat) ^ 31 = 2147483648 := by norm_num
    have hshl : shl32 code 1 = code * 2 := by
      rw [shl32_eq _ 1 (by norm_num; omega)]; norm_num
    have hor : shl32 code 1 ||| 1 = code * 2 + 1 := by
      rw [hshl]
      have := or_of_mul_pow code 1 1 (by norm_num)
      simpa using this
    have hp1 : (2 : Nat) ^ (k + 1) = 2 ^ k * 2 := by ring
    have hsum : ((List.range (count + 1)).map
        (fun j => bit (k + j) * 2 ^ (count + 1 - 1 - j))).sum =
        bit k * 2 ^ count +
          ((List.range count).map (fun j => bit (k + 1 + j) * 2 ^ (count - 1 - j))).sum := by
      rw [range_map_sum_succ]
      simp only [Nat.add_zero, Nat.add_sub_cancel, Nat.sub_zero]
      congr 2
      apply List.map_congr_left
      intro j _
      have e1 : k + (j + 1) = k + 1 + j := by omega
      have e2 : count - (j + 1) = count - 1 - j := by omega
      rw [e1, e2]
    rw [COCODecodeFrom, hsum]
    rcases hgroup k (by omega) with ⟨hg, hb⟩ | ⟨hg, hb⟩
    · rw [hg, hb]
      simp only [Bool.false_eq_true, if_false]
      rw [hshl, ih (k + 1) (code * 2) (by omega) (by omega)]
      congr 1
      ring
    · rw [hg, hb]
      simp only [if_true]
      rw [hor, ih (k + 1) (code * 2 + 1) (by omega) (by omega)]
      congr 1
      ring

/-- With valid 4-unit products, the reference decoder built from the tests of
the source is the decoder of the specification. -/
theorem COCODecode_eq_spec (receiver : COCOReceiver) (buffer : Nat → Nat)
    (hmin : 4 * receiver.singlePulseMinDuration < 4294967296)
    (hmax : 4 * receiver.singlePulseMaxDuration < 4294967296) :
    COCODecode receiver buffer = COCOSpecDecode receiver buffer := by
  unfold COCOSpecDecode
  by_cases hall : (List.range 32).all
      (fun k => COCOSpecMatchesZero receiver buffer k ||
        COCOSpecMatchesOne receiver buffer k) = true
  · rw [if_pos hall]
    rw [List.all_eq_true] at hall
    have hgroup : ∀ k, k < 32 →
        (COCOGroupBit receiver buffer k = some false ∧ COCOSpecBit receiver buffer k = 0) ∨
        (COCOGroupBit receiver buffer k = some true ∧ COCOSpecBit receiver buffer k = 1) := by
      intro k hk
      have h := hall k (List.mem_range.2 hk)
      rw [COCOGroupBit_spec receiver buffer k hmin hmax]
      unfold COCOSpecBit
      by_cases hz : COCOSpecMatchesZero receiver buffer k = true
      · left
        rw [if_pos hz, if_pos hz]
        exact ⟨rfl, rfl⟩
      · right
        have ho : COCOSpecMatchesOne receiver buffer k = true := by
          rw [Bool.or_eq_true] at h
          rcases h with h | h
          · exact absurd h hz
          · exact h
        rw [if_neg hz, if_pos ho, if_neg hz]
        exact ⟨rfl, rfl⟩
    have h := COCODecodeFrom_sum receiver buffer (COCOSpecBit receiver buffer) hgroup 32 0 0
      (by omega) (by norm_num)
    unfold COCODecode
    rw [h]
    unfold COCOSpecCode
    simp only [Nat.zero_mul, Nat.zero_add]
  · rw [if_neg hall]
    have hnone : ¬ (COCODecode receiver buffer).isSome = true := by
      intro hsome
      apply hall
      rw [List.all_eq_true]
      intro k hk
      have hk32 := List.mem_range.1 hk
      unfold COCODecode at hsome
      have hg := (COCODecodeFrom_isSome receiver buffer 32 0 0).1 hsome k (by omega) (by omega)
      rw [COCOGroupBit_spec receiver buffer k hmin hmax] at hg
      rw [Bool.or_eq_true]
      by_cases hz : COCOSpecMatchesZero receiver buffer k = true
      · exact Or.inl hz
      · rw [if_neg hz] at hg
        by_cases ho : COCOSpecMatchesOne receiver buffer k = true
        · exact Or.inr ho
        · rw [if_neg ho] at hg
          exact absurd hg (by simp)
    cases hd : COCODecode receiver buffer with
    | none => rfl
    | some code => rw [hd] at hnone; exact absurd rfl hnone

/-- The bounds `updateDurationsForReceiver` computes are quotients by 100 of
32-bit values, so four times the unit bounds fit in 32 bits in every receiver
state the functions of the source produce. -/
theorem updateDurationsForReceiver_four (receiver : COCOReceiver) :
    4 * (updateDurationsForReceiver receiver).singlePulseMinDuration < 4294967296 ∧
    4 * (updateDurationsForReceiver receiver).singlePulseMaxDuration < 4294967296 := by
  have h1 : mul32 receiver.singlePulseDuration (sub32 100 receiver.negativeTolerance) <
      4294967296 := by unfold mul32; exact Nat.mod_lt _ (by norm_num)
  have h2 : mul32 receiver.singlePulseDuration (add32 100 receiver.positiveTolerance) <
      4294967296 := by unfold mul32; exact Nat.mod_lt _ (by norm_num)
  constructor
  · show 4 * (mul32 receiver.singlePulseDuration (sub32 100 receiver.negativeTolerance) / 100) <
      4294967296
    omega
  · show 4 * (mul32 receiver.singlePulseDuration (add32 100 receiver.positiveTolerance) / 100) <
      4294967296
    omega

/-- Claim C26: for every receiver state with buffer index 130 (whose unit
bounds times four fit in 32 bits, as all computed bounds do), `analyzeDurations`
is the reference decoder of the specification: it succeeds if and only if each
of the 32 groups `durations[4k+1 .. 4k+4]` matches pattern '0' or pattern '1'
within tolerance; if some group matches neither it returns no message; and on
success `fullMessageCode` is the sum over k of `bit_k * 2^(31-k)` and the
timestamp the one passed in. Slot 130 need not hold an end-sync for this. -/
theorem C26_COCO_analyze_reference (receiver : COCOReceiver) (timestamp : Nat)
    (hidx : receiver.durationsIndex = 130)
    (hmin : 4 * receiver.singlePulseMinDuration < 2 ^ 32)
    (hmax : 4 * receiver.singlePulseMaxDuration < 2 ^ 32) :
    analyzeDurations receiver timestamp =
      (COCOSpecDecode receiver receiver.durations).map
        (COCOMessageOfCode receiver timestamp) ∧
    ((analyzeDurations receiver timestamp).isSome = true ↔
      ∀ k, k < 32 → COCOSpecMatchesZero receiver receiver.durations k = true ∨
        COCOSpecMatchesOne receiver receiver.durations k = true) ∧
    ((∃ k, k < 32 ∧ COCOSpecMatchesZero receiver receiver.durations k = false ∧
        COCOSpecMatchesOne receiver receiver.durations k = false) →
      analyzeDurations receiver timestamp = none) ∧
    (∀ message, analyzeDurations receiver timestamp = some message →
      message.fullMessageCode =
        ((List.range 32).map
          (fun k => COCOSpecBit receiver receiver.durations k * 2 ^ (31 - k))).sum ∧
      message.timestamp = timestamp) := by
  have heq : analyzeDurations receiver timestamp =
      (COCOSpecDecode receiver receiver.durations).map
        (COCOMessageOfCode receiver timestamp) := by
    rw [analyzeDurations_eq_decode receiver timestamp hidx,
      COCODecode_eq_spec receiver receiver.durations (by norm_num at hmin; exact hmin)
        (by norm_num at hmax; exact hmax)]
  have hall : (List.range 32).all
      (fun k => COCOSpecMatchesZero receiver receiver.durations k ||
        COCOSpecMatchesOne receiver receiver.durations k) = true ↔
      ∀ k, k < 32 → COCOSpecMatchesZero receiver receiver.durations k = true ∨
        COCOSpecMatchesOne receiver receiver.durations k = true := by
    rw [List.all_eq_true]
    constructor
    · intro h k hk
      have := h k (List.mem_range.2 hk)
      rwa [Bool.or_eq_true] at this
    · intro h k hk
      rw [Bool.or_eq_true]
      exact h k (List.mem_range.1 hk)
  refine ⟨heq, ?_, ?_, ?_⟩
  · rw [heq, ← hall]
    unfold COCOSpecDecode
    by_cases h : (List.range 32).all
        (fun k => COCOSpecMatchesZero receiver receiver.durations k ||
          COCOSpecMatchesOne receiver receiver.durations k) = true
    · rw [if_pos h]
      simp [h]
    · rw [if_neg h]
      simp [h]
  · rintro ⟨k, hk, hz, ho⟩
    rw [heq]
    unfold COCOSpecDecode
    rw [if_neg]
    · rfl
    · intro h
      rcases hall.1 h k hk with h1 | h1
      · rw [hz] at h1; exact absurd h1 (by simp)
      · rw [ho] at h1; exact absurd h1 (by simp)
  · intro message hm
    rw [heq] at hm
    unfold COCOSpecDecode at hm
    by_cases h : (List.range 32).all
        (fun k => COCOSpecMatchesZero receiver receiver.durations k ||
          COCOSpecMatchesOne receiver receiver.durations k) = true
    · rw [if_pos h] at hm
      simp only [Option.map_some', Option.some.injEq] at hm
      rw [← hm]
      exact ⟨rfl, rfl⟩
    · rw [if_neg h] at hm
      exact absurd hm (by simp)

set_option maxRecDepth 1000000 in
theorem C26_COCO_analyze_reference_witness :
    COCOAlternatingReceiver.durationsIndex = 130 ∧
    4 * COCOAlternatingReceiver.singlePulseMinDuration < 2 ^ 32 ∧
    4 * COCOAlternatingReceiver.singlePulseMaxDuration < 2 ^ 32 ∧
    analyzeDurations COCOAlternatingReceiver 7 =
      some { timestamp := 7, fullMessageCode := 2863311530, address := 44739242,
             group := true, onOff := false, channel := 10 } ∧
    ((2863311530 : Nat) =
      ((List.range 32).map
        (fun k => COCOSpecBit COCOAlternatingReceiver COCOAlternatingReceiver.durations k *
          2 ^ (31 - k))).sum ∧ (7 : Nat) = 7) :=
  ⟨rfl, by decide, by decide, by decide,
    (C26_COCO_analyze_reference COCOAlternatingReceiver 7 rfl (by decide) (by decide)).2.2.2
      { timestamp := 7, fullMessageCode := 2863311530, address := 44739242,
        group := true, onOff := false, channel := 10 } (by decide)⟩

theorem mul32_three_right (n : Nat) (h : 3 * n < 4294967296) : mul32 n 3 = 3 * n := by
  unfold mul32
  rw [Nat.mul_comm]
  exact Nat.mod_eq_of_lt (by norm_num; exact h)

theorem KFSIsZero_spec (receiver : KFSReceiver) (i : Nat)
    (hmin : 3 * receiver.singlePulseMinDuration < 4294967296)
    (hmax : 3 * receiver.singlePulseMaxDuration < 4294967296) :
    KFSIsZero receiver i =
      (KFSSpecShort receiver (receiver.durations i) &&
        KFSSpecLong receiver (receiver.durations (i + 1))) := by
  unfold KFSIsZero KFSSpecShort KFSSpecLong KFSPulsesShort KFSPulsesLong
  rw [mul32_three_right _ hmin, mul32_three_right _ hmax,
    mul32_one_of_lt _ (by omega), mul32_one_of_lt _ (by omega)]
  rw [Bool.eq_iff_iff]
  simp only [Bool.and_eq_true, decide_eq_true_eq, gt_iff_lt]
  tauto

theorem KFSIsOne_spec (receiver : KFSReceiver) (i : Nat)
    (hmin : 3 * receiver.singlePulseMinDuration < 4294967296)
    (hmax : 3 * receiver.singlePulseMaxDuration < 4294967296) :
    KFSIsOne receiver i =
      (KFSSpecLong receiver (receiver.durations i) &&
        KFSSpecShort receiver (receiver.durations (i + 1))) := by
  unfold KFSIsOne KFSSpecShort KFSSpecLong KFSPulsesShort KFSPulsesLong
  rw [mul32_three_right _ hmin, mul32_three_right _ hmax,
    mul32_one_of_lt _ (by omega), mul32_one_of_lt _ (by omega)]
  rw [Bool.eq_iff_iff]
  simp only [Bool.and_eq_true, decide_eq_true_eq, gt_iff_lt]
  tauto

theorem KFSLoopPairsFrom_cons (receiver : KFSReceiver) (k : Nat)
    (hk : 2 * k + 1 < receiver.durationsIndex) :
    KFSLoopPairsFrom receiver k =
      (receiver.durations (2 * k + 1), receiver.durations (2 * k + 2)) ::
        KFSLoopPairsFrom receiver (k + 1) := by
  unfold KFSLoopPairsFrom
  have e : receiver.durationsIndex / 2 - k = (receiver.durationsIndex / 2 - (k + 1)) + 1 := by
    omega
  rw [e, List.range'_succ, List.map_cons]

theorem KFSLoopPairsFrom_nil (receiver : KFSReceiver) (k : Nat)
    (hk : ¬ 2 * k + 1 < receiver.durationsIndex) :
    KFSLoopPairsFrom receiver k = [] := by
  unfold KFSLoopPairsFrom
  have e : receiver.durationsIndex / 2 - k = 0 := by omega
  rw [e]
  rfl

/-- The loop of `arePulsesValidCode`, entered at pair `k` with `codeLength`
bits in `code`, appends the longest valid prefix of the remaining pairs it
tests, capped at 24 bits in all. -/
theorem arePulsesValidCodeLoop_pairs (receiver : KFSReceiver)
    (hmin : 3 * receiver.singlePulseMinDuration < 4294967296)
    (hmax : 3 * receiver.singlePulseMaxDuration < 4294967296) :
    ∀ (fuel k code codeLength : Nat), receiver.durationsIndex / 2 - k ≤ fuel →
      codeLength < 24 → code < 2 ^ codeLength →
      arePulsesValidCodeLoop receiver fuel (2 * k + 1) code codeLength =
        (((KFSSpecPrefix receiver (KFSLoopPairsFrom receiver k)).take
            (24 - codeLength)).foldl KFSSpecAppend code,
          codeLength +
            ((KFSSpecPrefix receiver (KFSLoopPairsFrom receiver k)).take
              (24 - codeLength)).length) := by
  intro fuel
  induction fuel with
  | zero =>
    intro k code codeLength hfuel _ _
    rw [arePulsesValidCodeLoop, KFSLoopPairsFrom_nil receiver k (by omega)]
    simp [KFSSpecPrefix]
  | succ fuel ih =>
    intro k code codeLength hfuel hl hc
    have hlen : (codeLength + 1) % 2 ^ 8 = codeLength + 1 := by
      apply Nat.mod_eq_of_lt; norm_num; omega
    have hpow : (2 : Nat) ^ codeLength ≤ 2 ^ 23 :=
      Nat.pow_le_pow_right (by norm_num) (by omega)
    have hcode : code < 8388608 := by
      have : (2 : Nat) ^ 23 = 8388608 := by norm_num
      omega
    have hshl : shl32 code 1 = code * 2 := by
      rw [shl32_eq _ 1 (by norm_num; omega)]; norm_num
    have hor : shl32 code 1 ||| 1 = code * 2 + 1 := by
      rw [hshl]
      have := or_of_mul_pow code 1 1 (by norm_num)
      simpa using this
    have hp1 : (2 : Nat) ^ (codeLength + 1) = 2 ^ codeLength * 2 := by ring
    have hi : 2 * k + 1 + 2 = 2 * (k + 1) + 1 := by ring
    have htake : 24 - codeLength = (24 - (codeLength + 1)) + 1 := by omega
    rw [arePulsesValidCodeLoop]
    by_cases hk : 2 * k + 1 < receiver.durationsIndex
    · rw [if_pos hk, KFSLoopPairsFrom_cons receiver k hk, KFSSpecPrefix, KFSSpecPairBit,
        KFSIsZero_spec receiver _ hmin hmax, KFSIsOne_spec receiver _ hmin hmax]
      have e2 : 2 * k + 1 + 1 = 2 * k + 2 := rfl
      simp only [e2]
      by_cases hz : (KFSSpecShort receiver (receiver.durations (2 * k + 1)) &&
          KFSSpecLong receiver (receiver.durations (2 * k + 2))) = true
      · rw [if_pos hz, if_pos hz]
        simp only [hlen]
        rw [htake, List.take_succ_cons, List.foldl_cons, List.length_cons]
        by_cases h24 : codeLength + 1 = 24
        · rw [if_pos h24]
          have e0 : 24 - (codeLength + 1) = 0 := by omega
          rw [e0, hshl]
          simp [KFSSpecAppend]
          omega
        · rw [if_neg h24, hi, ih (k + 1) (shl32 code 1) (codeLength + 1) (by omega) (by omega)
            (by rw [hshl, hp1]; omega), hshl]
          have ea : KFSSpecAppend code false = code * 2 := by
            simp [KFSSpecAppend]; omega
          rw [ea]
          congr 1
          omega
      · rw [if_neg hz, if_neg hz]
        by_cases ho : (KFSSpecLong receiver (receiver.durations (2 * k + 1)) &&
            KFSSpecShort receiver (receiver.durations (2 * k + 2))) = true
        · rw [if_pos ho, if_pos ho]
          simp only [hlen]
          rw [htake, List.take_succ_cons, List.foldl_cons, List.length_cons]
          by_cases h24 : codeLength + 1 = 24
          · rw [if_pos h24]
            have e0 : 24 - (codeLength + 1) = 0 := by omega
            rw [e0, hor]
            simp [KFSSpecAppend]
            omega
          · rw [if_neg h24, hi, ih (k + 1) (shl32 code 1 ||| 1) (codeLength + 1) (by omega)
              (by omega) (by rw [hor, hp1]; omega), hor]
            have ea : KFSSpecAppend code true = code * 2 + 1 := by
              simp [KFSSpecAppend]; omega
            rw [ea]
            congr 1
            omega
        · rw [if_neg ho, if_neg ho]
          simp
    · rw [if_neg hk, KFSLoopPairsFrom_nil receiver k hk]
      simp [KFSSpecPrefix]

set_option maxRecDepth 1000000 in
/-- Claim C28, evaluation at the failing input: two reachable receiver states
with the default configuration, the buffer index 10 and the same durations in
the slots 0 to 9 (a sync and the four bit pairs 1, 0, 1, 1 followed by an
opening pulse), one of which still holds 1050 in slot 10 from the five-bit
frame received before while the other holds 0 there. `arePulsesValidCode`
pairs slot 9 with slot 10: in the first state it decodes a fifth bit and
succeeds with identifier 22 and bit length 5, in the second it decodes the four
bits 1011 and returns false. The same happens on the sync edge that follows in
either state. -/
theorem C28_KFS_reads_stale_slot :
    KFSStaleReceiver.durationsIndex = 10 ∧ KFSCleanReceiver.durationsIndex = 10 ∧
    (∀ j, j < 10 → KFSStaleReceiver.durations j = KFSCleanReceiver.durations j) ∧
    (KFSStaleReceiver.singlePulseMinDuration = KFSCleanReceiver.singlePulseMinDuration ∧
      KFSStaleReceiver.singlePulseMaxDuration = KFSCleanReceiver.singlePulseMaxDuration ∧
      KFSStaleReceiver.startSyncLowMinDuration = KFSCleanReceiver.startSyncLowMinDuration ∧
      KFSStaleReceiver.startSyncLowMaxDuration = KFSCleanReceiver.startSyncLowMaxDuration ∧
      KFSStaleReceiver.singlePulseDuration = KFSCleanReceiver.singlePulseDuration ∧
      KFSStaleReceiver.positiveTolerance = KFSCleanReceiver.positiveTolerance ∧
      KFSStaleReceiver.negativeTolerance = KFSCleanReceiver.negativeTolerance ∧
      KFSStaleReceiver.repeatCount = KFSCleanReceiver.repeatCount ∧
      KFSStaleReceiver.refractoryPeriod = KFSCleanReceiver.refractoryPeriod ∧
      KFSStaleReceiver.callback = KFSCleanReceiver.callback) ∧
    KFSStaleReceiver.durations 10 = 1050 ∧ KFSCleanReceiver.durations 10 = 0 ∧
    arePulsesValidCodeLoop KFSStaleReceiver 10 1 0 0 = (22, 5) ∧
    arePulsesValidCodeLoop KFSCleanReceiver 10 1 0 0 = (11, 4) ∧
    arePulsesValidCode KFSStaleReceiver 47200 =
      some { identifier := 22, identifierBitSize := 5, timestamp := 47200 } ∧
    arePulsesValidCode KFSCleanReceiver 47200 = none ∧
    KFSEdgeAnalysis KFSStaleReceiver 47200 =
      some { identifier := 22, identifierBitSize := 5, timestamp := 47200 } ∧
    KFSEdgeAnalysis KFSCleanReceiver 29000 = none := by
  decide

set_option maxRecDepth 1000000 in
theorem COCOHeadlessDurations_plain :
    ∀ d ∈ COCOHeadlessDurations, d < 4294967296 ∧
      COCOInStartSync (COCOReceiverCreate (fun _ => 0) true) d = false ∧
      COCOInEndSync (COCOReceiverCreate (fun _ => 0) true) d = false := by
  decide

set_option maxRecDepth 1000000 in
theorem COCOHeadlessDurations_facts :
    COCOHeadlessDurations.length = 130 ∧
    advance 0 COCOHeadlessDurations = 58600 ∧
    (∀ j, j < 129 → 1 ≤ j → COCOHeadlessDurations.getD j 0 = COCOZeroFrameBuffer j) ∧
    COCOHeadlessDurations.getD 0 0 = 100 := by
  decide

/-- The state of the receiver that saw the headless frame. -/
theorem COCOHeadlessReceiver_eq :
    COCOHeadlessReceiver =
      { COCOReceiverCreate (fun _ => 0) true with
        durations := writeSlots (fun _ => 0) 0 COCOHeadlessDurations
        durationsIndex := 130
        lastTimestamp := 58600 } := by
  have e1 : (COCOReceiverCreate (fun _ => 0) true).durationsIndex = 0 := rfl
  have e2 : (COCOReceiverCreate (fun _ => 0) true).lastTimestamp = 0 := rfl
  have e3 : (COCOReceiverCreate (fun _ => 0) true).durations = fun _ => 0 := rfl
  have h := COCOFeedDurations_plain COCOHeadlessDurations
    (COCOReceiverCreate (fun _ => 0) true) COCOHeadlessDurations_plain
    (by rw [COCOHeadlessDurations_facts.1, e1])
  rw [e1, e2, e3, COCOHeadlessDurations_facts.1, COCOHeadlessDurations_facts.2.1] at h
  unfold COCOHeadlessReceiver
  rw [h]

set_option maxRecDepth 1000000 in
theorem COCOZeroFrame_decode :
    COCODecode COCOZeroFrameReceiver COCOZeroFrameBuffer = some 0 := by
  decide

set_option maxRecDepth 1000000 in
/-- Claim C29, evaluation at the failing input: a freshly created COCO receiver
whose first edge comes at tick 100 and is followed by the 128 bit durations of
the all-zero code, the high pulse 260 and, at tick 69000, the end-sync edge.
No duration was a start-sync, the buffer index is 130 and slot 0 holds 100,
which lies outside the start-sync window (1560, 3640); still the call of
`analyzeDurations` on the end-sync edge succeeds, and the timestamp of its
message is 0, the initial `startTime`, which is the timestamp of none of the
edges fed (the first of them is at tick 100). -/
theorem C29_COCO_analysis_without_start_sync :
    COCOHeadlessReceiver.durationsIndex = 130 ∧
    COCOHeadlessReceiver.durations 0 = 100 ∧
    COCOInStartSync COCOHeadlessReceiver (COCOHeadlessReceiver.durations 0) = false ∧
    (COCOHeadlessReceiver.startSyncLowMinDuration = 1560 ∧
      COCOHeadlessReceiver.startSyncLowMaxDuration = 3640) ∧
    COCOHeadlessReceiver.lastTimestamp = 58600 ∧
    COCOEdgeAnalysis COCOHeadlessReceiver 69000 =
      some { timestamp := 0, fullMessageCode := 0, address := 0, group := false,
             onOff := false, channel := 0 } ∧
    (∀ timestamp ∈ edgeTimestamps 0 (COCOHeadlessDurations ++ [10400]), 100 ≤ timestamp) := by
  have hslot : writeSlots (fun _ => 0) 0 COCOHeadlessDurations 0 = 100 := by
    rw [writeSlots_apply, if_pos (by rw [COCOHeadlessDurations_facts.1]; omega)]
    exact COCOHeadlessDurations_facts.2.2.2
  refine ⟨?_, ?_, ?_, ?_, ?_, ?_, ?_⟩
  · rw [COCOHeadlessReceiver_eq]
  · rw [COCOHeadlessReceiver_eq]
    exact hslot
  · rw [COCOHeadlessReceiver_eq]
    show COCOInStartSync _ (writeSlots (fun _ => 0) 0 COCOHeadlessDurations 0) = false
    rw [hslot]
    rfl
  · rw [COCOHeadlessReceiver_eq]
    exact ⟨rfl, rfl⟩
  · rw [COCOHeadlessReceiver_eq]
  · rw [COCOHeadlessReceiver_eq]
    have hedge := (COCOFeed_end
      { COCOReceiverCreate (fun _ => 0) true with
        durations := writeSlots (fun _ => 0) 0 COCOHeadlessDurations
        durationsIndex := 130
        lastTimestamp := 58600 } 10400 (by norm_num) rfl rfl).2.2
    have hts : add32 58600 10400 = 69000 := by decide
    rw [show add32 ({ COCOReceiverCreate (fun _ => 0) true with
        durations := writeSlots (fun _ => 0) 0 COCOHeadlessDurations
        durationsIndex := 130
        lastTimestamp := 58600 } : COCOReceiver).lastTimestamp 10400 = 69000 from hts] at hedge
    rw [hedge, analyzeDurations_eq_decode _ _ rfl]
    have hcongr := COCODecodeFrom_congr COCOZeroFrameReceiver
      ({ COCOReceiverCreate (fun _ => 0) true with
        durations := setSlot (writeSlots (fun _ => 0) 0 COCOHeadlessDurations) 130 10400
        durationsIndex := 130
        lastTimestamp := 58600 } : COCOReceiver)
      (setSlot (writeSlots (fun _ => 0) 0 COCOHeadlessDurations) 130 10400)
      COCOZeroFrameBuffer ⟨rfl, rfl⟩
      (by
        intro j h1 h2
        rw [setSlot_apply, if_neg (by omega), writeSlots_apply,
          if_pos (by rw [COCOHeadlessDurations_facts.1]; omega), Nat.sub_zero]
        exact COCOHeadlessDurations_facts.2.2.1 j (by omega) h1)
      32 0 0 (by omega)
    show Option.map _ (COCODecode _ _) = _
    unfold COCODecode
    rw [hcongr]
    have hz := COCOZeroFrame_decode
    unfold COCODecode at hz
    rw [hz]
    rfl
  · decide

set_option maxRecDepth 1000000 in
/-- The repeat state of the late-repeat scenario before its third frame: the
second frame was counted (`repeats` is 1, which is `repeatCount`) but
suppressed by the refractory test. -/
theorem COCOLateRepeat_state :
    (COCOFeedDurations COCOLateRepeatReceiver COCOLateRepeatOpening).1.repeats = 1 ∧
    (COCOFeedDurations COCOLateRepeatReceiver COCOLateRepeatOpening).1.repeatCount = 1 ∧
    (COCOFeedDurations COCOLateRepeatReceiver COCOLateRepeatOpening).1.previousMessageCode =
      64 ∧
    (COCOFeedDurations COCOLateRepeatReceiver COCOLateRepeatOpening).1.timestampPreviousHit =
      0 ∧
    (COCOFeedDurations COCOLateRepeatReceiver COCOLateRepeatOpening).1.refractoryPeriod = 1 := by
  have hcode : COCOFullCode COCOExampleMessage = 64 := by decide
  have hvalid : ∀ r : COCOReceiver, COCODefaultWindows r →
      COCOValidFrame r (OOKSenderSendCOCO COCOExampleMessage) = true ∧
      COCOFrameCode r (OOKSenderSendCOCO COCOExampleMessage) = 64 := by
    intro r hw
    have h := OOKSenderSendCOCO_valid r hw COCOExampleMessage
    rw [hcode] at h
    exact h
  have hadv : advance 1000 (OOKSenderSendCOCO COCOExampleMessage) = 72760 := by decide
  have hF0 : (OOKSenderSendCOCO COCOExampleMessage).getD 0 0 = 260 := by decide
  have hF1 : (OOKSenderSendCOCO COCOExampleMessage).getD 1 0 = 2600 := by decide
  unfold COCOLateRepeatOpening
  generalize OOKSenderSendCOCO COCOExampleMessage = frame at *
  obtain ⟨S, D, I, hfeed⟩ := COCOFeed_first COCOLateRepeatReceiver 1000 (by decide) rfl
  have hw0 : COCODefaultWindows COCOLateRepeatReceiver := ⟨rfl, rfl, rfl, rfl, rfl, rfl⟩
  generalize hr1 : ({ COCOLateRepeatReceiver with
      startTime := S, durations := D, durationsIndex := I
      lastTimestamp := add32 COCOLateRepeatReceiver.lastTimestamp 1000
      previousMessageCode := 0 } : COCOReceiver) = r1 at hfeed
  have hw1 : COCODefaultWindows r1 := by rw [← hr1]; exact hw0
  obtain ⟨hv1, hc1⟩ := hvalid r1 hw1
  have pr1 : r1.previousMessageCode = 0 := by rw [← hr1]
  have lt1 : r1.lastTimestamp = 1000 := by rw [← hr1]; rfl
  have a1 := COCOAccept_new (COCOAfterFrame r1 frame) (COCOFrameMessage r1 frame)
    (by
      show COCOFrameCode r1 frame ≠ r1.previousMessageCode
      rw [hc1, pr1]
      decide)
  generalize hr2 : ({ COCOAfterFrame r1 frame with
      repeats := 0
      previousMessageCode := (COCOFrameMessage r1 frame).fullMessageCode } :
      COCOReceiver) = r2 at a1
  have hw2 : COCODefaultWindows r2 := by
    obtain ⟨w1, w2, w3, w4, w5, w6⟩ := hw1
    rw [← hr2]
    exact ⟨w1, w2, w3, w4, w5, w6⟩
  obtain ⟨hv2, hc2⟩ := hvalid r2 hw2
  have p2 : r2.previousMessageCode = 64 := by rw [← hr2]; exact hc1
  have q2 : r2.repeats = 0 := by rw [← hr2]
  have c2 : r2.repeatCount = 1 := by rw [← hr2, ← hr1]; rfl
  have f2 : r2.refractoryPeriod = 1 := by rw [← hr2, ← hr1]; rfl
  have t2 : r2.timestampPreviousHit = 0 := by rw [← hr2, ← hr1]; rfl
  have l2 : r2.lastTimestamp = 72760 := by
    rw [← hr2]
    show advance r1.lastTimestamp frame = _
    rw [lt1]
    exact hadv
  have o2 : COCOFrameOrigin r2 frame = 75620 := by
    unfold COCOFrameOrigin
    rw [l2, hF0, hF1]
    decide
  have a2 := COCOAccept_refractory (COCOAfterFrame r2 frame) (COCOFrameMessage r2 frame)
    (by
      show COCOFrameCode r2 frame = r2.previousMessageCode
      rw [hc2, p2])
    (by
      show r2.repeatCount ≤ add32 r2.repeats 1
      rw [c2, q2]
      decide)
    (by
      show ¬ mul32 r2.refractoryPeriod 1000000 <
        sub32 (COCOFrameOrigin r2 frame) r2.timestampPreviousHit
      rw [f2, t2, o2]
      decide)
  rw [COCOFeedDurations_cons, hfeed, COCOFeedDurations_append,
    COCOFeedDurations_validFrame r1 _ hv1, a1, COCOFeedDurations_validFrame r2 _ hv2, a2]
  refine ⟨?_, c2, ?_, t2, f2⟩
  · show add32 r2.repeats 1 = 1
    rw [q2]
    rfl
  · show COCOFrameCode r2 frame = 64
    exact hc2

/-- When feeding the first part of a run reports nothing, the reports of the
whole run are those of its second part. -/
theorem COCOFeedDurations_append_silent (receiver : COCOReceiver) (ds es : List Nat)
    (h : (COCOFeedDurations receiver ds).2 = []) :
    (COCOFeedDurations (COCOFeedDurations receiver ds).1 es).2 =
      (COCOFeedDurations receiver (ds ++ es)).2 := by
  rw [COCOFeedDurations_append, h]
  rfl

set_option maxRecDepth 1000000 in
/-- Claim C30, counterexample: a freshly created COCO receiver with a handler,
repeatCount 1 and refractoryPeriod 1 second sees its first edge at tick 1000,
two consecutive nominal frames of the message with address 1 and a third frame
of it that starts one second later. Nothing is reported for the first two
frames: the second is counted (`repeats` becomes 1, which is `repeatCount`)
but its origin 75620 is not more than 1,000,000 microseconds after the initial
time of the previous hit, 0. For the third frame the incremented `repeats` is
2, which differs from `repeatCount`, and the handler is invoked (origin
1147380). -/
theorem C30_COCO_accept_rule_counterexample :
    (COCOFeedDurations COCOLateRepeatReceiver COCOLateRepeatOpening).2 = [] ∧
    (COCOFeedDurations COCOLateRepeatReceiver COCOLateRepeatOpening).1.repeats = 1 ∧
    (COCOFeedDurations COCOLateRepeatReceiver COCOLateRepeatOpening).1.repeatCount = 1 ∧
    add32 (COCOFeedDurations COCOLateRepeatReceiver COCOLateRepeatOpening).1.repeats 1 ≠
      (COCOFeedDurations COCOLateRepeatReceiver COCOLateRepeatOpening).1.repeatCount ∧
    (COCOFeedDurations
        (COCOFeedDurations COCOLateRepeatReceiver COCOLateRepeatOpening).1
        COCOLateRepeatFrame).2.map (fun message => (message.timestamp, message.address)) =
      [(1147380, 1)] := by
  have hall : (COCOFeedDurations COCOLateRepeatReceiver
      (COCOLateRepeatOpening ++ COCOLateRepeatFrame)).2.map
      (fun message => (message.timestamp, message.address)) = [(1147380, 1)] := by
    decide
  have hopen : (COCOFeedDurations COCOLateRepeatReceiver COCOLateRepeatOpening).2 = [] := by
    decide
  have hsplit := COCOFeedDurations_append_silent COCOLateRepeatReceiver COCOLateRepeatOpening
    COCOLateRepeatFrame hopen
  obtain ⟨h1, h2, -, -, -⟩ := COCOLateRepeat_state
  refine ⟨hopen, h1, h2, ?_,
    (congrArg (List.map (fun message => (message.timestamp, message.address))) hsplit).trans
      hall⟩
  rw [h1, h2]
  decide

/-- Claim C30 (amended): the COCO accept rule. For a receiver with a handler
registered, a refractoryPeriod of at most 4294 seconds (so that the 32-bit
product `refractoryPeriod * 1000000` does not wrap) and `repeats` below
`UINT32_MAX`: when the code of a structurally valid candidate equals
`previousMessageCode`, `repeats` is incremented and the handler is invoked
exactly when the incremented `repeats` is at least `repeatCount` and the 32-bit
difference `timestamp - timestampPreviousHit` exceeds
`refractoryPeriod * 1000000`; the handler then receives the candidate, the time
of the previous hit becomes its timestamp and `repeats` is reset to 0. In every
other case, in particular when the incremented `repeats` is below `repeatCount`
or the code differs from `previousMessageCode` (which resets `repeats` to 0),
nothing is reported for that frame. -/
theorem C30_COCO_accept_rule (receiver : COCOReceiver) (message : COCOMessage)
    (hcallback : receiver.callback = true)
    (hrepeats : receiver.repeats + 1 < 2 ^ 32)
    (hperiod : receiver.refractoryPeriod ≤ 4294) :
    (message.fullMessageCode = receiver.previousMessageCode →
      (receiver.repeatCount ≤ receiver.repeats + 1 ∧
          receiver.refractoryPeriod * 1000000 <
            sub32 message.timestamp receiver.timestampPreviousHit →
        (COCOAccept receiver message).2 = some message ∧
        (COCOAccept receiver message).1.repeats = 0 ∧
        (COCOAccept receiver message).1.timestampPreviousHit = message.timestamp) ∧
      (¬ (receiver.repeatCount ≤ receiver.repeats + 1 ∧
          receiver.refractoryPeriod * 1000000 <
            sub32 message.timestamp receiver.timestampPreviousHit) →
        (COCOAccept receiver message).2 = none ∧
        (COCOAccept receiver message).1.repeats = receiver.repeats + 1 ∧
        (COCOAccept receiver message).1.timestampPreviousHit =
          receiver.timestampPreviousHit)) ∧
    (message.fullMessageCode ≠ receiver.previousMessageCode →
      (COCOAccept receiver message).2 = none ∧
      (COCOAccept receiver message).1.repeats = 0 ∧
      (COCOAccept receiver message).1.timestampPreviousHit = receiver.timestampPreviousHit) ∧
    (COCOAccept receiver message).1.previousMessageCode = message.fullMessageCode := by
  have hadd : add32 receiver.repeats 1 = receiver.repeats + 1 :=
    add32_of_lt _ _ (by norm_num at hrepeats; exact hrepeats)
  have hmul : mul32 receiver.refractoryPeriod 1000000 = receiver.refractoryPeriod * 1000000 := by
    unfold mul32
    exact Nat.mod_eq_of_lt (by norm_num; omega)
  refine ⟨?_, ?_, ?_⟩
  · intro hcode
    constructor
    · rintro ⟨hge, href⟩
      rw [COCOAccept_hit receiver message hcode (by rw [hadd]; exact hge)
        (by rw [hmul]; exact href)]
      refine ⟨?_, rfl, rfl⟩
      show (if receiver.callback = true then some message else none) = some message
      rw [if_pos hcallback]
    · intro hnot
      by_cases hge : receiver.repeatCount ≤ receiver.repeats + 1
      · have href : ¬ mul32 receiver.refractoryPeriod 1000000 <
            sub32 message.timestamp receiver.timestampPreviousHit := by
          rw [hmul]
          intro h
          exact hnot ⟨hge, h⟩
        rw [COCOAccept_refractory receiver message hcode (by rw [hadd]; exact hge) href]
        exact ⟨rfl, hadd, rfl⟩
      · rw [COCOAccept_count receiver message hcode (by rw [hadd]; omega)]
        exact ⟨rfl, hadd, rfl⟩
  · intro hcode
    rw [COCOAccept_new receiver message hcode]
    exact ⟨rfl, rfl, rfl⟩
  · unfold COCOAccept
    simp only []
    split_ifs <;> rfl

set_option maxRecDepth 1000000 in
theorem C30_COCO_accept_rule_witness :
    ({ COCOLateRepeatReceiver with repeats := 1, previousMessageCode := 64 } :
      COCOReceiver).callback = true ∧
    (COCOAccept { COCOLateRepeatReceiver with repeats := 1, previousMessageCode := 64 }
      { timestamp := 1147380, fullMessageCode := 64, address := 1, group := false,
        onOff := false, channel := 0 }).2 =
      some { timestamp := 1147380, fullMessageCode := 64, address := 1, group := false,
             onOff := false, channel := 0 } :=
  ⟨rfl,
    ((C30_COCO_accept_rule
      { COCOLateRepeatReceiver with repeats := 1, previousMessageCode := 64 }
      { timestamp := 1147380, fullMessageCode := 64, address := 1, group := false,
        onOff := false, channel := 0 } rfl (by decide) (by decide)).1 rfl).1
      (by decide) |>.1⟩

/-- The second `if` of the feed function leaves the buffer index alone and
writes at most the slot at the index. -/
theorem COCOEndSync_buffer (receiver : COCOReceiver) (duration : Nat) :
    (COCOEndSync receiver duration).1.durationsIndex = receiver.durationsIndex ∧
    (COCOEndSync receiver duration).1.lastTimestamp = receiver.lastTimestamp ∧
    (COCOEndSync receiver duration).1.durations =
      (if COCOInEndSync receiver duration = true then
        setSlot receiver.durations receiver.durationsIndex duration
      else receiver.durations) := by
  unfold COCOEndSync COCOInEndSync
  by_cases he : duration > receiver.endSyncLowMinDuration ∧
      duration < receiver.endSyncLowMaxDuration
  · rw [if_pos he, if_pos (by simpa using he)]
    simp only []
    cases ha : analyzeDurations
        { receiver with durations := setSlot receiver.durations receiver.durationsIndex duration }
        receiver.startTime with
    | none => exact ⟨rfl, rfl, rfl⟩
    | some message =>
      obtain ⟨R, T, P, out, hacc⟩ := COCOAccept_shape
        { receiver with durations := setSlot receiver.durations receiver.durationsIndex duration }
        message
      simp only []
      rw [hacc]
      exact ⟨rfl, rfl, rfl⟩
  · rw [if_neg he, if_neg (by simpa using he)]
    exact ⟨rfl, rfl, rfl⟩

/-- An edge whose duration lies in the end-sync window and for which the call
of `analyzeDurations` fails: the handler is not invoked and
`previousMessageCode` becomes 0; `repeats` and the time of the previous hit stay
as they are, and the next decoded frame of any code other than 0 starts a new
count: it is not reported and leaves `repeats` at 0. (A next frame of code 0
equals the cleared marker and is counted on.) -/
theorem COCOFeed_failed_decode (receiver : COCOReceiver) (timestamp : Nat)
    (hend : COCOInEndSync receiver (sub32 timestamp receiver.lastTimestamp) = true)
    (hfail : COCOEdgeAnalysis receiver timestamp = none) :
    (COCOReceiverFeedGPIOValueChangeTime receiver timestamp).2 = none ∧
    (COCOReceiverFeedGPIOValueChangeTime receiver timestamp).1.previousMessageCode = 0 ∧
    (COCOReceiverFeedGPIOValueChangeTime receiver timestamp).1.repeats = receiver.repeats ∧
    (COCOReceiverFeedGPIOValueChangeTime receiver timestamp).1.timestampPreviousHit =
      receiver.timestampPreviousHit ∧
    (∀ message : COCOMessage, message.fullMessageCode ≠ 0 →
      (COCOAccept (COCOReceiverFeedGPIOValueChangeTime receiver timestamp).1 message).2 = none ∧
      (COCOAccept (COCOReceiverFeedGPIOValueChangeTime receiver timestamp).1
        message).1.repeats = 0) := by
  simp only [COCOInEndSync, decide_eq_true_eq] at hend
  have hstart : ∀ r : COCOReceiver,
      r = COCOStartSync receiver timestamp (sub32 timestamp receiver.lastTimestamp) →
      r.endSyncLowMinDuration = receiver.endSyncLowMinDuration ∧
      r.endSyncLowMaxDuration = receiver.endSyncLowMaxDuration ∧
      r.repeats = receiver.repeats ∧
      r.timestampPreviousHit = receiver.timestampPreviousHit := by
    intro r hr
    subst hr
    unfold COCOStartSync
    split_ifs <;> exact ⟨rfl, rfl, rfl, rfl⟩
  unfold COCOEdgeAnalysis at hfail
  simp only [] at hfail
  unfold COCOReceiverFeedGPIOValueChangeTime
  simp only []
  generalize hr : COCOStartSync receiver timestamp (sub32 timestamp receiver.lastTimestamp) = r
    at hfail
  obtain ⟨e1, e2, e3, e4⟩ := hstart r hr.symm
  have hend' : sub32 timestamp receiver.lastTimestamp > r.endSyncLowMinDuration ∧
      sub32 timestamp receiver.lastTimestamp < r.endSyncLowMaxDuration := by
    rw [e1, e2]; exact hend
  rw [if_pos hend'] at hfail
  have hES : COCOEndSync r (sub32 timestamp receiver.lastTimestamp) =
      ({ r with
          durations := setSlot r.durations r.durationsIndex
            (sub32 timestamp receiver.lastTimestamp)
          previousMessageCode := 0 }, none) := by
    unfold COCOEndSync
    rw [if_pos hend']
    simp only []
    rw [hfail]
  rw [hES]
  have hprev : (COCOStore
      { r with
        durations := setSlot r.durations r.durationsIndex
          (sub32 timestamp receiver.lastTimestamp)
        previousMessageCode := 0 } timestamp
      (sub32 timestamp receiver.lastTimestamp)).previousMessageCode = 0 := by
    rw [COCOStore_shape]
  refine ⟨rfl, hprev, ?_, ?_, ?_⟩
  · rw [COCOStore_shape]
    exact e3
  · rw [COCOStore_shape]
    exact e4
  · intro message hm
    rw [COCOAccept_new _ message (by rw [hprev]; exact hm)]
    exact ⟨rfl, rfl⟩

/-- The two causes of a failed analysis that the source names: too few
durations collected, and a group that matches neither pattern. -/
theorem COCOEdgeAnalysis_fails (receiver : COCOReceiver) (timestamp : Nat) :
    ((COCOStartSync receiver timestamp
        (sub32 timestamp receiver.lastTimestamp)).durationsIndex < 130 →
      COCOEdgeAnalysis receiver timestamp = none) ∧
    (COCOInStartSync receiver (sub32 timestamp receiver.lastTimestamp) = false →
      receiver.durationsIndex = 130 →
      (∃ k, k < 32 ∧ COCOGroupBit receiver receiver.durations k = none) →
      COCOEdgeAnalysis receiver timestamp = none) := by
  constructor
  · intro h
    unfold COCOEdgeAnalysis
    simp only []
    split_ifs
    · exact analyzeDurations_short _ _ h
    · rfl
  · intro hs hidx ⟨k, hk, hg⟩
    simp only [COCOInStartSync, decide_eq_false_iff_not] at hs
    unfold COCOEdgeAnalysis
    simp only [COCOStartSync, if_neg hs]
    split_ifs
    · rw [analyzeDurations_eq_decode
        ({ receiver with
          durations := setSlot receiver.durations receiver.durationsIndex
            (sub32 timestamp receiver.lastTimestamp) } : COCOReceiver) receiver.startTime hidx]
      have hcongr := COCODecodeFrom_congr receiver
        ({ receiver with
          durations := setSlot receiver.durations receiver.durationsIndex
            (sub32 timestamp receiver.lastTimestamp) } : COCOReceiver)
        (setSlot receiver.durations receiver.durationsIndex
          (sub32 timestamp receiver.lastTimestamp))
        receiver.durations ⟨rfl, rfl⟩
        (by
          intro j h1 h2
          rw [setSlot_apply, if_neg (by omega)])
        32 0 0 (by omega)
      show Option.map _ (COCODecode _ _) = none
      unfold COCODecode
      rw [hcongr]
      have hnone : ¬ (COCODecodeFrom receiver receiver.durations 32 0 0).isSome = true := by
        intro hsome
        have := (COCODecodeFrom_isSome receiver receiver.durations 32 0 0).1 hsome k
          (by omega) (by omega)
        rw [hg] at this
        exact absurd this (by simp)
      cases hd : COCODecodeFrom receiver receiver.durations 32 0 0 with
      | none => rfl
      | some code => rw [hd] at hnone; exact absurd rfl hnone
    · rfl

/-- One call of the COCO feed function writes the new duration into one slot,
slot 0 after a start-sync and the slot at the index otherwise, and leaves the
index behind that slot, wrapped at 131. -/
theorem COCOFeed_buffer (receiver : COCOReceiver) (timestamp : Nat) :
    (COCOReceiverFeedGPIOValueChangeTime receiver timestamp).1.durations =
      setSlot receiver.durations
        (if COCOInStartSync receiver (sub32 timestamp receiver.lastTimestamp) = true then 0
          else receiver.durationsIndex)
        (sub32 timestamp receiver.lastTimestamp) ∧
    (COCOReceiverFeedGPIOValueChangeTime receiver timestamp).1.durationsIndex =
      (if add32 (if COCOInStartSync receiver (sub32 timestamp receiver.lastTimestamp) = true
            then 0 else receiver.durationsIndex) 1 = 131 then 0
        else add32 (if COCOInStartSync receiver (sub32 timestamp receiver.lastTimestamp) = true
            then 0 else receiver.durationsIndex) 1) ∧
    (COCOReceiverFeedGPIOValueChangeTime receiver timestamp).1.lastTimestamp = timestamp := by
  unfold COCOReceiverFeedGPIOValueChangeTime
  simp only []
  generalize hd : sub32 timestamp receiver.lastTimestamp = d
  have hstart : (COCOStartSync receiver timestamp d).durations = receiver.durations ∧
      (COCOStartSync receiver timestamp d).durationsIndex =
        (if COCOInStartSync receiver d = true then 0 else receiver.durationsIndex) := by
    unfold COCOStartSync COCOInStartSync
    by_cases hs : d > receiver.startSyncLowMinDuration ∧ d < receiver.startSyncLowMaxDuration
    · rw [if_pos hs, if_pos (by simpa using hs)]
      exact ⟨rfl, rfl⟩
    · rw [if_neg hs, if_neg (by simpa using hs)]
      exact ⟨rfl, rfl⟩
  generalize COCOStartSync receiver timestamp d = r at hstart
  obtain ⟨s1, s2⟩ := hstart
  obtain ⟨b1, -, b3⟩ := COCOEndSync_buffer r d
  generalize COCOEndSync r d = result at b1 b3
  unfold COCOStore
  simp only []
  rw [b1, b3, s1, s2]
  generalize (if COCOInStartSync receiver d = true then 0 else receiver.durationsIndex) = j
  refine ⟨?_, ?_, ?_⟩
  · split_ifs
    all_goals first
      | rfl
      | exact setSlot_setSlot_same _ _ _
  · unfold COCOMessagePulseCount
    split_ifs <;> rfl
  · trivial

/-- The buffer index of a COCO receiver stays below 131 whatever edges are
fed. -/
theorem COCOReceiverFeedAll_index (timestamps : List Nat) :
    ∀ receiver : COCOReceiver, receiver.durationsIndex < 131 →
      (COCOReceiverFeedAll receiver timestamps).1.durationsIndex < 131 := by
  induction timestamps with
  | nil => intro receiver h; exact h
  | cons timestamp rest ih =>
    intro receiver h
    rw [COCOReceiverFeedAll]
    apply ih
    rw [(COCOFeed_buffer receiver timestamp).2.1]
    have hj : (if COCOInStartSync receiver (sub32 timestamp receiver.lastTimestamp) = true
        then 0 else receiver.durationsIndex) < 131 := by
      split_ifs
      · norm_num
      · exact h
    generalize (if COCOInStartSync receiver (sub32 timestamp receiver.lastTimestamp) = true
      then 0 else receiver.durationsIndex) = j at hj ⊢
    rw [add32_of_lt j 1 (by omega)]
    by_cases h1 : j + 1 = 131
    · rw [if_pos h1]
      norm_num
    · rw [if_neg h1]
      omega

/-- Claim C35: a call of `COCOReceiverFeedGPIOValueChangeTime` made with buffer
index `i < 131` writes the new duration into exactly one slot `j`, slot 0 when
the duration is a start-sync and slot `i` otherwise; every other slot keeps its
content (a start-sync clears nothing); and the index is left at
`(j + 1) mod 131`, which is below 131. Hence the index is below 131 in every
state reached by feeding edges to a freshly created receiver. -/
theorem C35_COCO_buffer_step (receiver : COCOReceiver) (timestamp : Nat)
    (hidx : receiver.durationsIndex < 131) :
    (COCOReceiverFeedGPIOValueChangeTime receiver timestamp).1.durations
        (if COCOInStartSync receiver (sub32 timestamp receiver.lastTimestamp) = true then 0
          else receiver.durationsIndex) =
      sub32 timestamp receiver.lastTimestamp ∧
    (∀ k, k ≠ (if COCOInStartSync receiver (sub32 timestamp receiver.lastTimestamp) = true
          then 0 else receiver.durationsIndex) →
      (COCOReceiverFeedGPIOValueChangeTime receiver timestamp).1.durations k =
        receiver.durations k) ∧
    (COCOReceiverFeedGPIOValueChangeTime receiver timestamp).1.durationsIndex =
      ((if COCOInStartSync receiver (sub32 timestamp receiver.lastTimestamp) = true then 0
          else receiver.durationsIndex) + 1) % 131 ∧
    (COCOReceiverFeedGPIOValueChangeTime receiver timestamp).1.durationsIndex < 131 ∧
    (∀ (durations : Nat → Nat) (callback : Bool) (timestamps : List Nat),
      (COCOReceiverFeedAll (COCOReceiverCreate durations callback)
        timestamps).1.durationsIndex < 131) := by
  obtain ⟨h1, h2, -⟩ := COCOFeed_buffer receiver timestamp
  have hj : (if COCOInStartSync receiver (sub32 timestamp receiver.lastTimestamp) = true
      then 0 else receiver.durationsIndex) < 131 := by
    split_ifs
    · norm_num
    · exact hidx
  rw [h1, h2]
  generalize (if COCOInStartSync receiver (sub32 timestamp receiver.lastTimestamp) = true
    then 0 else receiver.durationsIndex) = j at hj ⊢
  rw [add32_of_lt j 1 (by omega)]
  refine ⟨?_, ?_, ?_, ?_, ?_⟩
  · rw [setSlot_apply, if_pos rfl]
  · intro k hk
    rw [setSlot_apply, if_neg hk]
  · by_cases hw : j + 1 = 131
    · rw [if_pos hw, hw]
    · rw [if_neg hw, Nat.mod_eq_of_lt (by omega)]
  · by_cases hw : j + 1 = 131
    · rw [if_pos hw]
      norm_num
    · rw [if_neg hw]
      omega
  · intro durations callback timestamps
    exact COCOReceiverFeedAll_index timestamps _ (by show 0 < 131; norm_num)

theorem C35_COCO_buffer_step_witness :
    (COCOReceiverCreate (fun _ => 7) true).durationsIndex < 131 ∧
    COCOInStartSync (COCOReceiverCreate (fun _ => 7) true)
      (sub32 2600 (COCOReceiverCreate (fun _ => 7) true).lastTimestamp) = true ∧
    (COCOReceiverFeedGPIOValueChangeTime (COCOReceiverCreate (fun _ => 7) true)
      2600).1.durations 0 = 2600 ∧
    (COCOReceiverFeedGPIOValueChangeTime (COCOReceiverCreate (fun _ => 7) true)
      2600).1.durationsIndex = 1 :=
  ⟨by decide, by decide,
    (C35_COCO_buffer_step (COCOReceiverCreate (fun _ => 7) true) 2600 (by decide)).1,
    (C35_COCO_buffer_step (COCOReceiverCreate (fun _ => 7) true) 2600 (by decide)).2.2.1⟩

/-- Claim C39: for a receiver state with buffer index 130, the result of
`analyzeDurations` (success and every field of the message) is the same for
every buffer that differs from the receiver's only in slot 0 and slot 129;
in particular it does not change when those two slots are overwritten with
arbitrary durations. -/
theorem C39_COCO_unvalidated_slots (receiver : COCOReceiver) (timestamp : Nat)
    (hidx : receiver.durationsIndex = 130) :
    (∀ other : Nat → Nat, (∀ j, j ≠ 0 → j ≠ 129 → other j = receiver.durations j) →
      analyzeDurations { receiver with durations := other } timestamp =
        analyzeDurations receiver timestamp) ∧
    (∀ a b : Nat,
      analyzeDurations
          { receiver with durations := setSlot (setSlot receiver.durations 0 a) 129 b }
          timestamp =
        analyzeDurations receiver timestamp) := by
  have hgen : ∀ other : Nat → Nat, (∀ j, j ≠ 0 → j ≠ 129 → other j = receiver.durations j) →
      analyzeDurations { receiver with durations := other } timestamp =
        analyzeDurations receiver timestamp := by
    intro other hother
    rw [analyzeDurations_eq_decode ({ receiver with durations := other } : COCOReceiver)
      timestamp hidx, analyzeDurations_eq_decode receiver timestamp hidx]
    have hcongr := COCODecodeFrom_congr receiver
      ({ receiver with durations := other } : COCOReceiver) other receiver.durations
      ⟨rfl, rfl⟩ (fun j h1 h2 => hother j (by omega) (by omega)) 32 0 0 (by omega)
    unfold COCODecode
    show Option.map _ (COCODecodeFrom _ other 32 0 0) = _
    rw [hcongr]
    rfl
  refine ⟨hgen, ?_⟩
  intro a b
  apply hgen
  intro j h0 h129
  rw [setSlot_apply, if_neg h129, setSlot_apply, if_neg h0]

set_option maxRecDepth 1000000 in
theorem C39_COCO_unvalidated_slots_witness :
    COCOAlternatingReceiver.durationsIndex = 130 ∧
    analyzeDurations
        { COCOAlternatingReceiver with
          durations := setSlot (setSlot COCOAlternatingReceiver.durations 0 7) 129 99999 } 5 =
      analyzeDurations COCOAlternatingReceiver 5 ∧
    analyzeDurations COCOAlternatingReceiver 5 =
      some { timestamp := 5, fullMessageCode := 2863311530, address := 44739242,
             group := true, onOff := false, channel := 10 } :=
  ⟨rfl, (C39_COCO_unvalidated_slots COCOAlternatingReceiver 5 rfl).2 7 99999, by decide⟩

theorem KFSReceiverCreate_windows (durations : Nat → Nat) (callback : Bool) :
    KFSDefaultWindows (KFSReceiverCreate durations callback) := by
  simp only [KFSDefaultWindows, KFSReceiverCreate, KFSUpdateDurationsForReceiver]
  decide

/-- With the default COCO windows no group of four matches both patterns. -/
theorem COCODefaultWindows_patterns (receiver : COCOReceiver)
    (hw : COCODefaultWindows receiver) (bitValues : Nat → Nat) :
    ¬ (COCOIsZero receiver bitValues = true ∧ COCOIsOne receiver bitValues = true) := by
  obtain ⟨w1, w2, -, -, -, -⟩ := hw
  have l1 : mul32 COCOPulsesLong 156 = 624 := by decide
  have l2 : mul32 COCOPulsesLong 364 = 1456 := by decide
  unfold COCOIsZero COCOIsOne
  rw [w1, w2, l1, l2]
  simp only [Bool.and_eq_true, decide_eq_true_eq]
  omega

/-- With the default KFS windows no pair matches both patterns. -/
theorem KFSDefaultWindows_patterns (receiver : KFSReceiver)
    (hw : KFSDefaultWindows receiver) (i : Nat) :
    ¬ (KFSIsZero receiver i = true ∧ KFSIsOne receiver i = true) := by
  obtain ⟨w1, w2, -, -⟩ := hw
  have s1 : mul32 280 KFSPulsesShort = 280 := by decide
  have s2 : mul32 420 KFSPulsesShort = 420 := by decide
  have l1 : mul32 280 KFSPulsesLong = 840 := by decide
  have l2 : mul32 420 KFSPulsesLong = 1260 := by decide
  unfold KFSIsZero KFSIsOne
  rw [w1, w2, s1, s2, l1, l2]
  simp only [Bool.and_eq_true, decide_eq_true_eq]
  omega

/-- Claim C37: in the default configuration the pulse windows of each decoder
are ordered and pairwise disjoint. For a created COCO receiver the unit window
is (156, 364), the long window, four times the unit bounds, is (624, 1456),
the start-sync window is (1560, 3640) and the end-sync window (6240, 14560);
for a created KFS receiver the unit window is (280, 420), the long window,
three times the unit bounds, is (840, 1260) and the sync window
(8680, 13020). No duration lies strictly inside two of the windows of a
decoder, no four durations pass both the '0' and the '1' test of
`analyzeDurations`, and no pair of slots passes both tests of
`arePulsesValidCode`, whatever the buffers hold. -/
theorem C37_unambiguous_defaults (durations : Nat → Nat) (callback : Bool) :
    ((COCOReceiverCreate durations callback).singlePulseMinDuration = 156 ∧
      (COCOReceiverCreate durations callback).singlePulseMaxDuration = 364 ∧
      mul32 COCOPulsesLong (COCOReceiverCreate durations callback).singlePulseMinDuration =
        624 ∧
      mul32 COCOPulsesLong (COCOReceiverCreate durations callback).singlePulseMaxDuration =
        1456 ∧
      (COCOReceiverCreate durations callback).startSyncLowMinDuration = 1560 ∧
      (COCOReceiverCreate durations callback).startSyncLowMaxDuration = 3640 ∧
      (COCOReceiverCreate durations callback).endSyncLowMinDuration = 6240 ∧
      (COCOReceiverCreate durations callback).endSyncLowMaxDuration = 14560) ∧
    (∀ d : Nat,
      ((COCOReceiverCreate durations callback).singlePulseMinDuration < d ∧
          d < (COCOReceiverCreate durations callback).singlePulseMaxDuration →
        ¬ (mul32 COCOPulsesLong (COCOReceiverCreate durations callback).singlePulseMinDuration
            < d ∧
          d < mul32 COCOPulsesLong
            (COCOReceiverCreate durations callback).singlePulseMaxDuration) ∧
        COCOInStartSync (COCOReceiverCreate durations callback) d = false ∧
        COCOInEndSync (COCOReceiverCreate durations callback) d = false) ∧
      (mul32 COCOPulsesLong (COCOReceiverCreate durations callback).singlePulseMinDuration
            < d ∧
          d < mul32 COCOPulsesLong
            (COCOReceiverCreate durations callback).singlePulseMaxDuration →
        COCOInStartSync (COCOReceiverCreate durations callback) d = false ∧
        COCOInEndSync (COCOReceiverCreate durations callback) d = false) ∧
      (COCOInStartSync (COCOReceiverCreate durations callback) d = true →
        COCOInEndSync (COCOReceiverCreate durations callback) d = false)) ∧
    (∀ bitValues : Nat → Nat,
      ¬ (COCOIsZero (COCOReceiverCreate durations callback) bitValues = true ∧
        COCOIsOne (COCOReceiverCreate durations callback) bitValues = true)) ∧
    ((KFSReceiverCreate durations callback).singlePulseMinDuration = 280 ∧
      (KFSReceiverCreate durations callback).singlePulseMaxDuration = 420 ∧
      mul32 (KFSReceiverCreate durations callback).singlePulseMinDuration KFSPulsesLong =
        840 ∧
      mul32 (KFSReceiverCreate durations callback).singlePulseMaxDuration KFSPulsesLong =
        1260 ∧
      (KFSReceiverCreate durations callback).startSyncLowMinDuration = 8680 ∧
      (KFSReceiverCreate durations callback).startSyncLowMaxDuration = 13020) ∧
    (∀ d : Nat,
      ((KFSReceiverCreate durations callback).singlePulseMinDuration < d ∧
          d < (KFSReceiverCreate durations callback).singlePulseMaxDuration →
        ¬ (mul32 (KFSReceiverCreate durations callback).singlePulseMinDuration KFSPulsesLong
            < d ∧
          d < mul32 (KFSReceiverCreate durations callback).singlePulseMaxDuration
            KFSPulsesLong) ∧
        KFSInSync (KFSReceiverCreate durations callback) d = false) ∧
      (mul32 (KFSReceiverCreate durations callback).singlePulseMinDuration KFSPulsesLong
            < d ∧
          d < mul32 (KFSReceiverCreate durations callback).singlePulseMaxDuration
            KFSPulsesLong →
        KFSInSync (KFSReceiverCreate durations callback) d = false)) ∧
    (∀ i : Nat,
      ¬ (KFSIsZero (KFSReceiverCreate durations callback) i = true ∧
        KFSIsOne (KFSReceiverCreate durations callback) i = true)) := by
  have hc : COCODefaultWindows (COCOReceiverCreate durations callback) := by
    simp only [COCODefaultWindows, COCOReceiverCreate, updateDurationsForReceiver]
    decide
  obtain ⟨c1, c2, c3, c4, c5, c6⟩ := hc
  obtain ⟨k1, k2, k3, k4⟩ := KFSReceiverCreate_windows durations callback
  have l1 : mul32 COCOPulsesLong 156 = 624 := by decide
  have l2 : mul32 COCOPulsesLong 364 = 1456 := by decide
  have m1 : mul32 280 KFSPulsesLong = 840 := by decide
  have m2 : mul32 420 KFSPulsesLong = 1260 := by decide
  refine ⟨⟨c1, c2, by rw [c1, l1], by rw [c2, l2], c3, c4, c5, c6⟩, ?_,
    COCODefaultWindows_patterns _ ⟨c1, c2, c3, c4, c5, c6⟩,
    ⟨k1, k2, by rw [k1, m1], by rw [k2, m2], k3, k4⟩, ?_,
    KFSDefaultWindows_patterns _ ⟨k1, k2, k3, k4⟩⟩
  · intro d
    simp only [COCOInStartSync, COCOInEndSync, decide_eq_false_iff_not, decide_eq_true_eq]
    rw [c1, c2, c3, c4, c5, c6, l1, l2]
    omega
  · intro d
    simp only [KFSInSync, decide_eq_false_iff_not]
    rw [k1, k2, k3, k4, m1, m2]
    omega

theorem COCOFullCode_key (a g o c : Nat) (hg : g ≤ 1) (ho : o ≤ 1) :
    shl32 (shl32 (shl32 a 1 ||| g) 1 ||| o) 4 ||| c =
      ((a * 64) % 4294967296 ||| (32 * g) ||| (16 * o)) ||| c := by
  have s1 : shl32 a 1 = (a % 2147483648) * 2 ^ 1 := by
    unfold shl32
    rw [Nat.shiftLeft_eq]
    norm_num
    omega
  rw [s1, or_of_mul_pow _ g 1 (by norm_num; omega)]
  have s2 : shl32 (a % 2147483648 * 2 ^ 1 + g) 1 =
      ((a % 2147483648 * 2 ^ 1 + g) % 2147483648) * 2 ^ 1 := by
    unfold shl32
    rw [Nat.shiftLeft_eq]
    norm_num
    omega
  rw [s2, or_of_mul_pow _ o 1 (by norm_num; omega)]
  have s3 : shl32 ((a % 2147483648 * 2 ^ 1 + g) % 2147483648 * 2 ^ 1 + o) 4 =
      (((a % 2147483648 * 2 ^ 1 + g) % 2147483648 * 2 ^ 1 + o) % 268435456) * 2 ^ 4 := by
    unfold shl32
    rw [Nat.shiftLeft_eq]
    norm_num
    omega
  rw [s3]
  have r1 : (a * 64) % 4294967296 = (a % 67108864) * 2 ^ 6 := by
    norm_num
    omega
  rw [r1, or_of_mul_pow _ (32 * g) 6 (by norm_num; omega)]
  have r2 : a % 67108864 * 2 ^ 6 + 32 * g = (a % 67108864 * 2 + g) * 2 ^ 5 := by
    norm_num
    omega
  rw [r2, or_of_mul_pow _ (16 * o) 5 (by norm_num; omega)]
  congr 1
  norm_num
  omega

/-- The code `OOKSenderSendCOCO` composes, for every content of the message
fields. -/
theorem COCOFullCode_unmasked (message : COCOMessage) :
    COCOFullCode message =
      (((message.address % 2 ^ 32 * 64) % 2 ^ 32 ||| (if message.group then 32 else 0))
        ||| (if message.onOff then 16 else 0)) ||| (message.channel % 2 ^ 16) := by
  unfold COCOFullCode COCOMessageGetAddress COCOMessageGetGroup COCOMessageGetOnOff
    COCOMessageGetChannel
  simp only []
  have key := COCOFullCode_key (message.address % 2 ^ 32)
  generalize message.address % 2 ^ 32 = a at *
  generalize message.channel % 2 ^ 16 = c at *
  cases message.group <;> cases message.onOff
  · simpa using key 0 0 c (by norm_num) (by norm_num)
  · simpa using key 0 1 c (by norm_num) (by norm_num)
  · simpa using key 1 0 c (by norm_num) (by norm_num)
  · simpa using key 1 1 c (by norm_num) (by norm_num)

/-- The frame `OOKSenderSendCOCO` builds depends on the message only through
the composed code. -/
theorem OOKSenderSendCOCO_congr (message other : COCOMessage)
    (h : COCOFullCode other = COCOFullCode message) :
    OOKSenderSendCOCO other = OOKSenderSendCOCO message := by
  unfold OOKSenderSendCOCO OOKSenderSendCOCOArray
  rw [h]

/-- Claim C38: the COCO encoder does not mask its fields. For every message the
32-bit code that `OOKSenderSendCOCO` composes is
`((address * 64) mod 2^32) OR (32 if group) OR (16 if onOff) OR channel`
(`address` a `uint32_t`, `channel` a `uint16_t`); the 128 bit durations of the
frame are those of that code, and two messages with the same code give the same
132 durations. So channel 16 with onOff false gives the same frame as channel
0 with onOff true, and address `a + 2^26` the same frame as address `a`. -/
theorem C38_COCO_encoder_unmasked (message : COCOMessage) :
    COCOFullCode message =
      (((message.address % 2 ^ 32 * 64) % 2 ^ 32 ||| (if message.group then 32 else 0))
        ||| (if message.onOff then 16 else 0)) ||| (message.channel % 2 ^ 16) ∧
    (OOKSenderSendCOCO message).length = 132 ∧
    (∀ j, 2 ≤ j → j < 130 →
      (OOKSenderSendCOCO message).getD j 0 =
        COCOPulseAt
          ((((message.address % 2 ^ 32 * 64) % 2 ^ 32 ||| (if message.group then 32 else 0))
            ||| (if message.onOff then 16 else 0)) ||| (message.channel % 2 ^ 16)) j) ∧
    (∀ other : COCOMessage, COCOFullCode other = COCOFullCode message →
      OOKSenderSendCOCO other = OOKSenderSendCOCO message) ∧
    OOKSenderSendCOCO { message with onOff := false, channel := 16 } =
      OOKSenderSendCOCO { message with onOff := true, channel := 0 } ∧
    OOKSenderSendCOCO { message with address := message.address + 2 ^ 26 } =
      OOKSenderSendCOCO message := by
  refine ⟨COCOFullCode_unmasked message, ?_, ?_,
    fun other h => OOKSenderSendCOCO_congr message other h, ?_, ?_⟩
  · simp [OOKSenderSendCOCO, kCOCOTotalNumberOfPulses]
  · intro j h2 h130
    rw [OOKSenderSendCOCO_getD, OOKSenderSendCOCOArray_apply, if_neg (by omega),
      if_neg (by omega), if_pos h130, COCOFullCode_unmasked]
  · apply OOKSenderSendCOCO_congr
    rw [COCOFullCode_unmasked, COCOFullCode_unmasked]
    cases message.group <;> simp
  · apply OOKSenderSendCOCO_congr
    rw [COCOFullCode_unmasked, COCOFullCode_unmasked]
    have e : ((message.address + 2 ^ 26) % 2 ^ 32 * 64) % 2 ^ 32 =
        (message.address % 2 ^ 32 * 64) % 2 ^ 32 := by
      norm_num
      omega
    show ((((message.address + 2 ^ 26) % 2 ^ 32 * 64) % 2 ^ 32 ||| _) ||| _) ||| _ = _
    rw [e]

/-- The start-sync branch of the KFS feed function leaves the buffer alone and
resets the index exactly when the duration is a sync. -/
theorem KFSStartSync_buffer (receiver : KFSReceiver) (timestamp d : Nat) :
    (KFSStartSync receiver timestamp d).1.durations = receiver.durations ∧
    (KFSStartSync receiver timestamp d).1.durationsIndex =
      (if KFSInSync receiver d = true then 0 else receiver.durationsIndex) := by
  unfold KFSStartSync KFSInSync
  by_cases hs : d > receiver.startSyncLowMinDuration ∧ d < receiver.startSyncLowMaxDuration
  · rw [if_pos hs, if_pos (by simpa using hs)]
    simp only []
    by_cases h5 : receiver.durationsIndex ≥ KFSMessageMinPulseCount
    · rw [if_pos h5]
      cases hv : arePulsesValidCode { receiver with startTime := timestamp } timestamp with
      | none => exact ⟨rfl, trivial⟩
      | some message =>
        simp only []
        obtain ⟨R, T, P, B, out, hacc⟩ := KFSAccept_shape
          { receiver with startTime := timestamp } message
        rw [hacc]
        exact ⟨rfl, trivial⟩
    · rw [if_neg h5]
      exact ⟨rfl, trivial⟩
  · rw [if_neg hs, if_neg (by simpa using hs)]
    exact ⟨rfl, rfl⟩

/-- One call of the KFS feed function. While `lastTimestamp` is 0 the edge only
sets `lastTimestamp`. Otherwise the duration is written into one slot, slot 0
after a sync or when the index has reached the capacity 67 and the slot at the
index otherwise, and the index is left behind that slot. -/
theorem KFSFeed_buffer (receiver : KFSReceiver) (timestamp : Nat) :
    (receiver.lastTimestamp = 0 →
      KFSReceiverFeedGPIOValueChangeTime receiver timestamp =
        ({ receiver with lastTimestamp := timestamp }, none)) ∧
    (receiver.lastTimestamp ≠ 0 →
      (KFSReceiverFeedGPIOValueChangeTime receiver timestamp).1.durations =
        setSlot receiver.durations
          (if KFSInSync receiver (sub32 timestamp receiver.lastTimestamp) = true then 0
            else if 67 ≤ receiver.durationsIndex then 0 else receiver.durationsIndex)
          (sub32 timestamp receiver.lastTimestamp) ∧
      (KFSReceiverFeedGPIOValueChangeTime receiver timestamp).1.durationsIndex =
        (if KFSInSync receiver (sub32 timestamp receiver.lastTimestamp) = true then 0
          else if 67 ≤ receiver.durationsIndex then 0 else receiver.durationsIndex) + 1 ∧
      (KFSReceiverFeedGPIOValueChangeTime receiver timestamp).1.lastTimestamp = timestamp) := by
  constructor
  · intro h0
    unfold KFSReceiverFeedGPIOValueChangeTime
    simp only []
    rw [if_pos h0.symm]
  · intro hlast
    unfold KFSReceiverFeedGPIOValueChangeTime
    simp only []
    rw [if_neg (fun h => hlast h.symm)]
    generalize sub32 timestamp receiver.lastTimestamp = d
    obtain ⟨b1, b2⟩ := KFSStartSync_buffer receiver timestamp d
    generalize KFSStartSync receiver timestamp d = result at b1 b2
    unfold KFSStore KFSMessageMaxPulseCount
    simp only []
    by_cases hs : KFSInSync receiver d = true
    · rw [if_pos hs] at b2
      rw [if_pos hs, if_neg (by rw [b2]; omega), b1, b2]
      exact ⟨rfl, rfl, trivial⟩
    · rw [if_neg hs] at b2
      rw [if_neg hs]
      by_cases h67 : 67 ≤ receiver.durationsIndex
      · rw [if_pos (by rw [b2]; exact h67), if_pos h67, b1]
        exact ⟨rfl, rfl, trivial⟩
      · rw [if_neg (by rw [b2]; exact h67), if_neg h67, b1, b2,
          add32_of_lt receiver.durationsIndex 1 (by omega)]
        exact ⟨rfl, rfl, trivial⟩

/-- The slot a call of the KFS feed function stores into is at most 66, and the
index it leaves is at most 67 when it was at most 67 before. -/
theorem KFSFeed_index (receiver : KFSReceiver) (timestamp : Nat)
    (h : receiver.durationsIndex ≤ 67) :
    (KFSReceiverFeedGPIOValueChangeTime receiver timestamp).1.durationsIndex ≤ 67 := by
  by_cases h0 : receiver.lastTimestamp = 0
  · rw [(KFSFeed_buffer receiver timestamp).1 h0]
    exact h
  · rw [((KFSFeed_buffer receiver timestamp).2 h0).2.1]
    split_ifs <;> omega

/-- The buffer index of a KFS receiver never exceeds 67, whatever edges are
fed. -/
theorem KFSReceiverFeedAll_index (timestamps : List Nat) :
    ∀ receiver : KFSReceiver, receiver.durationsIndex ≤ 67 →
      (KFSReceiverFeedAll receiver timestamps).1.durationsIndex ≤ 67 := by
  induction timestamps with
  | nil => intro receiver h; exact h
  | cons timestamp rest ih =>
    intro receiver h
    rw [KFSReceiverFeedAll]
    exact ih _ (KFSFeed_index receiver timestamp h)

/-- With edge timestamps that never decrease, a KFS receiver whose
`lastTimestamp` is 0 has an empty buffer index: only the edges before the first
one with a timestamp other than 0 leave `lastTimestamp` at 0. -/
theorem KFSReceiverFeedAll_started (timestamps : List Nat) :
    ∀ receiver : KFSReceiver,
      (receiver.lastTimestamp = 0 → receiver.durationsIndex = 0) →
      List.Chain (fun a b => a ≤ b) receiver.lastTimestamp timestamps →
      ((KFSReceiverFeedAll receiver timestamps).1.lastTimestamp = 0 →
        (KFSReceiverFeedAll receiver timestamps).1.durationsIndex = 0) := by
  induction timestamps with
  | nil => intro receiver h _; exact h
  | cons timestamp rest ih =>
    intro receiver h hchain
    rw [KFSReceiverFeedAll]
    rw [List.chain_cons] at hchain
    obtain ⟨hle, hrest⟩ := hchain
    have hlast : (KFSReceiverFeedGPIOValueChangeTime receiver timestamp).1.lastTimestamp =
        timestamp := by
      by_cases h0 : receiver.lastTimestamp = 0
      · rw [(KFSFeed_buffer receiver timestamp).1 h0]
      · exact ((KFSFeed_buffer receiver timestamp).2 h0).2.2
    apply ih
    · intro hz
      rw [hlast] at hz
      have h0 : receiver.lastTimestamp = 0 := by omega
      rw [(KFSFeed_buffer receiver timestamp).1 h0]
      exact h h0
    · rw [hlast]
      exact hrest

/-- Claim C36: in every state reached by feeding edges to a freshly created KFS
receiver the buffer index is at most 67; every call of the feed function, in
any state, writes at most one slot of the buffer, at an index of at most 66;
and when the index has reached 67 (with edge timestamps that never decrease,
as the interface delivers them) the next edge wraps it to 0 before storing: its
duration goes to slot 0, every other slot is unchanged and the index becomes
1. -/
theorem C36_KFS_buffer_bound (durations : Nat → Nat) (callback : Bool)
    (timestamps : List Nat) (hmono : List.Chain (fun a b => a ≤ b) 0 timestamps) :
    (∀ any : List Nat,
      (KFSReceiverFeedAll (KFSReceiverCreate durations callback) any).1.durationsIndex ≤ 67) ∧
    (∀ (receiver : KFSReceiver) (timestamp : Nat),
      ∃ j, j ≤ 66 ∧ ∀ k, k ≠ j →
        (KFSReceiverFeedGPIOValueChangeTime receiver timestamp).1.durations k =
          receiver.durations k) ∧
    ((KFSReceiverFeedAll (KFSReceiverCreate durations callback)
        timestamps).1.durationsIndex = 67 →
      ∀ timestamp : Nat,
        (KFSReceiverFeedGPIOValueChangeTime
          (KFSReceiverFeedAll (KFSReceiverCreate durations callback) timestamps).1
          timestamp).1.durations 0 =
          sub32 timestamp
            (KFSReceiverFeedAll (KFSReceiverCreate durations callback)
              timestamps).1.lastTimestamp ∧
        (∀ k, k ≠ 0 →
          (KFSReceiverFeedGPIOValueChangeTime
            (KFSReceiverFeedAll (KFSReceiverCreate durations callback) timestamps).1
            timestamp).1.durations k =
            (KFSReceiverFeedAll (KFSReceiverCreate durations callback)
              timestamps).1.durations k) ∧
        (KFSReceiverFeedGPIOValueChangeTime
          (KFSReceiverFeedAll (KFSReceiverCreate durations callback) timestamps).1
          timestamp).1.durationsIndex = 1) := by
  refine ⟨?_, ?_, ?_⟩
  · intro any
    exact KFSReceiverFeedAll_index any _ (by show 0 ≤ 67; omega)
  · intro receiver timestamp
    by_cases h0 : receiver.lastTimestamp = 0
    · refine ⟨0, by omega, ?_⟩
      intro k _
      rw [(KFSFeed_buffer receiver timestamp).1 h0]
    · refine ⟨if KFSInSync receiver (sub32 timestamp receiver.lastTimestamp) = true then 0
          else if 67 ≤ receiver.durationsIndex then 0 else receiver.durationsIndex, ?_, ?_⟩
      · split_ifs <;> omega
      · intro k hk
        rw [((KFSFeed_buffer receiver timestamp).2 h0).1, setSlot_apply, if_neg hk]
  · intro h67 timestamp
    have hstart := KFSReceiverFeedAll_started timestamps (KFSReceiverCreate durations callback)
      (fun _ => rfl) hmono
    generalize KFSReceiverFeedAll (KFSReceiverCreate durations callback) timestamps = run
      at h67 hstart ⊢
    have h0 : run.1.lastTimestamp ≠ 0 := by
      intro hz
      have := hstart hz
      omega
    obtain ⟨b1, b2, -⟩ := (KFSFeed_buffer run.1 timestamp).2 h0
    have hj : (if KFSInSync run.1 (sub32 timestamp run.1.lastTimestamp) = true then 0
        else if 67 ≤ run.1.durationsIndex then 0 else run.1.durationsIndex) = 0 := by
      split_ifs
      · rfl
      · rfl
      · omega
    rw [hj] at b1 b2
    rw [b1, b2]
    refine ⟨?_, ?_, rfl⟩
    · rw [setSlot_apply, if_pos rfl]
    · intro k hk
      rw [setSlot_apply, if_neg hk]

/-- Consecutive timestamps never decrease. -/
theorem chain_range_le (count : Nat) :
    ∀ a start : Nat, a ≤ start → List.Chain (fun a b => a ≤ b) a (List.range' start count) := by
  induction count with
  | zero => intro a start _; exact List.Chain.nil
  | succ count ih =>
    intro a start h
    rw [List.range'_succ]
    exact List.Chain.cons h (ih start (start + 1) (by omega))

set_option maxRecDepth 1000000 in
theorem C36_KFS_buffer_bound_witness :
    List.Chain (fun a b => a ≤ b) 0 (List.range' 1000 68) ∧
    (KFSReceiverFeedAll (KFSReceiverCreate (fun _ => 0) true)
      (List.range' 1000 68)).1.durationsIndex = 67 ∧
    (KFSReceiverFeedGPIOValueChangeTime
      (KFSReceiverFeedAll (KFSReceiverCreate (fun _ => 0) true) (List.range' 1000 68)).1
      1500).1.durationsIndex = 1 :=
  ⟨chain_range_le 68 0 1000 (by decide), by decide,
    ((C36_KFS_buffer_bound (fun _ => 0) true (List.range' 1000 68)
      (chain_range_le 68 0 1000 (by decide))).2.2 (by decide) 1500).2.2⟩

set_option maxRecDepth 1000000 in
/-- Claim C34, evaluation at the failing input: a freshly created KFS receiver
(every buffer slot holding 7) whose first edge comes at timestamp 0. The first
edge only sets `lastTimestamp`, to 0, which is also the value that marks that
no edge was seen; so the second edge, at timestamp 350, is again treated as the
first one: it stores no duration (index still 0, slot 0 still 7) and only sets
`lastTimestamp`. With the same two edges one microsecond later (timestamps 1
and 351) the second edge stores the duration 350 in slot 0 and leaves the
index at 1. -/
theorem C34_KFS_first_edge_at_zero :
    (KFSReceiverFeedAll (KFSReceiverCreate (fun _ => 7) true) [0]).1.lastTimestamp = 0 ∧
    (KFSReceiverFeedAll (KFSReceiverCreate (fun _ => 7) true) [0, 350]).1.durationsIndex = 0 ∧
    (KFSReceiverFeedAll (KFSReceiverCreate (fun _ => 7) true) [0, 350]).1.durations 0 = 7 ∧
    (KFSReceiverFeedAll (KFSReceiverCreate (fun _ => 7) true) [0, 350]).1.lastTimestamp =
      350 ∧
    (KFSReceiverFeedAll (KFSReceiverCreate (fun _ => 7) true) [1, 351]).1.durationsIndex = 1 ∧
    (KFSReceiverFeedAll (KFSReceiverCreate (fun _ => 7) true) [1, 351]).1.durations 0 =
      350 := by
  decide

set_option maxRecDepth 1000000 in
/-- Claim C33, evaluation at the failing input: a freshly created KFS receiver
(every buffer slot holding 7) whose first edge comes at timestamp 0 and whose
second edge comes at timestamp 10000. The duration of the second edge, 10000,
lies in the start-sync window (8680, 13020), but `lastTimestamp` is 0 and the
edge is taken for the first one: after the call the buffer index is 0, not 1,
and slot 0 still holds 7, not the sync duration. With the same two edges one
microsecond later (timestamps 1 and 10001) the index is 1 and slot 0 holds
10000. -/
theorem C33_KFS_sync_after_edge_at_zero :
    KFSInSync (KFSReceiverFeedAll (KFSReceiverCreate (fun _ => 7) true) [0]).1
      (sub32 10000
        (KFSReceiverFeedAll (KFSReceiverCreate (fun _ => 7) true) [0]).1.lastTimestamp) =
      true ∧
    (KFSReceiverFeedAll (KFSReceiverCreate (fun _ => 7) true) [0, 10000]).1.durationsIndex =
      0 ∧
    (KFSReceiverFeedAll (KFSReceiverCreate (fun _ => 7) true) [0, 10000]).1.durations 0 = 7 ∧
    (KFSReceiverFeedAll (KFSReceiverCreate (fun _ => 7) true) [1, 10001]).1.durationsIndex =
      1 ∧
    (KFSReceiverFeedAll (KFSReceiverCreate (fun _ => 7) true) [1, 10001]).1.durations 0 =
      10000 := by
  decide

/-- For an edge that passes the first-edge test (`lastTimestamp` not 0) and
whose duration lies in the start-sync window: below a buffer index of 5 the
analysis is not run (nothing is reported and the repeat state is unchanged),
from 5 on the repeat filter is applied exactly when `arePulsesValidCode`
succeeds; in every case the index is 1 afterwards and slot 0 holds the sync
duration. -/
theorem KFSFeed_sync_cases (receiver : KFSReceiver) (d : Nat) (hd : d < 4294967296)
    (hlast : receiver.lastTimestamp ≠ 0) (hs : KFSInSync receiver d = true) :
    (KFSReceiverFeedGPIOValueChangeTime receiver
      (add32 receiver.lastTimestamp d)).1.durationsIndex = 1 ∧
    (KFSReceiverFeedGPIOValueChangeTime receiver
      (add32 receiver.lastTimestamp d)).1.durations 0 = d ∧
    (receiver.durationsIndex < 5 →
      (KFSReceiverFeedGPIOValueChangeTime receiver (add32 receiver.lastTimestamp d)).2 = none ∧
      (KFSReceiverFeedGPIOValueChangeTime receiver
        (add32 receiver.lastTimestamp d)).1.previousMessageIdentifier =
        receiver.previousMessageIdentifier ∧
      (KFSReceiverFeedGPIOValueChangeTime receiver
        (add32 receiver.lastTimestamp d)).1.repeats = receiver.repeats) ∧
    (5 ≤ receiver.durationsIndex →
      ∀ message : KFSMessage,
        arePulsesValidCode { receiver with startTime := add32 receiver.lastTimestamp d }
          (add32 receiver.lastTimestamp d) = some message →
        (KFSReceiverFeedGPIOValueChangeTime receiver (add32 receiver.lastTimestamp d)).2 =
          (KFSAccept receiver message).2) := by
  obtain ⟨R, T, P, B, out, h⟩ := KFSFeed_sync receiver d hd hlast hs
  refine ⟨by rw [h], ?_, ?_, ?_⟩
  · rw [h]
    show setSlot receiver.durations 0 d 0 = d
    rw [setSlot_apply, if_pos rfl]
  · intro h5
    rw [KFSFeed_sync_short receiver d hd hlast hs h5]
    exact ⟨rfl, rfl, rfl⟩
  · intro h5 message hv
    rw [KFSFeed_sync_some receiver d hd hlast hs h5 message hv]

set_option maxRecDepth 1000000 in
/-- Claim C32, evaluation at the failing input: a freshly created default KFS
receiver (repeatCount 2, zeroed buffer, handler registered) sees its first edge
at 1000, an opening pulse and a sync, the five-bit frame (identifier 22), a
sync, the invalid frame 500, 500, 500, 500, 350, a sync, and the five-bit
frame twice more, each closed by a sync. The analysis of the invalid frame
fails and changes nothing: `previousMessageIdentifier` is still 22, not 0, and
`repeats` still 0. The two frames after it are counted as the first and the
second repeat of the frame before it, and the handler is invoked at the last
sync (timestamp 80000), although only two identical frames follow the invalid
one. -/
theorem C32_KFS_invalid_frame_keeps_streak :
    arePulsesValidCode
      (KFSFeedDurations (KFSReceiverCreate (fun _ => 0) true)
        ([1000, 350, 10850] ++ KFSFiveBitFrame ++ [10850] ++ [500, 500, 500, 500, 350])).1
      43600 = none ∧
    (KFSFeedDurations (KFSReceiverCreate (fun _ => 0) true)
      ([1000, 350, 10850] ++ KFSFiveBitFrame ++ [10850])).1.previousMessageIdentifier = 22 ∧
    (KFSFeedDurations (KFSReceiverCreate (fun _ => 0) true)
      ([1000, 350, 10850] ++ KFSFiveBitFrame ++ [10850] ++ [500, 500, 500, 500, 350] ++
        [10850])).1.previousMessageIdentifier = 22 ∧
    (KFSFeedDurations (KFSReceiverCreate (fun _ => 0) true)
      ([1000, 350, 10850] ++ KFSFiveBitFrame ++ [10850] ++ [500, 500, 500, 500, 350] ++
        [10850])).1.repeats = 0 ∧
    (KFSFeedDurations (KFSReceiverCreate (fun _ => 0) true)
      ([1000, 350, 10850] ++ KFSFiveBitFrame ++ [10850] ++ [500, 500, 500, 500, 350] ++
        [10850] ++ KFSFiveBitFrame ++ [10850] ++ KFSFiveBitFrame ++ [10850])).2 =
      [{ identifier := 22, identifierBitSize := 5, timestamp := 80000 }] := by
  decide

/-- The loop of `arePulsesValidCode`, entered at pair `codeLength` with fewer
than 24 bits, reads only slots from 1 to 48. -/
theorem arePulsesValidCodeLoopReads_bounds (receiver : KFSReceiver) :
    ∀ (fuel code codeLength : Nat), codeLength < 24 →
      ∀ j ∈ arePulsesValidCodeLoopReads receiver fuel (2 * codeLength + 1) code codeLength,
        1 ≤ j ∧ j ≤ 48 := by
  intro fuel
  induction fuel with
  | zero =>
    intro code codeLength _ j hj
    simp [arePulsesValidCodeLoopReads] at hj
  | succ fuel ih =>
    intro code codeLength hl j hj
    have hlen : (codeLength + 1) % 2 ^ 8 = codeLength + 1 := by
      apply Nat.mod_eq_of_lt; norm_num; omega
    have hi : 2 * codeLength + 1 + 2 = 2 * (codeLength + 1) + 1 := by ring
    rw [arePulsesValidCodeLoopReads] at hj
    by_cases hlt : 2 * codeLength + 1 < receiver.durationsIndex
    · rw [if_pos hlt] at hj
      simp only [List.mem_cons, hlen, hi] at hj
      rcases hj with h | h | h
      · omega
      · omega
      · by_cases hz : KFSIsZero receiver (2 * codeLength + 1) = true
        · rw [if_pos hz] at h
          by_cases h24 : codeLength + 1 = 24
          · rw [if_pos h24] at h
            simp at h
          · rw [if_neg h24] at h
            exact ih _ (codeLength + 1) (by omega) j h
        · rw [if_neg hz] at h
          by_cases ho : KFSIsOne receiver (2 * codeLength + 1) = true
          · rw [if_pos ho] at h
            by_cases h24 : codeLength + 1 = 24
            · rw [if_pos h24] at h
              simp at h
            · rw [if_neg h24] at h
              exact ih _ (codeLength + 1) (by omega) j h
          · rw [if_neg ho] at h
            simp at h
    · rw [if_neg hlt] at hj
      simp at hj

/-- The loop of `analyzeDurations` reads only slots from its current index up
to the buffer index. -/
theorem analyzeLoopReads_bounds (receiver : COCOReceiver) :
    ∀ (fuel index : Nat) (state : COCOAnalysis),
      ∀ j ∈ analyzeLoopReads receiver fuel index state,
        index ≤ j ∧ j ≤ receiver.durationsIndex := by
  intro fuel
  induction fuel with
  | zero =>
    intro index state j hj
    simp [analyzeLoopReads] at hj
  | succ fuel ih =>
    intro index state j hj
    rw [analyzeLoopReads] at hj
    by_cases hle : index ≤ receiver.durationsIndex
    · rw [if_pos hle] at hj
      rw [List.mem_cons] at hj
      rcases hj with h | h
      · omega
      · have step : ∀ next : COCOAnalysis,
            j ∈ analyzeLoopReads receiver fuel (index + 1) next →
            index ≤ j ∧ j ≤ receiver.durationsIndex := by
          intro next hn
          have := ih (index + 1) next j hn
          omega
        simp only [] at h
        split_ifs at h
        all_goals first
          | exact step _ h
          | exact absurd h (by simp)
    · rw [if_neg hle] at hj
      simp at hj

/-- The loop of `arePulsesValidCode`, entered at pair `codeLength`, reads two
slots for each pair up to the 24th. -/
theorem arePulsesValidCodeLoopReads_length (receiver : KFSReceiver) :
    ∀ (fuel i code codeLength : Nat), codeLength < 24 →
      (arePulsesValidCodeLoopReads receiver fuel i code codeLength).length +
        2 * codeLength ≤ 48 := by
  intro fuel
  induction fuel with
  | zero =>
    intro i code codeLength hl
    simp only [arePulsesValidCodeLoopReads, List.length_nil]
    omega
  | succ fuel ih =>
    intro i code codeLength hl
    have hlen : (codeLength + 1) % 2 ^ 8 = codeLength + 1 := by
      apply Nat.mod_eq_of_lt; norm_num; omega
    rw [arePulsesValidCodeLoopReads]
    simp only [hlen]
    by_cases h24 : codeLength + 1 = 24
    · simp only [if_pos h24]
      split_ifs <;> simp only [List.length_cons, List.length_nil] <;> omega
    · simp only [if_neg h24]
      have h1 := ih (i + 2) (shl32 code 1) (codeLength + 1) (by omega)
      have h2 := ih (i + 2) (shl32 code 1 ||| 1) (codeLength + 1) (by omega)
      split_ifs <;> simp only [List.length_cons, List.length_nil] <;> omega

set_option maxRecDepth 1000000 in
/-- Claim C40, counterexample: the receiver that holds the five-bit frame
(buffer index 12) decodes it; the loop of `arePulsesValidCode` reads slots 1 to
12, and with a pulse recorder attached the call also reads slots 0 to 4, so
slot 0, outside 1..48, is read. -/
theorem C40_recorder_reads_slot_zero :
    KFSFiveBitReceiver.durationsIndex = 12 ∧
    (arePulsesValidCode KFSFiveBitReceiver 0).isSome = true ∧
    arePulsesValidCodeLoopReads KFSFiveBitReceiver KFSFiveBitReceiver.durationsIndex 1 0 0 =
      [1, 2, 3, 4, 5, 6, 7, 8, 9, 10, 11, 12] ∧
    arePulsesValidCodeReads KFSFiveBitReceiver true =
      [1, 2, 3, 4, 5, 6, 7, 8, 9, 10, 11, 12, 0, 1, 2, 3, 4] ∧
    0 ∈ arePulsesValidCodeReads KFSFiveBitReceiver true ∧
    ¬ (∀ j ∈ arePulsesValidCodeReads KFSFiveBitReceiver true, 1 ≤ j ∧ j ≤ 48) := by
  decide

/-- Claim C40 (as amended): whatever the buffer index, the decoding loop of
`arePulsesValidCode` reads only buffer slots 1..48, two for each of at most 24
pairs, and these are all the reads of a call without a pulse recorder; with a
pulse recorder attached a successful call also reads slots 0 .. codeLength - 1
for the recording, where codeLength is at most 24; every slot read lies inside
the 67-slot KFS buffer. `analyzeDurations`, called with a buffer index of at
most 130 (which holds in every state reached by feeding edges to a freshly
created receiver), proceeds only when the index is 130: below 130 it fails
without reading the buffer, and every slot it reads, the recorder included, is
one of the slots 0..130 of the 131-slot COCO buffer. -/
theorem C40_buffer_reads_in_bounds (kfs : KFSReceiver) (receiver : COCOReceiver)
    (recorder : Bool) (timestamp : Nat) (hidx : receiver.durationsIndex ≤ 130) :
    (∀ j ∈ arePulsesValidCodeLoopReads kfs kfs.durationsIndex 1 0 0, 1 ≤ j ∧ j ≤ 48) ∧
    (arePulsesValidCodeLoopReads kfs kfs.durationsIndex 1 0 0).length ≤ 2 * 24 ∧
    arePulsesValidCodeReads kfs false =
      arePulsesValidCodeLoopReads kfs kfs.durationsIndex 1 0 0 ∧
    (∀ j ∈ arePulsesValidCodeReads kfs recorder,
      (1 ≤ j ∨ (recorder = true ∧ (arePulsesValidCode kfs timestamp).isSome = true)) ∧
      j ≤ 48 ∧ j < KFSMessageMaxPulseCount) ∧
    (receiver.durationsIndex < 130 →
      analyzeDurations receiver timestamp = none ∧
      analyzeDurationsReads receiver recorder = []) ∧
    (∀ j ∈ analyzeDurationsReads receiver recorder,
      receiver.durationsIndex = 130 ∧ j ≤ 130 ∧ j < COCOMessagePulseCount) ∧
    (∀ (durations : Nat → Nat) (callback : Bool) (timestamps : List Nat),
      (COCOReceiverFeedAll (COCOReceiverCreate durations callback)
        timestamps).1.durationsIndex ≤ 130) := by
  have hloop := arePulsesValidCodeLoopReads_bounds kfs kfs.durationsIndex 0 0 (by norm_num)
  have hlen := arePulsesValidCodeLoopReads_length kfs kfs.durationsIndex 1 0 0 (by norm_num)
  have hres := (arePulsesValidCodeLoop_bounds kfs kfs.durationsIndex 1 0 0
    (by norm_num) (by norm_num)).1
  refine ⟨hloop, by omega, ?_, ?_, ?_, ?_, ?_⟩
  · simp [arePulsesValidCodeReads]
  · intro j hj
    simp only [arePulsesValidCodeReads, List.mem_append] at hj
    rcases hj with h | h
    · have := hloop j h
      simp only [KFSMessageMaxPulseCount]
      omega
    · by_cases hc : (0 ≠ (arePulsesValidCodeLoop kfs kfs.durationsIndex 1 0 0).1 ∧
          (arePulsesValidCodeLoop kfs kfs.durationsIndex 1 0 0).2 > 4) ∧ recorder = true
      · rw [if_pos hc, List.mem_range] at h
        refine ⟨Or.inr ⟨hc.2, ?_⟩, ?_, ?_⟩
        · simp only [arePulsesValidCode]
          rw [if_pos hc.1]
          rfl
        · omega
        · simp only [KFSMessageMaxPulseCount]
          omega
      · rw [if_neg hc] at h
        simp at h
  · intro hlt
    have hlt2 : receiver.durationsIndex < COCOMessagePulseCount - 1 := by
      simp only [COCOMessagePulseCount]
      omega
    constructor
    · simp only [analyzeDurations]
      rw [if_pos hlt2]
    · simp only [analyzeDurationsReads]
      rw [if_pos hlt2]
  · intro j hj
    simp only [analyzeDurationsReads] at hj
    by_cases hlt2 : receiver.durationsIndex < COCOMessagePulseCount - 1
    · rw [if_pos hlt2] at hj
      simp at hj
    · rw [if_neg hlt2] at hj
      simp only [COCOMessagePulseCount] at hlt2 ⊢
      have h130 : receiver.durationsIndex = 130 := by omega
      refine ⟨h130, ?_⟩
      simp only [List.mem_cons, List.mem_append] at hj
      rcases hj with h | h | h | h
      · omega
      · omega
      · have := analyzeLoopReads_bounds receiver _ _ _ j h
        omega
      · split_ifs at h
        · rw [List.mem_range] at h
          omega
        · simp at h
  · intro durations callback timestamps
    have := COCOReceiverFeedAll_index timestamps (COCOReceiverCreate durations callback)
      (by simp [COCOReceiverCreate, updateDurationsForReceiver])
    omega

set_option maxRecDepth 1000000 in
/-- Claim C40, witness: the amended statement at the receiver holding the
five-bit frame, the receiver holding the alternating COCO frame (index 130) and
an attached recorder. -/
theorem C40_buffer_reads_in_bounds_witness :
    COCOAlternatingReceiver.durationsIndex ≤ 130 ∧
    (∀ j ∈ arePulsesValidCodeReads KFSFiveBitReceiver true, j < KFSMessageMaxPulseCount) ∧
    (∀ j ∈ analyzeDurationsReads COCOAlternatingReceiver true,
      j < COCOMessagePulseCount) :=
  ⟨by decide,
    fun j hj => ((C40_buffer_reads_in_bounds KFSFiveBitReceiver COCOAlternatingReceiver true 0
      (by decide)).2.2.2.1 j hj).2.2,
    fun j hj => ((C40_buffer_reads_in_bounds KFSFiveBitReceiver COCOAlternatingReceiver true 0
      (by decide)).2.2.2.2.2.1 j hj).2.2⟩

/-- Claim C5: for every receiver carrying the masks that `COCOReceiverCreate`
installs and every call of `analyzeDurations` that succeeds, the loop has
decoded a 32-bit code (for the buffer index 130 the code of the 32 groups) and
the reported message is built from that code: fullMessageCode is the code,
address = code >> 6, group = bit 5 of the code, onOff = bit 4 of the code,
channel = code AND 0x0F, and the timestamp is the one passed in; hence
address < 2^26 and channel < 16. -/
theorem C5_COCO_decoded_fields (receiver : COCOReceiver) (timestamp : Nat)
    (message : COCOMessage) (hmasks : COCOCreatedMasks receiver)
    (h : analyzeDurations receiver timestamp = some message) :
    ∃ state : COCOAnalysis,
      analyzeLoop receiver (receiver.durationsIndex + 1) 0
        { code := 0, codeLength := 0, bitValues := fun _ => 0 } = some state ∧
      state.code < 2 ^ 32 ∧
      (receiver.durationsIndex = 130 →
        COCODecode receiver receiver.durations = some state.code) ∧
      message =
        { timestamp := timestamp
          fullMessageCode := state.code
          address := state.code >>> 6
          group := state.code.testBit 5
          onOff := state.code.testBit 4
          channel := state.code &&& 0x0F } ∧
      message.address < 2 ^ 26 ∧ message.channel < 16 := by
  have hsplit := analyzeDurations_field_split receiver timestamp message hmasks h
  have hlt := (analyzeDurations_code_lt receiver timestamp message h).1
  have h0 := h
  unfold analyzeDurations at h
  split_ifs at h
  split at h
  · exact absurd h (by simp)
  · rename_i state hstate
    simp only [Option.some.injEq] at h
    have hcode : message.fullMessageCode = state.code := by rw [← h]; rfl
    have hts : message.timestamp = timestamp := by rw [← h]; rfl
    refine ⟨state, hstate, ?_, ?_, ?_, hsplit.2.2.2.2.1, hsplit.2.2.2.2.2⟩
    · rw [← hcode]; norm_num; exact hlt
    · intro hidx
      rw [analyzeDurations_eq_decode receiver timestamp hidx] at h0
      cases hd : COCODecode receiver receiver.durations with
      | none => rw [hd] at h0; exact absurd h0 (by simp)
      | some code =>
        rw [hd, Option.map_some', Option.some.injEq] at h0
        rw [← hcode, ← h0]
        rfl
    · obtain ⟨a1, a2, a3, a4, -, -⟩ := hsplit
      rw [hcode] at a1 a2 a3 a4
      cases message
      simp only at a1 a2 a3 a4 hts hcode
      simp only [COCOMessage.mk.injEq]
      exact ⟨hts, hcode, a1, a2, a3, a4⟩

set_option maxRecDepth 1000000 in
/-- Witness of C5: the buffered frame with the alternating code 0xAAAAAAAA,
which decodes to address 44739242, group set, onOff clear and channel 10. -/
theorem C5_COCO_decoded_fields_witness :
    COCOCreatedMasks COCOAlternatingReceiver ∧
    analyzeDurations COCOAlternatingReceiver 7 =
      some { timestamp := 7, fullMessageCode := 2863311530, address := 44739242,
             group := true, onOff := false, channel := 10 } ∧
    (∃ state : COCOAnalysis,
      analyzeLoop COCOAlternatingReceiver (COCOAlternatingReceiver.durationsIndex + 1) 0
        { code := 0, codeLength := 0, bitValues := fun _ => 0 } = some state ∧
      state.code < 2 ^ 32 ∧
      (COCOAlternatingReceiver.durationsIndex = 130 →
        COCODecode COCOAlternatingReceiver COCOAlternatingReceiver.durations =
          some state.code) ∧
      ({ timestamp := 7, fullMessageCode := 2863311530, address := 44739242,
         group := true, onOff := false, channel := 10 } : COCOMessage) =
        { timestamp := 7
          fullMessageCode := state.code
          address := state.code >>> 6
          group := state.code.testBit 5
          onOff := state.code.testBit 4
          channel := state.code &&& 0x0F } ∧
      (44739242 : Nat) < 2 ^ 26 ∧ (10 : Nat) < 16) :=
  ⟨by unfold COCOCreatedMasks; decide, by decide,
    C5_COCO_decoded_fields COCOAlternatingReceiver 7
      { timestamp := 7, fullMessageCode := 2863311530, address := 44739242,
        group := true, onOff := false, channel := 10 }
      (by unfold COCOCreatedMasks; decide) (by decide)⟩

/-- Claim C23: `OOKSenderTransmit` is internal to `OOKSender.c`; its callers
`OOKSenderSendCOCO` and `OOKSenderSendKFS` pass the repeat counts 15 and 6. For
every duration array of length `length`, a high first value and every repeat
count below `UINT32_MAX`, the call with a configured pin returns and has made
exactly `(repeats + 1) * length + 1` level writes: in each of the `repeats + 1`
repetitions the `i`-th write has level 1 when `i` is even and 0 when `i` is odd
and is held for `durations[i]`, and the final write has level 0. The call
`OOKSenderSendCOCO` makes has 132 durations and 15 repeats (16 frames,
2113 writes), the one of `OOKSenderSendKFS` 50 durations and 6 repeats
(7 frames, 351 writes). -/
theorem C23_transmit_trace (sender : OOKSender) (durations : Nat → Nat)
    (length repeats fuel : Nat) (coco : COCOMessage) (kfs : KFSMessage)
    (hgpio : OOKSender.GPIO sender ≠ 0xFF)
    (hrep : repeats < 4294967295) (hfuel : repeats + 1 < fuel) :
    (∃ writes : List GPIOWrite,
      OOKSenderTransmit sender durations length true repeats fuel = some writes ∧
      writes.length = (repeats + 1) * length + 1 ∧
      (∀ pass i, pass < repeats + 1 → i < length →
        writes[pass * length + i]? =
          some { level := if i % 2 = 0 then 1 else 0, hold := durations i }) ∧
      writes[(repeats + 1) * length]? = some { level := 0, hold := 0 }) ∧
    (OOKSenderTransmit sender (OOKSenderSendCOCOArray coco) kCOCOTotalNumberOfPulses true 15
        17 = some (OOKSenderSendCOCOTransmit sender coco) ∧
      kCOCOTotalNumberOfPulses = 132 ∧
      (OOKSenderSendCOCOTransmit sender coco).length = 16 * 132 + 1 ∧
      (∀ pass i, pass < 16 → i < 132 →
        (OOKSenderSendCOCOTransmit sender coco)[pass * 132 + i]? =
          some { level := if i % 2 = 0 then 1 else 0
                 hold := OOKSenderSendCOCOArray coco i }) ∧
      (OOKSenderSendCOCOTransmit sender coco)[16 * 132]? = some { level := 0, hold := 0 }) ∧
    (OOKSenderTransmit sender (OOKSenderSendKFSArray kfs) kKFSTotalNumberOfPulses true 6
        8 = some (OOKSenderSendKFSTransmit sender kfs) ∧
      kKFSTotalNumberOfPulses = 50 ∧
      (OOKSenderSendKFSTransmit sender kfs).length = 7 * 50 + 1 ∧
      (∀ pass i, pass < 7 → i < 50 →
        (OOKSenderSendKFSTransmit sender kfs)[pass * 50 + i]? =
          some { level := if i % 2 = 0 then 1 else 0
                 hold := OOKSenderSendKFSArray kfs i }) ∧
      (OOKSenderSendKFSTransmit sender kfs)[7 * 50]? = some { level := 0, hold := 0 }) := by
  refine ⟨OOKSenderTransmit_trace sender durations length repeats fuel hgpio hrep hfuel, ?_, ?_⟩
  · obtain ⟨writes, h1, h2, h3, h4⟩ := OOKSenderTransmit_trace sender
      (OOKSenderSendCOCOArray coco) kCOCOTotalNumberOfPulses 15 17 hgpio (by norm_num)
      (by norm_num)
    have e : OOKSenderSendCOCOTransmit sender coco = writes := by
      unfold OOKSenderSendCOCOTransmit
      rw [h1]; rfl
    rw [e, h1]
    exact ⟨rfl, rfl, h2, h3, h4⟩
  · obtain ⟨writes, h1, h2, h3, h4⟩ := OOKSenderTransmit_trace sender
      (OOKSenderSendKFSArray kfs) kKFSTotalNumberOfPulses 6 8 hgpio (by norm_num)
      (by norm_num)
    have e : OOKSenderSendKFSTransmit sender kfs = writes := by
      unfold OOKSenderSendKFSTransmit
      rw [h1]; rfl
    rw [e, h1]
    exact ⟨rfl, rfl, h2, h3, h4⟩

/-- Witness of C23: pin 17, the three durations 100, 200, 300 and one repeat:
seven writes. -/
theorem C23_transmit_trace_witness :
    OOKSender.GPIO ( OOKSenderSetTransmitGPIO OOKSenderCreate 17) ≠ 0xFF ∧
    (1 : Nat) < 4294967295 ∧ 1 + 1 < 3 ∧
    (∃ writes : List GPIOWrite,
      OOKSenderTransmit ( OOKSenderSetTransmitGPIO OOKSenderCreate 17)
        (fun i => 100 * (i + 1)) 3 true 1 3 = some writes ∧
      writes.length = (1 + 1) * 3 + 1 ∧
      (∀ pass i, pass < 1 + 1 → i < 3 →
        writes[pass * 3 + i]? =
          some { level := if i % 2 = 0 then 1 else 0, hold := 100 * (i + 1) }) ∧
      writes[(1 + 1) * 3]? = some { level := 0, hold := 0 }) :=
  ⟨by decide, by decide, by decide,
    (C23_transmit_trace ( OOKSenderSetTransmitGPIO OOKSenderCreate 17) (fun i => 100 * (i + 1))
      3 1 3 COCOExampleMessage { identifier := 5, identifierBitSize := 0, timestamp := 0 }
      (by decide) (by decide) (by decide)).1⟩

/-- The step for any handler is the step for a handler that keeps the message,
followed, when the handler was called, by the value read after the call. -/
theorem COCOFeedWith_eq (receiver : COCOReceiver) (timestamp after : Nat) :
    COCOReceiverFeedGPIOValueChangeTimeWith receiver timestamp after =
      (if (COCOReceiverFeedGPIOValueChangeTime receiver timestamp).2.isSome = true then
          { (COCOReceiverFeedGPIOValueChangeTime receiver timestamp).1 with
            previousMessageCode := after % 2 ^ 32 }
        else (COCOReceiverFeedGPIOValueChangeTime receiver timestamp).1,
        (COCOReceiverFeedGPIOValueChangeTime receiver timestamp).2) := by
  unfold COCOReceiverFeedGPIOValueChangeTimeWith COCOReceiverFeedGPIOValueChangeTime
  simp only []
  generalize COCOStartSync receiver timestamp (sub32 timestamp receiver.lastTimestamp) = r
  generalize sub32 timestamp receiver.lastTimestamp = d
  unfold COCOEndSyncWith COCOEndSync
  by_cases he : d > r.endSyncLowMinDuration ∧ d < r.endSyncLowMaxDuration
  · rw [if_pos he, if_pos he]
    simp only []
    cases analyzeDurations { r with durations := setSlot r.durations r.durationsIndex d }
        r.startTime with
    | none => rfl
    | some message =>
      simp only []
      unfold COCOAcceptWith COCOAccept COCOStore
      simp only []
      split_ifs <;> first | rfl | simp_all
  · rw [if_neg he, if_neg he]
    rfl

/-- With a handler that leaves the message in place the read after the call
returns the code of the message, and the filter is `COCOAccept`. -/
theorem COCOAcceptWith_intact (receiver : COCOReceiver) (message : COCOMessage)
    (h : message.fullMessageCode < 4294967296) :
    COCOAcceptWith receiver message message.fullMessageCode = COCOAccept receiver message := by
  unfold COCOAcceptWith COCOAccept
  have hm : message.fullMessageCode % 2 ^ 32 = message.fullMessageCode :=
    Nat.mod_eq_of_lt (by norm_num; exact h)
  simp only [hm, ite_self]

/-- As long as the handler is not called, the run for any handler is the run
for a handler that keeps the message. -/
theorem COCOFeedAllWith_silent (timestamps : List Nat) :
    ∀ (receiver : COCOReceiver) (after : Nat → Nat),
      (COCOReceiverFeedAll receiver timestamps).2 = [] →
      COCOReceiverFeedAllWith receiver after timestamps =
        COCOReceiverFeedAll receiver timestamps := by
  induction timestamps with
  | nil => intro receiver after _; rfl
  | cons timestamp rest ih =>
    intro receiver after h
    rw [COCOReceiverFeedAll] at h
    simp only [List.append_eq_nil] at h
    obtain ⟨h1, h2⟩ := h
    have hnone : (COCOReceiverFeedGPIOValueChangeTime receiver timestamp).2 = none := by
      cases hx : (COCOReceiverFeedGPIOValueChangeTime receiver timestamp).2 with
      | none => rfl
      | some x => rw [hx] at h1; exact absurd h1 (by simp)
    have hstep := COCOFeedWith_eq receiver timestamp (after 0)
    rw [hnone] at hstep
    simp only [Option.isSome_none, Bool.false_eq_true, if_false] at hstep
    rw [COCOReceiverFeedAllWith, COCOReceiverFeedAll, hstep]
    simp only []
    rw [ih _ _ h2, hnone]

/-- The handler is called in the run for any handler exactly when it is called
in the run for a handler that keeps the message: the two runs agree up to the
first call. -/
theorem COCOFeedAllWith_called (timestamps : List Nat) :
    ∀ (receiver : COCOReceiver) (after : Nat → Nat),
      (COCOReceiverFeedAllWith receiver after timestamps).2 = [] ↔
        (COCOReceiverFeedAll receiver timestamps).2 = [] := by
  induction timestamps with
  | nil => intro receiver after; exact Iff.rfl
  | cons timestamp rest ih =>
    intro receiver after
    have hstep := COCOFeedWith_eq receiver timestamp (after 0)
    rw [COCOReceiverFeedAllWith, COCOReceiverFeedAll, hstep]
    simp only [List.append_eq_nil]
    cases hx : (COCOReceiverFeedGPIOValueChangeTime receiver timestamp).2 with
    | none =>
      simp only [Option.isSome_none, Bool.false_eq_true, if_false, Option.toList, true_and]
      exact ih _ _
    | some x => simp

theorem COCOFeedAllWith_append (xs ys : List Nat) :
    ∀ (receiver : COCOReceiver) (after : Nat → Nat),
      COCOReceiverFeedAllWith receiver after (xs ++ ys) =
        ((COCOReceiverFeedAllWith (COCOReceiverFeedAllWith receiver after xs).1
            (fun k => after (k + xs.length)) ys).1,
          (COCOReceiverFeedAllWith receiver after xs).2 ++
            (COCOReceiverFeedAllWith (COCOReceiverFeedAllWith receiver after xs).1
              (fun k => after (k + xs.length)) ys).2) := by
  induction xs with
  | nil => intro receiver after; simp [COCOReceiverFeedAllWith]
  | cons x xs ih =>
    intro receiver after
    rw [List.cons_append, COCOReceiverFeedAllWith, COCOReceiverFeedAllWith, ih]
    simp only [List.append_assoc, List.length_cons]
    have e : (fun k => after (k + xs.length + 1)) = fun k => after (k + (xs.length + 1)) := rfl
    rw [e]

theorem COCOFeedAll_append (xs ys : List Nat) :
    ∀ receiver : COCOReceiver,
      COCOReceiverFeedAll receiver (xs ++ ys) =
        ((COCOReceiverFeedAll (COCOReceiverFeedAll receiver xs).1 ys).1,
          (COCOReceiverFeedAll receiver xs).2 ++
            (COCOReceiverFeedAll (COCOReceiverFeedAll receiver xs).1 ys).2) := by
  induction xs with
  | nil => intro receiver; simp [COCOReceiverFeedAll]
  | cons x xs ih =>
    intro receiver
    rw [List.cons_append, COCOReceiverFeedAll, COCOReceiverFeedAll, ih]
    simp only [List.append_assoc]

/-- A run in which the handler can only be called at the last edge: for any
handler it is the run for a handler that keeps the message, followed, when the
handler was called, by the value read after the call. -/
theorem COCOFeedAllWith_last (receiver : COCOReceiver) (after : Nat → Nat)
    (timestamps : List Nat) (timestamp : Nat)
    (h : (COCOReceiverFeedAll receiver timestamps).2 = []) :
    COCOReceiverFeedAllWith receiver after (timestamps ++ [timestamp]) =
      (if (COCOReceiverFeedAll receiver (timestamps ++ [timestamp])).2 = [] then
          (COCOReceiverFeedAll receiver (timestamps ++ [timestamp])).1
        else
          { (COCOReceiverFeedAll receiver (timestamps ++ [timestamp])).1 with
            previousMessageCode := after timestamps.length % 2 ^ 32 },
        (COCOReceiverFeedAll receiver (timestamps ++ [timestamp])).2) := by
  rw [COCOFeedAllWith_append, COCOFeedAll_append, COCOFeedAllWith_silent _ _ _ h, h]
  generalize (COCOReceiverFeedAll receiver timestamps).1 = r
  simp only [COCOReceiverFeedAllWith, COCOReceiverFeedAll, List.nil_append, List.append_nil,
    Nat.zero_add]
  rw [COCOFeedWith_eq]
  cases hx : (COCOReceiverFeedGPIOValueChangeTime r timestamp).2 with
  | none => simp
  | some x => simp

theorem COCOFeedDurationsWith_cons (receiver : COCOReceiver) (after : Nat → Nat) (d : Nat)
    (ds : List Nat) :
    COCOFeedDurationsWith receiver after (d :: ds) =
      ((COCOFeedDurationsWith
          (COCOReceiverFeedGPIOValueChangeTimeWith receiver (add32 receiver.lastTimestamp d)
            (after 0)).1 (fun k => after (k + 1)) ds).1,
        (COCOReceiverFeedGPIOValueChangeTimeWith receiver (add32 receiver.lastTimestamp d)
            (after 0)).2.toList ++
          (COCOFeedDurationsWith
            (COCOReceiverFeedGPIOValueChangeTimeWith receiver (add32 receiver.lastTimestamp d)
              (after 0)).1 (fun k => after (k + 1)) ds).2) := rfl

theorem COCOFeedDurationsWith_append (ds es : List Nat) :
    ∀ (receiver : COCOReceiver) (after : Nat → Nat),
      COCOFeedDurationsWith receiver after (ds ++ es) =
        ((COCOFeedDurationsWith (COCOFeedDurationsWith receiver after ds).1
            (fun k => after (k + ds.length)) es).1,
          (COCOFeedDurationsWith receiver after ds).2 ++
            (COCOFeedDurationsWith (COCOFeedDurationsWith receiver after ds).1
              (fun k => after (k + ds.length)) es).2) := by
  induction ds with
  | nil =>
    intro receiver after
    simp [COCOFeedDurationsWith, COCOReceiverFeedAllWith, edgeTimestamps]
  | cons d ds ih =>
    intro receiver after
    rw [List.cons_append, COCOFeedDurationsWith_cons, COCOFeedDurationsWith_cons, ih]
    simp only [List.append_assoc, List.length_cons]
    have e : (fun k => after (k + ds.length + 1)) = fun k => after (k + (ds.length + 1)) := rfl
    rw [e]

theorem edgeTimestamps_concat (ds : List Nat) (e : Nat) :
    ∀ start : Nat,
      edgeTimestamps start (ds ++ [e]) =
        edgeTimestamps start ds ++ [add32 (advance start ds) e] := by
  induction ds with
  | nil => intro start; rfl
  | cons d ds ih =>
    intro start
    rw [List.cons_append, edgeTimestamps, ih, edgeTimestamps, advance, List.cons_append]

theorem edgeTimestamps_length (ds : List Nat) :
    ∀ start : Nat, (edgeTimestamps start ds).length = ds.length := by
  induction ds with
  | nil => intro start; rfl
  | cons d ds ih => intro start; rw [edgeTimestamps, List.length_cons, ih, List.length_cons]

/-- Feeding a whole valid frame to a receiver with any handler: the handler can
only be called at the closing edge, for the message of the frame, and the value
read after that call becomes the previous code. -/
theorem COCOFeedDurationsWith_validFrame (receiver : COCOReceiver) (after : Nat → Nat)
    (frame : List Nat) (hv : COCOValidFrame receiver frame = true) :
    COCOFeedDurationsWith receiver after frame =
      (if (COCOAccept (COCOAfterFrame receiver frame) (COCOFrameMessage receiver frame)).2 =
            none then
          (COCOAccept (COCOAfterFrame receiver frame) (COCOFrameMessage receiver frame)).1
        else
          { (COCOAccept (COCOAfterFrame receiver frame)
              (COCOFrameMessage receiver frame)).1 with
            previousMessageCode := after 131 % 2 ^ 32 },
        (COCOAccept (COCOAfterFrame receiver frame)
          (COCOFrameMessage receiver frame)).2.toList) := by
  have hold := COCOFeedDurations_validFrame receiver frame hv
  obtain ⟨d0, s, e, body, hf, hlen, h0, hs, hb, he, -⟩ := COCOValidFrame_parts receiver frame hv
  have hopen := COCOFeedDurations_open receiver d0 s body hlen h0 hs hb
  have hsplit : frame = (d0 :: s :: body) ++ [e] := by rw [hf]; simp
  have hpre : (d0 :: s :: body).length = 131 := by simp [hlen]
  unfold COCOFeedDurations at hold hopen
  unfold COCOFeedDurationsWith
  generalize COCOAccept (COCOAfterFrame receiver frame) (COCOFrameMessage receiver frame) = acc
    at hold ⊢
  rw [hsplit] at hold ⊢
  rw [edgeTimestamps_concat] at hold ⊢
  rw [COCOFeedAllWith_last receiver after _ _ hopen, hold, edgeTimestamps_length, hpre]
  cases acc.2 with
  | none => simp
  | some x => simp

/-- Every message a receiver with the default windows and the created masks
hands to any handler while it is fed repetitions of the frame of a valid
message carries the four fields of that message. -/
theorem COCOFeedDurationsWith_repeat_fields (message : COCOMessage)
    (ha : message.address < 2 ^ 26) (hc : message.channel < 16) :
    ∀ (count : Nat) (receiver : COCOReceiver) (after : Nat → Nat),
      COCODefaultWindows receiver → COCOCreatedMasks receiver →
      (∀ reported ∈ (COCOFeedDurationsWith receiver after
          (repeatFrame count (OOKSenderSendCOCO message))).2,
        reported.address = message.address ∧ reported.group = message.group ∧
        reported.onOff = message.onOff ∧ reported.channel = message.channel) ∧
      COCODefaultWindows
        (COCOFeedDurationsWith receiver after
          (repeatFrame count (OOKSenderSendCOCO message))).1 ∧
      COCOCreatedMasks
        (COCOFeedDurationsWith receiver after
          (repeatFrame count (OOKSenderSendCOCO message))).1 := by
  intro count
  induction count with
  | zero =>
    intro receiver after hw hm
    exact ⟨fun _ h => absurd h (by simp [repeatFrame, COCOFeedDurationsWith,
      COCOReceiverFeedAllWith, edgeTimestamps]), hw, hm⟩
  | succ count ih =>
    intro receiver after hw hm
    obtain ⟨hv, hcode⟩ := OOKSenderSendCOCO_valid receiver hw message
    rw [repeatFrame, COCOFeedDurationsWith_append,
      COCOFeedDurationsWith_validFrame receiver after _ hv]
    generalize OOKSenderSendCOCO message = frame at *
    obtain ⟨R, T, P, out, hacc⟩ := COCOAccept_shape (COCOAfterFrame receiver frame)
      (COCOFrameMessage receiver frame)
    have hout : ∀ reported, (COCOAccept (COCOAfterFrame receiver frame)
        (COCOFrameMessage receiver frame)).2 = some reported →
        reported = COCOFrameMessage receiver frame := by
      intro reported h
      exact (COCOAccept_some _ _ _ h).1
    rw [hacc] at hout ⊢
    simp only
    have hnext : ∃ P2 : Nat,
        (if out = none then
            ({ COCOAfterFrame receiver frame with
              repeats := R, timestampPreviousHit := T, previousMessageCode := P } : COCOReceiver)
          else
            { COCOAfterFrame receiver frame with
              repeats := R, timestampPreviousHit := T
              previousMessageCode := after 131 % 2 ^ 32 }) =
          { COCOAfterFrame receiver frame with
            repeats := R, timestampPreviousHit := T, previousMessageCode := P2 } := by
      by_cases ho : out = none
      · exact ⟨P, by rw [if_pos ho]⟩
      · exact ⟨after 131 % 2 ^ 32, by rw [if_neg ho]⟩
    obtain ⟨P2, hP2⟩ := hnext
    rw [hP2]
    obtain ⟨i1, i2, i3⟩ := ih
      { COCOAfterFrame receiver frame with
        repeats := R, timestampPreviousHit := T, previousMessageCode := P2 }
      (fun k => after (k + frame.length)) hw hm
    refine ⟨?_, i2, i3⟩
    intro reported hr
    rw [List.mem_append] at hr
    rcases hr with hr | hr
    · have hx : out = some reported := by
        cases out with
        | none => exact absurd hr (by simp)
        | some x => simp only [Option.toList, List.mem_singleton] at hr; rw [hr]
      have := hout reported hx
      rw [this]
      unfold COCOFrameMessage
      rw [hcode, COCOMessageOfCode_fullCode receiver hm _ message ha hc]
      exact ⟨rfl, rfl, rfl, rfl⟩
    · exact i1 reported hr

/-- The edges of the complete transmission of `OOKSenderSendCOCO` on a line that
was low: the first write at `first`, then the ends of the durations of 15 whole
frames and of the 16th frame without its last duration. -/
theorem gpioEdges_COCOTransmit (sender : OOKSender) (message : COCOMessage) (first : Nat)
    (hgpio : OOKSender.GPIO sender ≠ 0xFF) :
    gpioEdges 0 first (OOKSenderSendCOCOTransmit sender message) =
      edgeTimestamps 0
        (first :: (repeatFrame 15 (OOKSenderSendCOCO message) ++
          (OOKSenderSendCOCO message).dropLast)) := by
  unfold OOKSenderSendCOCOTransmit
  rw [OOKSenderTransmit_edges sender hgpio _ _ (by decide) 15 17 (by decide) (by decide)]
  have hframe : (List.range kCOCOTotalNumberOfPulses).map (OOKSenderSendCOCOArray message) =
      OOKSenderSendCOCO message := rfl
  rw [hframe]
  have hne : OOKSenderSendCOCO message ≠ [] := by
    intro h
    have : (OOKSenderSendCOCO message).length = 132 := by
      simp [OOKSenderSendCOCO, kCOCOTotalNumberOfPulses]
    rw [h] at this
    exact absurd this (by simp)
  have hsplit : repeatFrame (15 + 1) (OOKSenderSendCOCO message) =
      (repeatFrame 15 (OOKSenderSendCOCO message) ++ (OOKSenderSendCOCO message).dropLast) ++
        [(OOKSenderSendCOCO message).getLast hne] := by
    rw [repeatFrame_succ_right, List.append_assoc, List.dropLast_append_getLast]
  rw [hsplit, writeTimes_concat, edgeTimestamps]
  have : add32 0 first = first % 2 ^ 32 := by unfold add32; rw [Nat.zero_add]
  rw [this]

/-- Claim C15: for every valid message (address below 2^26, channel below 16)
and every handler, a fresh default COCO receiver with the handler registered
that is fed the edges of the complete transmission `OOKSenderSendCOCO` drives
(the 132-duration frame written 16 times with exact timing on a line that was
low, the first write at timestamp `first`, no 32-bit wrap) invokes the handler
at least once, and every invocation carries the original address, group, onOff
and channel. The handler owns the message it is given; whatever the receiver
reads from the message after each call (`after`), the statement holds. -/
theorem C15_COCO_end_to_end_any_handler (buffer : Nat → Nat) (callback : Bool)
    (sender : OOKSender) (message : COCOMessage) (first : Nat) (after : Nat → Nat)
    (hgpio : OOKSender.GPIO sender ≠ 0xFF)
    (ha : message.address < 2 ^ 26) (hc : message.channel < 16)
    (hwrap : first + 16 * 71760 < 2 ^ 32) :
    (COCOReceiverFeedAllWith (COCOReceiverSetCallback (COCOReceiverCreate buffer callback) true)
      after (gpioEdges 0 first (OOKSenderSendCOCOTransmit sender message))).2 ≠ [] ∧
    ∀ reported ∈
      (COCOReceiverFeedAllWith
        (COCOReceiverSetCallback (COCOReceiverCreate buffer callback) true) after
        (gpioEdges 0 first (OOKSenderSendCOCOTransmit sender message))).2,
      reported.address = message.address ∧ reported.group = message.group ∧
      reported.onOff = message.onOff ∧ reported.channel = message.channel := by
  constructor
  · intro h
    exact (COCOReceiverFeedAll_transmission buffer callback sender message first hgpio ha hc
      hwrap).1
      ((COCOFeedAllWith_called _ _ _).1 h)
  norm_num at hwrap
  obtain ⟨hw0, hm0⟩ := COCOReceiverCreate_setup buffer callback true
  rw [gpioEdges_COCOTransmit sender message first hgpio]
  generalize hr0 : COCOReceiverSetCallback (COCOReceiverCreate buffer callback) true = r0
    at hw0 hm0 ⊢
  have f1 : r0.durationsIndex = 0 := by rw [← hr0]; rfl
  have f2 : r0.previousMessageCode = 0 := by rw [← hr0]; rfl
  have f7 : r0.lastTimestamp = 0 := by rw [← hr0]; rfl
  have hrun : COCOReceiverFeedAllWith r0 after
      (edgeTimestamps 0
        (first :: (repeatFrame 15 (OOKSenderSendCOCO message) ++
          (OOKSenderSendCOCO message).dropLast))) =
      COCOFeedDurationsWith r0 after
        (first :: (repeatFrame 15 (OOKSenderSendCOCO message) ++
          (OOKSenderSendCOCO message).dropLast)) := by
    unfold COCOFeedDurationsWith
    rw [f7]
  rw [hrun]
  obtain ⟨S, D, I, hfeed⟩ := COCOFeed_first r0 first (by rw [f1]; omega) f2
  generalize hr1 : ({ r0 with
      startTime := S, durations := D, durationsIndex := I
      lastTimestamp := add32 r0.lastTimestamp first
      previousMessageCode := 0 } : COCOReceiver) = r1 at hfeed
  have hw1 : COCODefaultWindows r1 := by rw [← hr1]; exact hw0
  have hm1 : COCOCreatedMasks r1 := by rw [← hr1]; exact hm0
  have hfeedW : COCOReceiverFeedGPIOValueChangeTimeWith r0 (add32 r0.lastTimestamp first)
      (after 0) = (r1, none) := by
    rw [COCOFeedWith_eq, hfeed]
    rfl
  obtain ⟨hfields, hw16, -⟩ := COCOFeedDurationsWith_repeat_fields message ha hc 15 r1
    (fun k => after (k + 1)) hw1 hm1
  obtain ⟨hv16, -⟩ := OOKSenderSendCOCO_valid _ hw16 message
  obtain ⟨d0, s, e, body, hf, hlen, h0, hs, hb, -, -⟩ := COCOValidFrame_parts _ _ hv16
  have hdrop : (OOKSenderSendCOCO message).dropLast = d0 :: s :: body := by
    rw [hf, show d0 :: s :: (body ++ [e]) = (d0 :: s :: body) ++ [e] by simp,
      List.dropLast_concat]
  have hopen := COCOFeedDurations_open _ d0 s body hlen h0 hs hb
  rw [← hdrop] at hopen
  have hopenW : ∀ other : Nat → Nat,
      (COCOFeedDurationsWith
        (COCOFeedDurationsWith r1 (fun k => after (k + 1))
          (repeatFrame 15 (OOKSenderSendCOCO message))).1 other
        (OOKSenderSendCOCO message).dropLast).2 = [] := by
    intro other
    unfold COCOFeedDurations at hopen
    have := COCOFeedAllWith_silent _ _ other hopen
    unfold COCOFeedDurationsWith at this ⊢
    rw [this]
    exact hopen
  have hout : (COCOFeedDurationsWith r0 after
      (first :: (repeatFrame 15 (OOKSenderSendCOCO message) ++
        (OOKSenderSendCOCO message).dropLast))).2 =
      (COCOFeedDurationsWith r1 (fun k => after (k + 1))
        (repeatFrame 15 (OOKSenderSendCOCO message))).2 := by
    rw [COCOFeedDurationsWith_cons, hfeedW]
    show [] ++ (COCOFeedDurationsWith r1 _ _).2 = _
    rw [COCOFeedDurationsWith_append, hopenW, List.nil_append, List.append_nil]
  rw [hout]
  exact hfields

/-- Instance of C15: the message of address 1 sent from pin 17, first write at
timestamp 1000, with a handler that releases the message so that every later
read of its code returns 0. -/
theorem C15_COCO_end_to_end_any_handler_witness :
    OOKSender.GPIO ( OOKSenderSetTransmitGPIO OOKSenderCreate 17) ≠ 0xFF ∧
    COCOExampleMessage.address < 2 ^ 26 ∧ COCOExampleMessage.channel < 16 ∧
    1000 + 16 * 71760 < 2 ^ 32 ∧
    ((COCOReceiverFeedAllWith
      (COCOReceiverSetCallback (COCOReceiverCreate (fun _ => 0) false) true) (fun _ => 0)
      (gpioEdges 0 1000
        (OOKSenderSendCOCOTransmit ( OOKSenderSetTransmitGPIO OOKSenderCreate 17)
          COCOExampleMessage))).2 ≠ [] ∧
    ∀ reported ∈
      (COCOReceiverFeedAllWith
        (COCOReceiverSetCallback (COCOReceiverCreate (fun _ => 0) false) true) (fun _ => 0)
        (gpioEdges 0 1000
          (OOKSenderSendCOCOTransmit ( OOKSenderSetTransmitGPIO OOKSenderCreate 17)
            COCOExampleMessage))).2,
      reported.address = COCOExampleMessage.address ∧
      reported.group = COCOExampleMessage.group ∧
      reported.onOff = COCOExampleMessage.onOff ∧
      reported.channel = COCOExampleMessage.channel) :=
  ⟨by decide, by decide, by decide, by decide,
    C15_COCO_end_to_end_any_handler (fun _ => 0) false
      ( OOKSenderSetTransmitGPIO OOKSenderCreate 17) COCOExampleMessage 1000 (fun _ => 0)
      (by decide) (by decide) (by decide) (by decide)⟩

/-- The handler is only called for a message that `arePulsesValidCode` has
decoded at that edge. -/
theorem KFSFeed_called (receiver : KFSReceiver) (timestamp : Nat) (message : KFSMessage)
    (h : (KFSReceiverFeedGPIOValueChangeTime receiver timestamp).2 = some message) :
    KFSEdgeAnalysis receiver timestamp ≠ none := by
  unfold KFSReceiverFeedGPIOValueChangeTime at h
  unfold KFSEdgeAnalysis
  simp only [] at h ⊢
  by_cases h0 : 0 = receiver.lastTimestamp
  · rw [if_pos h0] at h; exact absurd h (by simp)
  · rw [if_neg h0] at h ⊢
    unfold KFSStartSync at h
    by_cases hs : sub32 timestamp receiver.lastTimestamp > receiver.startSyncLowMinDuration ∧
        sub32 timestamp receiver.lastTimestamp < receiver.startSyncLowMaxDuration
    · rw [if_pos hs] at h ⊢
      simp only [] at h
      by_cases h5 : receiver.durationsIndex ≥ KFSMessageMinPulseCount
      · rw [if_pos h5] at h ⊢
        intro hnone
        rw [hnone] at h
        exact absurd h (by simp)
      · rw [if_neg h5] at h; exact absurd h (by simp)
    · rw [if_neg hs] at h; exact absurd h (by simp)

/-- A decoded message meets a recorder field that is not `NULL`: the call does
not return. -/
theorem KFSFeedWith_fault (pulseRecorder : Nat) (receiver : KFSReceiver) (timestamp : Nat)
    (after : Nat × Nat) (hp : pulseRecorder ≠ 0)
    (h : KFSEdgeAnalysis receiver timestamp ≠ none) :
    KFSReceiverFeedGPIOValueChangeTimeWith pulseRecorder receiver timestamp after = none := by
  unfold KFSEdgeAnalysis at h
  unfold KFSReceiverFeedGPIOValueChangeTimeWith
  simp only [] at h ⊢
  by_cases h0 : 0 = receiver.lastTimestamp
  · rw [if_pos h0] at h; exact absurd rfl h
  · rw [if_neg h0] at h ⊢
    unfold KFSStartSyncWith
    by_cases hs : sub32 timestamp receiver.lastTimestamp > receiver.startSyncLowMinDuration ∧
        sub32 timestamp receiver.lastTimestamp < receiver.startSyncLowMaxDuration
    · rw [if_pos hs] at h ⊢
      simp only []
      by_cases h5 : receiver.durationsIndex ≥ KFSMessageMinPulseCount
      · rw [if_pos h5] at h ⊢
        unfold arePulsesValidCodeWith
        cases hv : arePulsesValidCode { receiver with startTime := timestamp } timestamp with
        | none => exact absurd hv h
        | some message =>
          simp only [hv, if_pos hp, Option.map_none']
      · rw [if_neg h5] at h; exact absurd rfl h
    · rw [if_neg hs] at h; exact absurd rfl h

/-- When nothing is decoded at an edge, or the recorder field is `NULL`, the
step is the step of `KFSReceiverFeedGPIOValueChangeTime`, followed, when the
handler was called, by the values read after the call. -/
theorem KFSFeedWith_eq (pulseRecorder : Nat) (receiver : KFSReceiver) (timestamp : Nat)
    (after : Nat × Nat)
    (h : pulseRecorder = 0 ∨ KFSEdgeAnalysis receiver timestamp = none) :
    KFSReceiverFeedGPIOValueChangeTimeWith pulseRecorder receiver timestamp after =
      some
        (if (KFSReceiverFeedGPIOValueChangeTime receiver timestamp).2.isSome = true then
            { (KFSReceiverFeedGPIOValueChangeTime receiver timestamp).1 with
              previousMessageIdentifier := after.1 % 2 ^ 32
              previousIdentifierBitSize := after.2 % 2 ^ 32 }
          else (KFSReceiverFeedGPIOValueChangeTime receiver timestamp).1,
          (KFSReceiverFeedGPIOValueChangeTime receiver timestamp).2) := by
  unfold KFSEdgeAnalysis at h
  unfold KFSReceiverFeedGPIOValueChangeTimeWith KFSReceiverFeedGPIOValueChangeTime
  simp only [] at h ⊢
  by_cases h0 : 0 = receiver.lastTimestamp
  · rw [if_pos h0, if_pos h0]
    rfl
  · rw [if_neg h0] at h ⊢
    rw [if_neg h0]
    unfold KFSStartSyncWith KFSStartSync
    by_cases hs : sub32 timestamp receiver.lastTimestamp > receiver.startSyncLowMinDuration ∧
        sub32 timestamp receiver.lastTimestamp < receiver.startSyncLowMaxDuration
    · rw [if_pos hs] at h ⊢
      rw [if_pos hs]
      simp only []
      by_cases h5 : receiver.durationsIndex ≥ KFSMessageMinPulseCount
      · rw [if_pos h5] at h ⊢
        rw [if_pos h5]
        unfold arePulsesValidCodeWith
        cases hv : arePulsesValidCode { receiver with startTime := timestamp } timestamp with
        | none => rfl
        | some message =>
          rw [hv] at h
          have hp : pulseRecorder = 0 := by
            rcases h with h | h
            · exact h
            · exact absurd h (by simp)
          simp only [hp, ne_eq, not_true_eq_false, if_false, Option.map_some']
          unfold KFSAcceptWith KFSAccept KFSStore
          simp only []
          split_ifs <;> first | rfl | simp_all
      · rw [if_neg h5, if_neg h5]
        rfl
    · rw [if_neg hs, if_neg hs]
      rfl

/-- With a recorder field that is not `NULL`, a run in which something is
decoded before or at the first handler call does not get to that call. -/
theorem KFSFeedAllWith_fault (pulseRecorder : Nat) (hp : pulseRecorder ≠ 0)
    (timestamps : List Nat) :
    ∀ (receiver : KFSReceiver) (after : Nat → Nat × Nat),
      (KFSReceiverFeedAll receiver timestamps).2 ≠ [] →
      KFSReceiverFeedAllWith pulseRecorder receiver after timestamps = (none, []) := by
  induction timestamps with
  | nil => intro receiver after h; exact absurd rfl h
  | cons timestamp rest ih =>
    intro receiver after h
    rw [KFSReceiverFeedAllWith]
    by_cases ha : KFSEdgeAnalysis receiver timestamp = none
    · have hnone : (KFSReceiverFeedGPIOValueChangeTime receiver timestamp).2 = none := by
        cases hx : (KFSReceiverFeedGPIOValueChangeTime receiver timestamp).2 with
        | none => rfl
        | some x => exact absurd ha (KFSFeed_called receiver timestamp x hx)
      rw [KFSFeedWith_eq pulseRecorder receiver timestamp (after 0) (Or.inr ha), hnone]
      simp only [Option.isSome_none, Bool.false_eq_true, if_false, Option.toList,
        List.nil_append]
      rw [KFSReceiverFeedAll, hnone] at h
      rw [ih _ _ h]
    · rw [KFSFeedWith_fault pulseRecorder receiver timestamp (after 0) hp ha]

/-- With the recorder field `NULL` every call returns, and the handler is
called in the run for any handler exactly when it is called in the run for a
handler that keeps the message. -/
theorem KFSFeedAllWith_null (timestamps : List Nat) :
    ∀ (receiver : KFSReceiver) (after : Nat → Nat × Nat),
      (KFSReceiverFeedAllWith 0 receiver after timestamps).1 ≠ none ∧
      ((KFSReceiverFeedAllWith 0 receiver after timestamps).2 = [] ↔
        (KFSReceiverFeedAll receiver timestamps).2 = []) := by
  induction timestamps with
  | nil => intro receiver after; exact ⟨by simp [KFSReceiverFeedAllWith], Iff.rfl⟩
  | cons timestamp rest ih =>
    intro receiver after
    rw [KFSReceiverFeedAllWith, KFSReceiverFeedAll,
      KFSFeedWith_eq 0 receiver timestamp (after 0) (Or.inl rfl)]
    simp only [List.append_eq_nil]
    cases hx : (KFSReceiverFeedGPIOValueChangeTime receiver timestamp).2 with
    | none =>
      simp only [Option.isSome_none, Bool.false_eq_true, if_false, Option.toList, true_and]
      exact ih _ _
    | some x =>
      simp only [Option.isSome_some, if_true, Option.toList]
      exact ⟨(ih _ _).1, by simp⟩

/-- Claim C16, the failing input in general: a freshly created default KFS
receiver with a handler registered is fed the edges of the complete
transmission `OOKSenderSendKFS` drives for an identifier between 1 and
2^24 - 1 (first write at a non-zero timestamp, no 32-bit wrap).
`KFSReceiverCreate` leaves `receiver->pulseRecorder` as `malloc` delivered it.
When that value is not `NULL`, the first decoded frame makes
`arePulsesValidCode` pass it to the recorder functions, which dereference it:
the call does not return and the handler has not been called. Only when the
value happens to be `NULL` every call returns and the handler is called at
least once, whatever the handler does with the message. -/
theorem C16_KFS_recorder_not_initialised (buffer : Nat → Nat) (callback : Bool)
    (sender : OOKSender) (message : KFSMessage) (first pulseRecorder : Nat)
    (after : Nat → Nat × Nat) (hgpio : OOKSender.GPIO sender ≠ 0xFF)
    (hid : 1 ≤ message.identifier ∧ message.identifier < 2 ^ 24)
    (hfirst : 0 < first) (hwrap : first + 7 * 44800 < 2 ^ 32) :
    (pulseRecorder ≠ 0 →
      KFSReceiverFeedAllWith pulseRecorder
        (KFSReceiverSetCallback (KFSReceiverCreate buffer callback) true) after
        (gpioEdges 0 first (OOKSenderSendKFSTransmit sender message)) = (none, [])) ∧
    (KFSReceiverFeedAllWith 0
      (KFSReceiverSetCallback (KFSReceiverCreate buffer callback) true) after
      (gpioEdges 0 first (OOKSenderSendKFSTransmit sender message))).1 ≠ none ∧
    (KFSReceiverFeedAllWith 0
      (KFSReceiverSetCallback (KFSReceiverCreate buffer callback) true) after
      (gpioEdges 0 first (OOKSenderSendKFSTransmit sender message))).2 ≠ [] := by
  have hold := (KFSReceiverFeedAll_transmission buffer callback sender message first hgpio hid
    hfirst hwrap).1
  refine ⟨fun hp => KFSFeedAllWith_fault pulseRecorder hp _ _ _ hold,
    (KFSFeedAllWith_null _ _ _).1, fun h => hold ((KFSFeedAllWith_null _ _ _).2.1 h)⟩

/-- Instance of C16: identifier 5 sent from pin 17, first write at timestamp
1000, the recorder field holding the value 1. -/
theorem C16_KFS_recorder_not_initialised_witness :
    OOKSender.GPIO ( OOKSenderSetTransmitGPIO OOKSenderCreate 17) ≠ 0xFF ∧
    (1 ≤ 5 ∧ 5 < 2 ^ 24) ∧ 0 < 1000 ∧ 1000 + 7 * 44800 < 2 ^ 32 ∧ (1 : Nat) ≠ 0 ∧
    KFSReceiverFeedAllWith 1
      (KFSReceiverSetCallback (KFSReceiverCreate (fun _ => 0) false) true) (fun _ => (0, 0))
      (gpioEdges 0 1000
        (OOKSenderSendKFSTransmit ( OOKSenderSetTransmitGPIO OOKSenderCreate 17)
          { identifier := 5, identifierBitSize := 0, timestamp := 0 })) = (none, []) :=
  ⟨by decide, by decide, by decide, by decide, by decide,
    (C16_KFS_recorder_not_initialised (fun _ => 0) false
      ( OOKSenderSetTransmitGPIO OOKSenderCreate 17)
      { identifier := 5, identifierBitSize := 0, timestamp := 0 } 1000 1 (fun _ => (0, 0))
      (by decide) (by decide) (by decide) (by decide)).1 (by decide)⟩

set_option maxRecDepth 1000000 in
/-- The transmission of identifier 5 (first write at 1000) seen by a fresh
receiver whose recorder field is `NULL`: with a handler that keeps the message
the third and the fifth frame are reported, with a handler that releases it, so
that the reads after the call return 0, the third and the sixth. -/
theorem KFSReceiverFeedAllWith_released :
    (KFSReceiverFeedAll (KFSReceiverSetCallback (KFSReceiverCreate (fun _ => 0) false) true)
      (gpioEdges 0 1000
        (OOKSenderSendKFSTransmit ( OOKSenderSetTransmitGPIO OOKSenderCreate 17)
          { identifier := 5, identifierBitSize := 0, timestamp := 0 }))).2 =
      [{ identifier := 5, identifierBitSize := 24, timestamp := 146600 },
       { identifier := 5, identifierBitSize := 24, timestamp := 236200 }] ∧
    (KFSReceiverFeedAllWith 0
      (KFSReceiverSetCallback (KFSReceiverCreate (fun _ => 0) false) true) (fun _ => (0, 0))
      (gpioEdges 0 1000
        (OOKSenderSendKFSTransmit ( OOKSenderSetTransmitGPIO OOKSenderCreate 17)
          { identifier := 5, identifierBitSize := 0, timestamp := 0 }))).2 =
      [{ identifier := 5, identifierBitSize := 24, timestamp := 146600 },
       { identifier := 5, identifierBitSize := 24, timestamp := 281000 }] := by
  constructor <;> decide

/-- For an odd buffer index the pairs the loop tests are the pairs below the
index. -/
theorem KFSLoopPairsFrom_odd (receiver : KFSReceiver) (k : Nat)
    (hodd : receiver.durationsIndex % 2 = 1) :
    KFSLoopPairsFrom receiver k = KFSSpecPairsFrom receiver k := by
  unfold KFSLoopPairsFrom KFSSpecPairsFrom
  have e : receiver.durationsIndex / 2 = (receiver.durationsIndex - 1) / 2 := by omega
  rw [e]

/-- For an even buffer index `n` of at least 2 the loop tests one pair more than
those below the index: the pair of slot `n - 1` and the slot at the index. -/
theorem KFSLoopPairsFrom_even (receiver : KFSReceiver)
    (heven : receiver.durationsIndex % 2 = 0) (hpos : 2 ≤ receiver.durationsIndex) :
    KFSLoopPairsFrom receiver 0 =
      KFSSpecPairsFrom receiver 0 ++
        [(receiver.durations (receiver.durationsIndex - 1),
          receiver.durations receiver.durationsIndex)] := by
  unfold KFSLoopPairsFrom KFSSpecPairsFrom
  obtain ⟨m, hm⟩ : ∃ m, receiver.durationsIndex = 2 * (m + 1) := ⟨receiver.durationsIndex / 2 - 1,
    by omega⟩
  have e1 : receiver.durationsIndex / 2 - 0 = m + 1 := by omega
  have e2 : (receiver.durationsIndex - 1) / 2 - 0 = m := by omega
  have e3 : receiver.durationsIndex - 1 = 2 * m + 1 := by omega
  have e4 : receiver.durationsIndex = 2 * m + 2 := by omega
  rw [e1, e2, e3, List.range'_1_concat, List.map_append, List.map_singleton, Nat.zero_add]
  rw [e4]

/-- For an odd buffer index (whose unit bounds times three fit in 32 bits, as
all computed bounds do) `arePulsesValidCode` decodes the longest valid prefix
of the pairs below the index, capped at 24 pairs, and reports it when the code
is not zero and has more than 4 bits. -/
theorem arePulsesValidCode_spec_of_odd (receiver : KFSReceiver) (timestamp : Nat)
    (hmin : 3 * receiver.singlePulseMinDuration < 2 ^ 32)
    (hmax : 3 * receiver.singlePulseMaxDuration < 2 ^ 32)
    (hodd : receiver.durationsIndex % 2 = 1) :
    arePulsesValidCodeLoop receiver receiver.durationsIndex 1 0 0 =
      ((KFSSpecBits receiver).foldl KFSSpecAppend 0, (KFSSpecBits receiver).length) ∧
    (KFSSpecBits receiver).length ≤ 24 ∧
    arePulsesValidCode receiver timestamp = KFSSpecDecode receiver timestamp := by
  have h := arePulsesValidCodeLoop_pairs receiver (by norm_num at hmin; exact hmin)
    (by norm_num at hmax; exact hmax) receiver.durationsIndex 0 0 0 (by omega) (by omega)
    (by norm_num)
  simp only [Nat.mul_zero, Nat.zero_add, Nat.sub_zero] at h
  rw [KFSLoopPairsFrom_odd receiver 0 hodd] at h
  have hloop : arePulsesValidCodeLoop receiver receiver.durationsIndex 1 0 0 =
      ((KFSSpecBits receiver).foldl KFSSpecAppend 0, (KFSSpecBits receiver).length) := h
  refine ⟨hloop, ?_, ?_⟩
  · unfold KFSSpecBits
    rw [List.length_take]
    omega
  · unfold arePulsesValidCode KFSSpecDecode
    rw [hloop]

set_option maxRecDepth 1000000 in
/-- Claim C27, evaluation at the failing input: the receiver that received the
five-bit frame and then the four-bit frame has the buffer index 10. The pairs
below the index are those of the slots 1 to 8, the four bits 1, 0, 1, 1: the
longest valid prefix has 4 bits, too few for a message. The loop of
`arePulsesValidCode` goes on to the pair that starts in slot 9, whose second
duration it takes from slot 10, the slot at the index, where the 1050 of the
frame before is left: it decodes a fifth bit and reports identifier 22 with 5
bits. -/
theorem C27_KFS_pair_at_the_index :
    KFSStaleReceiver.durationsIndex = 10 ∧
    KFSStaleReceiver.durations 9 = 350 ∧
    KFSStaleReceiver.durations 10 = 1050 ∧
    KFSSpecPairsFrom KFSStaleReceiver 0 =
      [(1050, 350), (350, 1050), (1050, 350), (1050, 350)] ∧
    KFSSpecBits KFSStaleReceiver = [true, false, true, true] ∧
    KFSSpecDecode KFSStaleReceiver 47200 = none ∧
    KFSLoopPairsFrom KFSStaleReceiver 0 =
      [(1050, 350), (350, 1050), (1050, 350), (1050, 350), (350, 1050)] ∧
    arePulsesValidCodeLoop KFSStaleReceiver KFSStaleReceiver.durationsIndex 1 0 0 = (22, 5) ∧
    arePulsesValidCode KFSStaleReceiver 47200 =
      some { identifier := 22, identifierBitSize := 5, timestamp := 47200 } := by
  decide

set_option maxRecDepth 1000000 in
/-- Claim C31, evaluation at the failing input: a fresh receiver with a handler
and repeatCount 2 sees a first edge at 5000 and then three frames: a good
frame, the same frame garbled (it ends with an end-sync and does not decode),
and the good frame again. When the good frame is that of the message of
address 1, the failed frame breaks the streak and the third frame is not
reported. When it is the frame of the all-zero message, whose code 0 is also
the value the failed decode stores, the streak survives the failed frame: the
third frame is counted as the second of the streak and the handler is
invoked, although the frame analysed immediately before it failed. -/
theorem C31_COCO_zero_streak_survives :
    COCODecode
      (COCOReceiverSetCallback
        (COCOReceiverSetRepeatCount (COCOReceiverCreate (fun _ => 0) false) 2) true)
      (fun j => COCOExampleGarbled.getD (j + 1) 0) = none ∧
    (COCOFeedDurations
      (COCOReceiverSetCallback
        (COCOReceiverSetRepeatCount (COCOReceiverCreate (fun _ => 0) false) 2) true)
      (5000 :: (OOKSenderSendCOCO COCOExampleMessage ++ COCOExampleGarbled ++
        OOKSenderSendCOCO COCOExampleMessage))).2 = [] ∧
    COCODecode
      (COCOReceiverSetCallback
        (COCOReceiverSetRepeatCount (COCOReceiverCreate (fun _ => 0) false) 2) true)
      (fun j => COCOZeroGarbled.getD (j + 1) 0) = none ∧
    (COCOFeedDurations
      (COCOReceiverSetCallback
        (COCOReceiverSetRepeatCount (COCOReceiverCreate (fun _ => 0) false) 2) true)
      (5000 :: (COCOScenarioDurations ++ COCOZeroGarbled))).2 = [] ∧
    (COCOFeedDurations
      (COCOReceiverSetCallback
        (COCOReceiverSetRepeatCount (COCOReceiverCreate (fun _ => 0) false) 2) true)
      (5000 :: (COCOScenarioDurations ++ COCOZeroGarbled ++ COCOScenarioDurations))).2 =
      [{ timestamp := 150840, fullMessageCode := 0, address := 0,
         group := false, onOff := false, channel := 0 }] := by
  refine ⟨?_, ?_, ?_, ?_, ?_⟩ <;> decide

set_option maxRecDepth 1000000 in
/-- Three frames of the message of address 1 after a first edge at 1000, seen by
a fresh default receiver: a handler that keeps the message is called for the
second and the third frame; a handler that releases it, so that the read after
the call returns 0, is called for the second frame only, because the third
frame then differs from the previous code. -/
theorem COCOFeedDurationsWith_released :
    (COCOFeedDurations (COCOReceiverSetCallback (COCOReceiverCreate (fun _ => 0) false) true)
      (1000 :: repeatFrame 3 (OOKSenderSendCOCO COCOExampleMessage))).2 =
      [{ timestamp := 75620, fullMessageCode := 64, address := 1,
         group := false, onOff := false, channel := 0 },
       { timestamp := 147380, fullMessageCode := 64, address := 1,
         group := false, onOff := false, channel := 0 }] ∧
    (COCOFeedDurationsWith
      (COCOReceiverSetCallback (COCOReceiverCreate (fun _ => 0) false) true) (fun _ => 0)
      (1000 :: repeatFrame 3 (OOKSenderSendCOCO COCOExampleMessage))).2 =
      [{ timestamp := 75620, fullMessageCode := 64, address := 1,
         group := false, onOff := false, channel := 0 }] := by
  constructor <;> decide

end LPD433
